import Mathlib

/-! Health checks of `src/checks.c`: the verdict engine.

Shallow embedding of the rise/fall state machine of `src/checks.c`
(`set_server_check_status`, `set_server_down`, `set_server_up`,
`set_server_disabled`, `set_server_enabled`, `check_failed`,
`__health_adjust`, the result handling of `process_chk`), of the status
table (`check_statuses`, `get_check_status_info`), of the error classifier
(`retrieve_errno_from_socket`, `chk_report_conn_err`) and of the HTTP, SSL
hello and PostgreSQL probers of `event_srv_chk_r` with `httpchk_expect`.

Modelling conventions.

* `struct check` is the record `Check`; `struct server` is the record
  `ServerData` (its scalar part) inside the tree node `Server`, whose
  `trackers` list is the chain `s->trackers, srv->tracknext, ...` of the
  servers tracking it.  A server tracks at most one server, so the tracker
  chains form a forest and every server sits in at most one chain.
* A `struct check *` argument is a server together with a `CheckSel`
  (`&s->check` or `&s->agent`); `check->server` is that server.
* Bit sets (`s->state`, `check->state`, `conn->flags`) are records of
  booleans, one per flag the code tests or writes; `check->type` and the
  expect type of the proxy are enumerations.
* A buffer is its storage area, a list of bytes (`Char` below 256), with the
  count `i` of input bytes; a `char *` into it is the list from that offset
  on, and a C string is such a list up to its first NUL.
* C `int`/`long` values are `Int`; no arithmetic of the embedded code can
  overflow within the ranges the theorems consider.
* Effects on collaborators outside `checks.c` are not part of the state:
  log lines (`Warning`, `send_log`, `Alert`), the load-balancer hooks
  (`lbprm.set_server_status_up/down`, `server_recalc_eweight`), the session
  and pending-connection queues (`shutdown_sessions`,
  `redistribute_pending`, `check_for_pending`), the warmup task and the
  proxy-wide counters (`srv_act`, `srv_bck`, `last_change`, `down_time`,
  `down_trans` of `struct proxy`).  None of them is read back by the
  embedded functions.
-/

namespace Haproxy

/-! ## Constants -/

/-- Values of `enum chk_result`; `CHK_RES_UNKNOWN` is zero (the code tests
`if (check_statuses[status].result)`) and `>= CHK_RES_PASSED` selects the two
passing results. -/
abbrev CHK_RES_UNKNOWN : Nat := 0
/-- The check failed. -/
abbrev CHK_RES_FAILED : Nat := 1
/-- The check passed. -/
abbrev CHK_RES_PASSED : Nat := 2
/-- The check passed conditionally (the server wants no new sessions). -/
abbrev CHK_RES_CONDPASS : Nat := 3

/-- Modelled from the spec: the `HCHK_STATUS_*` enum lives in
`types/checks.h`, which is not among the sources.  The codes are numbered in
the order of the `check_statuses` table, `HCHK_STATUS_UNKNOWN` being zero
(`if (!check->status)`), with the unused dummy code of the header between
`START` and `HANA`.  Only the value zero of `UNKNOWN` and the relative order
of the codes are ever used. -/
abbrev HCHK_STATUS_UNKNOWN : Nat := 0
/-- Initializing. -/
abbrev HCHK_STATUS_INI : Nat := 1
/-- Check started (special status). -/
abbrev HCHK_STATUS_START : Nat := 2
/-- Dummy status separating the finished checks. -/
abbrev HCHK_STATUS_CHECKED : Nat := 3
/-- Health analyze detected enough consecutive errors. -/
abbrev HCHK_STATUS_HANA : Nat := 4
/-- Socket error. -/
abbrev HCHK_STATUS_SOCKERR : Nat := 5
/-- Layer 4 check passed. -/
abbrev HCHK_STATUS_L4OK : Nat := 6
/-- Layer 4 timeout. -/
abbrev HCHK_STATUS_L4TOUT : Nat := 7
/-- Layer 4 connection problem. -/
abbrev HCHK_STATUS_L4CON : Nat := 8
/-- Layer 6 check passed. -/
abbrev HCHK_STATUS_L6OK : Nat := 9
/-- Layer 6 timeout. -/
abbrev HCHK_STATUS_L6TOUT : Nat := 10
/-- Layer 6 invalid response. -/
abbrev HCHK_STATUS_L6RSP : Nat := 11
/-- Layer 7 timeout. -/
abbrev HCHK_STATUS_L7TOUT : Nat := 12
/-- Layer 7 invalid response. -/
abbrev HCHK_STATUS_L7RSP : Nat := 13
/-- Dummy status: layer 5-7 data available from here on. -/
abbrev HCHK_STATUS_L57DATA : Nat := 14
/-- Layer 7 check passed. -/
abbrev HCHK_STATUS_L7OKD : Nat := 15
/-- Layer 7 check conditionally passed. -/
abbrev HCHK_STATUS_L7OKCD : Nat := 16
/-- Layer 7 wrong status. -/
abbrev HCHK_STATUS_L7STS : Nat := 17
/-- Number of status codes. -/
abbrev HCHK_STATUS_SIZE : Nat := 18

/-- Modelled from the spec: the `HANA_STATUS_*` enum of `types/checks.h`,
numbered in the order of the `analyze_statuses` table. -/
abbrev HANA_STATUS_UNKNOWN : Nat := 0
/-- L4 successful connection. -/
abbrev HANA_STATUS_L4_OK : Nat := 1
/-- L4 unsuccessful connection. -/
abbrev HANA_STATUS_L4_ERR : Nat := 2
/-- Correct http response. -/
abbrev HANA_STATUS_HTTP_OK : Nat := 3
/-- Wrong http response. -/
abbrev HANA_STATUS_HTTP_STS : Nat := 4
/-- Invalid http response (headers). -/
abbrev HANA_STATUS_HTTP_HDRRSP : Nat := 5
/-- Invalid http response. -/
abbrev HANA_STATUS_HTTP_RSP : Nat := 6
/-- Read error (http). -/
abbrev HANA_STATUS_HTTP_READ_ERROR : Nat := 7
/-- Read timeout (http). -/
abbrev HANA_STATUS_HTTP_READ_TIMEOUT : Nat := 8
/-- Close from server (http). -/
abbrev HANA_STATUS_HTTP_BROKEN_PIPE : Nat := 9
/-- Number of analyze statuses. -/
abbrev HANA_STATUS_SIZE : Nat := 10

/-- Modelled from the spec: the observe layers (`observe` in {L4, L7}),
`HANA_OBS_NONE` being zero; `lr[s->observe - 1]` indexes the two columns of
`analyze_statuses`. -/
abbrev HANA_OBS_NONE : Nat := 0
/-- Observe layer 4. -/
abbrev HANA_OBS_LAYER4 : Nat := 1
/-- Observe layer 7. -/
abbrev HANA_OBS_LAYER7 : Nat := 2
/-- Number of observe modes. -/
abbrev HANA_OBS_SIZE : Nat := 3

/-- Modelled from the spec: the `onerror` reactions
(`onerror` in {FASTINTER, FAILCHK, SUDDTH, MARKDWN}); zero means unset
(`if (s->onerror)`). -/
abbrev HANA_ONERR_UNKNOWN : Nat := 0
/-- Force fastinter. -/
abbrev HANA_ONERR_FASTINTER : Nat := 1
/-- Simulate a failed check. -/
abbrev HANA_ONERR_FAILCHK : Nat := 2
/-- Sudden death: one more failed check marks the server down. -/
abbrev HANA_ONERR_SUDDTH : Nat := 3
/-- Mark the server down now. -/
abbrev HANA_ONERR_MARKDWN : Nat := 4

/-! ## Data model -/

/-- A `struct timeval`. -/
structure Timeval where
  tv_sec : Int := 0
  tv_usec : Int := 0
deriving DecidableEq, Repr

/-- The macro `tv_iszero`: both fields are zero. -/
def tv_iszero (tv : Timeval) : Bool :=
  tv.tv_sec == 0 && tv.tv_usec == 0

/-- The egress buffer `check->bo` as the checks use it: its capacity `size`
and the `o` bytes of pending output, oldest first. -/
structure OutBuffer where
  size : Nat := 0
  out : List Char := []
deriving DecidableEq, Repr

/-- The field `o` of an egress buffer: the number of bytes left to send. -/
def OutBuffer.o (b : OutBuffer) : Nat := b.out.length

/-- The helper `buffer_total_space` of `common/buffer.h` on an egress buffer,
which holds no input: the capacity less the pending output. -/
def OutBuffer.total_space (b : OutBuffer) : Nat := b.size - b.out.length

/-- What the embedded functions read from their surroundings: the clock and
the helpers of headers that are not among the sources. -/
structure Env where
  /-- The global `now`. -/
  now : Timeval := {}
  /-- The global `now_ms`. -/
  now_ms : Int := 0
  /-- The length `HCHK_DESC_LEN` of `check->desc`. -/
  HCHK_DESC_LEN : Nat := 128
  /-- The helper `tv_ms_elapsed` of `common/time.h`. -/
  tv_ms_elapsed : Timeval → Timeval → Int :=
    fun a b => (b.tv_sec - a.tv_sec) * 1000 + (b.tv_usec - a.tv_usec) / 1000
  /-- The helper `tick_add` of `common/ticks.h`; by default the sum, moved
  to 1 when it is 0, the value that stands for `TICK_ETERNITY`. -/
  tick_add : Int → Int → Int := fun a b => if a + b = 0 then 1 else a + b
  /-- The helper `tick_is_expired(timer, now)` of `common/ticks.h`; by
  default a timer that is set (not `TICK_ETERNITY`, zero) and not after
  `now`. -/
  tick_is_expired : Int → Int → Bool := fun timer now => timer != 0 && decide (timer - now ≤ 0)
  /-- The helper `tick_first` of `common/ticks.h`; by default the earlier
  of two timers, a timer that is not set giving way to the other. -/
  tick_first : Int → Int → Int :=
    fun t1 t2 => if t1 = 0 then t2 else if t2 = 0 then t1 else if t1 - t2 ≤ 0 then t1 else t2
  /-- The helper `tick_add_ifset` of `common/ticks.h`; by default
  `TICK_ETERNITY` for a timeout that is not set, else the tick sum. -/
  tick_add_ifset : Int → Int → Int :=
    fun now timeout => if timeout = 0 then 0 else if now + timeout = 0 then 1 else now + timeout
  /-- The macro `MS_TO_TICKS`. -/
  MS_TO_TICKS : Int → Int := fun ms => ms
  /-- The value of `EAGAIN`. -/
  EAGAIN : Int := 11
  /-- What `getsockopt(fd, SOL_SOCKET, SO_ERROR, ...)` yields: the pending
  socket error when the call succeeds, `none` when it fails. -/
  so_error : Option Int := some 0
  /-- The library function `strerror`. -/
  strerror : Int → String := fun n => "error " ++ toString n
  /-- The helper `conn_err_code_str`, from `conn->err_code`. -/
  conn_err_code_str : Nat → String := fun n => "connection error " ++ toString n
  /-- The text left in the chunk that `get_trash_chunk()` hands out. -/
  trash_chunk_str : String := ""
  /-- The library function `regexec` as a match test: compiled expression
  (by handle) against a subject string. -/
  regexec : Nat → List Char → Bool := fun _ _ => false
  /-- The helper `my_memmem` of `common/standard.h` as a test: whether the
  block (second argument) is found in the area (first argument); by default
  a block that is not empty and occurs in the area. -/
  my_memmem : List Char → List Char → Bool :=
    fun area blk => !blk.isEmpty && area.tails.any (fun t => blk.isPrefixOf t)
  /-- The helper `bo_putblk` of `common/buffer.h`: append a block to the
  pending output; by default a block that does not fit leaves the buffer
  alone. -/
  bo_putblk : OutBuffer → List Char → OutBuffer :=
    fun b blk => if blk.length > b.size - b.out.length then b else { b with out := b.out ++ blk }
  /-- Whether the constant `SN_ERR_NONE` of `types/session.h` is non-zero. -/
  SN_ERR_NONE_set : Bool := false
  /-- The constant `SRV_CHK_INTER_THRES`: the interval from which a check
  takes part in the spreading of the first checks. -/
  SRV_CHK_INTER_THRES : Int := 1000
  /-- The global `global.max_spread_checks`. -/
  max_spread_checks : Int := 0
  /-- Whether the plain type `char` of the platform is signed (it is on x86
  with the usual compilers, it is not on ARM or PowerPC). -/
  char_signed : Bool := true
  /-- The helper `server_parse_weight_change_request` of `server.c`, by what
  the agent prober sees of it: from `s->uweight` and the request, the error
  message (`none` is NULL, the request was accepted) and the new
  `s->uweight`. -/
  server_parse_weight_change_request : Int → List Char → Option String × Int :=
    fun w _ => (none, w)
  /-- The helper `set_server_drain_state` of `server.c`, by its effect on the
  bit `SRV_DRAIN`: from `s->uweight` and the bit, the new bit. -/
  set_server_drain_state : Int → Bool → Bool := fun w _ => decide (w = 0)

/-- The bits of `check->state` (`CHK_ST_*`). -/
structure CheckState where
  CONFIGURED : Bool := false
  ENABLED : Bool := false
  PAUSED : Bool := false
  INPROGRESS : Bool := false
  AGENT : Bool := false
deriving DecidableEq, Repr

/-- The check types (`check->type`, one of the `PR_O2_*_CHK` values or
zero). -/
inductive CheckType where
  | NONE
  | HTTP_CHK
  | SSL3_CHK
  | SMTP_CHK
  | PGSQL_CHK
  | REDIS_CHK
  | MYSQL_CHK
  | LDAP_CHK
  | TCPCHK_CHK
  | LB_AGENT_CHK
deriving DecidableEq, Repr

/-- A `struct buffer` as the checks use it: the storage area `data` (of
`size` bytes, one `Char` below 256 per byte) and the number `i` of input
bytes it holds. -/
structure Buffer where
  data : List Char := []
  i : Nat := 0
deriving DecidableEq, Repr

/-- The field `size` of a buffer: the length of its storage area. -/
def Buffer.size (b : Buffer) : Nat := b.data.length

/-- The byte `*(b->data + k)`; the storage area is taken to cover every
offset the probers read, a read past it yields NUL. -/
def Buffer.byte (b : Buffer) (k : Nat) : Char := b.data.getD k '\x00'

/-- The fields of `struct check` used by the verdict engine. -/
structure Check where
  state : CheckState := {}
  type : CheckType := .NONE
  status : Nat := HCHK_STATUS_UNKNOWN
  result : Nat := CHK_RES_UNKNOWN
  health : Int := 0
  rise : Int := 1
  fall : Int := 1
  desc : String := ""
  duration : Int := 0
  start : Timeval := {}
  fastinter : Int := 0
  /-- The field `check->inter`. -/
  inter : Int := 0
  /-- The field `check->task->expire`. -/
  task_expire : Int := 0
  /-- The numeric sub-code (HTTP status, SMTP code, LDAP result). -/
  code : Int := 0
  /-- The ingress buffer `check->bi`. -/
  bi : Buffer := {}
  /-- The egress buffer `check->bo`. -/
  bo : OutBuffer := {}
  /-- The rule `check->current_step` points to, by position in
  `s->proxy->tcpcheck_rules`; `none` is NULL. -/
  current_step : Option Nat := none
  /-- The rule `check->last_started_step` points to, by position. -/
  last_started_step : Option Nat := none
deriving DecidableEq, Repr

/-- The bits of `s->state` (`SRV_*`). -/
structure SrvState where
  RUNNING : Bool := false
  BACKUP : Bool := false
  GOINGDOWN : Bool := false
  WARMINGUP : Bool := false
  MAINTAIN : Bool := false
  DRAIN : Bool := false
deriving DecidableEq, Repr

/-- The counters `s->counters` touched by the checks. -/
structure SrvCounters where
  failed_checks : Nat := 0
  down_trans : Nat := 0
  failed_hana : Nat := 0
deriving DecidableEq, Repr

/-- The actions of a tcp-check rule (`TCPCHK_ACT_*`). -/
inductive TcpcheckAction where
  | SEND
  | EXPECT
  | CONNECT
deriving DecidableEq, Repr

/-- A `struct tcpcheck_rule`: a step of a scripted check. -/
structure tcpcheck_rule where
  action : TcpcheckAction := .CONNECT
  /-- The field `string`; `none` is NULL. -/
  string : Option String := none
  /-- The field `expect_regex`, as a handle for `regexec`; `none` is NULL. -/
  expect_regex : Option Nat := none
  inverse : Bool := false
deriving DecidableEq, Repr

/-- The expect type `options2 & PR_O2_EXP_TYPE` of an HTTP check. -/
inductive ExpType where
  | NONE
  | STS
  | RSTS
  | STR
  | RSTR
deriving DecidableEq, Repr

/-- The options of `s->proxy` read by the verdict engine. -/
structure ProxyOpts where
  /-- The bit `PR_O_DISABLE404` of `options`. -/
  DISABLE404 : Bool := false
  /-- The bit `PR_O2_LOGHCHKS` of `options2`. -/
  LOGHCHKS : Bool := false
  /-- The bits `PR_O2_EXP_TYPE` of `options2`. -/
  EXP_TYPE : ExpType := .NONE
  /-- The bit `PR_O2_EXP_INV` of `options2`. -/
  EXP_INV : Bool := false
  /-- The field `expect_str`. -/
  expect_str : String := ""
  /-- The field `expect_regex`, as a handle for `regexec`. -/
  expect_regex : Nat := 0
  /-- The list `tcpcheck_rules`. -/
  tcpcheck_rules : List tcpcheck_rule := []
  /-- The field `check_len`: the length of the request `check_req`. -/
  check_len : Nat := 0
  /-- The field `timeout.check`. -/
  timeout_check : Int := 0
  /-- The field `timeout.connect`. -/
  timeout_connect : Int := 0
  /-- Whether the field `state` is `PR_STSTOPPED`. -/
  stopped : Bool := false
  /-- What the field `action` reads when `check->current_step` has gone past
  the last rule and designates the head of the list, which is no rule;
  `none` stands for a value that is none of the three actions. -/
  head_action : Option TcpcheckAction := none
deriving DecidableEq, Repr

/-- The scalar fields of `struct server` used by the verdict engine. -/
structure ServerData where
  state : SrvState := {}
  check : Check := {}
  agent : Check := {}
  /-- Whether `s->track` is non-NULL. -/
  track : Bool := false
  last_change : Int := 0
  down_time : Int := 0
  counters : SrvCounters := {}
  consecutive_errors : Int := 0
  consecutive_errors_limit : Int := 0
  observe : Nat := HANA_OBS_NONE
  onerror : Nat := HANA_ONERR_UNKNOWN
  slowstart : Int := 0
  uweight : Int := 1
  proxy : ProxyOpts := {}
deriving DecidableEq, Repr

/-- A server with the chain of the servers tracking it (`s->trackers`,
linked by `tracknext`). -/
structure Server where
  core : ServerData
  trackers : List Server

/-- Which check of a server a `struct check *` points to. -/
inductive CheckSel where
  | check
  | agent
deriving DecidableEq, Repr

/-- The check a selector designates. -/
def ServerData.chk (s : ServerData) : CheckSel → Check
  | .check => s.check
  | .agent => s.agent

/-- Store through a `struct check *`. -/
def ServerData.setChk (s : ServerData) (sel : CheckSel) (c : Check) : ServerData :=
  match sel with
  | .check => { s with check := c }
  | .agent => { s with agent := c }

/-- Assignment `check->health = h`. -/
def ServerData.setHealth (s : ServerData) (sel : CheckSel) (h : Int) : ServerData :=
  s.setChk sel { s.chk sel with health := h }

/-! ## Status tables -/

/-- An entry of `check_statuses`; a NULL string is `none`. -/
structure check_status where
  result : Nat := CHK_RES_UNKNOWN
  info : Option String := none
  desc : Option String := none
deriving DecidableEq, Repr

/-- The table `check_statuses`, by designated initialiser; the entries not
named (`START`, `L57DATA`, the dummy code) are zero-filled. -/
def check_statuses (status : Nat) : check_status :=
  if status = HCHK_STATUS_UNKNOWN then ⟨CHK_RES_UNKNOWN, some "UNK", some "Unknown"⟩
  else if status = HCHK_STATUS_INI then ⟨CHK_RES_UNKNOWN, some "INI", some "Initializing"⟩
  else if status = HCHK_STATUS_START then {}
  else if status = HCHK_STATUS_HANA then ⟨CHK_RES_FAILED, some "HANA", some "Health analyze"⟩
  else if status = HCHK_STATUS_SOCKERR then ⟨CHK_RES_FAILED, some "SOCKERR", some "Socket error"⟩
  else if status = HCHK_STATUS_L4OK then ⟨CHK_RES_PASSED, some "L4OK", some "Layer4 check passed"⟩
  else if status = HCHK_STATUS_L4TOUT then ⟨CHK_RES_FAILED, some "L4TOUT", some "Layer4 timeout"⟩
  else if status = HCHK_STATUS_L4CON then
    ⟨CHK_RES_FAILED, some "L4CON", some "Layer4 connection problem"⟩
  else if status = HCHK_STATUS_L6OK then ⟨CHK_RES_PASSED, some "L6OK", some "Layer6 check passed"⟩
  else if status = HCHK_STATUS_L6TOUT then ⟨CHK_RES_FAILED, some "L6TOUT", some "Layer6 timeout"⟩
  else if status = HCHK_STATUS_L6RSP then
    ⟨CHK_RES_FAILED, some "L6RSP", some "Layer6 invalid response"⟩
  else if status = HCHK_STATUS_L7TOUT then ⟨CHK_RES_FAILED, some "L7TOUT", some "Layer7 timeout"⟩
  else if status = HCHK_STATUS_L7RSP then
    ⟨CHK_RES_FAILED, some "L7RSP", some "Layer7 invalid response"⟩
  else if status = HCHK_STATUS_L57DATA then {}
  else if status = HCHK_STATUS_L7OKD then ⟨CHK_RES_PASSED, some "L7OK", some "Layer7 check passed"⟩
  else if status = HCHK_STATUS_L7OKCD then
    ⟨CHK_RES_CONDPASS, some "L7OKC", some "Layer7 check conditionally passed"⟩
  else if status = HCHK_STATUS_L7STS then ⟨CHK_RES_FAILED, some "L7STS", some "Layer7 wrong status"⟩
  else {}

/-- The test `p && *p` on a C string. -/
def cstr_nonempty : Option String → Bool
  | some t => t != ""
  | none => false

/-- Convert a check status code to its description. -/
def get_check_status_description (st : Nat) : Option String :=
  let desc := if st < HCHK_STATUS_SIZE then (check_statuses st).desc else none
  if cstr_nonempty desc then desc else (check_statuses HCHK_STATUS_UNKNOWN).desc

/-- Convert a check status code to its short info tag. -/
def get_check_status_info (st : Nat) : Option String :=
  let info := if st < HCHK_STATUS_SIZE then (check_statuses st).info else none
  if cstr_nonempty info then info else (check_statuses HCHK_STATUS_UNKNOWN).info

/-- An entry of `analyze_statuses`: description and the outcome per observe
layer (`0` ignore, `1` error, `2` OK). -/
structure analyze_status where
  desc : Option String := none
  lr : List Nat := [0, 0]
deriving DecidableEq, Repr

/-- The table `analyze_statuses`. -/
def analyze_statuses (status : Nat) : analyze_status :=
  if status = HANA_STATUS_UNKNOWN then ⟨some "Unknown", [0, 0]⟩
  else if status = HANA_STATUS_L4_OK then ⟨some "L4 successful connection", [2, 0]⟩
  else if status = HANA_STATUS_L4_ERR then ⟨some "L4 unsuccessful connection", [1, 1]⟩
  else if status = HANA_STATUS_HTTP_OK then ⟨some "Correct http response", [0, 2]⟩
  else if status = HANA_STATUS_HTTP_STS then ⟨some "Wrong http response", [0, 1]⟩
  else if status = HANA_STATUS_HTTP_HDRRSP then ⟨some "Invalid http response (headers)", [0, 1]⟩
  else if status = HANA_STATUS_HTTP_RSP then ⟨some "Invalid http response", [0, 1]⟩
  else if status = HANA_STATUS_HTTP_READ_ERROR then ⟨some "Read error (http)", [0, 1]⟩
  else if status = HANA_STATUS_HTTP_READ_TIMEOUT then ⟨some "Read timeout (http)", [0, 1]⟩
  else if status = HANA_STATUS_HTTP_BROKEN_PIPE then ⟨some "Close from server (http)", [0, 1]⟩
  else {}

/-! ## Recording a status -/

/-- The condition under which `set_server_check_status` writes its log
line (`PR_O2_LOGHCHKS` and a change worth reporting). -/
def log_health_check (s : ServerData) (check : Check) : Bool :=
  s.proxy.LOGHCHKS &&
  ((check.health != 0 && check.result == CHK_RES_FAILED) ||
   ((check.health != check.rise + check.fall - 1 ||
     (s.uweight == 0 && !s.state.DRAIN) ||
     (s.uweight != 0 && s.state.DRAIN)) &&
    decide (check.result ≥ CHK_RES_PASSED)) ||
   (s.state.GOINGDOWN && check.result != CHK_RES_CONDPASS) ||
   (!s.state.GOINGDOWN && check.result == CHK_RES_CONDPASS))

/-- The writes of `set_server_check_status` to the check itself, for a
status other than `START`: description (cut to `HCHK_DESC_LEN - 1`), status,
result (when the table gives one) and duration. -/
def record_status (e : Env) (status : Nat) (desc : Option String) (check : Check) : Check :=
  let d : String :=
    match desc with
    | some t => if t != "" then t.take (e.HCHK_DESC_LEN - 1) else ""
    | none => ""
  let c1 : Check := { check with desc := d, status := status }
  let c2 : Check :=
    if (check_statuses status).result ≠ 0 then
      { c1 with result := (check_statuses status).result }
    else c1
  if status = HCHK_STATUS_HANA then { c2 with duration := -1 }
  else if !tv_iszero c2.start then
    { c2 with duration := e.tv_ms_elapsed c2.start e.now, start := ⟨0, 0⟩ }
  else c2

/-- Set `check->status`, update `check->duration` and fill `check->result`
with the result of the table.  `HCHK_STATUS_START` only resets the round; a
check whose current status is zero is left alone.  The log block computes
local copies of health and state for its message and, for a passing result,
clears `s->consecutive_errors` when `s->onerror` is set. -/
def set_server_check_status (e : Env) (sel : CheckSel) (status : Nat)
    (desc : Option String) (s : ServerData) : ServerData :=
  let check := s.chk sel
  if status = HCHK_STATUS_START then
    s.setChk sel { check with result := CHK_RES_UNKNOWN, desc := "", start := e.now }
  else if check.status = 0 then s
  else
    let c3 := record_status e status desc check
    let s1 := s.setChk sel c3
    if c3.state.AGENT && decide (c3.status < HCHK_STATUS_L7TOUT) then s1
    else if log_health_check s1 c3 then
      if (c3.result = CHK_RES_PASSED ∨ c3.result = CHK_RES_CONDPASS) ∧ s1.onerror ≠ 0 then
        { s1 with consecutive_errors := 0 }
      else s1
    else s1

/-! ## State transitions -/

/-- The first statement of `set_server_down` and `set_server_up`:
`if (s->state & SRV_MAINTAIN) check->health = check->rise;`. -/
def maintain_health (sel : CheckSel) (s : ServerData) : ServerData :=
  if s.state.MAINTAIN then s.setHealth sel (s.chk sel).rise else s

/-- The test of `set_server_down` that decides whether the server goes
down. -/
def down_transition (sel : CheckSel) (s : ServerData) : Bool :=
  (s.state.RUNNING && (s.chk sel).health == (s.chk sel).rise) || s.track

/-- The test of `set_server_up` that decides whether the server goes up. -/
def up_transition (s : ServerData) : Bool :=
  s.track ||
  (s.check.state.ENABLED && s.check.health == s.check.rise &&
    (decide (s.agent.health ≥ s.agent.rise) || !s.agent.state.ENABLED)) ||
  (s.agent.state.ENABLED && s.agent.health == s.agent.rise &&
    (decide (s.check.health ≥ s.check.rise) || !s.check.state.ENABLED)) ||
  (!s.agent.state.ENABLED && !s.check.state.ENABLED)

/-- The writes of `set_server_down` to the server itself when it goes
down. -/
def mark_down (e : Env) (s : ServerData) : ServerData :=
  { s with
    last_change := e.now.tv_sec
    state := { s.state with RUNNING := false, GOINGDOWN := false }
    counters := { s.counters with down_trans := s.counters.down_trans + 1 } }

/-- The writes of `set_server_up` to the server itself when it goes up. -/
def mark_up (e : Env) (s : ServerData) : ServerData :=
  let down_time :=
    if s.last_change < e.now.tv_sec then s.down_time + (e.now.tv_sec - s.last_change)
    else s.down_time
  let st : SrvState := { s.state with RUNNING := true, MAINTAIN := false }
  { s with
    down_time := down_time
    last_change := e.now.tv_sec
    state := if s.slowstart > 0 then { st with WARMINGUP := true } else st
    check := { s.check with state := { s.check.state with PAUSED := false } } }

mutual
/-- Sets the server of `check` down and notifies the servers tracking it
that are not in maintenance; `check->health` ends at zero. -/
def set_server_down (e : Env) (sel : CheckSel) : Server → Server
  | ⟨s, trackers⟩ =>
    let s1 := maintain_health sel s
    if down_transition sel s1 then
      ⟨(mark_down e s1).setHealth sel 0, set_server_down_trackers e trackers⟩
    else
      ⟨s1.setHealth sel 0, trackers⟩
/-- The loop `for (srv = s->trackers; srv; srv = srv->tracknext)` of
`set_server_down`. -/
def set_server_down_trackers (e : Env) : List Server → List Server
  | [] => []
  | srv :: tracknext =>
    (if !srv.core.state.MAINTAIN then set_server_down e .check srv else srv) ::
      set_server_down_trackers e tracknext
end

/-- The last statement of `set_server_up`:
`if (check->health >= check->rise) check->health = check->rise + check->fall - 1;`. -/
def health_ok_now (sel : CheckSel) (s : ServerData) : ServerData :=
  if (s.chk sel).health ≥ (s.chk sel).rise then
    s.setHealth sel ((s.chk sel).rise + (s.chk sel).fall - 1)
  else s

mutual
/-- Sets the server of `check` up when its checks allow it and notifies the
servers tracking it that are not in maintenance. -/
def set_server_up (e : Env) (sel : CheckSel) : Server → Server
  | ⟨s, trackers⟩ =>
    let s1 := maintain_health sel s
    if up_transition s1 then
      ⟨health_ok_now sel (mark_up e s1), set_server_up_trackers e trackers⟩
    else
      ⟨health_ok_now sel s1, trackers⟩
/-- The loop over `s->trackers` of `set_server_up`. -/
def set_server_up_trackers (e : Env) : List Server → List Server
  | [] => []
  | srv :: tracknext =>
    (if !srv.core.state.MAINTAIN then set_server_up e .check srv else srv) ::
      set_server_up_trackers e tracknext
end

mutual
/-- Sets `SRV_GOINGDOWN` on the server and on every server tracking it. -/
def set_server_disabled : Server → Server
  | ⟨s, trackers⟩ =>
    ⟨{ s with state := { s.state with GOINGDOWN := true } }, set_server_disabled_trackers trackers⟩
/-- The loop over `s->trackers` of `set_server_disabled`. -/
def set_server_disabled_trackers : List Server → List Server
  | [] => []
  | srv :: tracknext => set_server_disabled srv :: set_server_disabled_trackers tracknext
end

mutual
/-- Clears `SRV_GOINGDOWN` on the server and on every server tracking it. -/
def set_server_enabled : Server → Server
  | ⟨s, trackers⟩ =>
    ⟨{ s with state := { s.state with GOINGDOWN := false } }, set_server_enabled_trackers trackers⟩
/-- The loop over `s->trackers` of `set_server_enabled`. -/
def set_server_enabled_trackers : List Server → List Server
  | [] => []
  | srv :: tracknext => set_server_enabled srv :: set_server_enabled_trackers tracknext
end

/-- A failed round: an agent check only counts when its status is
`HCHK_STATUS_L7STS`; above `rise` the health steps down, otherwise the server
is set down. -/
def check_failed (e : Env) (sel : CheckSel) (srv : Server) : Server :=
  let check := srv.core.chk sel
  if check.state.AGENT && check.status != HCHK_STATUS_L7STS then srv
  else if check.health > check.rise then
    let s1 := srv.core.setHealth sel (check.health - 1)
    ⟨{ s1 with counters := { s1.counters with failed_checks := s1.counters.failed_checks + 1 } },
      srv.trackers⟩
  else set_server_down e sel srv

/-! ## Observe-mode adjustment -/

/-- Convert an analyze status code to its description. -/
def get_analyze_status (st : Nat) : Option String :=
  let desc := if st < HANA_STATUS_SIZE then (analyze_statuses st).desc else none
  if cstr_nonempty desc then desc else (analyze_statuses HANA_STATUS_UNKNOWN).desc

/-- The message `__health_adjust` prints into `trash`. -/
def hana_message (errors : Int) (status : Nat) : String :=
  "Detected " ++ toString errors ++ " consecutive errors, last one was: " ++
    (get_analyze_status status).getD ""

/-- The end of `__health_adjust`, after the `onerror` reaction: reset the
error count, count the event and bring the check task forward to
`fastinter` when that is earlier. -/
def hana_finish (e : Env) (srv : Server) : Server :=
  let s := srv.core
  let s1 : ServerData :=
    { s with
      consecutive_errors := 0
      counters := { s.counters with failed_hana := s.counters.failed_hana + 1 } }
  let s2 : ServerData :=
    if s1.check.fastinter ≠ 0 then
      let expire := e.tick_add e.now_ms (e.MS_TO_TICKS s1.check.fastinter)
      if s1.check.task_expire > expire then
        { s1 with check := { s1.check with task_expire := expire } }
      else s1
    else s1
  ⟨s2, srv.trackers⟩

/-- The `onerror` reaction of `__health_adjust` once the limit of
consecutive errors is reached (`SUDDTH` falls through to `FAILCHK`). -/
def hana_react (e : Env) (status : Nat) (srv : Server) : Server :=
  let s := srv.core
  let msg := hana_message s.consecutive_errors status
  if s.onerror = HANA_ONERR_FASTINTER then srv
  else if s.onerror = HANA_ONERR_SUDDTH then
    let s1 := if s.check.health > s.check.rise then s.setHealth .check (s.check.rise + 1) else s
    check_failed e .check
      ⟨set_server_check_status e .check HCHK_STATUS_HANA (some msg) s1, srv.trackers⟩
  else if s.onerror = HANA_ONERR_FAILCHK then
    check_failed e .check
      ⟨set_server_check_status e .check HCHK_STATUS_HANA (some msg) s, srv.trackers⟩
  else if s.onerror = HANA_ONERR_MARKDWN then
    let s1 := s.setHealth .check s.check.rise
    set_server_down e .check
      ⟨set_server_check_status e .check HCHK_STATUS_HANA (some msg) s1, srv.trackers⟩
  else srv

/-- The failure branch of `__health_adjust`: count the error and, once
`consecutive_errors_limit` is reached, react as `onerror` says. -/
def hana_failed (e : Env) (status : Nat) (srv : Server) : Server :=
  let s := srv.core
  let s1 : ServerData := { s with consecutive_errors := s.consecutive_errors + 1 }
  if s1.consecutive_errors < s1.consecutive_errors_limit then ⟨s1, srv.trackers⟩
  else hana_finish e (hana_react e status ⟨s1, srv.trackers⟩)

/-- The passive-traffic adjustment `__health_adjust(s, status)`.  The result
is `none` when the function is entered with observe mode off and reads
`lr[s->observe - 1]` out of bounds; its callers go through `health_adjust`,
which excludes that. -/
def __health_adjust (e : Env) (status : Nat) (srv : Server) : Option Server :=
  let s := srv.core
  if s.observe ≥ HANA_OBS_SIZE then some srv
  else if status ≥ HANA_STATUS_SIZE ∨ (analyze_statuses status).desc = none then some srv
  else
    match s.observe with
    | 0 => none
    | k + 1 =>
      match (analyze_statuses status).lr[k]? with
      | some 1 => some (hana_failed e status srv)
      | some 2 => some ⟨{ s with consecutive_errors := 0 }, srv.trackers⟩
      | _ => some srv

/-! ## Result handling of `process_chk` -/

/-- The statement `check->state &= ~CHK_ST_INPROGRESS;`. -/
def clear_inprogress (sel : CheckSel) (srv : Server) : Server :=
  let c := srv.core.chk sel
  ⟨srv.core.setChk sel { c with state := { c.state with INPROGRESS := false } }, srv.trackers⟩

/-- The block of `process_chk` that adds the server to or removes it from
the load-balancing group: with `PR_O_DISABLE404` on a running server, a
result other than CONDPASS ends a drain and a CONDPASS result starts one. -/
def disable404_adjust (sel : CheckSel) (srv : Server) : Server :=
  let check := srv.core.chk sel
  if srv.core.state.RUNNING && srv.core.proxy.DISABLE404 then
    if srv.core.state.GOINGDOWN && check.result != CHK_RES_CONDPASS then
      set_server_enabled srv
    else if !srv.core.state.GOINGDOWN && check.result == CHK_RES_CONDPASS then
      set_server_disabled srv
    else srv
  else srv

/-- The part of `process_chk` that routes the result of a finished round
(from `if (check->result == CHK_RES_FAILED)` to the clearing of
`CHK_ST_INPROGRESS`). -/
def process_chk_result (e : Env) (sel : CheckSel) (srv : Server) : Server :=
  let check := srv.core.chk sel
  clear_inprogress sel
    (if check.result = CHK_RES_FAILED then check_failed e sel srv
    else
      let srv1 := disable404_adjust sel srv
      let c1 := srv1.core.chk sel
      if !srv1.core.state.MAINTAIN ∧ c1.health < c1.rise + c1.fall - 1 then
        set_server_up e sel ⟨srv1.core.setHealth sel (c1.health + 1), srv1.trackers⟩
      else srv1)

/-! ## Connection errors -/

/-- The bits of `conn->flags` (`CO_FL_*`) the checks read or write;
`CTRL_READY` is what `conn_ctrl_ready(conn)` tests. -/
structure ConnFlags where
  ERROR : Bool := false
  CONNECTED : Bool := false
  WAIT_L4_CONN : Bool := false
  WAIT_L6_CONN : Bool := false
  SOCK_RD_SH : Bool := false
  SOCK_WR_SH : Bool := false
  CTRL_READY : Bool := false
  DATA_RD_SH : Bool := false
  DATA_WR_SH : Bool := false
  /-- Whether one of the bits of the mask `CO_FL_HANDSHAKE` is set. -/
  HANDSHAKE : Bool := false
deriving DecidableEq, Repr

/-- The fields of `struct connection` the error classifier uses. -/
structure Connection where
  flags : ConnFlags := {}
  err_code : Nat := 0
  /-- Whether `conn->ctrl` is non-NULL. -/
  ctrl : Bool := true
deriving DecidableEq, Repr

/-- Collect the pending socket error: the return value, the new `errno` and
the connection, on which an error found in the socket's queue sets
`CO_FL_ERROR | CO_FL_SOCK_WR_SH | CO_FL_SOCK_RD_SH`. -/
def retrieve_errno_from_socket (e : Env) (errno : Int) (conn : Connection) :
    Bool × Int × Connection :=
  if conn.flags.ERROR && ((errno != 0 && errno != e.EAGAIN) || !conn.ctrl) then
    (true, errno, conn)
  else if !conn.flags.CTRL_READY then (false, errno, conn)
  else
    let errno1 : Int :=
      match e.so_error with
      | some skerr => skerr
      | none => errno
    let errno2 : Int := if errno1 = e.EAGAIN then 0 else errno1
    if errno2 = 0 then (conn.flags.ERROR, errno2, conn)
    else
      (true, errno2,
        { conn with
          flags := { conn.flags with ERROR := true, SOCK_WR_SH := true, SOCK_RD_SH := true } })

/-- The loop of `tcpcheck_get_step_id`: walk the rules (`j` is the position
of the next one) and stop at the rule whose predecessor is `cur`; `i` counts
the rules passed. -/
def tcpcheck_step_loop (cur : Nat) : List tcpcheck_rule → Nat → Nat → Nat
  | [], _, i => i
  | _ :: rest, j, i => if j = cur + 1 then i else tcpcheck_step_loop cur rest (j + 1) (i + 1)

/-- Return the id of a step in a send/expect session. -/
def tcpcheck_get_step_id (s : ServerData) : Nat :=
  match s.check.last_started_step with
  | none => 1
  | some cur => tcpcheck_step_loop cur s.proxy.tcpcheck_rules 0 0

/-- The context part of the message of `chk_report_conn_err`: for a
tcp-check the step and what it was doing, otherwise whatever the trash chunk
holds. -/
def conn_err_context (e : Env) (sel : CheckSel) (s : ServerData) : String :=
  let check := s.chk sel
  if check.type = .TCPCHK_CHK then
    let step := " at step " ++ toString (tcpcheck_get_step_id s) ++ " of tcp-check"
    match check.current_step.bind (fun k => s.proxy.tcpcheck_rules[k]?) with
    | none => step
    | some rule =>
      match rule.action with
      | .CONNECT => step ++ " (connect)"
      | .EXPECT =>
        match rule.string with
        | some str => step ++ " (string '" ++ str ++ "')"
        | none => if rule.expect_regex.isSome then step ++ " (expect regex)" else step
      | .SEND => step ++ " (send)"
  else e.trash_chunk_str

/-- The error message of `chk_report_conn_err`, from `conn->err_code`,
`errno` and the context. -/
def conn_err_msg (e : Env) (errno : Int) (conn : Connection) (ctx : String) : String :=
  if conn.err_code ≠ 0 then
    if errno ≠ 0 ∧ errno ≠ e.EAGAIN then
      e.conn_err_code_str conn.err_code ++ " (" ++ e.strerror errno ++ ")" ++ ctx
    else e.conn_err_code_str conn.err_code ++ ctx
  else if errno ≠ 0 ∧ errno ≠ e.EAGAIN then e.strerror errno ++ ctx
  else ctx

/-- The status `chk_report_conn_err` selects from the connection flags, the
expiry and the check type; `none` when no branch calls
`set_server_check_status`. -/
def conn_err_status (flags : ConnFlags) (expired : Bool) (type : CheckType) : Option Nat :=
  if !flags.CONNECTED && flags.WAIT_L4_CONN then
    if flags.ERROR then some HCHK_STATUS_L4CON
    else if expired then some HCHK_STATUS_L4TOUT
    else none
  else if !flags.CONNECTED && flags.WAIT_L6_CONN then
    if flags.ERROR then some HCHK_STATUS_L6RSP
    else if expired then some HCHK_STATUS_L6TOUT
    else none
  else if flags.ERROR then some HCHK_STATUS_SOCKERR
  else if expired then
    if type = .SSL3_CHK then some HCHK_STATUS_L6TOUT else some HCHK_STATUS_L7TOUT
  else none

/-- Collect what is known about a connection error or an expiry and set the
status of the check accordingly; a check that already has a result is left
alone.  Returns the connection (whose flags the socket error may have
changed) and the server. -/
def chk_report_conn_err (e : Env) (sel : CheckSel) (errno_bck : Int) (expired : Bool)
    (conn : Connection) (s : ServerData) : Connection × ServerData :=
  let check := s.chk sel
  if check.result ≠ CHK_RES_UNKNOWN then (conn, s)
  else
    let r : Bool × Int × Connection :=
      if errno_bck = 0 ∨ errno_bck = e.EAGAIN then retrieve_errno_from_socket e errno_bck conn
      else (true, errno_bck, conn)
    let errno := r.2.1
    let conn1 := r.2.2
    if !conn1.flags.ERROR && !expired then (conn1, s)
    else
      let err_msg := conn_err_msg e errno conn1 (conn_err_context e sel s)
      (conn1,
        match conn_err_status conn1.flags expired check.type with
        | some st => set_server_check_status e sel st (some err_msg) s
        | none => s)

/-! ## Protocol probers

The probers of `event_srv_chk_r` run on the ingress buffer of the check
after it has been NUL-terminated.  Each of them either asks for more data
(`goto wait_more_data`) or leaves the `switch`, in most cases after one call
of `set_server_check_status`.  A prober is embedded as the outcome it
computes (`ProbeOutcome`: the assignment to `check->code`, if any, and the
`Verdict`); `run_probe` carries the outcome out on the server. -/

/-- The C string at a pointer: the bytes up to the first NUL. -/
def cstr (mem : List Char) : List Char :=
  mem.takeWhile (fun c => c != '\x00')

/-- Modelled from the spec: `cut_crlf` of `common/standard.h` writes a NUL
over the first CR or LF of a string; the result is the string it leaves at
its argument (the first line). -/
def cut_crlf (mem : List Char) : List Char :=
  mem.takeWhile (fun c => c != '\r' && c != '\n' && c != '\x00')

/-- Modelled from the spec: `ltrim` of `common/standard.h` skips the leading
occurrences of a non-NUL character. -/
def ltrim (mem : List Char) (c : Char) : List Char :=
  if c != '\x00' then mem.dropWhile (fun x => x == c) else mem

/-- The loop of `str2uic`: accumulate leading decimal digits. -/
def str2uic_loop : List Char → Nat → Nat
  | [], i => i
  | c :: rest, i =>
    if c.isDigit then str2uic_loop rest ((i * 10 + (c.toNat - 48)) % 2 ^ 32) else i

/-- Modelled from the spec: `str2uic` of `common/standard.h` reads an
unsigned decimal number and stops at the first character that is not a
digit. -/
def str2uic (mem : List Char) : Nat := str2uic_loop mem 0

/-- The test `strncmp(a, b, n) == 0` on two C strings (the end of a list
reads as NUL). -/
def strncmp_eq : List Char → List Char → Nat → Bool
  | _, _, 0 => true
  | a, b, n + 1 =>
    if a.headD '\x00' != b.headD '\x00' then false
    else if a.headD '\x00' == '\x00' then true
    else strncmp_eq a.tail b.tail n

/-- The test `strstr(hay, needle) != NULL` on two C strings. -/
def strstr : List Char → List Char → Bool
  | [], needle => needle.isEmpty
  | c :: rest, needle => needle.isPrefixOf (c :: rest) || strstr rest needle

/-- What a prober decides. -/
inductive Verdict where
  /-- The jump `goto wait_more_data`. -/
  | wait_more_data
  /-- The call `set_server_check_status(target, status, desc)`. -/
  | report (target : CheckSel) (status : Nat) (desc : Option String)
  /-- Leaving the `switch` without a status. -/
  | no_status
deriving DecidableEq, Repr

/-- What a prober does: the value it stores in `check->code`, if any, and
its verdict. -/
structure ProbeOutcome where
  code : Option Int := none
  verdict : Verdict
deriving DecidableEq, Repr

/-- Carry out the outcome of a prober on the server of the check; the
boolean tells whether the prober waits for more data. -/
def run_probe (e : Env) (sel : CheckSel) (o : ProbeOutcome) (s : ServerData) :
    Bool × ServerData :=
  let s1 : ServerData :=
    match o.code with
    | some c => s.setChk sel { s.chk sel with code := c }
    | none => s
  match o.verdict with
  | .wait_more_data => (true, s1)
  | .report target status desc => (false, set_server_check_status e target status desc s1)
  | .no_status => (false, s1)

/-- The header parser of `httpchk_expect`: ignore CR, count consecutive LFs
(`crlf`), stop at the first NUL or once two LFs were counted; returns the
count and what `contentptr` points to. -/
def httpchk_find_body : List Char → Nat → Nat × List Char
  | [], crlf => (crlf, [])
  | c :: rest, crlf =>
    if c == '\x00' then (crlf, c :: rest)
    else if crlf ≥ 2 then (crlf, c :: rest)
    else if c == '\r' then httpchk_find_body rest crlf
    else if c == '\n' then httpchk_find_body rest (crlf + 1)
    else httpchk_find_body rest 0

/-- The three bytes of the status code of the response, `data + 9`. -/
def http_status_code (bi : Buffer) : List Char :=
  [bi.byte 9, bi.byte 10, bi.byte 11]

/-- The comparison of the status code in `httpchk_expect`: `strncmp` with
the expected string (`PR_O2_EXP_STS`) or `regexec` (`PR_O2_EXP_RSTS`). -/
def httpchk_status_match (e : Env) (s : ServerData) : Bool :=
  if s.proxy.EXP_TYPE = .STS then
    strncmp_eq s.proxy.expect_str.toList (http_status_code s.check.bi) 3
  else e.regexec s.proxy.expect_regex (cstr (http_status_code s.check.bi))

/-- The search of the body in `httpchk_expect`: `strstr` with the expected
string (`PR_O2_EXP_STR`) or `regexec` (`PR_O2_EXP_RSTR`). -/
def httpchk_body_match (e : Env) (s : ServerData) (contentptr : List Char) : Bool :=
  if s.proxy.EXP_TYPE = .STR then strstr (cstr contentptr) s.proxy.expect_str.toList
  else e.regexec s.proxy.expect_regex (cstr contentptr)

/-- The cases `PR_O2_EXP_STS` and `PR_O2_EXP_RSTS` of `httpchk_expect`.  The
static message buffer holds `"HTTP status check returned code <000>"` with
the status code of the response copied over the digits. -/
def httpchk_expect_status (e : Env) (s : ServerData) : Verdict :=
  let status_code := http_status_code s.check.bi
  let status_msg := "HTTP status check returned code <".toList ++ status_code ++ ">".toList
  let ret : Bool := httpchk_status_match e s
  let ret : Bool := if s.proxy.EXP_INV then !ret else ret
  .report .check (if ret then HCHK_STATUS_L7OKD else HCHK_STATUS_L7STS)
    (some (String.mk (cstr status_msg)))

/-- The cases `PR_O2_EXP_STR` and `PR_O2_EXP_RSTR` of `httpchk_expect`. -/
def httpchk_expect_body (e : Env) (s : ServerData) (done : Bool) : Verdict :=
  let r := httpchk_find_body s.check.bi.data 0
  let crlf := r.1
  let contentptr := r.2
  if crlf < 2 then
    if !done then .wait_more_data
    else .report .check HCHK_STATUS_L7RSP
      (some "HTTP content check could not find a response body")
  else if contentptr.headD '\x00' == '\x00' then
    if !done then .wait_more_data
    else .report .check HCHK_STATUS_L7RSP
      (some "HTTP content check found empty response body")
  else
    let ret : Bool := httpchk_body_match e s contentptr
    if !ret && !done then .wait_more_data
    else if ret then
      if s.proxy.EXP_INV then
        .report .check HCHK_STATUS_L7RSP (some "HTTP check matched unwanted content")
      else .report .check HCHK_STATUS_L7OKD (some "HTTP content check matched")
    else
      if s.proxy.EXP_INV then
        .report .check HCHK_STATUS_L7OKD (some "HTTP check did not match unwanted content")
      else .report .check HCHK_STATUS_L7RSP (some "HTTP content check did not match")

/-- The verdict of `httpchk_expect(s, done)`: `wait_more_data` is the return
value 0, the other two are the return value 1.  The function works on the
primary check `s->check`. -/
def httpchk_expect_verdict (e : Env) (s : ServerData) (done : Bool) : Verdict :=
  match s.proxy.EXP_TYPE with
  | .NONE => .no_status
  | .STS => httpchk_expect_status e s
  | .RSTS => httpchk_expect_status e s
  | .STR => httpchk_expect_body e s done
  | .RSTR => httpchk_expect_body e s done

/-- Perform the content verification of an HTTP check: the return value (0
when more data is needed) and the server. -/
def httpchk_expect (e : Env) (s : ServerData) (done : Bool) : Nat × ServerData :=
  match httpchk_expect_verdict e s done with
  | .wait_more_data => (0, s)
  | .report target status desc => (1, set_server_check_status e target status desc s)
  | .no_status => (1, s)

/-- The test of the HTTP prober on the status line, as written in the
source: true when the response does not look like `HTTP/1.x NNN`. -/
def http_line_invalid (bi : Buffer) : Bool :=
  decide (bi.i < 13) ||
  (bi.data.take 7 != "HTTP/1.".toList ||
    (bi.byte 12 != ' ' && bi.byte 12 != '\r')) ||
  !(bi.byte 9).isDigit || !(bi.byte 10).isDigit || !(bi.byte 11).isDigit

/-- The HTTP prober (`case PR_O2_HTTP_CHK` of `event_srv_chk_r`). -/
def http_chk_outcome (e : Env) (sel : CheckSel) (done : Bool) (s : ServerData) :
    ProbeOutcome :=
  let bi := (s.chk sel).bi
  if !done && decide (bi.i < 13) then ⟨none, .wait_more_data⟩
  else if http_line_invalid bi then
    ⟨none, .report sel HCHK_STATUS_L7RSP (some (String.mk (cut_crlf bi.data)))⟩
  else
    let code : Int := str2uic (bi.data.drop 9)
    let desc := ltrim (bi.data.drop 12) ' '
    if s.proxy.DISABLE404 && s.state.RUNNING && code == 404 then
      ⟨some code, .report sel HCHK_STATUS_L7OKCD (some (String.mk (cut_crlf desc)))⟩
    else if s.proxy.EXP_TYPE != .NONE then
      ⟨some code, httpchk_expect_verdict e (s.setChk sel { s.chk sel with code := code }) done⟩
    else if bi.byte 9 == '2' || bi.byte 9 == '3' then
      ⟨some code, .report sel HCHK_STATUS_L7OKD (some (String.mk (cut_crlf desc)))⟩
    else
      ⟨some code, .report sel HCHK_STATUS_L7STS (some (String.mk (cut_crlf desc)))⟩

/-- The SSL hello prober (`case PR_O2_SSL3_CHK`). -/
def ssl3_chk_outcome (sel : CheckSel) (done : Bool) (s : ServerData) : ProbeOutcome :=
  let bi := (s.chk sel).bi
  if !done && decide (bi.i < 5) then ⟨none, .wait_more_data⟩
  else if decide (bi.i ≥ 5) && (bi.byte 0 == Char.ofNat 0x15 || bi.byte 0 == Char.ofNat 0x16) then
    ⟨none, .report sel HCHK_STATUS_L6OK none⟩
  else ⟨none, .report sel HCHK_STATUS_L6RSP none⟩

/-- The PostgreSQL prober (`case PR_O2_PGSQL_CHK`). -/
def pgsql_chk_outcome (sel : CheckSel) (done : Bool) (s : ServerData) : ProbeOutcome :=
  let bi := (s.chk sel).bi
  if !done && decide (bi.i < 9) then ⟨none, .wait_more_data⟩
  else if bi.byte 0 == 'R' then
    ⟨none, .report sel HCHK_STATUS_L7OKD (some "PostgreSQL server is ok")⟩
  else
    let desc : String :=
      if bi.byte 0 == 'E' && bi.byte 5 != '\x00' && bi.byte 6 != '\x00' then
        String.mk (cstr (bi.data.drop 6))
      else "PostgreSQL unknown error"
    ⟨none, .report sel HCHK_STATUS_L7STS (some desc)⟩

/-- The SMTP prober (`case PR_O2_SMTP_CHK`). -/
def smtp_chk_outcome (sel : CheckSel) (done : Bool) (s : ServerData) : ProbeOutcome :=
  let bi := (s.chk sel).bi
  if !done && decide (bi.i < 4) then ⟨none, .wait_more_data⟩
  else if decide (bi.i < 4) || (bi.byte 3 != ' ' && bi.byte 3 != '\r') ||
      !(bi.byte 0).isDigit || !(bi.byte 1).isDigit || !(bi.byte 2).isDigit then
    ⟨none, .report sel HCHK_STATUS_L7RSP (some (String.mk (cut_crlf bi.data)))⟩
  else
    let code : Int := str2uic bi.data
    let desc := ltrim (bi.data.drop 3) ' '
    if bi.byte 0 == '2' then
      ⟨some code, .report sel HCHK_STATUS_L7OKD (some (String.mk (cut_crlf desc)))⟩
    else
      ⟨some code, .report sel HCHK_STATUS_L7STS (some (String.mk (cut_crlf desc)))⟩

/-- The Redis prober (`case PR_O2_REDIS_CHK`); `strcmp` compares the C
string of the buffer with the literal. -/
def redis_chk_outcome (sel : CheckSel) (done : Bool) (s : ServerData) : ProbeOutcome :=
  let bi := (s.chk sel).bi
  if !done && decide (bi.i < 7) then ⟨none, .wait_more_data⟩
  else if cstr bi.data == "+PONG\r\n".toList then
    ⟨none, .report sel HCHK_STATUS_L7OKD (some "Redis server is ok")⟩
  else ⟨none, .report sel HCHK_STATUS_L7STS (some (String.mk (cstr bi.data)))⟩

/-- The conversion `(unsigned int) c` of a plain `char` holding the byte
`c`: the byte itself, or its sign extension to 32 bits where plain `char` is
signed and the byte has its high bit set. -/
def char_to_uint (e : Env) (c : Char) : Nat :=
  if e.char_signed && decide (128 ≤ c.toNat) then (c.toNat + (2 ^ 32 - 256)) % 2 ^ 32
  else c.toNat

/-- The conversion of a plain `char` holding the byte `c` to a wider signed
integer (`check->code = *p`). -/
def char_to_int (e : Env) (c : Char) : Int :=
  if e.char_signed && decide (128 ≤ c.toNat) then (c.toNat : Int) - 256 else c.toNat

/-- The packet length the MySQL prober computes from the three bytes at
`off`: `((unsigned int) b0) + (((unsigned int) b1) << 8) +
(((unsigned int) b2) << 16)`, in 32-bit unsigned arithmetic. -/
def mysql_packet_len (e : Env) (bi : Buffer) (off : Nat) : Nat :=
  (char_to_uint e (bi.byte off) +
    (char_to_uint e (bi.byte (off + 1)) * 2 ^ 8) % 2 ^ 32 +
    (char_to_uint e (bi.byte (off + 2)) * 2 ^ 16) % 2 ^ 32) % 2 ^ 32

/-- The legacy mode of the MySQL prober (`s->proxy->check_len == 0`). -/
def mysql_legacy_outcome (sel : CheckSel) (done : Bool) (s : ServerData) : ProbeOutcome :=
  let bi := (s.chk sel).bi
  if bi.byte 4 != Char.ofNat 0xff then
    if bi.i > 51 then
      ⟨none, .report sel HCHK_STATUS_L7OKD (some (String.mk (cstr (ltrim (bi.data.drop 5) ' '))))⟩
    else if !done then ⟨none, .wait_more_data⟩
    else ⟨none, .report sel HCHK_STATUS_L7RSP (some (String.mk (cstr bi.data)))⟩
  else
    ⟨none, .report sel HCHK_STATUS_L7STS (some (String.mk (cstr (ltrim (bi.data.drop 7) ' '))))⟩

/-- The two-packet mode of the MySQL prober (`s->proxy->check_len != 0`).
The comparisons with `check->bi->i` are made in 32-bit unsigned arithmetic;
a pointer `data + first_packet_len + k` is not reduced modulo `2 ^ 32` (64-bit
pointers), the index `first_packet_len+11` is. -/
def mysql_two_packet_outcome (e : Env) (sel : CheckSel) (done : Bool) (s : ServerData) :
    ProbeOutcome :=
  let bi := (s.chk sel).bi
  let first_packet_len := mysql_packet_len e bi 0
  if bi.i = (first_packet_len + 4) % 2 ^ 32 then
    if bi.byte 4 != Char.ofNat 0xff then
      if !done && decide (bi.i < (first_packet_len + 5) % 2 ^ 32) then ⟨none, .wait_more_data⟩
      else ⟨none, .no_status⟩
    else ⟨none, .report sel HCHK_STATUS_L7STS (some (String.mk (cstr (bi.data.drop 7))))⟩
  else if bi.i > (first_packet_len + 4) % 2 ^ 32 then
    let second_packet_len := mysql_packet_len e bi (first_packet_len + 4)
    if bi.i = (first_packet_len + 4 + second_packet_len + 4) % 2 ^ 32 then
      if bi.byte (first_packet_len + 8) != Char.ofNat 0xff then
        ⟨none, .report sel HCHK_STATUS_L7OKD (some (String.mk (cstr (bi.data.drop 5))))⟩
      else
        ⟨none, .report sel HCHK_STATUS_L7STS
          (some (String.mk (cstr (bi.data.drop ((first_packet_len + 11) % 2 ^ 32)))))⟩
    else ⟨none, .no_status⟩
  else if !done then ⟨none, .wait_more_data⟩
  else ⟨none, .report sel HCHK_STATUS_L7RSP (some (String.mk (cstr (bi.data.drop 5))))⟩

/-- The MySQL prober (`case PR_O2_MYSQL_CHK`). -/
def mysql_chk_outcome (e : Env) (sel : CheckSel) (done : Bool) (s : ServerData) :
    ProbeOutcome :=
  let bi := (s.chk sel).bi
  if !done && decide (bi.i < 5) then ⟨none, .wait_more_data⟩
  else if s.proxy.check_len = 0 then mysql_legacy_outcome sel done s
  else mysql_two_packet_outcome e sel done s

/-- The extra length of a BER length byte in the LDAP prober:
`(c & 0x80) ? (c & 0x7f) : 0`.  The two masks see the low eight bits only, so
the signedness of `char` plays no part. -/
def ldap_extra_len (c : Char) : Nat :=
  if c.toNat &&& 0x80 ≠ 0 then c.toNat &&& 0x7f else 0

/-- The LDAPv3 prober (`case PR_O2_LDAP_CHK`); `msglen` is shadowed as it is
reassigned in the source. -/
def ldap_chk_outcome (e : Env) (sel : CheckSel) (done : Bool) (s : ServerData) :
    ProbeOutcome :=
  let bi := (s.chk sel).bi
  let not_ldap : ProbeOutcome :=
    ⟨none, .report sel HCHK_STATUS_L7RSP (some "Not LDAPv3 protocol")⟩
  if !done && decide (bi.i < 14) then ⟨none, .wait_more_data⟩
  else if decide (bi.i < 14) || bi.byte 0 != Char.ofNat 0x30 then not_ldap
  else
    let msglen := ldap_extra_len (bi.byte 1)
    if decide (msglen > 2) ||
        [bi.byte (2 + msglen), bi.byte (2 + msglen + 1), bi.byte (2 + msglen + 2),
          bi.byte (2 + msglen + 3)] !=
        [Char.ofNat 0x02, Char.ofNat 0x01, Char.ofNat 0x01, Char.ofNat 0x61] then not_ldap
    else
      let msglen := msglen + ldap_extra_len (bi.byte (msglen + 6))
      if decide (msglen > 4) ||
          [bi.byte (7 + msglen), bi.byte (7 + msglen + 1)] !=
          [Char.ofNat 0x0a, Char.ofNat 0x01] then not_ldap
      else
        let code : Int := char_to_int e (bi.byte (msglen + 9))
        if code ≠ 0 then
          ⟨some code, .report sel HCHK_STATUS_L7STS
            (some "See RFC: http://tools.ietf.org/html/rfc4511#section-4.1.9")⟩
        else ⟨some code, .report sel HCHK_STATUS_L7OKD (some "Success")⟩

/-- The scan of the agent prober for a complete line: the bytes before the
first CR or LF, or `none` when a NUL comes first. -/
def agent_line : List Char → Option (List Char)
  | [] => none
  | c :: rest =>
    if c == '\x00' then none
    else if c == '\n' || c == '\r' then some []
    else (agent_line rest).map (fun l => c :: l)

/-- The test `strncasecmp(line, word, strlen(word)) == 0` on a line without
NUL and a lower-case word. -/
def strncasecmp_eq (line : List Char) (word : String) : Bool :=
  (line.take word.length).map Char.toLower == word.toList

/-- The keyword the agent prober stores in `down_cmd`; `none` is NULL. -/
def agent_down_cmd (line : List Char) : Option String :=
  if strncasecmp_eq line "down" then some "down"
  else if strncasecmp_eq line "stopped" then some "stopped"
  else if strncasecmp_eq line "fail" then some "fail"
  else none

/-- The request the agent prober hands to
`server_parse_weight_change_request` when no agent is disabled: the line
itself when it holds a `%`, `"0%"` for the line `drain`. -/
def agent_weight_request (line : List Char) : Option (List Char) :=
  if line.contains '%' then some line
  else if line.map Char.toLower == "drain".toList then some "0%".toList
  else none

/-- The agent prober (`case PR_O2_LB_AGENT_CHK`), as the status it reports.
An incomplete line reports the current status of the check again once `done`
is set; a weight or drain request is dropped without a status while the
agent of the server is disabled. -/
def agent_chk_outcome (e : Env) (sel : CheckSel) (done : Bool) (s : ServerData) :
    ProbeOutcome :=
  let check := s.chk sel
  match agent_line check.bi.data with
  | none =>
    if !done then ⟨none, .wait_more_data⟩
    else ⟨none, .report sel check.status (some "Ignoring incomplete line from agent")⟩
  | some line =>
    let disabled := !s.agent.state.ENABLED
    if line.contains '%' then
      if disabled then ⟨none, .no_status⟩
      else
        match (e.server_parse_weight_change_request s.uweight line).1 with
        | none => ⟨none, .report sel HCHK_STATUS_L7OKD (some (String.mk line))⟩
        | some err => ⟨none, .report sel HCHK_STATUS_L7RSP (some err)⟩
    else if line.map Char.toLower == "drain".toList then
      if disabled then ⟨none, .no_status⟩
      else
        match (e.server_parse_weight_change_request s.uweight "0%".toList).1 with
        | none => ⟨none, .report sel HCHK_STATUS_L7OKD (some "drain")⟩
        | some err => ⟨none, .report sel HCHK_STATUS_L7RSP (some err)⟩
    else
      match agent_down_cmd line with
      | some down_cmd =>
        let end_ := line.getD down_cmd.length '\x00'
        if end_ == '\x00' || end_ == ' ' || end_ == '\t' then
          ⟨none, .report sel HCHK_STATUS_L7STS (some (String.mk line))⟩
        else ⟨none, .report sel HCHK_STATUS_L7RSP (some "Unknown feedback string")⟩
      | none => ⟨none, .report sel HCHK_STATUS_L7RSP (some "Unknown feedback string")⟩

/-- The agent prober on the server: the weight request, if one is made,
comes before the status, `set_server_drain_state` after it; the two early
exits (`goto wait_more_data`, `break`) skip both. -/
def agent_chk (e : Env) (sel : CheckSel) (done : Bool) (s : ServerData) :
    Bool × ServerData :=
  let o := agent_chk_outcome e sel done s
  match agent_line (s.chk sel).bi.data, o.verdict with
  | some line, .report target status desc =>
    let s1 : ServerData :=
      match agent_weight_request line with
      | some req => { s with uweight := (e.server_parse_weight_change_request s.uweight req).2 }
      | none => s
    let s2 := set_server_check_status e target status desc s1
    (false, { s2 with
      state := { s2.state with DRAIN := e.set_server_drain_state s2.uweight s2.state.DRAIN } })
  | _, _ => run_probe e sel o s

/-- The `switch (check->type)` of `event_srv_chk_r`, as the outcome of the
prober it selects; the other check types leave the `switch` at once. -/
def probe_outcome (e : Env) (sel : CheckSel) (done : Bool) (s : ServerData) :
    ProbeOutcome :=
  match (s.chk sel).type with
  | .HTTP_CHK => http_chk_outcome e sel done s
  | .SSL3_CHK => ssl3_chk_outcome sel done s
  | .SMTP_CHK => smtp_chk_outcome sel done s
  | .LB_AGENT_CHK => agent_chk_outcome e sel done s
  | .PGSQL_CHK => pgsql_chk_outcome sel done s
  | .REDIS_CHK => redis_chk_outcome sel done s
  | .MYSQL_CHK => mysql_chk_outcome e sel done s
  | .LDAP_CHK => ldap_chk_outcome e sel done s
  | .NONE => ⟨none, .no_status⟩
  | .TCPCHK_CHK => ⟨none, .no_status⟩

/-- The `switch (check->type)` of `event_srv_chk_r` on the server. -/
def probe_switch (e : Env) (sel : CheckSel) (done : Bool) (s : ServerData) :
    Bool × ServerData :=
  if (s.chk sel).type = .LB_AGENT_CHK then agent_chk e sel done s
  else run_probe e sel (probe_outcome e sel done s) s

/-- The end of `event_srv_chk_r` behind the label `out_wakeup`: collect a
new error of the connection, empty the ingress buffer, and flag the
connection in error when the check has failed (the calls of `shutw`,
`__conn_data_stop_both` and `task_wakeup` act outside the state). -/
def chk_r_out_wakeup (e : Env) (sel : CheckSel) (conn : Connection) (s : ServerData) :
    Connection × ServerData :=
  let r : Connection × ServerData :=
    if conn.flags.ERROR then chk_report_conn_err e sel 0 false conn s else (conn, s)
  let c := r.2.chk sel
  (if c.result = CHK_RES_FAILED then { r.1 with flags := { r.1.flags with ERROR := true } }
    else r.1,
   r.2.setChk sel { c with bi := { data := c.bi.data.set 0 '\x00', i := 0 } })

/-- The NUL that `event_srv_chk_r` writes behind the received bytes, or over
the last of them when the buffer is full; the boolean tells that the buffer
is full. -/
def chk_r_terminate (bi : Buffer) : Bool × Buffer :=
  if bi.i < bi.size then (false, { bi with data := bi.data.set bi.i '\x00' })
  else (true, { bi with data := bi.data.set (bi.i - 1) '\x00' })

/-- The read handler `event_srv_chk_r` of a check that has not failed yet
and is not a scripted check, from the return of `rcv_buf` on: `conn` and the
ingress buffer are as the receive call left them, `errno` is its error
number.  The boolean tells that the handler waits for more data. -/
def event_srv_chk_r_received (e : Env) (sel : CheckSel) (errno : Int) (conn : Connection)
    (s : ServerData) : Bool × Connection × ServerData :=
  let check := s.chk sel
  let shut := conn.flags.ERROR || conn.flags.SOCK_RD_SH || conn.flags.DATA_RD_SH
  if conn.flags.ERROR && check.bi.i == 0 then
    let r := chk_report_conn_err e sel errno false conn s
    (false, chk_r_out_wakeup e sel r.1 r.2)
  else
    let t := chk_r_terminate check.bi
    let done := shut || t.1
    let r := probe_switch e sel done (s.setChk sel { check with bi := t.2 })
    if r.1 then (true, conn, r.2) else (false, chk_r_out_wakeup e sel conn r.2)

/-! ## Scheduling -/

/-- The loop behind the label `reschedule` of `process_chk`:
`while (tick_is_expired(t->expire, now_ms)) t->expire = tick_add(t->expire,
MS_TO_TICKS(check->inter));`, on the expiry of the task.  The loop runs on
fuel; `none` tells that the fuel ran out. -/
def reschedule_loop (e : Env) (inter : Int) : Nat → Int → Option Int
  | 0, _ => none
  | fuel + 1, expire =>
    if e.tick_is_expired expire e.now_ms then
      reschedule_loop e inter fuel (e.tick_add expire (e.MS_TO_TICKS inter))
    else some expire

/-- The `int` that holds the exact result `x` of an addition or of a
multiplication of `int`s: `x` itself when it fits in 32 bits, and otherwise
`x` wrapped to 32 bits in two's complement, which is what the usual
compilers produce where the C standard leaves the overflow undefined. -/
def int_wrap (x : Int) : Int := (x + 2 ^ 31) % 2 ^ 32 - 2 ^ 31

/-- The update of `mininter` in the first pass of `start_checks`, for one
configured check whose interval `srv_getinter` gives as `inter`. -/
def mininter_step (e : Env) (mininter inter : Int) : Int :=
  if inter ≥ e.SRV_CHK_INTER_THRES ∧ (mininter = 0 ∨ mininter > inter) then inter
  else mininter

/-- The first pass of `start_checks` over the servers in the order of the
two nested loops (all proxies, all servers of each): count the configured
checks and agents in `nbcheck` and find `mininter`.  The function
`srv_getinter` of `server.c` enters as a parameter that reads a check and the
state bits of its server; the warmup tasks made here are outside the
state. -/
def start_checks_count (e : Env) (srv_getinter : Check → SrvState → Int) :
    List ServerData → Int × Int → Int × Int
  | [], acc => acc
  | s :: rest, (nbcheck, mininter) =>
    let a1 : Int × Int :=
      if s.check.state.CONFIGURED then
        (int_wrap (nbcheck + 1), mininter_step e mininter (srv_getinter s.check s.state))
      else (nbcheck, mininter)
    let a2 : Int × Int :=
      if s.agent.state.CONFIGURED then
        (int_wrap (a1.1 + 1), mininter_step e a1.2 (srv_getinter s.agent s.state))
      else a1
    start_checks_count e srv_getinter rest a2

/-- The delay `start_check_task` gives to the first run of a check:
`mininter` is raised to the interval of the check, cut at
`global.max_spread_checks` when that is set, and scaled by the position. -/
def start_check_delay (e : Env) (inter mininter nbcheck srvpos : Int) : Int :=
  let m1 := if mininter < inter then inter else mininter
  let m2 := if e.max_spread_checks ≠ 0 ∧ m1 > e.max_spread_checks then e.max_spread_checks
    else m1
  Int.tdiv (int_wrap (m2 * srvpos)) nbcheck

/-- The writes of `start_check_task` to the check, once its task is
allocated: the first expiry and the start date. -/
def start_check_task (e : Env) (srv_getinter : Check → SrvState → Int) (sel : CheckSel)
    (mininter nbcheck srvpos : Int) (s : ServerData) : ServerData :=
  let check := s.chk sel
  s.setChk sel { check with
    task_expire := e.tick_add e.now_ms
      (e.MS_TO_TICKS (start_check_delay e (srv_getinter check s.state) mininter nbcheck srvpos))
    start := e.now }

/-- The second pass of `start_checks`: start the task of every configured
check and agent, `srvpos` counting them. -/
def start_checks_tasks (e : Env) (srv_getinter : Check → SrvState → Int)
    (mininter nbcheck : Int) : List ServerData → Int → List ServerData
  | [], _ => []
  | s :: rest, srvpos =>
    let s1 := if s.check.state.CONFIGURED then
      start_check_task e srv_getinter .check mininter nbcheck srvpos s else s
    let pos1 := if s.check.state.CONFIGURED then int_wrap (srvpos + 1) else srvpos
    let s2 := if s1.agent.state.CONFIGURED then
      start_check_task e srv_getinter .agent mininter nbcheck pos1 s1 else s1
    let pos2 := if s1.agent.state.CONFIGURED then int_wrap (pos1 + 1) else pos1
    s2 :: start_checks_tasks e srv_getinter mininter nbcheck rest pos2

/-- Start the health checks, for a run in which every task is allocated
(`task_new` does not fail): the servers with the first expiry of every
configured check armed. -/
def start_checks (e : Env) (srv_getinter : Check → SrvState → Int)
    (srvs : List ServerData) : List ServerData :=
  let c := start_checks_count e srv_getinter srvs (0, 0)
  if c.1 = 0 then srvs
  else start_checks_tasks e srv_getinter c.2 c.1 srvs 0

/-! ## The state header of an HTTP check -/

/-- The table `srv_hlt_st` of `httpchk_build_status_header`: the formats of
the state word. -/
def srv_hlt_st : List String :=
  ["DOWN", "DOWN %d/%d", "UP %d/%d", "UP", "NOLB %d/%d", "NOLB", "no check"]

/-- The index `sv_state` that `httpchk_build_status_header` computes. -/
def sv_state (s : ServerData) : Nat :=
  if !s.check.state.ENABLED then 6
  else if s.state.RUNNING then
    let st : Nat := if s.check.health = s.check.rise + s.check.fall - 1 then 3 else 2
    if s.state.GOINGDOWN then st + 2 else st
  else if s.check.health ≠ 0 then 1
  else 0

/-- The library function `snprintf` on a format whose only conversions are
`%d`, without the bound on the length: each `%d` takes the next argument,
arguments left over are ignored. -/
def snprintf_d : List Char → List Int → List Char
  | [], _ => []
  | [c], _ => [c]
  | c :: d :: rest, args =>
    if c == '%' && d == 'd' then
      match args with
      | a :: more => (toString a).toList ++ snprintf_d rest more
      | [] => snprintf_d rest []
    else c :: snprintf_d (d :: rest) args

/-- The state field `httpchk_build_status_header` writes after
`"X-Haproxy-Server-State: "`: the format `srv_hlt_st[sv_state]` with the
two numbers the source passes to it. -/
def status_header_state (s : ServerData) : String :=
  String.mk (snprintf_d (srv_hlt_st.getD (sv_state s) "").toList
    [if s.state.RUNNING then s.check.health - s.check.rise + 1 else s.check.health,
     if s.state.RUNNING then s.check.fall else s.check.rise])

/-! ## Health bounds -/

/-- The bounds of a check: `rise >= 1`, `fall >= 1` and
`0 <= health <= rise + fall - 1`. -/
def Check.healthOK (c : Check) : Prop :=
  1 ≤ c.rise ∧ 1 ≤ c.fall ∧ 0 ≤ c.health ∧ c.health ≤ c.rise + c.fall - 1

instance (c : Check) : Decidable c.healthOK := by
  unfold Check.healthOK; infer_instance

mutual
/-- Every check below a server: its own two checks, then those of the
servers tracking it, in chain order. -/
def Server.checks : Server → List Check
  | ⟨s, trackers⟩ => s.check :: s.agent :: checks_of_trackers trackers
/-- The checks of a tracker chain. -/
def checks_of_trackers : List Server → List Check
  | [] => []
  | srv :: tracknext => srv.checks ++ checks_of_trackers tracknext
end

/-- What a function may do to a check: keep `rise` and `fall`, and keep the
health bounds if they held. -/
def HealthKept (a b : Check) : Prop :=
  b.rise = a.rise ∧ b.fall = a.fall ∧ (a.healthOK → b.healthOK)

/-! ## Auxiliary predicates -/

/-- A server on its way up through its primary check alone: the check is
enabled, passed its round and stands at health `h`; the agent check is
disabled; the server tracks nobody, is not in maintenance and does not run. -/
def RisingAt (r f h : Int) (srv : Server) : Prop :=
  srv.core.check.state.ENABLED = true ∧ srv.core.agent.state.ENABLED = false ∧
  srv.core.track = false ∧ srv.core.state.MAINTAIN = false ∧
  srv.core.state.RUNNING = false ∧ srv.core.check.result = CHK_RES_PASSED ∧
  srv.core.check.rise = r ∧ srv.core.check.fall = f ∧ srv.core.check.health = h

/-- The relation `HealthKept` on both checks of a server. -/
def CoreKept (s s' : ServerData) : Prop :=
  HealthKept s.check s'.check ∧ HealthKept s.agent s'.agent

/-- The decimal value of three digit characters. -/
def decimal3 (a b c : Char) : Nat :=
  (a.toNat - 48) * 100 + (b.toNat - 48) * 10 + (c.toNat - 48)

/-- The decimal value of the bytes 9 to 11 of a buffer (the HTTP status
code). -/
def http_code_value (bi : Buffer) : Nat :=
  decimal3 (bi.byte 9) (bi.byte 10) (bi.byte 11)

/-- The three-byte little-endian value of the bytes at `off`, `off + 1` and
`off + 2` of a buffer, as the MySQL protocol defines a packet length. -/
def le24 (bi : Buffer) (off : Nat) : Nat :=
  (bi.byte off).toNat + 256 * (bi.byte (off + 1)).toNat + 65536 * (bi.byte (off + 2)).toNat

/-- A MySQL greeting in two packets: a handshake packet with a payload of
128 bytes (length bytes `80 00 00`, sequence 0, protocol version 10) and an
OK packet with a payload of 7 bytes (length bytes `07 00 00`, sequence 2),
then the NUL that ends the buffer; 143 bytes were received. -/
def mysql_greeting_128 : Buffer :=
  { data := [Char.ofNat 0x80, Char.ofNat 0, Char.ofNat 0, Char.ofNat 0, Char.ofNat 0x0a] ++
      List.replicate 127 '5' ++
      [Char.ofNat 7, Char.ofNat 0, Char.ofNat 0, Char.ofNat 2] ++
      List.replicate 7 (Char.ofNat 0) ++ [Char.ofNat 0],
    i := 143 }

/-- Whether a verdict settles the round: it reports a status (other than
`START`) to which the table gives one of the results `FAILED`, `PASSED` and
`CONDPASS`. -/
def Verdict.decided : Verdict → Bool
  | .report _ st _ =>
    st != HCHK_STATUS_START &&
      ((check_statuses st).result == CHK_RES_FAILED ||
        (check_statuses st).result == CHK_RES_PASSED ||
        (check_statuses st).result == CHK_RES_CONDPASS)
  | _ => false

/-- What the `onerror` reactions of `__health_adjust` leave alone: the
counter `failed_hana` and, in the primary check, `fastinter` and the expiry
of the task. -/
def HanaKept (s s' : ServerData) : Prop :=
  s'.counters.failed_hana = s.counters.failed_hana ∧
  s'.check.fastinter = s.check.fastinter ∧
  s'.check.task_expire = s.check.task_expire

/-- What a passing round of the primary check keeps on a server that is
down while its agent check is below `rise`. -/
def AgentHoldsDown (s : ServerData) : Prop :=
  s.track = false ∧ s.check.state.ENABLED = true ∧ s.agent.state.ENABLED = true ∧
  s.state.RUNNING = false ∧ s.agent.health < s.agent.rise ∧
  s.check.result ≠ CHK_RES_FAILED

/-- The offsets of the ingress buffer that the LDAP prober reads, in the
order of the source and with the short-circuit evaluation of its tests: no
byte while fewer than 14 are there, `memcmp` is given all the bytes it may
compare, and a test behind `||` is reached only when the one before it
fails. -/
def ldap_chk_reads (bi : Buffer) (done : Bool) : List Nat :=
  if !done && decide (bi.i < 14) then []
  else if bi.i < 14 then []
  else if bi.byte 0 != Char.ofNat 0x30 then [0]
  else
    let msglen := ldap_extra_len (bi.byte 1)
    if msglen > 2 then [0, 1]
    else if [bi.byte (2 + msglen), bi.byte (2 + msglen + 1), bi.byte (2 + msglen + 2),
        bi.byte (2 + msglen + 3)] !=
        [Char.ofNat 0x02, Char.ofNat 0x01, Char.ofNat 0x01, Char.ofNat 0x61] then
      [0, 1, 2 + msglen, 2 + msglen + 1, 2 + msglen + 2, 2 + msglen + 3]
    else
      let msglen2 := msglen + ldap_extra_len (bi.byte (msglen + 6))
      if msglen2 > 4 then
        [0, 1, 2 + msglen, 2 + msglen + 1, 2 + msglen + 2, 2 + msglen + 3, msglen + 6]
      else if [bi.byte (7 + msglen2), bi.byte (7 + msglen2 + 1)] !=
          [Char.ofNat 0x0a, Char.ofNat 0x01] then
        [0, 1, 2 + msglen, 2 + msglen + 1, 2 + msglen + 2, 2 + msglen + 3, msglen + 6,
          7 + msglen2, 7 + msglen2 + 1]
      else
        [0, 1, 2 + msglen, 2 + msglen + 1, 2 + msglen + 2, 2 + msglen + 3, msglen + 6,
          7 + msglen2, 7 + msglen2 + 1, msglen2 + 9]

/-- The intervals of the configured checks and agents, in the order in which
`start_checks` enumerates them. -/
def check_intervals (g : Check → SrvState → Int) : List ServerData → List Int
  | [] => []
  | s :: rest =>
    (if s.check.state.CONFIGURED then [g s.check s.state] else []) ++
    ((if s.agent.state.CONFIGURED then [g s.agent s.state] else []) ++
      check_intervals g rest)

/-- The first expiries of the configured checks and agents, in the same
order. -/
def first_expiries : List ServerData → List Int
  | [] => []
  | s :: rest =>
    (if s.check.state.CONFIGURED then [s.check.task_expire] else []) ++
    ((if s.agent.state.CONFIGURED then [s.agent.task_expire] else []) ++
      first_expiries rest)

/-- The smallest of the intervals that reach the threshold, 0 when none
does. -/
def min_interval (thres : Int) (l : List Int) : Int :=
  match l.filter (fun x => decide (thres ≤ x)) with
  | [] => 0
  | x :: xs => xs.foldl min x

/-- A server whose primary check is configured with the interval `inter`
and whose agent is not configured. -/
def server_with_inter (inter : Int) : ServerData :=
  { check := { state := { CONFIGURED := true }, inter := inter } }

/-! ## The scripted check -/

/-- The codes `SN_ERR_*` a connection attempt returns. -/
inductive SnErr where
  | NONE
  | SRVTO
  | SRVCL
  | PRXCOND
  | RESOURCE
  | INTERNAL
deriving DecidableEq, Repr

/-- The calls of the checks into the protocol and transport layers, which
are outside the sources. -/
structure Transport where
  /-- The call `proto->connect` on the connection as prepared; the first
  argument is the position of the CONNECT rule that asks for it (`none` for
  the call of `process_chk`).  Gives the code returned, the connection and
  `errno` afterwards; `none` when the protocol has no connect function. -/
  connect : Option Nat → Connection → Option (SnErr × Connection × Int)
  /-- The call `conn->xprt->snd_buf(conn, check->bo, 0)`: the value returned,
  the connection, the egress buffer and `errno` afterwards. -/
  snd_buf : Connection → OutBuffer → Int × Connection × OutBuffer × Int
  /-- The call `conn->xprt->rcv_buf(conn, check->bi, check->bi->size)`: the
  value returned, the connection, the ingress buffer and `errno`
  afterwards. -/
  rcv_buf : Connection → Buffer → Int × Connection × Buffer × Int

/-- The field `string_len` of a rule: the length of its string, zero
without one. -/
def tcpcheck_rule.string_len (r : tcpcheck_rule) : Nat :=
  match r.string with
  | some str => str.length
  | none => 0

/-- What `tcpcheck_main` holds while it runs: the connection, the server,
`errno`, and its locals `done` and `ret` (as a truth value), which live
across the passes of its loop. -/
structure TcpcheckRun where
  conn : Connection
  s : ServerData
  errno : Int := 0
  done : Bool := false
  ret : Bool := false

/-- How a pass of the loop of `tcpcheck_main` ends: at the end of the body
or by `continue` (`again`), by `break` (`finished`), by
`goto out_need_io` (`suspend`), by `goto out_end_tcpcheck`, or by
`return`. -/
inductive LoopExit where
  | again
  | finished
  | suspend
  | end_tcpcheck
  | returned
deriving DecidableEq, Repr

/-- The loop that moves the expiry of the task into the future while a
connection is awaited: by `inter`, or by `timeout.connect` when that comes
first and `timeout.check` is set.  `none` when the fuel runs out. -/
def connect_wait_loop (e : Env) (inter tcon tchk : Int) : Nat → Int → Option Int
  | 0, _ => none
  | fuel + 1, expire =>
    if e.tick_is_expired expire e.now_ms then
      let t_con := e.tick_add expire tcon
      let next := e.tick_add expire (e.MS_TO_TICKS inter)
      connect_wait_loop e inter tcon tchk fuel (if tchk ≠ 0 then e.tick_first next t_con else next)
    else some expire

/-- The flush at the top of a pass: when output is pending and the step is
not a SEND that fits in the space left, try to send; a send that returns
nothing ends the script on a connection error and suspends it otherwise.
`cur` is the rule at the current step, `none` at the end of the list. -/
def tcpcheck_flush (e : Env) (x : Transport) (sel : CheckSel) (cur : Option tcpcheck_rule)
    (st : TcpcheckRun) : LoopExit × TcpcheckRun :=
  let check := st.s.chk sel
  let wanted : Bool :=
    match cur with
    | none => true
    | some r => r.action != .SEND || decide (r.string_len ≥ check.bo.total_space)
  if check.bo.o != 0 && wanted then
    let r := x.snd_buf st.conn check.bo
    let st1 : TcpcheckRun :=
      { st with conn := r.2.1, errno := r.2.2.2, s := st.s.setChk sel { check with bo := r.2.2.1 } }
    if r.1 ≤ 0 then
      if st1.conn.flags.ERROR then
        let c := chk_report_conn_err e sel st1.errno false st1.conn st1.s
        (.end_tcpcheck, { st1 with conn := c.1, s := c.2 })
      else (.suspend, st1)
    else (.again, st1)
  else (.again, st)

/-- The CONNECT step at position `k`: mark it started, replace the
connection by a new one and call connect on it.  A success arms the expiry,
moves to the next rule and, while the connection is not established, returns
after the expiry has been moved into the future; a failure sets the status
and ends the script. -/
def tcpcheck_connect (e : Env) (x : Transport) (sel : CheckSel) (fuel k : Nat)
    (st : TcpcheckRun) : Option (LoopExit × TcpcheckRun) :=
  let check := st.s.chk sel
  let c1 : Check := { check with last_started_step := check.current_step }
  let s1 := st.s.setChk sel c1
  let r : SnErr × Connection × Int :=
    match x.connect (some k) {} with
    | some r => r
    | none => (.INTERNAL, {}, st.errno)
  let st1 : TcpcheckRun := { st with conn := r.2.1, errno := r.2.2, s := s1 }
  match r.1 with
  | .NONE =>
    let exp0 := e.tick_add e.now_ms (e.MS_TO_TICKS c1.inter)
    let exp1 :=
      if s1.proxy.timeout_check ≠ 0 ∧ s1.proxy.timeout_connect ≠ 0 then
        e.tick_first exp0 (e.tick_add e.now_ms s1.proxy.timeout_connect)
      else exp0
    let c2 : Check := { c1 with task_expire := exp1, current_step := some (k + 1) }
    let st2 : TcpcheckRun := { st1 with s := s1.setChk sel c2, ret := e.SN_ERR_NONE_set }
    if !st2.conn.flags.CONNECTED then
      (connect_wait_loop e c1.inter s1.proxy.timeout_connect s1.proxy.timeout_check
          fuel exp1).map
        fun exp => (.returned, { st2 with s := s1.setChk sel { c2 with task_expire := exp } })
    else some (.again, st2)
  | .SRVTO | .SRVCL =>
    some (.end_tcpcheck,
      { st1 with
        s := set_server_check_status e sel HCHK_STATUS_L4CON
          (some ("TCPCHK error establishing connection at step " ++
            toString (tcpcheck_get_step_id s1) ++ ": " ++ e.strerror r.2.2)) s1 })
  | _ =>
    some (.end_tcpcheck,
      { st1 with
        s := set_server_check_status e sel HCHK_STATUS_SOCKERR
          (some ("TCPCHK error establishing connection at step " ++
            toString (tcpcheck_get_step_id s1))) s1 })

/-- The SEND step at position `k` with the rule `cur`: mark it started,
reset the read buffer, and end the script when the write side is shut or the
string is not smaller than the egress buffer; leave the step for the next
pass when the space is short; else append the string and move on. -/
def tcpcheck_send (e : Env) (sel : CheckSel) (k : Nat) (cur : tcpcheck_rule)
    (st : TcpcheckRun) : LoopExit × TcpcheckRun :=
  let check := st.s.chk sel
  let bi1 : Buffer :=
    if check.bi.byte 0 ≠ '\x00' then { data := check.bi.data.set 0 '\x00', i := 0 }
    else check.bi
  let c1 : Check := { check with last_started_step := check.current_step, bi := bi1 }
  let s1 := st.s.setChk sel c1
  if st.conn.flags.SOCK_WR_SH || st.conn.flags.DATA_WR_SH then
    let c := chk_report_conn_err e sel 0 false
      { st.conn with flags := { st.conn.flags with ERROR := true } } s1
    (.end_tcpcheck, { st with conn := c.1, s := c.2 })
  else if cur.string_len ≥ c1.bo.size then
    (.end_tcpcheck,
      { st with
        s := set_server_check_status e sel HCHK_STATUS_L7RSP
          (some ("tcp-check send : string too large (" ++ toString cur.string_len ++
            ") for buffer size (" ++ toString c1.bo.size ++ ") at step " ++
            toString (tcpcheck_get_step_id s1))) s1 })
  else if cur.string_len ≥ c1.bo.total_space then (.again, { st with s := s1 })
  else
    (.again,
      { st with
        s := s1.setChk sel
          { c1 with
            bo := e.bo_putblk c1.bo ((cur.string.getD "").toList)
            current_step := some (k + 1) } })

/-- The action read at the step that follows a rule, `rest` being the rules
behind it: that of the next rule, or what the head of the list yields. -/
def next_action (s : ServerData) (rest : List tcpcheck_rule) : Option TcpcheckAction :=
  match rest with
  | r :: _ => some r.action
  | [] => s.proxy.head_action

/-- The evaluation of EXPECT rules from the label `tcpcheck_expect` on: the
rule at position `k` heads the list given, the content is what the ingress
buffer `bi` holds.  A rule that is satisfied moves to the next one, which is
evaluated at once when it is an EXPECT too.  Past the last rule the source
reads the action at the head of the list; an evaluation from there would use
fields that are not a rule's and has no result here. -/
def tcpcheck_expect (e : Env) (sel : CheckSel) (bi : Buffer) :
    List tcpcheck_rule → Nat → TcpcheckRun → Option (LoopExit × TcpcheckRun)
  | [], _, _ => none
  | cur :: rest, k, st =>
    let ret : Bool :=
      match cur.string with
      | some str => e.my_memmem (bi.data.take bi.i) str.toList
      | none =>
        match cur.expect_regex with
        | some re => e.regexec re (cstr bi.data)
        | none => st.ret
    let st1 : TcpcheckRun := { st with ret := ret }
    if !ret && !st.done then some (.again, st1)
    else if ret != cur.inverse then
      let st2 : TcpcheckRun :=
        { st1 with s := st1.s.setChk sel { st1.s.chk sel with current_step := some (k + 1) } }
      if next_action st.s rest == some .EXPECT then tcpcheck_expect e sel bi rest (k + 1) st2
      else some (.again, st2)
    else
      let what : String :=
        match cur.string with
        | some str => "'" ++ str ++ "'"
        | none => "(regex)"
      let desc : String :=
        (if ret then "TCPCHK matched unwanted content " else "TCPCHK did not match content ") ++
          what ++ " at step " ++ toString (tcpcheck_get_step_id st.s)
      some (.end_tcpcheck,
        { st1 with s := set_server_check_status e sel HCHK_STATUS_L7RSP (some desc) st1.s })

/-- The EXPECT step at position `k` with the rule `cur`, followed by the
rules `rest`: read, close the content with a NUL, and evaluate unless more
data is awaited. -/
def tcpcheck_expect_step (e : Env) (x : Transport) (sel : CheckSel) (k : Nat)
    (cur : tcpcheck_rule) (rest : List tcpcheck_rule) (st : TcpcheckRun) :
    Option (LoopExit × TcpcheckRun) :=
  let check := st.s.chk sel
  if check.result = CHK_RES_FAILED then some (.end_tcpcheck, st)
  else
    let r := x.rcv_buf st.conn check.bi
    let conn1 := r.2.1
    let c1 : Check := { check with bi := r.2.2.1 }
    let st1 : TcpcheckRun :=
      { st with conn := conn1, errno := r.2.2.2, s := st.s.setChk sel c1 }
    let shut := conn1.flags.ERROR || conn1.flags.SOCK_RD_SH || conn1.flags.DATA_RD_SH
    if r.1 ≤ 0 ∧ shut = false then some (.suspend, st1)
    else if r.1 ≤ 0 ∧ conn1.flags.ERROR = true ∧ c1.bi.i = 0 then
      let c := chk_report_conn_err e sel st1.errno false conn1 st1.s
      some (.end_tcpcheck, { st1 with conn := c.1, s := c.2, done := true })
    else
      let t := chk_r_terminate c1.bi
      let done : Bool := st.done || decide (r.1 ≤ 0) || t.1
      let c2 : Check := { c1 with last_started_step := c1.current_step, bi := t.2 }
      let st2 : TcpcheckRun := { st1 with s := st1.s.setChk sel c2, done := done }
      if t.2.byte 0 = '\x00' then
        if !done then some (.again, st2)
        else
          some (.end_tcpcheck,
            { st2 with
              s := set_server_check_status e sel HCHK_STATUS_L7RSP
                (some ("TCPCHK got an empty response at step " ++
                  toString (tcpcheck_get_step_id st2.s))) st2.s })
      else if !done && cur.string.isSome && decide (t.2.i < cur.string_len) then
        some (.again, st2)
      else tcpcheck_expect e sel t.2 (cur :: rest) k st2

/-- One pass of the loop of `tcpcheck_main`: the flush, the test for the end
of the list, then the step at `check->current_step`.  The fuel is that of
the wait for a connection. -/
def tcpcheck_iter (e : Env) (x : Transport) (sel : CheckSel) (fuel : Nat)
    (st : TcpcheckRun) : Option (LoopExit × TcpcheckRun) :=
  match (st.s.chk sel).current_step with
  | none => none
  | some k =>
    let f := tcpcheck_flush e x sel (st.s.proxy.tcpcheck_rules.drop k).head? st
    if f.1 ≠ .again then some f
    else
      match st.s.proxy.tcpcheck_rules.drop k with
      | [] =>
        if (f.2.s.chk sel).bo.o ≠ 0 then some (.suspend, f.2) else some (.finished, f.2)
      | cur :: rest =>
        match cur.action with
        | .CONNECT => tcpcheck_connect e x sel fuel k f.2
        | .SEND => some (tcpcheck_send e sel k cur f.2)
        | .EXPECT => tcpcheck_expect_step e x sel k cur rest f.2

/-- The loop `while (1)` of `tcpcheck_main`: passes are made until one
leaves the loop; `none` when the fuel runs out. -/
def tcpcheck_loop (e : Env) (x : Transport) (sel : CheckSel) (wfuel : Nat) :
    Nat → TcpcheckRun → Option (LoopExit × TcpcheckRun)
  | 0, _ => none
  | fuel + 1, st =>
    match tcpcheck_iter e x sel wfuel st with
    | none => none
    | some (.again, st1) => tcpcheck_loop e x sel wfuel fuel st1
    | some r => some r

/-- The end of `tcpcheck_main` behind the label `out_end_tcpcheck`: collect
a new error of the connection, forget the current step, and flag the
connection in error when the check has failed. -/
def out_end_tcpcheck (e : Env) (sel : CheckSel) (st : TcpcheckRun) : TcpcheckRun :=
  let c : Connection × ServerData :=
    if st.conn.flags.ERROR then chk_report_conn_err e sel 0 false st.conn st.s
    else (st.conn, st.s)
  let s1 := c.2.setChk sel { c.2.chk sel with current_step := none }
  { st with
    conn :=
      if (s1.chk sel).result = CHK_RES_FAILED then
        { c.1 with flags := { c.1.flags with ERROR := true } }
      else c.1
    s := s1 }

/-- Run the scripted check of the connection `conn` from its current step:
wait while the connection asked for is not established, start the script
when no step is current, then loop over the rules.  `errno` is the error
number on entry; `none` when the fuel runs out. -/
def tcpcheck_main (e : Env) (x : Transport) (sel : CheckSel) (fuel : Nat) (errno : Int)
    (conn : Connection) (s : ServerData) : Option (Connection × ServerData) :=
  let check := s.chk sel
  if check.current_step.isSome && !conn.flags.CONNECTED then
    (connect_wait_loop e check.inter s.proxy.timeout_connect s.proxy.timeout_check fuel
        check.task_expire).map
      fun exp => (conn, s.setChk sel { check with task_expire := exp })
  else if check.result ≠ CHK_RES_UNKNOWN then
    let r := out_end_tcpcheck e sel { conn := conn, s := s, errno := errno }
    some (r.conn, r.s)
  else
    let s1 : ServerData :=
      if check.current_step = none then
        s.setChk sel
          { check with
            bo := { check.bo with out := [] }
            bi := { check.bi with i := 0 }
            current_step := some 0
            task_expire :=
              if s.proxy.timeout_check ≠ 0 then e.tick_add_ifset e.now_ms s.proxy.timeout_check
              else e.tick_add e.now_ms (e.MS_TO_TICKS check.inter) }
      else s
    if conn.flags.HANDSHAKE then some (conn, s1)
    else
      match tcpcheck_loop e x sel fuel fuel { conn := conn, s := s1, errno := errno } with
      | none => none
      | some (.finished, st) =>
        let r := out_end_tcpcheck e sel
          { st with s := set_server_check_status e sel HCHK_STATUS_L7OKD (some "(tcp-check)") st.s }
        some (r.conn, r.s)
      | some (.end_tcpcheck, st) =>
        let r := out_end_tcpcheck e sel st
        some (r.conn, r.s)
      | some (_, st) => some (st.conn, st.s)

/-- The rules of a scripted check that connects, sends `PING` and expects
`+PONG`. -/
def ping_rules : List tcpcheck_rule :=
  [{ action := .CONNECT }, { action := .SEND, string := some "PING\r\n" },
   { action := .EXPECT, string := some "+PONG" }]

/-- A server with the scripted check `ping_rules`, whose round has just been
started, with buffers of 32 bytes. -/
def ping_server : ServerData :=
  { check :=
      { type := .TCPCHK_CHK, state := { CONFIGURED := true, ENABLED := true, INPROGRESS := true },
        status := HCHK_STATUS_INI, inter := 2000,
        bi := { data := List.replicate 32 '\x00' }, bo := { size := 32 } },
    proxy := { tcpcheck_rules := ping_rules } }

/-- A peer that accepts the connection, takes all that is sent and answers
`reply` once, then closes. -/
def reply_transport (reply : List Char) : Transport :=
  { connect := fun _ c =>
      some (.NONE, { c with flags := { c.flags with WAIT_L4_CONN := true, CTRL_READY := true } }, 0)
    snd_buf := fun c b => ((b.out.length : Int), c, { b with out := [] }, 0)
    rcv_buf := fun c b =>
      if b.i = 0 then
        ((reply.length : Int), c, { data := reply ++ b.data.drop reply.length, i := reply.length }, 0)
      else (0, { c with flags := { c.flags with SOCK_RD_SH := true } }, b, 0) }

/-- A session of a scripted check: `tcpcheck_main` is run on a new
connection, then again once the connection is established. -/
def script_session (e : Env) (x : Transport) (fuel : Nat) (s : ServerData) :
    Option (Connection × ServerData) :=
  (tcpcheck_main e x .check fuel 0 {} s).bind fun r =>
    tcpcheck_main e x .check fuel 0
      { r.1 with flags := { r.1.flags with CONNECTED := true, WAIT_L4_CONN := false } } r.2

/-- The run of `ping_server` at its EXPECT step, the connection established,
after the bytes `got` have been received. -/
def ping_expecting (got : List Char) : TcpcheckRun :=
  { conn := { flags := { CONNECTED := true, CTRL_READY := true } }
    s :=
      { ping_server with
        check :=
          { ping_server.check with
            current_step := some 2, last_started_step := some 2
            bi := { data := got ++ List.replicate (32 - got.length) '\x00', i := got.length } } } }

/-- The run of `ping_server` at its SEND step, the connection established,
with an egress buffer of `size` bytes that holds the pending output `out`. -/
def ping_sending (size : Nat) (out : List Char) : TcpcheckRun :=
  { conn := { flags := { CONNECTED := true, CTRL_READY := true } }
    s :=
      { ping_server with
        check :=
          { ping_server.check with
            current_step := some 1, last_started_step := some 0
            bo := { size := size, out := out } } } }

/-! ## Launching a check -/

/-- The start of a round in `process_chk`, up to the preparation of the
connection: the status is reset, `CHK_ST_INPROGRESS` is set, the buffers are
emptied, the current step of a scripted check is forgotten, and the request
is written unless the check has no type, is scripted or is an agent check.
`req` stands for the bytes of the request that the source builds in the
egress buffer (the request of the proxy, with the time of an SSL hello or
the state header and the CRLF of an HTTP check). -/
def process_chk_prepare (e : Env) (sel : CheckSel) (req : List Char) (s : ServerData) :
    ServerData :=
  let s1 := set_server_check_status e sel HCHK_STATUS_START none s
  let c1 := s1.chk sel
  let c2 : Check :=
    { c1 with
      state := { c1.state with INPROGRESS := true }
      bi := { c1.bi with i := 0 }
      bo := { c1.bo with out := [] }
      current_step := if c1.type = .TCPCHK_CHK then none else c1.current_step }
  s1.setChk sel
    (if c2.type ≠ .NONE ∧ c2.type ≠ .TCPCHK_CHK ∧ c2.state.AGENT = false then
      { c2 with bo := { c2.bo with out := req } }
    else c2)

/-- The branch of `process_chk` for a check that is not in progress, on the
task of the check `sel` of the server at the root of `srv`.  A task that is
not expired returns at once; a check that is paused or not enabled, or whose
proxy is stopped, is only rescheduled; otherwise the round is started and
the connection is prepared.  A scripted check whose first rule is a CONNECT
is handed to `tcpcheck_main` and the function returns; otherwise connect is
called: a success arms the expiry, a failure is reported, clears
`CHK_ST_INPROGRESS` and fails the round.

`req` is the request of `process_chk_prepare`, `conn` is the connection on
entry and `errno` the error number then; `none` when the fuel of one of the
loops runs out. -/
def process_chk_launch (e : Env) (x : Transport) (sel : CheckSel) (fuel : Nat) (errno : Int)
    (req : List Char) (conn : Connection) (srv : Server) : Option (Connection × Server) :=
  let s := srv.core
  let check := s.chk sel
  if !e.tick_is_expired check.task_expire e.now_ms then some (conn, srv)
  else if !(check.state.ENABLED && !check.state.PAUSED) || s.proxy.stopped then
    (reschedule_loop e check.inter fuel check.task_expire).map
      fun exp => (conn, ⟨s.setChk sel { check with task_expire := exp }, srv.trackers⟩)
  else
    let s3 := process_chk_prepare e sel req s
    let c3 := s3.chk sel
    if c3.type = .TCPCHK_CHK ∧ next_action s3 s3.proxy.tcpcheck_rules = some .CONNECT then
      (tcpcheck_main e x sel fuel errno {} s3).map fun r => (r.1, ⟨r.2, srv.trackers⟩)
    else
      let r : SnErr × Connection × Int :=
        match x.connect none {} with
        | some r => r
        | none => (.INTERNAL, {}, errno)
      if r.1 = .NONE then
        let exp0 := e.tick_add e.now_ms (e.MS_TO_TICKS c3.inter)
        let exp1 :=
          if s3.proxy.timeout_check ≠ 0 ∧ s3.proxy.timeout_connect ≠ 0 then
            e.tick_first exp0 (e.tick_add e.now_ms s3.proxy.timeout_connect)
          else exp0
        (reschedule_loop e c3.inter fuel exp1).map
          fun exp => (r.2.1, ⟨s3.setChk sel { c3 with task_expire := exp }, srv.trackers⟩)
      else
        let rep := chk_report_conn_err e sel
          (if r.1 = .SRVTO ∨ r.1 = .SRVCL then r.2.2 else 0) false
          { r.2.1 with flags := { r.2.1.flags with ERROR := true } } s3
        let srv5 := check_failed e sel (clear_inprogress sel ⟨rep.2, srv.trackers⟩)
        let c5 := srv5.core.chk sel
        (connect_wait_loop e c5.inter srv5.core.proxy.timeout_connect
            srv5.core.proxy.timeout_check fuel c5.task_expire).bind
          fun exp1 =>
            (reschedule_loop e c5.inter fuel exp1).map
              fun exp =>
                (rep.1, ⟨srv5.core.setChk sel { c5 with task_expire := exp }, srv5.trackers⟩)

/-- A server with a scripted check that is due, whose script begins with a
CONNECT. -/
def script_server : Server :=
  ⟨{ check :=
      { type := .TCPCHK_CHK, state := { CONFIGURED := true, ENABLED := true },
        status := HCHK_STATUS_INI, inter := 2000, task_expire := 500,
        bi := { data := List.replicate 32 '\x00' }, bo := { size := 32 } },
     proxy := { tcpcheck_rules := ping_rules } }, []⟩

/-- A peer that refuses every connection. -/
def refusing_transport : Transport :=
  { connect := fun _ c => some (.SRVCL, c, 111)
    snd_buf := fun c b => (0, c, b, 0)
    rcv_buf := fun c b => (0, c, b, 0) }

/-- A server with a plain connection check that is due. -/
def due_server : Server :=
  ⟨{ check :=
      { state := { CONFIGURED := true, ENABLED := true }, status := HCHK_STATUS_INI,
        inter := 2000, task_expire := 500 } }, []⟩

/-! ## Theorems -/

/-- Writing then reading a check through the same selector. -/
theorem chk_setChk (s : ServerData) (sel : CheckSel) (c : Check) :
    (s.setChk sel c).chk sel = c := by
  cases sel <;> rfl

/-- Clearing `consecutive_errors` touches no check. -/
theorem chk_clear_errors (s : ServerData) (sel : CheckSel) (n : Int) :
    ({ s with consecutive_errors := n } : ServerData).chk sel = s.chk sel := by
  cases sel <;> rfl

/-- What `set_server_check_status` leaves in the check it is given, for a
status other than `START` and a check whose status is non-zero. -/
theorem set_server_check_status_chk (e : Env) (sel : CheckSel) (st : Nat)
    (desc : Option String) (s : ServerData)
    (h1 : st ≠ HCHK_STATUS_START) (h2 : (s.chk sel).status ≠ 0) :
    (set_server_check_status e sel st desc s).chk sel = record_status e st desc (s.chk sel) := by
  simp only [set_server_check_status, if_neg h1, if_neg h2]
  split_ifs <;> simp [chk_setChk, chk_clear_errors]

/-- Claim C10, counterexample: on a check whose current status is zero
(`HCHK_STATUS_UNKNOWN`), `set_server_check_status` with `L4OK` returns before
touching anything, so `check->result` stays `UNKNOWN` although the table maps
`L4OK` to `PASSED`. -/
theorem status_result_not_set_on_unknown :
    (check_statuses HCHK_STATUS_L4OK).result = CHK_RES_PASSED ∧
    HCHK_STATUS_L4OK ≠ HCHK_STATUS_START ∧
    ((set_server_check_status {} .check HCHK_STATUS_L4OK none
        { check := { status := HCHK_STATUS_UNKNOWN, result := CHK_RES_UNKNOWN } }).chk
      .check).result = CHK_RES_UNKNOWN := by
  refine ⟨by decide, by decide, by decide⟩

/-- Claim C10 (amended): the table `check_statuses` maps `UNK` and `INI` to
`UNKNOWN`, `L4OK`, `L6OK`, `L7OK` to `PASSED`, `L7OKC` to `CONDPASS` and the
nine failure codes to `FAILED`; `get_check_status_info` returns the tag of
each of these fifteen codes and `"UNK"` for every other code (those without a
tag and those `>= HCHK_STATUS_SIZE`); and `set_server_check_status` with a
status other than `START`, on a check whose current status is non-zero, sets
`check->result` to the table's result whenever that result is not
`UNKNOWN`. -/
theorem status_table (e : Env) (sel : CheckSel) (desc : Option String) (s : ServerData)
    (st : Nat) :
    ((check_statuses HCHK_STATUS_UNKNOWN).result = CHK_RES_UNKNOWN ∧
     (check_statuses HCHK_STATUS_INI).result = CHK_RES_UNKNOWN ∧
     (check_statuses HCHK_STATUS_L4OK).result = CHK_RES_PASSED ∧
     (check_statuses HCHK_STATUS_L6OK).result = CHK_RES_PASSED ∧
     (check_statuses HCHK_STATUS_L7OKD).result = CHK_RES_PASSED ∧
     (check_statuses HCHK_STATUS_L7OKCD).result = CHK_RES_CONDPASS ∧
     (check_statuses HCHK_STATUS_HANA).result = CHK_RES_FAILED ∧
     (check_statuses HCHK_STATUS_SOCKERR).result = CHK_RES_FAILED ∧
     (check_statuses HCHK_STATUS_L4TOUT).result = CHK_RES_FAILED ∧
     (check_statuses HCHK_STATUS_L4CON).result = CHK_RES_FAILED ∧
     (check_statuses HCHK_STATUS_L6TOUT).result = CHK_RES_FAILED ∧
     (check_statuses HCHK_STATUS_L6RSP).result = CHK_RES_FAILED ∧
     (check_statuses HCHK_STATUS_L7TOUT).result = CHK_RES_FAILED ∧
     (check_statuses HCHK_STATUS_L7RSP).result = CHK_RES_FAILED ∧
     (check_statuses HCHK_STATUS_L7STS).result = CHK_RES_FAILED) ∧
    (get_check_status_info HCHK_STATUS_UNKNOWN = some "UNK" ∧
     get_check_status_info HCHK_STATUS_INI = some "INI" ∧
     get_check_status_info HCHK_STATUS_HANA = some "HANA" ∧
     get_check_status_info HCHK_STATUS_SOCKERR = some "SOCKERR" ∧
     get_check_status_info HCHK_STATUS_L4OK = some "L4OK" ∧
     get_check_status_info HCHK_STATUS_L4TOUT = some "L4TOUT" ∧
     get_check_status_info HCHK_STATUS_L4CON = some "L4CON" ∧
     get_check_status_info HCHK_STATUS_L6OK = some "L6OK" ∧
     get_check_status_info HCHK_STATUS_L6TOUT = some "L6TOUT" ∧
     get_check_status_info HCHK_STATUS_L6RSP = some "L6RSP" ∧
     get_check_status_info HCHK_STATUS_L7TOUT = some "L7TOUT" ∧
     get_check_status_info HCHK_STATUS_L7RSP = some "L7RSP" ∧
     get_check_status_info HCHK_STATUS_L7OKD = some "L7OK" ∧
     get_check_status_info HCHK_STATUS_L7OKCD = some "L7OKC" ∧
     get_check_status_info HCHK_STATUS_L7STS = some "L7STS") ∧
    (st = HCHK_STATUS_START ∨ st = HCHK_STATUS_L57DATA ∨ st = HCHK_STATUS_CHECKED ∨
        HCHK_STATUS_SIZE ≤ st → get_check_status_info st = some "UNK") ∧
    (st ≠ HCHK_STATUS_START → (s.chk sel).status ≠ 0 →
      (check_statuses st).result ≠ CHK_RES_UNKNOWN →
      ((set_server_check_status e sel st desc s).chk sel).result =
        (check_statuses st).result) := by
  refine ⟨by decide, by decide, ?_, ?_⟩
  · rintro (h | h | h | h)
    · subst h; decide
    · subst h; decide
    · subst h; decide
    · have h' : ¬ st < HCHK_STATUS_SIZE := Nat.not_lt.mpr h
      simp only [get_check_status_info, h', if_false]
      decide
  · intro h1 h2 h3
    have h3' : (check_statuses st).result ≠ 0 := h3
    rw [set_server_check_status_chk e sel st desc s h1 h2]
    simp only [record_status, if_pos h3']
    split_ifs <;> rfl

/-- Claim C10 (amended), witness: a check in status `INI` that receives
`L7OKCD` gets the result `CONDPASS`. -/
theorem status_table_witness :
    ((set_server_check_status {} .check HCHK_STATUS_L7OKCD none
        { check := { status := HCHK_STATUS_INI } }).chk .check).result = CHK_RES_CONDPASS :=
  (status_table {} .check none { check := { status := HCHK_STATUS_INI } }
    HCHK_STATUS_L7OKCD).2.2.2 (by decide) (by decide) (by decide)

/-- Claim C5: a failed round of an agent check whose status is not
`HCHK_STATUS_L7STS` changes nothing: `check_failed` returns the server as it
was, so `check->health`, the state bits of the server and the counters
`failed_checks` and `down_trans` are unchanged (and so is every tracker). -/
theorem agent_failure_is_ignored (e : Env) (sel : CheckSel) (srv : Server)
    (hagent : (srv.core.chk sel).state.AGENT = true)
    (hstatus : (srv.core.chk sel).status ≠ HCHK_STATUS_L7STS) :
    check_failed e sel srv = srv ∧
    ((check_failed e sel srv).core.chk sel).health = (srv.core.chk sel).health ∧
    (check_failed e sel srv).core.state = srv.core.state ∧
    (check_failed e sel srv).core.counters = srv.core.counters := by
  have h : check_failed e sel srv = srv := by
    simp [check_failed, hagent, hstatus]
  simp [h]

/-- Claim C5, witness: an agent check in status `L4CON` on a running server
at `health = rise`. -/
theorem agent_failure_is_ignored_witness :
    (check_failed {} .agent
      ⟨{ state := { RUNNING := true },
         agent := { state := { ENABLED := true, AGENT := true },
                    status := HCHK_STATUS_L4CON, rise := 2, fall := 3, health := 2 } },
       []⟩).core.state.RUNNING = true := by
  have h := (agent_failure_is_ignored {} .agent
    ⟨{ state := { RUNNING := true },
       agent := { state := { ENABLED := true, AGENT := true },
                  status := HCHK_STATUS_L4CON, rise := 2, fall := 3, health := 2 } },
     []⟩ rfl (by decide)).2.2.1
  rw [h]

/-- The server record that `set_server_down` leaves. -/
theorem set_server_down_core (e : Env) (sel : CheckSel) (srv : Server) :
    (set_server_down e sel srv).core =
      (if down_transition sel (maintain_health sel srv.core) then
          mark_down e (maintain_health sel srv.core)
        else maintain_health sel srv.core).setHealth sel 0 := by
  obtain ⟨s, ts⟩ := srv
  simp only [set_server_down]
  split_ifs <;> rfl

/-- The tracker chain that `set_server_down` leaves. -/
theorem set_server_down_chain (e : Env) (sel : CheckSel) (srv : Server) :
    (set_server_down e sel srv).trackers =
      if down_transition sel (maintain_health sel srv.core) then
        set_server_down_trackers e srv.trackers
      else srv.trackers := by
  obtain ⟨s, ts⟩ := srv
  simp only [set_server_down]
  split_ifs <;> rfl

/-- The server record that `set_server_up` leaves. -/
theorem set_server_up_core (e : Env) (sel : CheckSel) (srv : Server) :
    (set_server_up e sel srv).core =
      health_ok_now sel
        (if up_transition (maintain_health sel srv.core) then
            mark_up e (maintain_health sel srv.core)
          else maintain_health sel srv.core) := by
  obtain ⟨s, ts⟩ := srv
  simp only [set_server_up]
  split_ifs <;> rfl

/-- The tracker chain that `set_server_up` leaves. -/
theorem set_server_up_chain (e : Env) (sel : CheckSel) (srv : Server) :
    (set_server_up e sel srv).trackers =
      if up_transition (maintain_health sel srv.core) then
        set_server_up_trackers e srv.trackers
      else srv.trackers := by
  obtain ⟨s, ts⟩ := srv
  simp only [set_server_up]
  split_ifs <;> rfl

/-- A counted failure above `rise`: the health steps down by one, the server
keeps its state bits. -/
theorem check_failed_above (e : Env) (sel : CheckSel) (srv : Server)
    (hagent : (srv.core.chk sel).state.AGENT = false)
    (habove : (srv.core.chk sel).rise < (srv.core.chk sel).health) :
    (check_failed e sel srv).core.state = srv.core.state ∧
    ((check_failed e sel srv).core.chk sel) =
      { srv.core.chk sel with health := (srv.core.chk sel).health - 1 } ∧
    (check_failed e sel srv).core.counters =
      { srv.core.counters with failed_checks := srv.core.counters.failed_checks + 1 } := by
  have h : (srv.core.chk sel).health > (srv.core.chk sel).rise := habove
  simp only [check_failed, hagent, Bool.false_and, if_pos h]
  cases sel <;> simp [ServerData.setHealth, ServerData.setChk, ServerData.chk]

/-- A counted failure at `health = rise` on a running server: the server
goes down and the health drops to zero. -/
theorem check_failed_at_rise (e : Env) (sel : CheckSel) (srv : Server)
    (hagent : (srv.core.chk sel).state.AGENT = false)
    (hrun : srv.core.state.RUNNING = true)
    (hat : (srv.core.chk sel).health = (srv.core.chk sel).rise) :
    (check_failed e sel srv).core.state.RUNNING = false ∧
    (check_failed e sel srv).core.state.GOINGDOWN = false ∧
    ((check_failed e sel srv).core.chk sel).health = 0 ∧
    (check_failed e sel srv).core.counters.down_trans = srv.core.counters.down_trans + 1 := by
  have h : ¬ (srv.core.chk sel).health > (srv.core.chk sel).rise := by omega
  have hm : (maintain_health sel srv.core).state = srv.core.state ∧
      ((maintain_health sel srv.core).chk sel).health = (srv.core.chk sel).rise ∧
      ((maintain_health sel srv.core).chk sel).rise = (srv.core.chk sel).rise ∧
      (maintain_health sel srv.core).counters = srv.core.counters := by
    unfold maintain_health
    split_ifs <;> cases sel <;>
      simp_all [ServerData.setHealth, ServerData.setChk, ServerData.chk]
  have hd : down_transition sel (maintain_health sel srv.core) = true := by
    simp [down_transition, hm.1, hm.2.1, hm.2.2.1, hrun]
  have hcf : check_failed e sel srv = set_server_down e sel srv := by
    simp only [check_failed, hagent, Bool.false_and, if_neg h]
    rfl
  rw [hcf, set_server_down_core, if_pos hd]
  cases sel <;>
    simp [ServerData.setHealth, ServerData.setChk, ServerData.chk, mark_down, hm.1, hm.2.2.2]

/-- Consecutive counted failures from full health: after `k < fall` of them
the server still runs and the health is `rise + fall - 1 - k`. -/
theorem failures_below_fall (e : Env) (sel : CheckSel) (srv : Server)
    (hagent : (srv.core.chk sel).state.AGENT = false)
    (hrun : srv.core.state.RUNNING = true)
    (hhealth : (srv.core.chk sel).health = (srv.core.chk sel).rise + (srv.core.chk sel).fall - 1)
    (k : Nat) (hk : (k : Int) < (srv.core.chk sel).fall) :
    (Nat.iterate (check_failed e sel) k srv).core.state.RUNNING = true ∧
    ((Nat.iterate (check_failed e sel) k srv).core.chk sel).state.AGENT = false ∧
    ((Nat.iterate (check_failed e sel) k srv).core.chk sel).rise = (srv.core.chk sel).rise ∧
    ((Nat.iterate (check_failed e sel) k srv).core.chk sel).health =
      (srv.core.chk sel).rise + (srv.core.chk sel).fall - 1 - k ∧
    (Nat.iterate (check_failed e sel) k srv).core.counters.down_trans =
      srv.core.counters.down_trans := by
  induction k with
  | zero => simp [hrun, hagent, hhealth]
  | succ k ih =>
    have hk' : (k : Int) < (srv.core.chk sel).fall := by push_cast at hk; omega
    obtain ⟨h1, h2, h3, h4, h5⟩ := ih hk'
    rw [Function.iterate_succ_apply']
    have habove : ((Nat.iterate (check_failed e sel) k srv).core.chk sel).rise <
        ((Nat.iterate (check_failed e sel) k srv).core.chk sel).health := by
      rw [h3, h4]; push_cast at hk; omega
    obtain ⟨g1, g2, g3⟩ := check_failed_above e sel _ h2 habove
    refine ⟨by rw [g1, h1], by rw [g2]; exact h2, by rw [g2]; exact h3, ?_, by rw [g3]; exact h5⟩
    rw [g2]
    show ((Nat.iterate (check_failed e sel) k srv).core.chk sel).health - 1 = _
    rw [h4]; push_cast; omega

/-- Claim C2: for a non-agent check on a running server at
`health = rise + fall - 1`, the server is still RUNNING after each of the
first `fall - 1` consecutive failed rounds (`check_failed`), and the
`fall`-th one clears RUNNING: going from UP to DOWN takes exactly `fall`
consecutive failures.  (Neither MAINTAIN nor tracking changes this.) -/
theorem up_to_down_takes_fall_failures (e : Env) (sel : CheckSel) (srv : Server) (k : Nat)
    (hagent : (srv.core.chk sel).state.AGENT = false)
    (hrun : srv.core.state.RUNNING = true)
    (hfall : 1 ≤ (srv.core.chk sel).fall)
    (hhealth : (srv.core.chk sel).health = (srv.core.chk sel).rise + (srv.core.chk sel).fall - 1) :
    ((k : Int) < (srv.core.chk sel).fall →
      (Nat.iterate (check_failed e sel) k srv).core.state.RUNNING = true) ∧
    ((k : Int) = (srv.core.chk sel).fall →
      (Nat.iterate (check_failed e sel) k srv).core.state.RUNNING = false) := by
  refine ⟨fun hk => (failures_below_fall e sel srv hagent hrun hhealth k hk).1, ?_⟩
  intro hk
  have hpos : 1 ≤ k := by omega
  obtain ⟨j, rfl⟩ : ∃ j, k = j + 1 := ⟨k - 1, by omega⟩
  have hj : (j : Int) < (srv.core.chk sel).fall := by push_cast at hk; omega
  obtain ⟨h1, h2, h3, h4, _⟩ := failures_below_fall e sel srv hagent hrun hhealth j hj
  rw [Function.iterate_succ_apply']
  refine (check_failed_at_rise e sel _ h2 h1 ?_).1
  rw [h3, h4]; push_cast at hk; omega

/-- Claim C2, witness: `rise = 2`, `fall = 3`, `health = 4`; the server runs
after two failures and is down after the third. -/
theorem up_to_down_takes_fall_failures_witness :
    (Nat.iterate (check_failed {} .check) 2
      ⟨{ state := { RUNNING := true }, check := { rise := 2, fall := 3, health := 4 } },
        []⟩).core.state.RUNNING = true ∧
    (Nat.iterate (check_failed {} .check) 3
      ⟨{ state := { RUNNING := true }, check := { rise := 2, fall := 3, health := 4 } },
        []⟩).core.state.RUNNING = false :=
  ⟨(up_to_down_takes_fall_failures {} .check
      ⟨{ state := { RUNNING := true }, check := { rise := 2, fall := 3, health := 4 } }, []⟩
      2 rfl rfl (by decide) (by decide)).1 (by decide),
   (up_to_down_takes_fall_failures {} .check
      ⟨{ state := { RUNNING := true }, check := { rise := 2, fall := 3, health := 4 } }, []⟩
      3 rfl rfl (by decide) (by decide)).2 (by decide)⟩

/-- Claim C4, counterexample: with `rise = 2`, `fall = 3` and a running
server at `health = 4`, the health after the third failed round is `0`, not
`1`: the round that sets the server down also resets the health. -/
theorem flapping_third_failure_resets_health :
    (Nat.iterate (check_failed {} .check) 3
      ⟨{ state := { RUNNING := true }, check := { rise := 2, fall := 3, health := 4 } },
        []⟩).core.check.health = 0 ∧
    (Nat.iterate (check_failed {} .check) 3
      ⟨{ state := { RUNNING := true }, check := { rise := 2, fall := 3, health := 4 } },
        []⟩).core.check.health ≠ 1 := by
  refine ⟨by decide, by decide⟩

/-- Claim C4 (amended): with `rise = 2`, `fall = 3`, a running server at
`health = 4` that receives three consecutive failed rounds has the health
values 4, 3, 2, 0 after rounds 0 to 3; it still runs after the first two and
the Set-DOWN transition (RUNNING cleared, `down_trans` incremented) happens
on the third. -/
theorem flapping_scenario (e : Env) (sel : CheckSel) (srv : Server)
    (hagent : (srv.core.chk sel).state.AGENT = false)
    (hrun : srv.core.state.RUNNING = true)
    (hrise : (srv.core.chk sel).rise = 2) (hfall : (srv.core.chk sel).fall = 3)
    (hhealth : (srv.core.chk sel).health = 4) :
    ((Nat.iterate (check_failed e sel) 0 srv).core.chk sel).health = 4 ∧
    ((Nat.iterate (check_failed e sel) 1 srv).core.chk sel).health = 3 ∧
    ((Nat.iterate (check_failed e sel) 2 srv).core.chk sel).health = 2 ∧
    ((Nat.iterate (check_failed e sel) 3 srv).core.chk sel).health = 0 ∧
    (Nat.iterate (check_failed e sel) 1 srv).core.state.RUNNING = true ∧
    (Nat.iterate (check_failed e sel) 2 srv).core.state.RUNNING = true ∧
    (Nat.iterate (check_failed e sel) 2 srv).core.counters.down_trans =
      srv.core.counters.down_trans ∧
    (Nat.iterate (check_failed e sel) 3 srv).core.state.RUNNING = false ∧
    (Nat.iterate (check_failed e sel) 3 srv).core.counters.down_trans =
      srv.core.counters.down_trans + 1 := by
  have hh : (srv.core.chk sel).health =
      (srv.core.chk sel).rise + (srv.core.chk sel).fall - 1 := by omega
  have h1 := failures_below_fall e sel srv hagent hrun hh 1 (by rw [hfall]; decide)
  have h2 := failures_below_fall e sel srv hagent hrun hh 2 (by rw [hfall]; decide)
  have h3 := check_failed_at_rise e sel (Nat.iterate (check_failed e sel) 2 srv) h2.2.1 h2.1
    (by rw [h2.2.2.1, h2.2.2.2.1, hrise, hfall]; decide)
  have e3 : Nat.iterate (check_failed e sel) 3 srv =
      check_failed e sel (Nat.iterate (check_failed e sel) 2 srv) :=
    Function.iterate_succ_apply' _ _ _
  refine ⟨hhealth, ?_, ?_, ?_, h1.1, h2.1, h2.2.2.2.2, ?_, ?_⟩
  · rw [h1.2.2.2.1, hrise, hfall]; decide
  · rw [h2.2.2.2.1, hrise, hfall]; decide
  · rw [e3]; exact h3.2.2.1
  · rw [e3]; exact h3.1
  · rw [e3, h3.2.2.2, h2.2.2.2.2]

/-- Claim C4 (amended), witness: the scenario on a server without
trackers. -/
theorem flapping_scenario_witness :
    ((Nat.iterate (check_failed {} .check) 3
      ⟨{ state := { RUNNING := true }, check := { rise := 2, fall := 3, health := 4 } },
        []⟩).core.chk .check).health = 0 :=
  (flapping_scenario {} .check
    ⟨{ state := { RUNNING := true }, check := { rise := 2, fall := 3, health := 4 } }, []⟩
    rfl rfl rfl rfl rfl).2.2.2.1

/-- The passing branch of `process_chk` on a server that neither runs nor is
in maintenance and whose check is below full health: one step up, then
`set_server_up`. -/
theorem process_chk_result_passed (e : Env) (sel : CheckSel) (srv : Server)
    (hres : (srv.core.chk sel).result ≠ CHK_RES_FAILED)
    (hrun : srv.core.state.RUNNING = false) (hmaint : srv.core.state.MAINTAIN = false)
    (hlt : (srv.core.chk sel).health < (srv.core.chk sel).rise + (srv.core.chk sel).fall - 1) :
    process_chk_result e sel srv =
      clear_inprogress sel
        (set_server_up e sel
          ⟨srv.core.setHealth sel ((srv.core.chk sel).health + 1), srv.trackers⟩) := by
  have hadj : disable404_adjust sel srv = srv := by
    simp [disable404_adjust, hrun]
  simp only [process_chk_result, if_neg hres, hadj, hmaint, Bool.not_false, true_and, if_pos hlt]

/-- A passing round of `process_chk` below the threshold: the health steps
up by one and the server stays down. -/
theorem passed_round_below (e : Env) (srv : Server) (r f h : Int)
    (hf : 1 ≤ f) (hlt : h + 1 < r) (hinv : RisingAt r f h srv) :
    RisingAt r f (h + 1) (process_chk_result e .check srv) := by
  obtain ⟨s, ts⟩ := srv
  obtain ⟨h1, h2, h3, h4, h5, h6, h7, h8, h9⟩ := hinv
  simp only at h1 h2 h3 h4 h5 h6 h7 h8 h9
  subst h7 h8 h9
  have hup : up_transition (maintain_health .check
      (s.setHealth .check (s.check.health + 1))) = false := by
    have hne : ¬ (s.check.health + 1 = s.check.rise) := by omega
    simp [up_transition, maintain_health, ServerData.setHealth, ServerData.setChk,
      ServerData.chk, h1, h2, h3, h4, hne]
  have hge : ¬ (s.check.health + 1 ≥ s.check.rise) := by omega
  rw [process_chk_result_passed e .check ⟨s, ts⟩ (by simp [ServerData.chk, h6]) h5 h4
    (by simp only [ServerData.chk]; omega)]
  simp only [RisingAt, clear_inprogress, set_server_up_core, ServerData.chk, hup]
  simp [maintain_health, health_ok_now, ServerData.setHealth, ServerData.setChk,
    ServerData.chk, h1, h2, h3, h4, h5, h6, hge]

/-- The passing round of `process_chk` that reaches the threshold: the
server is set RUNNING and the health jumps to `rise + fall - 1`. -/
theorem passed_round_reaches_rise (e : Env) (srv : Server) (r f h : Int)
    (hf : 1 ≤ f) (heq : h + 1 = r) (hinv : RisingAt r f h srv) :
    (process_chk_result e .check srv).core.state.RUNNING = true ∧
    (process_chk_result e .check srv).core.check.health = r + f - 1 := by
  obtain ⟨s, ts⟩ := srv
  obtain ⟨h1, h2, h3, h4, h5, h6, h7, h8, h9⟩ := hinv
  simp only at h1 h2 h3 h4 h5 h6 h7 h8 h9
  subst h7 h8 h9
  have hup : up_transition (maintain_health .check
      (s.setHealth .check (s.check.health + 1))) = true := by
    simp [up_transition, maintain_health, ServerData.setHealth, ServerData.setChk,
      ServerData.chk, h1, h2, h3, h4, heq]
  rw [process_chk_result_passed e .check ⟨s, ts⟩ (by simp [ServerData.chk, h6]) h5 h4
    (by simp only [ServerData.chk]; omega)]
  simp only [clear_inprogress, set_server_up_core, ServerData.chk, hup]
  simp only [maintain_health, health_ok_now, mark_up, ServerData.setHealth, ServerData.setChk,
    ServerData.chk, h4, heq]
  split_ifs <;> simp_all

/-- Consecutive passing rounds from `health = 0`: after `k < rise` of them
the server is still down and the health is `k`. -/
theorem passes_below_rise (e : Env) (srv : Server) (r f : Int) (hf : 1 ≤ f)
    (hinv : RisingAt r f 0 srv) (k : Nat) (hk : (k : Int) < r) :
    RisingAt r f k (Nat.iterate (process_chk_result e .check) k srv) := by
  induction k with
  | zero => simpa using hinv
  | succ k ih =>
    have hk' : (k : Int) < r := by push_cast at hk; omega
    rw [Function.iterate_succ_apply']
    have := passed_round_below e _ r f k hf (by push_cast at hk; omega) (ih hk')
    simpa using this

/-- Claim C3: for an enabled primary check (agent check disabled, no
tracking, not MAINTAIN) on a server that does not run, with `health = 0`, the
passing branch of `process_chk` leaves the server non-RUNNING after each of
the first `rise - 1` consecutive PASSED rounds and sets RUNNING on the
`rise`-th one, where the health becomes `rise + fall - 1`. -/
theorem down_to_up_takes_rise_passes (e : Env) (srv : Server) (k : Nat)
    (hen : srv.core.check.state.ENABLED = true)
    (hagent : srv.core.agent.state.ENABLED = false)
    (htrack : srv.core.track = false)
    (hmaint : srv.core.state.MAINTAIN = false)
    (hrun : srv.core.state.RUNNING = false)
    (hres : srv.core.check.result = CHK_RES_PASSED)
    (hrise : 1 ≤ srv.core.check.rise) (hfall : 1 ≤ srv.core.check.fall)
    (hhealth : srv.core.check.health = 0) :
    ((k : Int) < srv.core.check.rise →
      (Nat.iterate (process_chk_result e .check) k srv).core.state.RUNNING = false) ∧
    ((k : Int) = srv.core.check.rise →
      (Nat.iterate (process_chk_result e .check) k srv).core.state.RUNNING = true ∧
      (Nat.iterate (process_chk_result e .check) k srv).core.check.health =
        srv.core.check.rise + srv.core.check.fall - 1) := by
  have hinv : RisingAt srv.core.check.rise srv.core.check.fall 0 srv :=
    ⟨hen, hagent, htrack, hmaint, hrun, hres, rfl, rfl, hhealth⟩
  refine ⟨fun hk => (passes_below_rise e srv _ _ hfall hinv k hk).2.2.2.2.1, ?_⟩
  intro hk
  obtain ⟨j, rfl⟩ : ∃ j, k = j + 1 := ⟨k - 1, by omega⟩
  have hj : (j : Int) < srv.core.check.rise := by push_cast at hk; omega
  rw [Function.iterate_succ_apply']
  exact passed_round_reaches_rise e _ _ _ j hfall (by push_cast at hk; omega)
    (passes_below_rise e srv _ _ hfall hinv j hj)

/-- Claim C3, witness: `rise = 2`, `fall = 3`; down after one passing round,
up with `health = 4` after the second. -/
theorem down_to_up_takes_rise_passes_witness :
    (Nat.iterate (process_chk_result {} .check) 1
      ⟨{ check := { state := { ENABLED := true }, result := CHK_RES_PASSED,
                    rise := 2, fall := 3, health := 0 } }, []⟩).core.state.RUNNING = false ∧
    (Nat.iterate (process_chk_result {} .check) 2
      ⟨{ check := { state := { ENABLED := true }, result := CHK_RES_PASSED,
                    rise := 2, fall := 3, health := 0 } }, []⟩).core.state.RUNNING = true ∧
    (Nat.iterate (process_chk_result {} .check) 2
      ⟨{ check := { state := { ENABLED := true }, result := CHK_RES_PASSED,
                    rise := 2, fall := 3, health := 0 } }, []⟩).core.check.health = 4 :=
  ⟨(down_to_up_takes_rise_passes {}
      ⟨{ check := { state := { ENABLED := true }, result := CHK_RES_PASSED,
                    rise := 2, fall := 3, health := 0 } }, []⟩
      1 rfl rfl rfl rfl rfl rfl (by decide) (by decide) rfl).1 (by decide),
   (down_to_up_takes_rise_passes {}
      ⟨{ check := { state := { ENABLED := true }, result := CHK_RES_PASSED,
                    rise := 2, fall := 3, health := 0 } }, []⟩
      2 rfl rfl rfl rfl rfl rfl (by decide) (by decide) rfl).2 (by decide)⟩

/-- In maintenance the first statement of `set_server_down` and
`set_server_up` makes the entry value of `check->health` irrelevant. -/
theorem maintain_health_forced (sel : CheckSel) (s : ServerData)
    (hm : s.state.MAINTAIN = true) :
    ((maintain_health sel s).chk sel).health = (s.chk sel).rise ∧
    maintain_health sel (s.setHealth sel (s.chk sel).rise) = maintain_health sel s := by
  cases sel <;> simp [maintain_health, ServerData.setHealth, ServerData.setChk, ServerData.chk, hm]

/-- Claim C7, counterexample: a server in MAINTAIN with `rise = 2`,
`fall = 3`, `health = 1`: when `set_server_down` returns the health is `0`
and when `set_server_up` returns it is `4`; neither is `rise`. -/
theorem maintain_health_not_rise_on_return :
    (set_server_down {} .check
      ⟨{ state := { MAINTAIN := true }, check := { rise := 2, fall := 3, health := 1 } },
        []⟩).core.check.health = 0 ∧
    (set_server_up {} .check
      ⟨{ state := { MAINTAIN := true }, check := { rise := 2, fall := 3, health := 1 } },
        []⟩).core.check.health = 4 ∧
    (set_server_down {} .check
      ⟨{ state := { MAINTAIN := true }, check := { rise := 2, fall := 3, health := 1 } },
        []⟩).core.check.health ≠ 2 ∧
    (set_server_up {} .check
      ⟨{ state := { MAINTAIN := true }, check := { rise := 2, fall := 3, health := 1 } },
        []⟩).core.check.health ≠ 2 := by
  refine ⟨by decide, by decide, by decide, by decide⟩

/-- Claim C7 (amended): for a check whose server has the MAINTAIN bit set,
`set_server_down` and `set_server_up` first force `check->health` to
`check->rise`, so that both behave as if the health had been `rise` on entry;
when `set_server_down` returns the health is `0`, and when `set_server_up`
returns it is `rise + fall - 1`. -/
theorem maintain_forces_health_on_entry (e : Env) (sel : CheckSel) (srv : Server)
    (hm : srv.core.state.MAINTAIN = true) :
    ((maintain_health sel srv.core).chk sel).health = (srv.core.chk sel).rise ∧
    set_server_down e sel srv =
      set_server_down e sel ⟨srv.core.setHealth sel (srv.core.chk sel).rise, srv.trackers⟩ ∧
    set_server_up e sel srv =
      set_server_up e sel ⟨srv.core.setHealth sel (srv.core.chk sel).rise, srv.trackers⟩ ∧
    ((set_server_down e sel srv).core.chk sel).health = 0 ∧
    ((set_server_up e sel srv).core.chk sel).health =
      (srv.core.chk sel).rise + (srv.core.chk sel).fall - 1 := by
  obtain ⟨s, ts⟩ := srv
  simp only at hm
  obtain ⟨hf1, hf2⟩ := maintain_health_forced sel s hm
  refine ⟨hf1, ?_, ?_, ?_, ?_⟩
  · simp only [set_server_down, hf2]
  · simp only [set_server_up, hf2]
  · rw [set_server_down_core]
    cases sel <;> simp [ServerData.setHealth, ServerData.setChk, ServerData.chk]
  · rw [set_server_up_core]
    have hr : ((maintain_health sel s).chk sel).rise = (s.chk sel).rise ∧
        ((maintain_health sel s).chk sel).fall = (s.chk sel).fall := by
      cases sel <;>
        simp [maintain_health, ServerData.setHealth, ServerData.setChk, ServerData.chk, hm]
    split_ifs <;> cases sel <;>
      simp_all [health_ok_now, mark_up, ServerData.setHealth, ServerData.setChk, ServerData.chk]

/-- Claim C7 (amended), witness: a server in MAINTAIN with `rise = 2`,
`fall = 3`, `health = 1`. -/
theorem maintain_forces_health_on_entry_witness :
    ((set_server_up {} .check
      ⟨{ state := { MAINTAIN := true }, check := { rise := 2, fall := 3, health := 1 } },
        []⟩).core.chk .check).health = 2 + 3 - 1 :=
  (maintain_forces_health_on_entry {} .check
    ⟨{ state := { MAINTAIN := true }, check := { rise := 2, fall := 3, health := 1 } }, []⟩
    rfl).2.2.2.2

/-- What the loop of `set_server_down` leaves at each position of the
tracker chain. -/
theorem set_server_down_trackers_at (e : Env) (ts : List Server) (i : Nat) (t : Server)
    (h : ts[i]? = some t) :
    (set_server_down_trackers e ts)[i]? =
      some (if !t.core.state.MAINTAIN then set_server_down e .check t else t) := by
  induction ts generalizing i with
  | nil => simp at h
  | cons a ts ih =>
    cases i with
    | zero =>
      simp only [List.getElem?_cons_zero, Option.some.injEq] at h
      subst h
      simp [set_server_down_trackers]
    | succ i =>
      simp only [List.getElem?_cons_succ] at h
      simpa [set_server_down_trackers] using ih i h

/-- What the loop of `set_server_up` leaves at each position of the tracker
chain. -/
theorem set_server_up_trackers_at (e : Env) (ts : List Server) (i : Nat) (t : Server)
    (h : ts[i]? = some t) :
    (set_server_up_trackers e ts)[i]? =
      some (if !t.core.state.MAINTAIN then set_server_up e .check t else t) := by
  induction ts generalizing i with
  | nil => simp at h
  | cons a ts ih =>
    cases i with
    | zero =>
      simp only [List.getElem?_cons_zero, Option.some.injEq] at h
      subst h
      simp [set_server_up_trackers]
    | succ i =>
      simp only [List.getElem?_cons_succ] at h
      simpa [set_server_up_trackers] using ih i h

/-- Claim C8: a tracker in MAINTAIN is never overridden.  For every server
`srv` and every server `t` of its tracker chain (at any position `i`) with
the MAINTAIN bit set, `set_server_down` and `set_server_up` on a check of
`srv` leave `t` exactly as it was: state bits, `check.health`, `last_change`,
counters and everything else. -/
theorem maintain_tracker_untouched (e : Env) (sel : CheckSel) (srv : Server) (i : Nat)
    (t : Server) (hmem : srv.trackers[i]? = some t)
    (hm : t.core.state.MAINTAIN = true) :
    (set_server_down e sel srv).trackers[i]? = some t ∧
    (set_server_up e sel srv).trackers[i]? = some t := by
  constructor
  · rw [set_server_down_chain]
    split_ifs
    · rw [set_server_down_trackers_at e _ i t hmem]; simp [hm]
    · exact hmem
  · rw [set_server_up_chain]
    split_ifs
    · rw [set_server_up_trackers_at e _ i t hmem]; simp [hm]
    · exact hmem

/-- Claim C8, witness: a running server going down with one tracker in
MAINTAIN; the tracker keeps its `health = 3`. -/
theorem maintain_tracker_untouched_witness :
    ((set_server_down {} .check
      ⟨{ state := { RUNNING := true }, check := { rise := 2, fall := 3, health := 2 } },
        [⟨{ state := { RUNNING := true, MAINTAIN := true }, track := true,
            check := { rise := 2, fall := 3, health := 3 } }, []⟩]⟩).trackers[0]?.map
      (fun t => t.core.check.health)) = some 3 := by
  rw [(maintain_tracker_untouched {} .check
    ⟨{ state := { RUNNING := true }, check := { rise := 2, fall := 3, health := 2 } },
      [⟨{ state := { RUNNING := true, MAINTAIN := true }, track := true,
          check := { rise := 2, fall := 3, health := 3 } }, []⟩]⟩ 0
    ⟨{ state := { RUNNING := true, MAINTAIN := true }, track := true,
       check := { rise := 2, fall := 3, health := 3 } }, []⟩ rfl rfl).1]
  rfl

/-- A tracking server outside maintenance that is told to go down does so:
RUNNING and GOINGDOWN cleared, health of its check at zero. -/
theorem tracker_goes_down (e : Env) (a : Server)
    (htrack : a.core.track = true) (hm : a.core.state.MAINTAIN = false) :
    (set_server_down e .check a).core.state.RUNNING = false ∧
    (set_server_down e .check a).core.state.GOINGDOWN = false ∧
    (set_server_down e .check a).core.check.health = 0 := by
  rw [set_server_down_core]
  have h1 : maintain_health .check a.core = a.core := by simp [maintain_health, hm]
  have h2 : down_transition .check a.core = true := by simp [down_transition, htrack]
  rw [h1, if_pos h2]
  simp [mark_down, ServerData.setHealth, ServerData.setChk]

/-- A tracking server outside maintenance that is told to go up does so. -/
theorem tracker_goes_up (e : Env) (a : Server)
    (htrack : a.core.track = true) (hm : a.core.state.MAINTAIN = false) :
    (set_server_up e .check a).core.state.RUNNING = true := by
  rw [set_server_up_core]
  have h1 : maintain_health .check a.core = a.core := by simp [maintain_health, hm]
  have h2 : up_transition a.core = true := by simp [up_transition, htrack]
  rw [h1, if_pos h2]
  simp only [health_ok_now, mark_up, ServerData.setHealth, ServerData.setChk, ServerData.chk]
  split_ifs <;> rfl

/-- Claim C9: synchronous tracker propagation.  Let `a` sit in the tracker
chain of `b` (at position `i`), track it (`a->track` set) and not be in
MAINTAIN.  If `set_server_down` on a check of `b` performs the transition of
`b` (`b` RUNNING with `health = rise`), then when the call returns `a` has
RUNNING and GOINGDOWN cleared and `a.check.health = 0`.  If `set_server_up`
on a check of `b` performs the transition of `b`, then `a` is RUNNING when
the call returns. -/
theorem tracker_follows_in_same_call (e : Env) (sel : CheckSel) (b a : Server) (i : Nat)
    (hmem : b.trackers[i]? = some a)
    (htrack : a.core.track = true) (hm : a.core.state.MAINTAIN = false) :
    (b.core.state.RUNNING = true → (b.core.chk sel).health = (b.core.chk sel).rise →
      ∃ a', (set_server_down e sel b).trackers[i]? = some a' ∧
        a'.core.state.RUNNING = false ∧ a'.core.state.GOINGDOWN = false ∧
        a'.core.check.health = 0) ∧
    (up_transition (maintain_health sel b.core) = true →
      ∃ a', (set_server_up e sel b).trackers[i]? = some a' ∧
        a'.core.state.RUNNING = true) := by
  constructor
  · intro hrun hat
    have hd : down_transition sel (maintain_health sel b.core) = true := by
      have : (maintain_health sel b.core).state.RUNNING = true ∧
          ((maintain_health sel b.core).chk sel).health =
            ((maintain_health sel b.core).chk sel).rise := by
        unfold maintain_health
        split_ifs <;> cases sel <;>
          simp_all [ServerData.setHealth, ServerData.setChk, ServerData.chk]
      simp [down_transition, this.1, this.2]
    refine ⟨set_server_down e .check a, ?_, tracker_goes_down e a htrack hm⟩
    rw [set_server_down_chain, if_pos hd, set_server_down_trackers_at e _ i a hmem]
    simp [hm]
  · intro hu
    refine ⟨set_server_up e .check a, ?_, tracker_goes_up e a htrack hm⟩
    rw [set_server_up_chain, if_pos hu, set_server_up_trackers_at e _ i a hmem]
    simp [hm]

/-- Claim C9, witness: `b` runs at `health = rise = 2` and is set down; its
tracker `a`, running at full health, is down when the call returns. -/
theorem tracker_follows_in_same_call_witness :
    ∃ a', (set_server_down {} .check
      ⟨{ state := { RUNNING := true }, check := { rise := 2, fall := 3, health := 2 } },
        [⟨{ state := { RUNNING := true, GOINGDOWN := true }, track := true,
            check := { rise := 1, fall := 2, health := 2 } }, []⟩]⟩).trackers[0]? = some a' ∧
      a'.core.state.RUNNING = false ∧ a'.core.state.GOINGDOWN = false ∧
      a'.core.check.health = 0 :=
  (tracker_follows_in_same_call {} .check
    ⟨{ state := { RUNNING := true }, check := { rise := 2, fall := 3, health := 2 } },
      [⟨{ state := { RUNNING := true, GOINGDOWN := true }, track := true,
          check := { rise := 1, fall := 2, health := 2 } }, []⟩]⟩
    ⟨{ state := { RUNNING := true, GOINGDOWN := true }, track := true,
       check := { rise := 1, fall := 2, health := 2 } }, []⟩ 0 rfl rfl rfl).1 rfl rfl

/-- A check that keeps `rise`, `fall` and `health` keeps its bounds. -/
theorem healthKept_of_eq (a b : Check) (h1 : b.rise = a.rise) (h2 : b.fall = a.fall)
    (h3 : b.health = a.health) : HealthKept a b := by
  refine ⟨h1, h2, ?_⟩
  unfold Check.healthOK
  rw [h1, h2, h3]
  exact id

/-- `HealthKept` composes. -/
theorem healthKept_trans {a b c : Check} (h1 : HealthKept a b) (h2 : HealthKept b c) :
    HealthKept a c :=
  ⟨h2.1.trans h1.1, h2.2.1.trans h1.2.1, fun h => h2.2.2 (h1.2.2 h)⟩

/-- `CoreKept` is reflexive. -/
theorem coreKept_refl (s : ServerData) : CoreKept s s :=
  ⟨healthKept_of_eq _ _ rfl rfl rfl, healthKept_of_eq _ _ rfl rfl rfl⟩

/-- `CoreKept` composes. -/
theorem coreKept_trans {a b c : ServerData} (h1 : CoreKept a b) (h2 : CoreKept b c) :
    CoreKept a c :=
  ⟨healthKept_trans h1.1 h2.1, healthKept_trans h1.2 h2.2⟩

/-- A server record with the same two checks. -/
theorem coreKept_of_eq (s s' : ServerData) (h1 : s'.check = s.check) (h2 : s'.agent = s.agent) :
    CoreKept s s' := by
  unfold CoreKept
  rw [h1, h2]
  exact coreKept_refl s

/-- Assigning a health within the bounds keeps the bounds. -/
theorem coreKept_setHealth (s : ServerData) (sel : CheckSel) (h : Int)
    (hb : (s.chk sel).healthOK → 0 ≤ h ∧ h ≤ (s.chk sel).rise + (s.chk sel).fall - 1) :
    CoreKept s (s.setHealth sel h) := by
  cases sel
  · refine ⟨⟨rfl, rfl, fun hok => ?_⟩, healthKept_of_eq _ _ rfl rfl rfl⟩
    obtain ⟨h1, h2⟩ := hb hok
    exact ⟨hok.1, hok.2.1, h1, h2⟩
  · refine ⟨healthKept_of_eq _ _ rfl rfl rfl, ⟨rfl, rfl, fun hok => ?_⟩⟩
    obtain ⟨h1, h2⟩ := hb hok
    exact ⟨hok.1, hok.2.1, h1, h2⟩

/-- Forcing the health to `rise` in maintenance keeps the bounds. -/
theorem coreKept_maintain_health (sel : CheckSel) (s : ServerData) :
    CoreKept s (maintain_health sel s) := by
  unfold maintain_health
  split_ifs
  · exact coreKept_setHealth s sel _ (fun hok => by
      obtain ⟨h1, h2, _, _⟩ := hok
      constructor <;> omega)
  · exact coreKept_refl s

/-- Raising the health to `rise + fall - 1` keeps the bounds. -/
theorem coreKept_health_ok_now (sel : CheckSel) (s : ServerData) :
    CoreKept s (health_ok_now sel s) := by
  unfold health_ok_now
  split_ifs
  · exact coreKept_setHealth s sel _ (fun hok => by
      obtain ⟨h1, h2, _, _⟩ := hok
      constructor <;> omega)
  · exact coreKept_refl s

/-- Resetting the health to zero keeps the bounds. -/
theorem coreKept_zero (sel : CheckSel) (s : ServerData) : CoreKept s (s.setHealth sel 0) :=
  coreKept_setHealth s sel 0 (fun hok => by
    obtain ⟨h1, h2, _, _⟩ := hok
    constructor <;> omega)

/-- The writes of a down transition touch no check. -/
theorem coreKept_mark_down (e : Env) (s : ServerData) : CoreKept s (mark_down e s) :=
  coreKept_of_eq _ _ rfl rfl

/-- The writes of an up transition touch no health. -/
theorem coreKept_mark_up (e : Env) (s : ServerData) : CoreKept s (mark_up e s) :=
  ⟨healthKept_of_eq _ _ rfl rfl rfl, healthKept_of_eq _ _ rfl rfl rfl⟩

/-- The relation on the check lists of two chains, one after the other. -/
theorem kept_append {l1 l2 m1 m2 : List Check} (h1 : List.Forall₂ HealthKept l1 l2)
    (h2 : List.Forall₂ HealthKept m1 m2) : List.Forall₂ HealthKept (l1 ++ m1) (l2 ++ m2) := by
  induction h1 with
  | nil => simpa using h2
  | cons h _ ih => exact List.Forall₂.cons h ih

/-- The relation of a check list with itself. -/
theorem kept_refl (l : List Check) : List.Forall₂ HealthKept l l := by
  induction l with
  | nil => exact List.Forall₂.nil
  | cons a l ih => exact List.Forall₂.cons (healthKept_of_eq _ _ rfl rfl rfl) ih

/-- The relation on check lists composes. -/
theorem kept_trans {l1 l2 l3 : List Check} (h1 : List.Forall₂ HealthKept l1 l2)
    (h2 : List.Forall₂ HealthKept l2 l3) : List.Forall₂ HealthKept l1 l3 := by
  induction h1 generalizing l3 with
  | nil => cases h2; exact List.Forall₂.nil
  | cons h _ ih =>
    cases h2 with
    | cons g gs => exact List.Forall₂.cons (healthKept_trans h g) (ih gs)

/-- The checks below a server, from its record and its chain. -/
theorem kept_node {s s' : ServerData} {ts ts' : List Server} (hc : CoreKept s s')
    (ht : List.Forall₂ HealthKept (checks_of_trackers ts) (checks_of_trackers ts')) :
    List.Forall₂ HealthKept (Server.checks ⟨s, ts⟩) (Server.checks ⟨s', ts'⟩) := by
  simp only [Server.checks]
  exact List.Forall₂.cons hc.1 (List.Forall₂.cons hc.2 ht)

/-- A change of the server record alone. -/
theorem kept_core (srv : Server) (s' : ServerData) (hc : CoreKept srv.core s') :
    List.Forall₂ HealthKept srv.checks (Server.checks ⟨s', srv.trackers⟩) := by
  obtain ⟨s, ts⟩ := srv
  exact kept_node hc (kept_refl _)

mutual
/-- `set_server_down` keeps the health bounds of every check below the
server. -/
theorem set_server_down_kept (e : Env) (sel : CheckSel) :
    ∀ srv : Server, List.Forall₂ HealthKept srv.checks (set_server_down e sel srv).checks
  | ⟨s, ts⟩ => by
    simp only [set_server_down]
    split_ifs
    · exact kept_node
        (coreKept_trans (coreKept_maintain_health sel s)
          (coreKept_trans (coreKept_mark_down e _) (coreKept_zero sel _)))
        (set_server_down_trackers_kept e ts)
    · exact kept_node (coreKept_trans (coreKept_maintain_health sel s) (coreKept_zero sel _))
        (kept_refl _)
/-- The loop of `set_server_down` keeps the health bounds along the chain. -/
theorem set_server_down_trackers_kept (e : Env) :
    ∀ ts : List Server, List.Forall₂ HealthKept (checks_of_trackers ts)
      (checks_of_trackers (set_server_down_trackers e ts))
  | [] => by simp [set_server_down_trackers, checks_of_trackers]
  | t :: ts => by
    simp only [set_server_down_trackers, checks_of_trackers]
    refine kept_append ?_ (set_server_down_trackers_kept e ts)
    split_ifs
    · exact set_server_down_kept e .check t
    · exact kept_refl _
end

mutual
/-- `set_server_up` keeps the health bounds of every check below the
server. -/
theorem set_server_up_kept (e : Env) (sel : CheckSel) :
    ∀ srv : Server, List.Forall₂ HealthKept srv.checks (set_server_up e sel srv).checks
  | ⟨s, ts⟩ => by
    simp only [set_server_up]
    split_ifs
    · exact kept_node
        (coreKept_trans (coreKept_maintain_health sel s)
          (coreKept_trans (coreKept_mark_up e _) (coreKept_health_ok_now sel _)))
        (set_server_up_trackers_kept e ts)
    · exact kept_node
        (coreKept_trans (coreKept_maintain_health sel s) (coreKept_health_ok_now sel _))
        (kept_refl _)
/-- The loop of `set_server_up` keeps the health bounds along the chain. -/
theorem set_server_up_trackers_kept (e : Env) :
    ∀ ts : List Server, List.Forall₂ HealthKept (checks_of_trackers ts)
      (checks_of_trackers (set_server_up_trackers e ts))
  | [] => by simp [set_server_up_trackers, checks_of_trackers]
  | t :: ts => by
    simp only [set_server_up_trackers, checks_of_trackers]
    refine kept_append ?_ (set_server_up_trackers_kept e ts)
    split_ifs
    · exact set_server_up_kept e .check t
    · exact kept_refl _
end

mutual
/-- `set_server_disabled` touches no check. -/
theorem set_server_disabled_kept :
    ∀ srv : Server, List.Forall₂ HealthKept srv.checks (set_server_disabled srv).checks
  | ⟨s, ts⟩ => by
    simp only [set_server_disabled]
    exact kept_node (coreKept_of_eq _ _ rfl rfl) (set_server_disabled_trackers_kept ts)
/-- The loop of `set_server_disabled` touches no check. -/
theorem set_server_disabled_trackers_kept :
    ∀ ts : List Server, List.Forall₂ HealthKept (checks_of_trackers ts)
      (checks_of_trackers (set_server_disabled_trackers ts))
  | [] => by simp [set_server_disabled_trackers, checks_of_trackers]
  | t :: ts => by
    simp only [set_server_disabled_trackers, checks_of_trackers]
    exact kept_append (set_server_disabled_kept t) (set_server_disabled_trackers_kept ts)
end

mutual
/-- `set_server_enabled` touches no check. -/
theorem set_server_enabled_kept :
    ∀ srv : Server, List.Forall₂ HealthKept srv.checks (set_server_enabled srv).checks
  | ⟨s, ts⟩ => by
    simp only [set_server_enabled]
    exact kept_node (coreKept_of_eq _ _ rfl rfl) (set_server_enabled_trackers_kept ts)
/-- The loop of `set_server_enabled` touches no check. -/
theorem set_server_enabled_trackers_kept :
    ∀ ts : List Server, List.Forall₂ HealthKept (checks_of_trackers ts)
      (checks_of_trackers (set_server_enabled_trackers ts))
  | [] => by simp [set_server_enabled_trackers, checks_of_trackers]
  | t :: ts => by
    simp only [set_server_enabled_trackers, checks_of_trackers]
    exact kept_append (set_server_enabled_kept t) (set_server_enabled_trackers_kept ts)
end

/-- `check_failed` keeps the health bounds of every check below the
server. -/
theorem check_failed_kept (e : Env) (sel : CheckSel) (srv : Server) :
    List.Forall₂ HealthKept srv.checks (check_failed e sel srv).checks := by
  unfold check_failed
  simp only
  split_ifs with h1 h2
  · exact kept_refl _
  · refine kept_core srv _ (coreKept_trans
      (coreKept_setHealth srv.core sel ((srv.core.chk sel).health - 1) (fun hok => ?_))
      (coreKept_of_eq _ _ rfl rfl))
    obtain ⟨g1, g2, g3, g4⟩ := hok
    constructor <;> omega
  · exact set_server_down_kept e sel srv

/-- The clearing of `CHK_ST_INPROGRESS` touches no health. -/
theorem clear_inprogress_kept (sel : CheckSel) (srv : Server) :
    List.Forall₂ HealthKept srv.checks (clear_inprogress sel srv).checks := by
  refine kept_core srv _ ?_
  cases sel <;>
    exact ⟨healthKept_of_eq _ _ rfl rfl rfl, healthKept_of_eq _ _ rfl rfl rfl⟩

/-- The load-balancing block of `process_chk` touches no check. -/
theorem disable404_adjust_kept (sel : CheckSel) (srv : Server) :
    List.Forall₂ HealthKept srv.checks (disable404_adjust sel srv).checks := by
  unfold disable404_adjust
  simp only
  split_ifs
  · exact set_server_enabled_kept srv
  · exact set_server_disabled_kept srv
  · exact kept_refl _
  · exact kept_refl _

/-- The result handling of `process_chk` keeps the health bounds of every
check below the server. -/
theorem process_chk_result_kept (e : Env) (sel : CheckSel) (srv : Server) :
    List.Forall₂ HealthKept srv.checks (process_chk_result e sel srv).checks := by
  unfold process_chk_result
  simp only
  refine kept_trans ?_ (clear_inprogress_kept sel _)
  split_ifs with h1 h2
  · exact check_failed_kept e sel srv
  · refine kept_trans (disable404_adjust_kept sel srv) (kept_trans ?_ (set_server_up_kept e sel _))
    refine kept_core _ _ (coreKept_setHealth _ sel _ (fun hok => ?_))
    obtain ⟨g1, g2, g3, g4⟩ := hok
    have := h2.2
    constructor <;> omega
  · exact disable404_adjust_kept sel srv

/-- `set_server_check_status` touches no health, `rise` or `fall`. -/
theorem coreKept_set_server_check_status (e : Env) (sel : CheckSel) (st : Nat)
    (desc : Option String) (s : ServerData) :
    CoreKept s (set_server_check_status e sel st desc s) := by
  have hrec : ∀ c : Check, (record_status e st desc c).rise = c.rise ∧
      (record_status e st desc c).fall = c.fall ∧
      (record_status e st desc c).health = c.health := by
    intro c
    unfold record_status
    simp only
    split_ifs <;> exact ⟨rfl, rfl, rfl⟩
  have hset : ∀ c : Check, c.rise = (s.chk sel).rise → c.fall = (s.chk sel).fall →
      c.health = (s.chk sel).health → CoreKept s (s.setChk sel c) := by
    intro c h1 h2 h3
    cases sel
    · exact ⟨healthKept_of_eq _ _ h1 h2 h3, healthKept_of_eq _ _ rfl rfl rfl⟩
    · exact ⟨healthKept_of_eq _ _ rfl rfl rfl, healthKept_of_eq _ _ h1 h2 h3⟩
  obtain ⟨r1, r2, r3⟩ := hrec (s.chk sel)
  unfold set_server_check_status
  simp only
  split_ifs
  · exact hset _ rfl rfl rfl
  · exact coreKept_refl s
  · exact hset _ r1 r2 r3
  · exact coreKept_trans (hset _ r1 r2 r3) (coreKept_of_eq _ _ rfl rfl)
  · exact hset _ r1 r2 r3
  · exact hset _ r1 r2 r3

/-- The end of `__health_adjust` touches no health. -/
theorem hana_finish_kept (e : Env) (srv : Server) :
    List.Forall₂ HealthKept srv.checks (hana_finish e srv).checks := by
  unfold hana_finish
  simp only
  refine kept_core srv _ ?_
  split_ifs <;>
    exact ⟨healthKept_of_eq _ _ rfl rfl rfl, healthKept_of_eq _ _ rfl rfl rfl⟩

/-- Every `onerror` reaction of `__health_adjust` keeps the health bounds of
every check below the server. -/
theorem hana_react_kept (e : Env) (status : Nat) (srv : Server) :
    List.Forall₂ HealthKept srv.checks (hana_react e status srv).checks := by
  unfold hana_react
  simp only
  split_ifs with h1 h2 h3 h4 h5
  · exact kept_refl _
  · refine kept_trans (kept_core srv _ (coreKept_trans
      (coreKept_setHealth srv.core .check (srv.core.check.rise + 1) (fun hok => ?_))
      (coreKept_set_server_check_status e .check _ _ _))) (check_failed_kept e .check _)
    obtain ⟨g1, g2, g3, g4⟩ := hok
    simp only [ServerData.chk] at g1 g2 g3 g4 ⊢
    constructor <;> omega
  · exact kept_trans (kept_core srv _ (coreKept_set_server_check_status e .check _ _ _))
      (check_failed_kept e .check _)
  · exact kept_trans (kept_core srv _ (coreKept_set_server_check_status e .check _ _ _))
      (check_failed_kept e .check _)
  · refine kept_trans (kept_core srv _ (coreKept_trans
      (coreKept_setHealth srv.core .check srv.core.check.rise (fun hok => ?_))
      (coreKept_set_server_check_status e .check _ _ _))) (set_server_down_kept e .check _)
    obtain ⟨g1, g2, g3, g4⟩ := hok
    simp only [ServerData.chk] at g1 g2 g3 g4 ⊢
    constructor <;> omega
  · exact kept_refl _

/-- The failure branch of `__health_adjust` keeps the health bounds of every
check below the server. -/
theorem hana_failed_kept (e : Env) (status : Nat) (srv : Server) :
    List.Forall₂ HealthKept srv.checks (hana_failed e status srv).checks := by
  unfold hana_failed
  simp only
  split_ifs
  · exact kept_core srv _ (coreKept_of_eq _ _ rfl rfl)
  · have a := kept_core srv
      { srv.core with consecutive_errors := srv.core.consecutive_errors + 1 }
      (coreKept_of_eq _ _ rfl rfl)
    have b := hana_react_kept e status
      ⟨{ srv.core with consecutive_errors := srv.core.consecutive_errors + 1 }, srv.trackers⟩
    have c := hana_finish_kept e (hana_react e status
      ⟨{ srv.core with consecutive_errors := srv.core.consecutive_errors + 1 }, srv.trackers⟩)
    exact kept_trans a (kept_trans b c)

/-- Whatever `__health_adjust` returns keeps the health bounds of every check
below the server. -/
theorem health_adjust_kept (e : Env) (status : Nat) (srv srv' : Server)
    (h : __health_adjust e status srv = some srv') :
    List.Forall₂ HealthKept srv.checks srv'.checks := by
  unfold __health_adjust at h
  simp only at h
  by_cases h1 : srv.core.observe ≥ HANA_OBS_SIZE
  · rw [if_pos h1] at h; cases h; exact kept_refl _
  · rw [if_neg h1] at h
    by_cases h2 : status ≥ HANA_STATUS_SIZE ∨ (analyze_statuses status).desc = none
    · rw [if_pos h2] at h; cases h; exact kept_refl _
    · rw [if_neg h2] at h
      split at h
      · cases h
      · split at h
        · cases h; exact hana_failed_kept e status srv
        · cases h; exact kept_core srv _ (coreKept_of_eq _ _ rfl rfl)
        · cases h; exact kept_refl _

/-- With observe mode on, `__health_adjust` returns a server. -/
theorem health_adjust_returns (e : Env) (status : Nat) (srv : Server)
    (hobs : srv.core.observe ≠ HANA_OBS_NONE) :
    ∃ srv', __health_adjust e status srv = some srv' := by
  unfold __health_adjust
  simp only
  by_cases h1 : srv.core.observe ≥ HANA_OBS_SIZE
  · rw [if_pos h1]; exact ⟨_, rfl⟩
  · rw [if_neg h1]
    by_cases h2 : status ≥ HANA_STATUS_SIZE ∨ (analyze_statuses status).desc = none
    · rw [if_pos h2]; exact ⟨_, rfl⟩
    · rw [if_neg h2]
      split
      · rename_i h0; exact absurd h0 hobs
      · split <;> exact ⟨_, rfl⟩

/-- Reading the relation on check lists at one position. -/
theorem kept_at {l1 l2 : List Check} (h : List.Forall₂ HealthKept l1 l2) (i : Nat) (c : Check)
    (hc : l1[i]? = some c) (hok : c.healthOK) :
    ∃ c', l2[i]? = some c' ∧ c'.rise = c.rise ∧ c'.fall = c.fall ∧ c'.healthOK := by
  induction h generalizing i with
  | nil => simp at hc
  | cons hab _ ih =>
    cases i with
    | zero =>
      simp only [List.getElem?_cons_zero, Option.some.injEq] at hc
      subst hc
      exact ⟨_, by simp, hab.1, hab.2.1, hab.2.2 hok⟩
    | succ i =>
      simp only [List.getElem?_cons_succ] at hc
      simpa using ih i hc

/-- Claim C1: health bound invariant.  Take any check below a server (its
own primary or agent check, or a check of a server of its tracker chains; `c`
at position `i` of `srv.checks`) with `rise >= 1`, `fall >= 1` and
`0 <= health <= rise + fall - 1` on entry.  After each of `check_failed`,
`set_server_down`, `set_server_up`, the result handling of `process_chk` and
`__health_adjust` (for every `onerror` mode and analysed status, whenever it
is entered with observe mode on) the same check has the same `rise` and
`fall` and its health is still within `[0, rise + fall - 1]`. -/
theorem health_bound_invariant (e : Env) (sel : CheckSel) (status : Nat) (srv : Server)
    (i : Nat) (c : Check) (hc : srv.checks[i]? = some c) (hok : c.healthOK) :
    (∃ c', (check_failed e sel srv).checks[i]? = some c' ∧
      c'.rise = c.rise ∧ c'.fall = c.fall ∧ c'.healthOK) ∧
    (∃ c', (set_server_down e sel srv).checks[i]? = some c' ∧
      c'.rise = c.rise ∧ c'.fall = c.fall ∧ c'.healthOK) ∧
    (∃ c', (set_server_up e sel srv).checks[i]? = some c' ∧
      c'.rise = c.rise ∧ c'.fall = c.fall ∧ c'.healthOK) ∧
    (∃ c', (process_chk_result e sel srv).checks[i]? = some c' ∧
      c'.rise = c.rise ∧ c'.fall = c.fall ∧ c'.healthOK) ∧
    (∀ srv', __health_adjust e status srv = some srv' →
      ∃ c', srv'.checks[i]? = some c' ∧ c'.rise = c.rise ∧ c'.fall = c.fall ∧ c'.healthOK) ∧
    (srv.core.observe ≠ HANA_OBS_NONE → ∃ srv', __health_adjust e status srv = some srv') :=
  ⟨kept_at (check_failed_kept e sel srv) i c hc hok,
   kept_at (set_server_down_kept e sel srv) i c hc hok,
   kept_at (set_server_up_kept e sel srv) i c hc hok,
   kept_at (process_chk_result_kept e sel srv) i c hc hok,
   fun srv' h => kept_at (health_adjust_kept e status srv srv' h) i c hc hok,
   health_adjust_returns e status srv⟩

/-- Claim C1, witness: a running server at `health = 4` (`rise = 2`,
`fall = 3`) observed at layer 7 with `onerror = SUDDTH` and a limit of one
error; its primary check is within bounds after `set_server_down` and after
an observed HTTP error. -/
theorem health_bound_invariant_witness :
    (∃ c', (set_server_down {} .check
        ⟨{ state := { RUNNING := true }, observe := HANA_OBS_LAYER7,
           onerror := HANA_ONERR_SUDDTH, consecutive_errors_limit := 1,
           check := { status := HCHK_STATUS_L7OKD, rise := 2, fall := 3, health := 4 } },
          []⟩).checks[0]? = some c' ∧
      c'.rise = 2 ∧ c'.fall = 3 ∧ c'.healthOK) ∧
    (∃ srv', __health_adjust {} HANA_STATUS_HTTP_STS
        ⟨{ state := { RUNNING := true }, observe := HANA_OBS_LAYER7,
           onerror := HANA_ONERR_SUDDTH, consecutive_errors_limit := 1,
           check := { status := HCHK_STATUS_L7OKD, rise := 2, fall := 3, health := 4 } },
          []⟩ = some srv') :=
  ⟨(health_bound_invariant {} .check HANA_STATUS_HTTP_STS
      ⟨{ state := { RUNNING := true }, observe := HANA_OBS_LAYER7,
         onerror := HANA_ONERR_SUDDTH, consecutive_errors_limit := 1,
         check := { status := HCHK_STATUS_L7OKD, rise := 2, fall := 3, health := 4 } },
        []⟩ 0 { status := HCHK_STATUS_L7OKD, rise := 2, fall := 3, health := 4 }
      rfl (by decide)).2.1,
   (health_bound_invariant {} .check HANA_STATUS_HTTP_STS
      ⟨{ state := { RUNNING := true }, observe := HANA_OBS_LAYER7,
         onerror := HANA_ONERR_SUDDTH, consecutive_errors_limit := 1,
         check := { status := HCHK_STATUS_L7OKD, rise := 2, fall := 3, health := 4 } },
        []⟩ 0 { status := HCHK_STATUS_L7OKD, rise := 2, fall := 3, health := 4 }
      rfl (by decide)).2.2.2.2.2 (by decide)⟩

/-! ### Error classifier -/

/-- The status that `record_status` writes. -/
theorem record_status_status (e : Env) (st : Nat) (desc : Option String) (c : Check) :
    (record_status e st desc c).status = st := by
  unfold record_status
  simp only
  split_ifs <;> rfl

/-- The result that `record_status` writes when the table has one. -/
theorem record_status_result (e : Env) (st : Nat) (desc : Option String) (c : Check)
    (h : (check_statuses st).result ≠ CHK_RES_UNKNOWN) :
    (record_status e st desc c).result = (check_statuses st).result := by
  have h' : (check_statuses st).result ≠ 0 := h
  unfold record_status
  simp only [if_pos h']
  split_ifs <;> rfl

/-- The status and result a call of `set_server_check_status` leaves in a
check whose status is non-zero. -/
theorem recorded_status (e : Env) (sel : CheckSel) (st : Nat) (desc : Option String)
    (s : ServerData) (h1 : st ≠ HCHK_STATUS_START) (h2 : (s.chk sel).status ≠ 0)
    (h3 : (check_statuses st).result ≠ CHK_RES_UNKNOWN) :
    ((set_server_check_status e sel st desc s).chk sel).status = st ∧
    ((set_server_check_status e sel st desc s).chk sel).result = (check_statuses st).result := by
  rw [set_server_check_status_chk e sel st desc s h1 h2]
  exact ⟨record_status_status e st desc _, record_status_result e st desc _ h3⟩

/-- Collecting the socket error leaves the connection-state bits alone and
never clears `CO_FL_ERROR`. -/
theorem retrieve_errno_flags (e : Env) (errno : Int) (conn : Connection) :
    (retrieve_errno_from_socket e errno conn).2.2.flags.CONNECTED = conn.flags.CONNECTED ∧
    (retrieve_errno_from_socket e errno conn).2.2.flags.WAIT_L4_CONN =
      conn.flags.WAIT_L4_CONN ∧
    (retrieve_errno_from_socket e errno conn).2.2.flags.WAIT_L6_CONN =
      conn.flags.WAIT_L6_CONN ∧
    (conn.flags.ERROR = true →
      (retrieve_errno_from_socket e errno conn).2.2.flags.ERROR = true) := by
  unfold retrieve_errno_from_socket
  simp only
  split_ifs <;> simp

/-- What `chk_report_conn_err` does to a check without a result: nothing
when the connection (after the socket error was collected) has no error and
the check has not expired, otherwise one call of `set_server_check_status`
with the status `conn_err_status` selects. -/
theorem chk_report_conn_err_unknown (e : Env) (sel : CheckSel) (errno_bck : Int)
    (expired : Bool) (conn : Connection) (s : ServerData)
    (hres : (s.chk sel).result = CHK_RES_UNKNOWN) :
    ∃ errno conn1,
      (conn1 = conn ∨ conn1 = (retrieve_errno_from_socket e errno_bck conn).2.2) ∧
      chk_report_conn_err e sel errno_bck expired conn s =
        (conn1,
          match conn_err_status conn1.flags expired (s.chk sel).type with
          | some st =>
            set_server_check_status e sel st
              (some (conn_err_msg e errno conn1 (conn_err_context e sel s))) s
          | none => s) := by
  have hres' : ¬ (s.chk sel).result ≠ CHK_RES_UNKNOWN := by simp [hres]
  unfold chk_report_conn_err
  simp only [if_neg hres']
  by_cases hb : errno_bck = 0 ∨ errno_bck = e.EAGAIN
  · simp only [if_pos hb]
    refine ⟨(retrieve_errno_from_socket e errno_bck conn).2.1,
      (retrieve_errno_from_socket e errno_bck conn).2.2, Or.inr rfl, ?_⟩
    split_ifs with hg
    · simp only [Bool.and_eq_true, Bool.not_eq_true'] at hg
      simp [conn_err_status, hg.1, hg.2]
    · rfl
  · simp only [if_neg hb]
    refine ⟨errno_bck, conn, Or.inl rfl, ?_⟩
    split_ifs with hg
    · simp only [Bool.and_eq_true, Bool.not_eq_true'] at hg
      simp [conn_err_status, hg.1, hg.2]
    · rfl

/-- Claim C11: error classifier.  For a check with result UNKNOWN and a
non-zero current status, let `f` be the flags of the connection as
`chk_report_conn_err` leaves them (it collects the pending socket error
first, which keeps CONNECTED, WAIT_L4_CONN and WAIT_L6_CONN and can only add
ERROR) and `c` the check on return.  WAIT_L4_CONN without CONNECTED gives
L4CON when ERROR is set and otherwise L4TOUT when expired; WAIT_L6_CONN
without CONNECTED (and not the previous case) gives L6RSP when ERROR is set
and otherwise L6TOUT when expired; otherwise ERROR gives SOCKERR; otherwise
expired gives L6TOUT for an SSL3-hello check and L7TOUT for every other type.
Each of these statuses comes with the result FAILED. -/
theorem conn_err_classifier (e : Env) (sel : CheckSel) (errno_bck : Int) (expired : Bool)
    (conn : Connection) (s : ServerData) (f : ConnFlags) (c : Check)
    (hres : (s.chk sel).result = CHK_RES_UNKNOWN) (hcur : (s.chk sel).status ≠ 0)
    (hf : f = (chk_report_conn_err e sel errno_bck expired conn s).1.flags)
    (hc : c = (chk_report_conn_err e sel errno_bck expired conn s).2.chk sel) :
    (f.CONNECTED = conn.flags.CONNECTED ∧ f.WAIT_L4_CONN = conn.flags.WAIT_L4_CONN ∧
      f.WAIT_L6_CONN = conn.flags.WAIT_L6_CONN ∧ (conn.flags.ERROR = true → f.ERROR = true)) ∧
    (f.WAIT_L4_CONN = true ∧ f.CONNECTED = false →
      (f.ERROR = true → c.status = HCHK_STATUS_L4CON ∧ c.result = CHK_RES_FAILED) ∧
      (f.ERROR = false → expired = true →
        c.status = HCHK_STATUS_L4TOUT ∧ c.result = CHK_RES_FAILED)) ∧
    (¬ (f.WAIT_L4_CONN = true ∧ f.CONNECTED = false) →
      f.WAIT_L6_CONN = true ∧ f.CONNECTED = false →
      (f.ERROR = true → c.status = HCHK_STATUS_L6RSP ∧ c.result = CHK_RES_FAILED) ∧
      (f.ERROR = false → expired = true →
        c.status = HCHK_STATUS_L6TOUT ∧ c.result = CHK_RES_FAILED)) ∧
    (¬ (f.WAIT_L4_CONN = true ∧ f.CONNECTED = false) →
      ¬ (f.WAIT_L6_CONN = true ∧ f.CONNECTED = false) →
      (f.ERROR = true → c.status = HCHK_STATUS_SOCKERR ∧ c.result = CHK_RES_FAILED) ∧
      (f.ERROR = false → expired = true →
        ((s.chk sel).type = .SSL3_CHK →
          c.status = HCHK_STATUS_L6TOUT ∧ c.result = CHK_RES_FAILED) ∧
        ((s.chk sel).type ≠ .SSL3_CHK →
          c.status = HCHK_STATUS_L7TOUT ∧ c.result = CHK_RES_FAILED))) := by
  obtain ⟨errno, conn1, hconn, heq⟩ :=
    chk_report_conn_err_unknown e sel errno_bck expired conn s hres
  rw [heq] at hf hc
  simp only at hf hc
  subst hf
  have key : ∀ st : Nat, conn_err_status conn1.flags expired (s.chk sel).type = some st →
      st ≠ HCHK_STATUS_START → (check_statuses st).result = CHK_RES_FAILED →
      c.status = st ∧ c.result = CHK_RES_FAILED := by
    intro st hst h1 h2
    rw [hst] at hc
    have h3 : (check_statuses st).result ≠ CHK_RES_UNKNOWN := by rw [h2]; decide
    obtain ⟨r1, r2⟩ := recorded_status e sel st
      (some (conn_err_msg e errno conn1 (conn_err_context e sel s))) s h1 hcur h3
    rw [hc, r1, r2, h2]
    exact ⟨rfl, rfl⟩
  refine ⟨?_, ?_, ?_, ?_⟩
  · rcases hconn with h | h
    · subst h; exact ⟨rfl, rfl, rfl, id⟩
    · subst h; exact retrieve_errno_flags e errno_bck conn
  · rintro ⟨h4, hco⟩
    refine ⟨fun he => key _ (by simp [conn_err_status, h4, hco, he]) (by decide) (by decide),
      fun he hx => key _ (by simp [conn_err_status, h4, hco, he, hx]) (by decide) (by decide)⟩
  · intro hn4 ⟨h6, hco⟩
    have h4 : conn1.flags.WAIT_L4_CONN = false := by
      cases h : conn1.flags.WAIT_L4_CONN
      · rfl
      · exact absurd ⟨h, hco⟩ hn4
    refine ⟨fun he => key _ (by simp [conn_err_status, h4, h6, hco, he]) (by decide) (by decide),
      fun he hx => key _ (by simp [conn_err_status, h4, h6, hco, he, hx]) (by decide)
        (by decide)⟩
  · intro hn4 hn6
    have h46 : (!conn1.flags.CONNECTED && conn1.flags.WAIT_L4_CONN) = false ∧
        (!conn1.flags.CONNECTED && conn1.flags.WAIT_L6_CONN) = false := by
      cases h1 : conn1.flags.CONNECTED <;> cases h2 : conn1.flags.WAIT_L4_CONN <;>
        cases h3 : conn1.flags.WAIT_L6_CONN <;> simp_all
    refine ⟨fun he => key _ (by simp [conn_err_status, h46.1, h46.2, he]) (by decide)
      (by decide), fun he hx => ⟨fun ht => key _
        (by simp [conn_err_status, h46.1, h46.2, he, hx, ht]) (by decide) (by decide),
      fun ht => key _ (by simp [conn_err_status, h46.1, h46.2, he, hx, ht]) (by decide)
        (by decide)⟩⟩

/-- Claim C11, witness: a connect that is refused (`WAIT_L4_CONN` and
`ERROR`, `errno` valid) on a check in status INI gives L4CON. -/
theorem conn_err_classifier_witness :
    ((chk_report_conn_err {} .check 111 false
        { flags := { ERROR := true, WAIT_L4_CONN := true } }
        { check := { status := HCHK_STATUS_INI, type := .HTTP_CHK } }).2.chk .check).status =
      HCHK_STATUS_L4CON ∧
    ((chk_report_conn_err {} .check 111 false
        { flags := { ERROR := true, WAIT_L4_CONN := true } }
        { check := { status := HCHK_STATUS_INI, type := .HTTP_CHK } }).2.chk .check).result =
      CHK_RES_FAILED :=
  ((conn_err_classifier {} .check 111 false
      { flags := { ERROR := true, WAIT_L4_CONN := true } }
      { check := { status := HCHK_STATUS_INI, type := .HTTP_CHK } }
      _ _ rfl (by decide) rfl rfl).2.1 ⟨by decide, by decide⟩).1 (by decide)

/-- Claim C12, counterexample: a check that PASSED with L7OKD, on a running
server that observes layer 4 with the reaction `fail-check` and a limit of
one error.  An error seen on the traffic makes `__health_adjust` call
`set_server_check_status` with HANA, and that function does not test the
result: the status becomes HANA and the result FAILED. -/
theorem health_adjust_overwrites_result :
    ((__health_adjust {} HANA_STATUS_L4_ERR
      ⟨{ state := { RUNNING := true }, observe := HANA_OBS_LAYER4,
         onerror := HANA_ONERR_FAILCHK, consecutive_errors_limit := 1,
         check := { state := { ENABLED := true }, status := HCHK_STATUS_L7OKD,
                    result := CHK_RES_PASSED, rise := 2, fall := 3, health := 4 } },
        []⟩).map fun r => (r.core.check.status, r.core.check.result)) =
      some (HCHK_STATUS_HANA, CHK_RES_FAILED) ∧
    CHK_RES_PASSED ≠ CHK_RES_UNKNOWN := by
  refine ⟨by decide, by decide⟩

/-- Claim C12 (amended): first classification wins against the error
classifier.  For every check whose result is
not UNKNOWN, `chk_report_conn_err` (whatever the connection flags, `errno`
and `expired`) returns at its first test: connection and server are
unchanged, in particular `check.status`, `check.result`, `check.desc` and
`check.duration`. -/
theorem first_classification_wins (e : Env) (sel : CheckSel) (errno_bck : Int)
    (expired : Bool) (conn : Connection) (s : ServerData)
    (hres : (s.chk sel).result ≠ CHK_RES_UNKNOWN) :
    chk_report_conn_err e sel errno_bck expired conn s = (conn, s) ∧
    ((chk_report_conn_err e sel errno_bck expired conn s).2.chk sel).status =
      (s.chk sel).status ∧
    ((chk_report_conn_err e sel errno_bck expired conn s).2.chk sel).result =
      (s.chk sel).result ∧
    ((chk_report_conn_err e sel errno_bck expired conn s).2.chk sel).desc =
      (s.chk sel).desc ∧
    ((chk_report_conn_err e sel errno_bck expired conn s).2.chk sel).duration =
      (s.chk sel).duration := by
  have h : chk_report_conn_err e sel errno_bck expired conn s = (conn, s) := by
    unfold chk_report_conn_err
    simp only [if_pos hres]
  rw [h]
  exact ⟨rfl, rfl, rfl, rfl, rfl⟩

/-- Claim C12, witness: a check that PASSED with L7OKD is not touched by a
later expiry on an errored connection. -/
theorem first_classification_wins_witness :
    ((chk_report_conn_err {} .check 0 true
        { flags := { ERROR := true, CONNECTED := true } }
        { check := { status := HCHK_STATUS_L7OKD, result := CHK_RES_PASSED,
                     type := .HTTP_CHK, desc := "OK" } }).2.chk .check).status =
      HCHK_STATUS_L7OKD :=
  (first_classification_wins {} .check 0 true
    { flags := { ERROR := true, CONNECTED := true } }
    { check := { status := HCHK_STATUS_L7OKD, result := CHK_RES_PASSED,
                 type := .HTTP_CHK, desc := "OK" } } (by decide)).2.1

/-! ### Probers -/

/-- Storing a code leaves the status of every check alone. -/
theorem chk_set_code_status (s : ServerData) (sel sel' : CheckSel) (c : Int) :
    ((s.setChk sel { s.chk sel with code := c }).chk sel').status = (s.chk sel').status := by
  cases sel <;> cases sel' <;> rfl

/-- What a reporting prober leaves in its check: it does not wait, and a
check whose status is non-zero gets the reported status and the result of
the table. -/
theorem run_probe_recorded (e : Env) (sel : CheckSel) (o : ProbeOutcome) (s : ServerData)
    (st : Nat) (d : Option String) (hv : o.verdict = .report sel st d)
    (h1 : st ≠ HCHK_STATUS_START) (h2 : (s.chk sel).status ≠ 0)
    (h3 : (check_statuses st).result ≠ CHK_RES_UNKNOWN) :
    (run_probe e sel o s).1 = false ∧
    ((run_probe e sel o s).2.chk sel).status = st ∧
    ((run_probe e sel o s).2.chk sel).result = (check_statuses st).result := by
  unfold run_probe
  simp only [hv, true_and]
  cases hc : o.code with
  | none => exact recorded_status e sel st d s h1 h2 h3
  | some c =>
    exact recorded_status e sel st d _ h1 (by rw [chk_set_code_status]; exact h2) h3

/-- The status-line test of the HTTP prober, spelled out. -/
theorem http_line_invalid_iff (bi : Buffer) :
    http_line_invalid bi = true ↔
      (bi.i < 13 ∨ bi.data.take 7 ≠ "HTTP/1.".toList ∨
        (bi.byte 12 ≠ ' ' ∧ bi.byte 12 ≠ '\r') ∨
        (bi.byte 9).isDigit = false ∨ (bi.byte 10).isDigit = false ∨
        (bi.byte 11).isDigit = false) := by
  unfold http_line_invalid
  simp only [Bool.or_eq_true, Bool.and_eq_true, decide_eq_true_eq, bne_iff_ne, ne_eq,
    Bool.not_eq_true']
  tauto

/-- Claim C13: HTTP response-line validation.  On every ingress buffer on
which the HTTP prober decides (`done` set, or at least 13 bytes), if the
buffer has fewer than 13 bytes, or does not start with `"HTTP/1."`, or byte
12 is neither space nor CR, or one of the bytes 9, 10, 11 is not a decimal
digit, then the prober reports L7RSP (a FAILED status) and the description it
passes is the buffer cut at its first CR, LF or terminating NUL; a check
whose status is non-zero then has status L7RSP and result FAILED. -/
theorem http_invalid_status_line (e : Env) (sel : CheckSel) (done : Bool) (s : ServerData)
    (hdec : done = true ∨ 13 ≤ (s.chk sel).bi.i)
    (hbad : (s.chk sel).bi.i < 13 ∨ (s.chk sel).bi.data.take 7 ≠ "HTTP/1.".toList ∨
      ((s.chk sel).bi.byte 12 ≠ ' ' ∧ (s.chk sel).bi.byte 12 ≠ '\r') ∨
      ((s.chk sel).bi.byte 9).isDigit = false ∨ ((s.chk sel).bi.byte 10).isDigit = false ∨
      ((s.chk sel).bi.byte 11).isDigit = false) :
    http_chk_outcome e sel done s =
      ⟨none, .report sel HCHK_STATUS_L7RSP
        (some (String.mk ((s.chk sel).bi.data.takeWhile
          (fun c => c != '\r' && c != '\n' && c != '\x00'))))⟩ ∧
    (check_statuses HCHK_STATUS_L7RSP).result = CHK_RES_FAILED ∧
    ((s.chk sel).status ≠ 0 →
      (run_probe e sel (http_chk_outcome e sel done s) s).1 = false ∧
      ((run_probe e sel (http_chk_outcome e sel done s) s).2.chk sel).status =
        HCHK_STATUS_L7RSP ∧
      ((run_probe e sel (http_chk_outcome e sel done s) s).2.chk sel).result =
        CHK_RES_FAILED) := by
  have hinv : http_line_invalid (s.chk sel).bi = true := (http_line_invalid_iff _).mpr hbad
  have hw : (!done && decide ((s.chk sel).bi.i < 13)) = false := by
    rcases hdec with h | h
    · simp [h]
    · have : ¬ (s.chk sel).bi.i < 13 := by omega
      simp [this]
  have hout : http_chk_outcome e sel done s =
      ⟨none, .report sel HCHK_STATUS_L7RSP
        (some (String.mk ((s.chk sel).bi.data.takeWhile
          (fun c => c != '\r' && c != '\n' && c != '\x00'))))⟩ := by
    unfold http_chk_outcome
    simp only [hw, hinv, Bool.false_eq_true, if_false, if_true]
    rfl
  refine ⟨hout, by decide, fun hcur => ?_⟩
  exact run_probe_recorded e sel _ s HCHK_STATUS_L7RSP _ (by rw [hout]) (by decide) hcur
    (by decide)

/-- Claim C13, witness: a complete reply that is not HTTP. -/
theorem http_invalid_status_line_witness :
    http_chk_outcome {} .check true
      { check := { status := HCHK_STATUS_INI, type := .HTTP_CHK,
                   bi := { data := "SSH-2.0-x\r\n\x00".toList, i := 11 } } } =
      ⟨none, .report .check HCHK_STATUS_L7RSP (some "SSH-2.0-x")⟩ :=
  (http_invalid_status_line {} .check true
    { check := { status := HCHK_STATUS_INI, type := .HTTP_CHK,
                 bi := { data := "SSH-2.0-x\r\n\x00".toList, i := 11 } } }
    (Or.inl rfl) (Or.inl (by decide))).1

/-- A decimal digit has a code between 48 and 57. -/
theorem digit_bounds (c : Char) (h : c.isDigit = true) : 48 ≤ c.toNat ∧ c.toNat ≤ 57 := by
  simp only [Char.isDigit, Bool.and_eq_true, decide_eq_true_eq] at h
  obtain ⟨h1, h2⟩ := h
  have a : (48 : UInt32).toNat ≤ c.val.toNat := h1
  have b : c.val.toNat ≤ (57 : UInt32).toNat := h2
  exact ⟨a, b⟩

/-- A byte that is not NUL lies inside the storage area: the memory from
its offset on starts with it. -/
theorem drop_of_byte (bi : Buffer) (k : Nat) (h : bi.byte k ≠ '\x00') :
    bi.data.drop k = bi.byte k :: bi.data.drop (k + 1) := by
  unfold Buffer.byte at h ⊢
  by_cases hk : k < bi.data.length
  · rw [List.getD_eq_getElem _ _ hk]
    exact List.drop_eq_getElem_cons hk
  · exfalso
    apply h
    rw [List.getD_eq_default _ _ (by omega)]

/-- `str2uic` on three digits followed by something else. -/
theorem str2uic_three (a b c d : Char) (rest : List Char)
    (ha : a.isDigit = true) (hb : b.isDigit = true) (hc : c.isDigit = true)
    (hd : d.isDigit = false) :
    str2uic (a :: b :: c :: d :: rest) = decimal3 a b c := by
  obtain ⟨a1, a2⟩ := digit_bounds a ha
  obtain ⟨b1, b2⟩ := digit_bounds b hb
  obtain ⟨c1, c2⟩ := digit_bounds c hc
  simp only [str2uic, str2uic_loop, ha, hb, hc, hd, if_true, decimal3, Bool.false_eq_true,
    if_false]
  have e1 : (0 * 10 + (a.toNat - 48)) % 2 ^ 32 = a.toNat - 48 := by
    rw [Nat.mod_eq_of_lt (by omega)]; omega
  rw [e1]
  have e2 : ((a.toNat - 48) * 10 + (b.toNat - 48)) % 2 ^ 32 =
      (a.toNat - 48) * 10 + (b.toNat - 48) := by
    apply Nat.mod_eq_of_lt; omega
  rw [e2]
  have e3 : (((a.toNat - 48) * 10 + (b.toNat - 48)) * 10 + (c.toNat - 48)) % 2 ^ 32 =
      ((a.toNat - 48) * 10 + (b.toNat - 48)) * 10 + (c.toNat - 48) := by
    apply Nat.mod_eq_of_lt; omega
  rw [e3]
  ring

/-- On a well-formed status line `str2uic(data + 9)` is the decimal value
of the bytes 9 to 11. -/
theorem http_code_of_line (bi : Buffer)
    (h12 : bi.byte 12 = ' ' ∨ bi.byte 12 = '\r')
    (h9 : (bi.byte 9).isDigit = true) (h10 : (bi.byte 10).isDigit = true)
    (h11 : (bi.byte 11).isDigit = true) :
    str2uic (bi.data.drop 9) = http_code_value bi := by
  have n0 : ∀ c : Char, c.isDigit = true → c ≠ '\x00' := by
    intro c hc h0
    rw [h0] at hc
    exact absurd hc (by decide)
  have n12 : bi.byte 12 ≠ '\x00' := by
    rcases h12 with h | h <;> rw [h] <;> decide
  have d12 : (bi.byte 12).isDigit = false := by
    rcases h12 with h | h <;> rw [h] <;> decide
  rw [drop_of_byte bi 9 (n0 _ h9), drop_of_byte bi 10 (n0 _ h10),
    drop_of_byte bi 11 (n0 _ h11), drop_of_byte bi 12 n12]
  exact str2uic_three _ _ _ _ _ h9 h10 h11 d12

/-- The HTTP prober on a well-formed status line: the code it stores and
the branch it takes. -/
theorem http_chk_outcome_valid (e : Env) (sel : CheckSel) (done : Bool) (s : ServerData)
    (hlen : 13 ≤ (s.chk sel).bi.i)
    (hpre : (s.chk sel).bi.data.take 7 = "HTTP/1.".toList)
    (h12 : (s.chk sel).bi.byte 12 = ' ' ∨ (s.chk sel).bi.byte 12 = '\r')
    (h9 : ((s.chk sel).bi.byte 9).isDigit = true)
    (h10 : ((s.chk sel).bi.byte 10).isDigit = true)
    (h11 : ((s.chk sel).bi.byte 11).isDigit = true) :
    http_chk_outcome e sel done s =
      (if s.proxy.DISABLE404 && s.state.RUNNING &&
          ((http_code_value (s.chk sel).bi : Int) == 404) then
        ⟨some (http_code_value (s.chk sel).bi), .report sel HCHK_STATUS_L7OKCD
          (some (String.mk (cut_crlf (ltrim ((s.chk sel).bi.data.drop 12) ' '))))⟩
      else if s.proxy.EXP_TYPE != .NONE then
        ⟨some (http_code_value (s.chk sel).bi),
          httpchk_expect_verdict e
            (s.setChk sel { s.chk sel with code := http_code_value (s.chk sel).bi }) done⟩
      else if (s.chk sel).bi.byte 9 == '2' || (s.chk sel).bi.byte 9 == '3' then
        ⟨some (http_code_value (s.chk sel).bi), .report sel HCHK_STATUS_L7OKD
          (some (String.mk (cut_crlf (ltrim ((s.chk sel).bi.data.drop 12) ' '))))⟩
      else
        ⟨some (http_code_value (s.chk sel).bi), .report sel HCHK_STATUS_L7STS
          (some (String.mk (cut_crlf (ltrim ((s.chk sel).bi.data.drop 12) ' '))))⟩) := by
  have hinv : http_line_invalid (s.chk sel).bi = false := by
    rw [Bool.eq_false_iff]
    intro h
    rcases (http_line_invalid_iff _).mp h with h | h | h | h | h | h
    · omega
    · exact h hpre
    · rcases h12 with g | g
      · exact h.1 g
      · exact h.2 g
    · rw [h9] at h; exact absurd h (by decide)
    · rw [h10] at h; exact absurd h (by decide)
    · rw [h11] at h; exact absurd h (by decide)
  have hw : (!done && decide ((s.chk sel).bi.i < 13)) = false := by
    have : ¬ (s.chk sel).bi.i < 13 := by omega
    simp [this]
  unfold http_chk_outcome
  simp only [hw, hinv, Bool.false_eq_true, if_false, http_code_of_line _ h12 h9 h10 h11]

/-- `set_server_check_status` never touches `check->code`. -/
theorem set_server_check_status_code (e : Env) (t sel : CheckSel) (st : Nat)
    (d : Option String) (s : ServerData) :
    ((set_server_check_status e t st d s).chk sel).code = (s.chk sel).code := by
  have hrec : ∀ c : Check, (record_status e st d c).code = c.code := by
    intro c
    unfold record_status
    simp only
    split_ifs <;> rfl
  unfold set_server_check_status
  simp only
  split_ifs <;> cases t <;> cases sel <;>
    simp [ServerData.setChk, ServerData.chk, hrec]

/-- The result `set_server_check_status` leaves in any check of the server
is the one it had, the one of the table, or UNKNOWN. -/
theorem set_server_check_status_result (e : Env) (t sel : CheckSel) (st : Nat)
    (d : Option String) (s : ServerData) :
    ((set_server_check_status e t st d s).chk sel).result = (s.chk sel).result ∨
    ((set_server_check_status e t st d s).chk sel).result = (check_statuses st).result ∨
    ((set_server_check_status e t st d s).chk sel).result = CHK_RES_UNKNOWN := by
  have hrec : ∀ c : Check, (record_status e st d c).result = c.result ∨
      (record_status e st d c).result = (check_statuses st).result := by
    intro c
    unfold record_status
    simp only
    split_ifs <;> simp
  unfold set_server_check_status
  simp only
  split_ifs <;> cases t <;> cases sel <;>
    simp [ServerData.setChk, ServerData.chk] <;>
    first
      | exact (hrec s.check).elim Or.inl (fun h => Or.inr (Or.inl h))
      | exact (hrec s.agent).elim Or.inl (fun h => Or.inr (Or.inl h))

/-- The statuses the status-code rule can set. -/
theorem httpchk_expect_status_cases (e : Env) (s : ServerData) :
    ∃ st d, httpchk_expect_status e s = .report .check st d ∧
      (st = HCHK_STATUS_L7OKD ∨ st = HCHK_STATUS_L7STS) := by
  unfold httpchk_expect_status
  simp only
  split_ifs <;> first
    | exact ⟨_, _, rfl, Or.inl rfl⟩
    | exact ⟨_, _, rfl, Or.inr rfl⟩

/-- The body rule either waits, which it does only while `done` is not set,
or sets L7OKD or L7RSP. -/
theorem httpchk_expect_body_cases (e : Env) (s : ServerData) (done : Bool) :
    (httpchk_expect_body e s done = .wait_more_data ∧ done = false) ∨
    ∃ st d, httpchk_expect_body e s done = .report .check st d ∧
      (st = HCHK_STATUS_L7OKD ∨ st = HCHK_STATUS_L7RSP) := by
  unfold httpchk_expect_body
  simp only
  generalize httpchk_body_match e s (httpchk_find_body s.check.bi.data 0).2 = ret
  split_ifs <;> first
    | (left; exact ⟨rfl, by simp_all⟩)
    | (right; exact ⟨_, _, rfl, Or.inl rfl⟩)
    | (right; exact ⟨_, _, rfl, Or.inr rfl⟩)

/-- The statuses `httpchk_expect` can set, always on the primary check. -/
theorem httpchk_expect_verdict_status (e : Env) (s : ServerData) (done : Bool)
    (t : CheckSel) (st : Nat) (d : Option String)
    (h : httpchk_expect_verdict e s done = .report t st d) :
    t = .check ∧
    (st = HCHK_STATUS_L7OKD ∨ st = HCHK_STATUS_L7STS ∨ st = HCHK_STATUS_L7RSP) := by
  have hs : ∀ v, v = httpchk_expect_status e s → v = .report t st d → t = .check ∧
      (st = HCHK_STATUS_L7OKD ∨ st = HCHK_STATUS_L7STS ∨ st = HCHK_STATUS_L7RSP) := by
    intro v hv hr
    obtain ⟨st', d', h1, h2⟩ := httpchk_expect_status_cases e s
    rw [hv, h1] at hr
    cases hr
    exact ⟨rfl, h2.elim Or.inl (fun x => Or.inr (Or.inl x))⟩
  have hb : ∀ v, v = httpchk_expect_body e s done → v = .report t st d → t = .check ∧
      (st = HCHK_STATUS_L7OKD ∨ st = HCHK_STATUS_L7STS ∨ st = HCHK_STATUS_L7RSP) := by
    intro v hv hr
    rcases httpchk_expect_body_cases e s done with ⟨h1, _⟩ | ⟨st', d', h1, h2⟩
    · rw [hv, h1] at hr; cases hr
    · rw [hv, h1] at hr
      cases hr
      exact ⟨rfl, h2.elim Or.inl (fun x => Or.inr (Or.inr x))⟩
  unfold httpchk_expect_verdict at h
  split at h
  · cases h
  · exact hs _ rfl h
  · exact hs _ rfl h
  · exact hb _ rfl h
  · exact hb _ rfl h

/-- Carrying out an outcome that stores a code: the check has that code
afterwards, whatever the verdict. -/
theorem run_probe_code (e : Env) (sel : CheckSel) (o : ProbeOutcome) (s : ServerData)
    (c : Int) (hc : o.code = some c) :
    ((run_probe e sel o s).2.chk sel).code = c := by
  unfold run_probe
  simp only [hc]
  split
  · simp [chk_setChk]
  · rw [set_server_check_status_code]; simp [chk_setChk]
  · simp [chk_setChk]

/-- Claim C14: HTTP default verdict.  For every well-formed HTTP status line
(at least 13 bytes, `"HTTP/1."`, three digits at 9..11, space or CR at 12),
with no expect rule configured and the DISABLE404 condition not applying, the
prober stores the decimal value of the bytes 9..11 in `check->code` and
reports L7OKD (PASSED) if byte 9 is `2` or `3` and L7STS (FAILED) otherwise,
with the reason phrase as description; a check whose status is non-zero then
has that status and result. -/
theorem http_default_verdict (e : Env) (sel : CheckSel) (done : Bool) (s : ServerData)
    (hlen : 13 ≤ (s.chk sel).bi.i)
    (hpre : (s.chk sel).bi.data.take 7 = "HTTP/1.".toList)
    (h12 : (s.chk sel).bi.byte 12 = ' ' ∨ (s.chk sel).bi.byte 12 = '\r')
    (h9 : ((s.chk sel).bi.byte 9).isDigit = true)
    (h10 : ((s.chk sel).bi.byte 10).isDigit = true)
    (h11 : ((s.chk sel).bi.byte 11).isDigit = true)
    (hexp : s.proxy.EXP_TYPE = .NONE)
    (hdis : ¬ (s.proxy.DISABLE404 = true ∧ s.state.RUNNING = true ∧
      http_code_value (s.chk sel).bi = 404)) :
    http_chk_outcome e sel done s =
      ⟨some (http_code_value (s.chk sel).bi),
        .report sel
          (if (s.chk sel).bi.byte 9 = '2' ∨ (s.chk sel).bi.byte 9 = '3' then HCHK_STATUS_L7OKD
            else HCHK_STATUS_L7STS)
          (some (String.mk (cut_crlf (ltrim ((s.chk sel).bi.data.drop 12) ' '))))⟩ ∧
    ((run_probe e sel (http_chk_outcome e sel done s) s).2.chk sel).code =
      http_code_value (s.chk sel).bi ∧
    (check_statuses HCHK_STATUS_L7OKD).result = CHK_RES_PASSED ∧
    (check_statuses HCHK_STATUS_L7STS).result = CHK_RES_FAILED ∧
    ((s.chk sel).status ≠ 0 →
      ((run_probe e sel (http_chk_outcome e sel done s) s).2.chk sel).status =
        (if (s.chk sel).bi.byte 9 = '2' ∨ (s.chk sel).bi.byte 9 = '3' then HCHK_STATUS_L7OKD
          else HCHK_STATUS_L7STS) ∧
      ((run_probe e sel (http_chk_outcome e sel done s) s).2.chk sel).result =
        (if (s.chk sel).bi.byte 9 = '2' ∨ (s.chk sel).bi.byte 9 = '3' then CHK_RES_PASSED
          else CHK_RES_FAILED)) := by
  have hd : (s.proxy.DISABLE404 && s.state.RUNNING &&
      ((http_code_value (s.chk sel).bi : Int) == 404)) = false := by
    rw [Bool.eq_false_iff]
    intro h
    simp only [Bool.and_eq_true, beq_iff_eq] at h
    exact hdis ⟨h.1.1, h.1.2, by exact_mod_cast h.2⟩
  have hout : http_chk_outcome e sel done s =
      ⟨some (http_code_value (s.chk sel).bi),
        .report sel
          (if (s.chk sel).bi.byte 9 = '2' ∨ (s.chk sel).bi.byte 9 = '3' then HCHK_STATUS_L7OKD
            else HCHK_STATUS_L7STS)
          (some (String.mk (cut_crlf (ltrim ((s.chk sel).bi.data.drop 12) ' '))))⟩ := by
    rw [http_chk_outcome_valid e sel done s hlen hpre h12 h9 h10 h11]
    simp only [hd, hexp, Bool.false_eq_true, if_false, bne_self_eq_false, Bool.or_eq_true,
      beq_iff_eq]
    split_ifs <;> rfl
  refine ⟨hout, run_probe_code e sel _ s _ (by rw [hout]), by decide, by decide, fun hcur => ?_⟩
  by_cases h23 : (s.chk sel).bi.byte 9 = '2' ∨ (s.chk sel).bi.byte 9 = '3'
  · simp only [if_pos h23] at hout ⊢
    exact (run_probe_recorded e sel _ s HCHK_STATUS_L7OKD _ (by rw [hout]) (by decide) hcur
      (by decide)).2
  · simp only [if_neg h23] at hout ⊢
    exact (run_probe_recorded e sel _ s HCHK_STATUS_L7STS _ (by rw [hout]) (by decide) hcur
      (by decide)).2

/-- Claim C14, witness: `HTTP/1.1 503` gives code 503 and L7STS. -/
theorem http_default_verdict_witness :
    http_chk_outcome {} .check false
      { check := { status := HCHK_STATUS_INI, type := .HTTP_CHK,
                   bi := { data := "HTTP/1.1 503 \r\n\x00".toList, i := 15 } } } =
      ⟨some 503, .report .check HCHK_STATUS_L7STS (some "")⟩ :=
  (http_default_verdict {} .check false
    { check := { status := HCHK_STATUS_INI, type := .HTTP_CHK,
                 bi := { data := "HTTP/1.1 503 \r\n\x00".toList, i := 15 } } }
    (by decide) (by decide) (Or.inl (by decide)) (by decide) (by decide) (by decide) rfl
    (by decide)).1

/-- Claim C15: DISABLE404.  For every well-formed HTTP response whose code is
404: when the proxy has DISABLE404 set and the server is RUNNING the prober
reports L7OKCD, whose result is CONDPASS, whatever expect rule is configured;
when the server is not RUNNING or DISABLE404 is not set, whatever status the
prober reports has a result other than CONDPASS, and no check of the server
gets the result CONDPASS from it. -/
theorem http_disable404 (e : Env) (sel : CheckSel) (done : Bool) (s : ServerData)
    (hlen : 13 ≤ (s.chk sel).bi.i)
    (hpre : (s.chk sel).bi.data.take 7 = "HTTP/1.".toList)
    (h12 : (s.chk sel).bi.byte 12 = ' ' ∨ (s.chk sel).bi.byte 12 = '\r')
    (h9 : ((s.chk sel).bi.byte 9).isDigit = true)
    (h10 : ((s.chk sel).bi.byte 10).isDigit = true)
    (h11 : ((s.chk sel).bi.byte 11).isDigit = true)
    (h404 : http_code_value (s.chk sel).bi = 404) :
    (s.proxy.DISABLE404 = true → s.state.RUNNING = true →
      http_chk_outcome e sel done s =
        ⟨some 404, .report sel HCHK_STATUS_L7OKCD
          (some (String.mk (cut_crlf (ltrim ((s.chk sel).bi.data.drop 12) ' '))))⟩ ∧
      (check_statuses HCHK_STATUS_L7OKCD).result = CHK_RES_CONDPASS ∧
      ((s.chk sel).status ≠ 0 →
        ((run_probe e sel (http_chk_outcome e sel done s) s).2.chk sel).status =
          HCHK_STATUS_L7OKCD ∧
        ((run_probe e sel (http_chk_outcome e sel done s) s).2.chk sel).result =
          CHK_RES_CONDPASS)) ∧
    (s.proxy.DISABLE404 = false ∨ s.state.RUNNING = false →
      (∀ t st d, (http_chk_outcome e sel done s).verdict = .report t st d →
        (check_statuses st).result ≠ CHK_RES_CONDPASS) ∧
      (∀ sel', (s.chk sel').result ≠ CHK_RES_CONDPASS →
        ((run_probe e sel (http_chk_outcome e sel done s) s).2.chk sel').result ≠
          CHK_RES_CONDPASS)) := by
  have hval := http_chk_outcome_valid e sel done s hlen hpre h12 h9 h10 h11
  rw [h404] at hval
  have h4 : (((404 : Nat) : Int) == 404) = true := by decide
  constructor
  · intro hd hr
    have hout : http_chk_outcome e sel done s =
        ⟨some 404, .report sel HCHK_STATUS_L7OKCD
          (some (String.mk (cut_crlf (ltrim ((s.chk sel).bi.data.drop 12) ' '))))⟩ := by
      rw [hval]
      simp only [hd, hr, h4, Bool.and_self, if_true]
      rfl
    refine ⟨hout, by decide, fun hcur => ?_⟩
    exact (run_probe_recorded e sel _ s HCHK_STATUS_L7OKCD _ (by rw [hout]) (by decide) hcur
      (by decide)).2
  · intro hno
    have hd : (s.proxy.DISABLE404 && s.state.RUNNING && (((404 : Nat) : Int) == 404)) = false := by
      rcases hno with h | h <;> simp [h]
    have hverd : ∀ t st d, (http_chk_outcome e sel done s).verdict = .report t st d →
        (check_statuses st).result ≠ CHK_RES_CONDPASS := by
      intro t st d hv
      rw [hval] at hv
      simp only [hd, Bool.false_eq_true, if_false] at hv
      split_ifs at hv
      · obtain ⟨_, h | h | h⟩ := httpchk_expect_verdict_status e _ done t st d hv <;>
          (rw [h]; decide)
      · cases hv; decide
      · cases hv; decide
    refine ⟨hverd, fun sel' hres => ?_⟩
    have hcode : ∀ (c : Option Int),
        ((match c with
          | some c => s.setChk sel { s.chk sel with code := c }
          | none => s).chk sel').result = (s.chk sel').result := by
      intro c
      cases c <;> cases sel <;> cases sel' <;> rfl
    unfold run_probe
    simp only
    split
    · rw [hcode]; exact hres
    · rename_i t st d hv
      rcases set_server_check_status_result e t sel' st d
        (match (http_chk_outcome e sel done s).code with
          | some c => s.setChk sel { s.chk sel with code := c }
          | none => s) with h | h | h
      · rw [h, hcode]; exact hres
      · rw [h]; exact hverd t st d hv
      · rw [h]; decide
    · rw [hcode]; exact hres

/-- Claim C15, witness: a running server behind DISABLE404 answering 404,
with a status expect rule configured, gets L7OKCD. -/
theorem http_disable404_witness :
    http_chk_outcome {} .check false
      { state := { RUNNING := true },
        proxy := { DISABLE404 := true, EXP_TYPE := .STS, expect_str := "200" },
        check := { status := HCHK_STATUS_L7OKD, type := .HTTP_CHK,
                   bi := { data := "HTTP/1.1 404 Not Found\r\n\x00".toList, i := 24 } } } =
      ⟨some 404, .report .check HCHK_STATUS_L7OKCD (some "Not Found")⟩ :=
  ((http_disable404 {} .check false
    { state := { RUNNING := true },
      proxy := { DISABLE404 := true, EXP_TYPE := .STS, expect_str := "200" },
      check := { status := HCHK_STATUS_L7OKD, type := .HTTP_CHK,
                 bi := { data := "HTTP/1.1 404 Not Found\r\n\x00".toList, i := 24 } } }
    (by decide) (by decide) (Or.inl (by decide)) (by decide) (by decide) (by decide)
    (by decide)).1 rfl rfl).1

/-- A list without NUL is its own C string. -/
theorem cstr_of_no_nul (l : List Char) (h : ∀ c ∈ l, c ≠ '\x00') : cstr l = l := by
  unfold cstr
  rw [List.takeWhile_eq_self_iff]
  intro c hc
  simpa using h c hc

/-- `strncmp(a, b, n) == 0` when `b` holds exactly `n` bytes, none of them
NUL: the first `n` bytes of `a` are those of `b`. -/
theorem strncmp_eq_take (n : Nat) : ∀ (a b : List Char), b.length = n →
    (∀ c ∈ b, c ≠ '\x00') → strncmp_eq a b n = decide (a.take n = b) := by
  induction n with
  | zero =>
    intro a b hb _
    have : b = [] := List.length_eq_zero.mp hb
    subst this
    simp [strncmp_eq]
  | succ n ih =>
    intro a b hb hnz
    obtain ⟨y, b', rfl⟩ : ∃ y b', b = y :: b' := by
      cases b with
      | nil => simp at hb
      | cons y b' => exact ⟨y, b', rfl⟩
    have hy : y ≠ '\x00' := hnz y (by simp)
    have hb' : b'.length = n := by simpa using hb
    have hnz' : ∀ c ∈ b', c ≠ '\x00' := fun c hc => hnz c (by simp [hc])
    cases a with
    | nil =>
      have : ('\x00' != y) = true := by simpa using fun h => hy h.symm
      simp [strncmp_eq, this]
    | cons x a' =>
      by_cases hxy : x = y
      · subst hxy
        have h0 : (x == '\x00') = false := by simpa using hy
        simp [strncmp_eq, h0, ih a' b' hb' hnz']
      · have : (x != y) = true := by simpa using hxy
        simp [strncmp_eq, this, hxy]

/-- `strstr(hay, needle) != NULL` says that `needle` occurs in `hay`. -/
theorem strstr_iff (needle : List Char) : ∀ hay : List Char,
    strstr hay needle = true ↔ ∃ a b, hay = a ++ needle ++ b := by
  intro hay
  induction hay with
  | nil =>
    simp only [strstr, List.isEmpty_iff]
    constructor
    · intro h; exact ⟨[], [], by simp [h]⟩
    · rintro ⟨a, b, h⟩
      have := congrArg List.length h
      simp only [List.length_nil, List.length_append] at this
      exact List.length_eq_zero.mp (by omega)
  | cons c rest ih =>
    simp only [strstr, Bool.or_eq_true, List.isPrefixOf_iff_prefix, ih]
    constructor
    · rintro (⟨t, ht⟩ | ⟨a, b, h⟩)
      · exact ⟨[], t, by simp [ht]⟩
      · exact ⟨c :: a, b, by simp [h]⟩
    · rintro ⟨a, b, h⟩
      cases a with
      | nil => exact Or.inl ⟨b, by simpa using h.symm⟩
      | cons x a' =>
        simp only [List.cons_append, List.cons.injEq] at h
        exact Or.inr ⟨a', b, h.2⟩

/-- Once two LFs were counted the header parser stops where it stands. -/
theorem httpchk_find_body_stop (l : List Char) (k : Nat) (hk : 2 ≤ k) :
    httpchk_find_body l k = (k, l) := by
  cases l with
  | nil => rfl
  | cons c rest =>
    unfold httpchk_find_body
    split_ifs
    · rfl
    · rfl

/-- Where the header parser stops when it has counted two LFs: right after
an LF that follows an LF with nothing but CRs in between. -/
theorem httpchk_find_body_position : ∀ (l : List Char) (k c : Nat) (body : List Char),
    httpchk_find_body l k = (c, body) → k < 2 → 2 ≤ c →
    (∃ pre crs, l = pre ++ '\n' :: (crs ++ '\n' :: body) ∧ ∀ x ∈ crs, x = '\r') ∨
    (k = 1 ∧ ∃ crs, l = crs ++ '\n' :: body ∧ ∀ x ∈ crs, x = '\r') := by
  intro l
  induction l with
  | nil =>
    intro k c body h hk hc
    simp only [httpchk_find_body, Prod.mk.injEq] at h
    omega
  | cons x rest ih =>
    intro k c body h hk hc
    unfold httpchk_find_body at h
    have hk2 : ¬ k ≥ 2 := by omega
    by_cases h0 : (x == '\x00') = true
    · simp only [h0, if_true, Prod.mk.injEq] at h
      omega
    · simp only [h0, hk2, Bool.false_eq_true, if_false] at h
      by_cases hcr : (x == '\r') = true
      · simp only [hcr, if_true] at h
        have hx : x = '\r' := by simpa using hcr
        rcases ih k c body h hk hc with ⟨pre, crs, h1, h2⟩ | ⟨hk1, crs, h1, h2⟩
        · exact Or.inl ⟨x :: pre, crs, by simp [h1], h2⟩
        · refine Or.inr ⟨hk1, x :: crs, by simp [h1], ?_⟩
          intro y hy
          rcases List.mem_cons.mp hy with h | h
          · rw [h, hx]
          · exact h2 y h
      · simp only [hcr, Bool.false_eq_true, if_false] at h
        by_cases hlf : (x == '\n') = true
        · simp only [hlf, if_true] at h
          have hx : x = '\n' := by simpa using hlf
          by_cases hk0 : k = 0
          · subst hk0
            rcases ih 1 c body h (by omega) hc with ⟨pre, crs, h1, h2⟩ | ⟨_, crs, h1, h2⟩
            · exact Or.inl ⟨x :: pre, crs, by simp [h1], h2⟩
            · exact Or.inl ⟨[], crs, by simp [h1, hx], h2⟩
          · have hk1 : k = 1 := by omega
            subst hk1
            rw [httpchk_find_body_stop rest 2 (by omega)] at h
            simp only [Prod.mk.injEq] at h
            refine Or.inr ⟨rfl, [], by simp [hx, h.2], by simp⟩
        · simp only [hlf, Bool.false_eq_true, if_false] at h
          rcases ih 0 c body h (by omega) hc with ⟨pre, crs, h1, h2⟩ | ⟨hk1, _⟩
          · exact Or.inl ⟨x :: pre, crs, by simp [h1], h2⟩
          · omega

/-- The return value and the server of `httpchk_expect` when its verdict is
a status. -/
theorem httpchk_expect_of_report (e : Env) (s : ServerData) (done : Bool) (t : CheckSel)
    (st : Nat) (d : Option String) (h : httpchk_expect_verdict e s done = .report t st d) :
    httpchk_expect e s done = (1, set_server_check_status e t st d s) := by
  unfold httpchk_expect
  rw [h]

/-- Claim C16: HTTP status expect rule (STS).  For every response whose
status region `c` (the bytes 9..11, three decimal digits) and every expected
literal `e`, `httpchk_expect` returns 1 and sets L7OKD when (`c` equals the
first 3 bytes of `e`) differs from the INV flag, and L7STS otherwise; in both
cases the description is `"HTTP status check returned code <NNN>"` with `NNN`
replaced by `c`.  A primary check whose status is non-zero then has that
status, with result PASSED or FAILED. -/
theorem http_status_expect (e : Env) (s : ServerData) (done : Bool)
    (htype : s.proxy.EXP_TYPE = .STS)
    (h9 : (s.check.bi.byte 9).isDigit = true) (h10 : (s.check.bi.byte 10).isDigit = true)
    (h11 : (s.check.bi.byte 11).isDigit = true) :
    httpchk_expect_verdict e s done =
      .report .check
        (if (decide (http_status_code s.check.bi = s.proxy.expect_str.toList.take 3) !=
            s.proxy.EXP_INV) then HCHK_STATUS_L7OKD else HCHK_STATUS_L7STS)
        (some (String.mk ("HTTP status check returned code <".toList ++
          http_status_code s.check.bi ++ ">".toList))) ∧
    (httpchk_expect e s done).1 = 1 ∧
    (s.check.status ≠ 0 →
      (httpchk_expect e s done).2.check.status =
        (if (decide (http_status_code s.check.bi = s.proxy.expect_str.toList.take 3) !=
            s.proxy.EXP_INV) then HCHK_STATUS_L7OKD else HCHK_STATUS_L7STS) ∧
      (httpchk_expect e s done).2.check.result =
        (if (decide (http_status_code s.check.bi = s.proxy.expect_str.toList.take 3) !=
            s.proxy.EXP_INV) then CHK_RES_PASSED else CHK_RES_FAILED)) := by
  have n0 : ∀ c : Char, c.isDigit = true → c ≠ '\x00' := by
    intro c hc h0
    rw [h0] at hc
    exact absurd hc (by decide)
  have hnz : ∀ c ∈ http_status_code s.check.bi, c ≠ '\x00' := by
    intro c hc
    simp only [http_status_code, List.mem_cons, List.mem_singleton, List.not_mem_nil,
      or_false] at hc
    rcases hc with h | h | h <;> rw [h]
    · exact n0 _ h9
    · exact n0 _ h10
    · exact n0 _ h11
  have hmsg : cstr ("HTTP status check returned code <".toList ++
      http_status_code s.check.bi ++ ">".toList) =
      "HTTP status check returned code <".toList ++ http_status_code s.check.bi ++
        ">".toList := by
    apply cstr_of_no_nul
    intro c hc
    simp only [List.mem_append] at hc
    rcases hc with (h | h) | h
    · intro h0; rw [h0] at h; revert h; decide
    · exact hnz c h
    · intro h0; rw [h0] at h; revert h; decide
  have hcmp : httpchk_status_match e s =
      decide (http_status_code s.check.bi = s.proxy.expect_str.toList.take 3) := by
    unfold httpchk_status_match
    rw [if_pos htype, strncmp_eq_take 3 _ _ (by simp [http_status_code]) hnz]
    rw [decide_eq_decide]
    exact eq_comm
  have hverd : httpchk_expect_verdict e s done =
      .report .check
        (if (decide (http_status_code s.check.bi = s.proxy.expect_str.toList.take 3) !=
            s.proxy.EXP_INV) then HCHK_STATUS_L7OKD else HCHK_STATUS_L7STS)
        (some (String.mk ("HTTP status check returned code <".toList ++
          http_status_code s.check.bi ++ ">".toList))) := by
    unfold httpchk_expect_verdict
    rw [htype]
    simp only [httpchk_expect_status, hmsg, hcmp]
    cases decide (http_status_code s.check.bi = s.proxy.expect_str.toList.take 3) <;>
      cases s.proxy.EXP_INV <;> rfl
  have hexp := httpchk_expect_of_report e s done _ _ _ hverd
  refine ⟨hverd, by rw [hexp], fun hcur => ?_⟩
  rw [hexp]
  cases decide (http_status_code s.check.bi = s.proxy.expect_str.toList.take 3) <;>
    cases s.proxy.EXP_INV <;>
    exact recorded_status e .check _ _ s (by decide) hcur (by decide)

/-- Claim C16, witness: expected `200`, response `HTTP/1.1 200`. -/
theorem http_status_expect_witness :
    httpchk_expect_verdict {}
      { proxy := { EXP_TYPE := .STS, expect_str := "200" },
        check := { status := HCHK_STATUS_INI, type := .HTTP_CHK,
                   bi := { data := "HTTP/1.1 200 OK\r\n\x00".toList, i := 17 } } } false =
      .report .check HCHK_STATUS_L7OKD (some "HTTP status check returned code <200>") :=
  (http_status_expect {}
    { proxy := { EXP_TYPE := .STS, expect_str := "200" },
      check := { status := HCHK_STATUS_INI, type := .HTTP_CHK,
                 bi := { data := "HTTP/1.1 200 OK\r\n\x00".toList, i := 17 } } } false
    rfl (by decide) (by decide) (by decide)).1

/-- Claim C17: HTTP body expect rule (STR).  Let the header parser of
`httpchk_expect` have counted two consecutive LFs (CRs ignored) and stopped
at a non-empty `body`.  Then `body` starts at the first byte after the second
of these LFs, and with `done` set `httpchk_expect` returns 1 after one call
of `set_server_check_status` on the primary check: body contains the
expected string and not INV gives L7OKD; contains and INV gives L7RSP; does
not contain and not INV gives L7RSP; does not contain and INV gives L7OKD.
A primary check whose status is non-zero then has that status, with result
PASSED for L7OKD and FAILED for L7RSP. -/
theorem http_body_expect (e : Env) (s : ServerData) (crlf : Nat) (body : List Char)
    (htype : s.proxy.EXP_TYPE = .STR)
    (hscan : httpchk_find_body s.check.bi.data 0 = (crlf, body))
    (h2 : 2 ≤ crlf) (hne : body.headD '\x00' ≠ '\x00') :
    (∃ pre crs, s.check.bi.data = pre ++ '\n' :: (crs ++ '\n' :: body) ∧
      ∀ x ∈ crs, x = '\r') ∧
    ((∃ a b, cstr body = a ++ s.proxy.expect_str.toList ++ b) → s.proxy.EXP_INV = false →
      httpchk_expect_verdict e s true =
        .report .check HCHK_STATUS_L7OKD (some "HTTP content check matched") ∧
      httpchk_expect e s true =
        (1, set_server_check_status e .check HCHK_STATUS_L7OKD
          (some "HTTP content check matched") s) ∧
      (s.check.status ≠ 0 →
        (httpchk_expect e s true).2.check.status = HCHK_STATUS_L7OKD ∧
        (httpchk_expect e s true).2.check.result = CHK_RES_PASSED)) ∧
    ((∃ a b, cstr body = a ++ s.proxy.expect_str.toList ++ b) → s.proxy.EXP_INV = true →
      httpchk_expect_verdict e s true =
        .report .check HCHK_STATUS_L7RSP (some "HTTP check matched unwanted content") ∧
      httpchk_expect e s true =
        (1, set_server_check_status e .check HCHK_STATUS_L7RSP
          (some "HTTP check matched unwanted content") s) ∧
      (s.check.status ≠ 0 →
        (httpchk_expect e s true).2.check.status = HCHK_STATUS_L7RSP ∧
        (httpchk_expect e s true).2.check.result = CHK_RES_FAILED)) ∧
    ((¬ ∃ a b, cstr body = a ++ s.proxy.expect_str.toList ++ b) → s.proxy.EXP_INV = false →
      httpchk_expect_verdict e s true =
        .report .check HCHK_STATUS_L7RSP (some "HTTP content check did not match") ∧
      httpchk_expect e s true =
        (1, set_server_check_status e .check HCHK_STATUS_L7RSP
          (some "HTTP content check did not match") s) ∧
      (s.check.status ≠ 0 →
        (httpchk_expect e s true).2.check.status = HCHK_STATUS_L7RSP ∧
        (httpchk_expect e s true).2.check.result = CHK_RES_FAILED)) ∧
    ((¬ ∃ a b, cstr body = a ++ s.proxy.expect_str.toList ++ b) → s.proxy.EXP_INV = true →
      httpchk_expect_verdict e s true =
        .report .check HCHK_STATUS_L7OKD
          (some "HTTP check did not match unwanted content") ∧
      httpchk_expect e s true =
        (1, set_server_check_status e .check HCHK_STATUS_L7OKD
          (some "HTTP check did not match unwanted content") s) ∧
      (s.check.status ≠ 0 →
        (httpchk_expect e s true).2.check.status = HCHK_STATUS_L7OKD ∧
        (httpchk_expect e s true).2.check.result = CHK_RES_PASSED)) := by
  have hpos : ∃ pre crs, s.check.bi.data = pre ++ '\n' :: (crs ++ '\n' :: body) ∧
      ∀ x ∈ crs, x = '\r' := by
    rcases httpchk_find_body_position _ 0 crlf body hscan (by omega) h2 with h | ⟨h, _⟩
    · exact h
    · omega
  have hc : ¬ crlf < 2 := by omega
  have hh : (body.headD '\x00' == '\x00') = false := by simpa using hne
  have hverd : ∀ m : Bool, strstr (cstr body) s.proxy.expect_str.toList = m →
      httpchk_expect_verdict e s true =
        (if m then
          if s.proxy.EXP_INV then
            .report .check HCHK_STATUS_L7RSP (some "HTTP check matched unwanted content")
          else .report .check HCHK_STATUS_L7OKD (some "HTTP content check matched")
        else
          if s.proxy.EXP_INV then
            .report .check HCHK_STATUS_L7OKD (some "HTTP check did not match unwanted content")
          else .report .check HCHK_STATUS_L7RSP (some "HTTP content check did not match")) := by
    intro m hm
    unfold httpchk_expect_verdict
    rw [htype]
    simp only [httpchk_expect_body, hscan, hc, if_false, hh, Bool.false_eq_true,
      httpchk_body_match, htype, if_true, hm, Bool.not_true, Bool.and_false]
  have hfull : ∀ (st : Nat) (d : String),
      httpchk_expect_verdict e s true = .report .check st (some d) →
      st ≠ HCHK_STATUS_START → (check_statuses st).result ≠ CHK_RES_UNKNOWN →
      httpchk_expect_verdict e s true = .report .check st (some d) ∧
      httpchk_expect e s true = (1, set_server_check_status e .check st (some d) s) ∧
      (s.check.status ≠ 0 →
        (httpchk_expect e s true).2.check.status = st ∧
        (httpchk_expect e s true).2.check.result = (check_statuses st).result) := by
    intro st d hv h1 h3
    have hexp := httpchk_expect_of_report e s true _ _ _ hv
    refine ⟨hv, hexp, fun hcur => ?_⟩
    rw [hexp]
    exact recorded_status e .check _ _ s h1 hcur h3
  refine ⟨hpos, ?_, ?_, ?_, ?_⟩
  · intro hin hinv
    have hv : httpchk_expect_verdict e s true =
        .report .check HCHK_STATUS_L7OKD (some "HTTP content check matched") := by
      rw [hverd true ((strstr_iff _ _).mpr hin), hinv]
      rfl
    exact hfull _ _ hv (by decide) (by decide)
  · intro hin hinv
    have hv : httpchk_expect_verdict e s true =
        .report .check HCHK_STATUS_L7RSP (some "HTTP check matched unwanted content") := by
      rw [hverd true ((strstr_iff _ _).mpr hin), hinv]
      rfl
    exact hfull _ _ hv (by decide) (by decide)
  · intro hin hinv
    have : strstr (cstr body) s.proxy.expect_str.toList = false := by
      rw [Bool.eq_false_iff]
      exact fun h => hin ((strstr_iff _ _).mp h)
    have hv : httpchk_expect_verdict e s true =
        .report .check HCHK_STATUS_L7RSP (some "HTTP content check did not match") := by
      rw [hverd false this, hinv]
      rfl
    exact hfull _ _ hv (by decide) (by decide)
  · intro hin hinv
    have : strstr (cstr body) s.proxy.expect_str.toList = false := by
      rw [Bool.eq_false_iff]
      exact fun h => hin ((strstr_iff _ _).mp h)
    have hv : httpchk_expect_verdict e s true =
        .report .check HCHK_STATUS_L7OKD
          (some "HTTP check did not match unwanted content") := by
      rw [hverd false this, hinv]
      rfl
    exact hfull _ _ hv (by decide) (by decide)

/-- Claim C17, witness: the body `hello` after `\r\n\r\n`, expected string
`ell`: `httpchk_expect` returns 1 and the check has L7OKD and PASSED. -/
theorem http_body_expect_witness :
    (httpchk_expect {}
      { proxy := { EXP_TYPE := .STR, expect_str := "ell" },
        check := { status := HCHK_STATUS_INI, type := .HTTP_CHK,
                   bi := { data := "HTTP/1.1 200 OK\r\n\r\nhello\x00".toList, i := 24 } } }
      true).1 = 1 ∧
    (httpchk_expect {}
      { proxy := { EXP_TYPE := .STR, expect_str := "ell" },
        check := { status := HCHK_STATUS_INI, type := .HTTP_CHK,
                   bi := { data := "HTTP/1.1 200 OK\r\n\r\nhello\x00".toList, i := 24 } } }
      true).2.check.status = HCHK_STATUS_L7OKD ∧
    (httpchk_expect {}
      { proxy := { EXP_TYPE := .STR, expect_str := "ell" },
        check := { status := HCHK_STATUS_INI, type := .HTTP_CHK,
                   bi := { data := "HTTP/1.1 200 OK\r\n\r\nhello\x00".toList, i := 24 } } }
      true).2.check.result = CHK_RES_PASSED := by
  obtain ⟨-, h2, h3⟩ := (http_body_expect {}
    { proxy := { EXP_TYPE := .STR, expect_str := "ell" },
      check := { status := HCHK_STATUS_INI, type := .HTTP_CHK,
                 bi := { data := "HTTP/1.1 200 OK\r\n\r\nhello\x00".toList, i := 24 } } }
    2 "hello\x00".toList rfl (by decide) (by decide) (by decide)).2.1
    ⟨"h".toList, "o".toList, by decide⟩ rfl
  exact ⟨by rw [h2], (h3 (by decide)).1, (h3 (by decide)).2⟩

/-- Claim C18: `httpchk_expect` returns 0 (need more data) only when `done`
is false.  For every buffer and every configured expect rule (STS, RSTS, STR
or RSTR), if `done` is set then `httpchk_expect` returns 1 after one call of
`set_server_check_status` on the primary check, with L7OKD, L7STS or L7RSP;
and whatever the configuration, a return value of 0 means that `done` was
false. -/
theorem httpchk_expect_decides_when_done (e : Env) (s : ServerData) (done : Bool) :
    (done = true → s.proxy.EXP_TYPE ≠ .NONE →
      ∃ st d, httpchk_expect_verdict e s done = .report .check st d ∧
        (st = HCHK_STATUS_L7OKD ∨ st = HCHK_STATUS_L7STS ∨ st = HCHK_STATUS_L7RSP) ∧
        httpchk_expect e s done = (1, set_server_check_status e .check st d s) ∧
        (s.check.status ≠ 0 → (httpchk_expect e s done).2.check.status = st)) ∧
    ((httpchk_expect e s done).1 = 0 → done = false) := by
  have hstat : ∃ st d, httpchk_expect_status e s = .report .check st d ∧
      (st = HCHK_STATUS_L7OKD ∨ st = HCHK_STATUS_L7STS ∨ st = HCHK_STATUS_L7RSP) := by
    obtain ⟨st, d, h1, h2⟩ := httpchk_expect_status_cases e s
    exact ⟨st, d, h1, h2.elim Or.inl (fun x => Or.inr (Or.inl x))⟩
  have hbody : (httpchk_expect_body e s done = .wait_more_data ∧ done = false) ∨
      ∃ st d, httpchk_expect_body e s done = .report .check st d ∧
        (st = HCHK_STATUS_L7OKD ∨ st = HCHK_STATUS_L7STS ∨ st = HCHK_STATUS_L7RSP) := by
    rcases httpchk_expect_body_cases e s done with h | ⟨st, d, h1, h2⟩
    · exact Or.inl h
    · exact Or.inr ⟨st, d, h1, h2.elim Or.inl (fun x => Or.inr (Or.inr x))⟩
  have hcases : (httpchk_expect_verdict e s done = .wait_more_data ∧ done = false) ∨
      (httpchk_expect_verdict e s done = .no_status ∧ s.proxy.EXP_TYPE = .NONE) ∨
      ∃ st d, httpchk_expect_verdict e s done = .report .check st d ∧
        (st = HCHK_STATUS_L7OKD ∨ st = HCHK_STATUS_L7STS ∨ st = HCHK_STATUS_L7RSP) := by
    unfold httpchk_expect_verdict
    cases ht : s.proxy.EXP_TYPE with
    | NONE => exact Or.inr (Or.inl ⟨rfl, rfl⟩)
    | STS => exact Or.inr (Or.inr hstat)
    | RSTS => exact Or.inr (Or.inr hstat)
    | STR => exact hbody.elim Or.inl (fun h => Or.inr (Or.inr h))
    | RSTR => exact hbody.elim Or.inl (fun h => Or.inr (Or.inr h))
  constructor
  · intro hd hne
    rcases hcases with ⟨_, h⟩ | ⟨_, h⟩ | ⟨st, d, h1, h2⟩
    · rw [hd] at h; cases h
    · exact absurd h hne
    · have hexp := httpchk_expect_of_report e s done _ _ _ h1
      refine ⟨st, d, h1, h2, hexp, fun hcur => ?_⟩
      rw [hexp]
      have := set_server_check_status_chk e .check st d s
        (by rcases h2 with h | h | h <;> rw [h] <;> decide) hcur
      have hs : (set_server_check_status e .check st d s).check =
          (set_server_check_status e .check st d s).chk .check := rfl
      rw [hs, this]
      exact record_status_status e st d _
  · intro h0
    rcases hcases with ⟨_, h⟩ | ⟨h, _⟩ | ⟨st, d, h1, _⟩
    · exact h
    · unfold httpchk_expect at h0
      rw [h] at h0
      cases h0
    · rw [httpchk_expect_of_report e s done _ _ _ h1] at h0
      cases h0

/-- Claim C18, witness: a reply without a body, `done` set, body rule
configured: the function returns 1 with L7RSP. -/
theorem httpchk_expect_decides_when_done_witness :
    ∃ st d,
      httpchk_expect_verdict {}
        { proxy := { EXP_TYPE := .STR, expect_str := "ell" },
          check := { status := HCHK_STATUS_INI, type := .HTTP_CHK,
                     bi := { data := "HTTP/1.1 200 OK\r\n\x00".toList, i := 17 } } } true =
        .report .check st d ∧
      (st = HCHK_STATUS_L7OKD ∨ st = HCHK_STATUS_L7STS ∨ st = HCHK_STATUS_L7RSP) ∧
      httpchk_expect {}
        { proxy := { EXP_TYPE := .STR, expect_str := "ell" },
          check := { status := HCHK_STATUS_INI, type := .HTTP_CHK,
                     bi := { data := "HTTP/1.1 200 OK\r\n\x00".toList, i := 17 } } } true =
        (1, set_server_check_status {} .check st d
          { proxy := { EXP_TYPE := .STR, expect_str := "ell" },
            check := { status := HCHK_STATUS_INI, type := .HTTP_CHK,
                       bi := { data := "HTTP/1.1 200 OK\r\n\x00".toList, i := 17 } } }) ∧
      ((({ proxy := { EXP_TYPE := .STR, expect_str := "ell" },
           check := { status := HCHK_STATUS_INI, type := .HTTP_CHK,
                      bi := { data := "HTTP/1.1 200 OK\r\n\x00".toList, i := 17 } } } :
          ServerData).check.status ≠ 0) →
        (httpchk_expect {}
          { proxy := { EXP_TYPE := .STR, expect_str := "ell" },
            check := { status := HCHK_STATUS_INI, type := .HTTP_CHK,
                       bi := { data := "HTTP/1.1 200 OK\r\n\x00".toList, i := 17 } } }
          true).2.check.status = st) :=
  (httpchk_expect_decides_when_done {}
    { proxy := { EXP_TYPE := .STR, expect_str := "ell" },
      check := { status := HCHK_STATUS_INI, type := .HTTP_CHK,
                 bi := { data := "HTTP/1.1 200 OK\r\n\x00".toList, i := 17 } } } true).1
    rfl (by decide)

/-- Claim C19: SSL hello prober.  On every ingress buffer on which the
prober decides (`done` set, or at least 5 bytes) it reports L6OK if and only
if the buffer holds at least 5 bytes and its first byte is 0x15 or 0x16;
otherwise it reports L6RSP.  L6OK is a PASSED status and L6RSP a FAILED one;
a check whose status is non-zero then has the reported status. -/
theorem ssl_hello_verdict (e : Env) (sel : CheckSel) (done : Bool) (s : ServerData)
    (hdec : done = true ∨ 5 ≤ (s.chk sel).bi.i) :
    ((ssl3_chk_outcome sel done s).verdict = .report sel HCHK_STATUS_L6OK none ↔
      (5 ≤ (s.chk sel).bi.i ∧
        ((s.chk sel).bi.byte 0 = Char.ofNat 0x15 ∨ (s.chk sel).bi.byte 0 = Char.ofNat 0x16))) ∧
    (¬ (5 ≤ (s.chk sel).bi.i ∧
        ((s.chk sel).bi.byte 0 = Char.ofNat 0x15 ∨ (s.chk sel).bi.byte 0 = Char.ofNat 0x16)) →
      (ssl3_chk_outcome sel done s).verdict = .report sel HCHK_STATUS_L6RSP none) ∧
    (check_statuses HCHK_STATUS_L6OK).result = CHK_RES_PASSED ∧
    (check_statuses HCHK_STATUS_L6RSP).result = CHK_RES_FAILED ∧
    ((s.chk sel).status ≠ 0 →
      ((run_probe e sel (ssl3_chk_outcome sel done s) s).2.chk sel).status =
        (if 5 ≤ (s.chk sel).bi.i ∧ ((s.chk sel).bi.byte 0 = Char.ofNat 0x15 ∨
            (s.chk sel).bi.byte 0 = Char.ofNat 0x16) then HCHK_STATUS_L6OK
          else HCHK_STATUS_L6RSP)) := by
  have hw : (!done && decide ((s.chk sel).bi.i < 5)) = false := by
    rcases hdec with h | h
    · simp [h]
    · have : ¬ (s.chk sel).bi.i < 5 := by omega
      simp [this]
  have hout : ssl3_chk_outcome sel done s =
      ⟨none, .report sel
        (if 5 ≤ (s.chk sel).bi.i ∧ ((s.chk sel).bi.byte 0 = Char.ofNat 0x15 ∨
            (s.chk sel).bi.byte 0 = Char.ofNat 0x16) then HCHK_STATUS_L6OK
          else HCHK_STATUS_L6RSP) none⟩ := by
    unfold ssl3_chk_outcome
    simp only [hw, Bool.false_eq_true, if_false, Bool.and_eq_true, Bool.or_eq_true,
      decide_eq_true_eq, beq_iff_eq, ge_iff_le]
    split_ifs <;> rfl
  refine ⟨?_, ?_, by decide, by decide, fun hcur => ?_⟩
  · rw [hout]
    constructor
    · intro h
      by_contra hn
      simp only [if_neg hn] at h
      cases h
    · intro h
      simp only [if_pos h]
  · intro hn
    rw [hout]
    simp only [if_neg hn]
  · by_cases h : 5 ≤ (s.chk sel).bi.i ∧ ((s.chk sel).bi.byte 0 = Char.ofNat 0x15 ∨
        (s.chk sel).bi.byte 0 = Char.ofNat 0x16)
    · simp only [if_pos h] at hout ⊢
      exact (run_probe_recorded e sel _ s HCHK_STATUS_L6OK none (by rw [hout]) (by decide)
        hcur (by decide)).2.1
    · simp only [if_neg h] at hout ⊢
      exact (run_probe_recorded e sel _ s HCHK_STATUS_L6RSP none (by rw [hout]) (by decide)
        hcur (by decide)).2.1

/-- Claim C19, witness: a five-byte TLS handshake record header. -/
theorem ssl_hello_verdict_witness :
    (ssl3_chk_outcome .check false
      { check := { status := HCHK_STATUS_INI, type := .SSL3_CHK,
                   bi := { data := [Char.ofNat 0x16, Char.ofNat 3, Char.ofNat 0, Char.ofNat 0,
                                    Char.ofNat 2, '\x00'], i := 5 } } }).verdict =
      .report .check HCHK_STATUS_L6OK none :=
  (ssl_hello_verdict {} .check false
    { check := { status := HCHK_STATUS_INI, type := .SSL3_CHK,
                 bi := { data := [Char.ofNat 0x16, Char.ofNat 3, Char.ofNat 0, Char.ofNat 0,
                                  Char.ofNat 2, '\x00'], i := 5 } } }
    (Or.inr (by decide))).1.mpr ⟨by decide, Or.inr (by decide)⟩

/-- Claim C20: PostgreSQL prober.  On every buffer on which the prober
decides (`done` set, or at least 9 bytes), a first byte `R` gives L7OKD; any
other first byte gives L7STS, whose description is the text starting at
offset 6 exactly when the first byte is `E` and the bytes at offsets 5 and 6
are both non-zero, and the fixed text `"PostgreSQL unknown error"`
otherwise.  A check whose status is non-zero then has the reported status. -/
theorem pgsql_verdict (e : Env) (sel : CheckSel) (done : Bool) (s : ServerData)
    (hdec : done = true ∨ 9 ≤ (s.chk sel).bi.i) :
    ((s.chk sel).bi.byte 0 = 'R' →
      pgsql_chk_outcome sel done s =
        ⟨none, .report sel HCHK_STATUS_L7OKD (some "PostgreSQL server is ok")⟩) ∧
    ((s.chk sel).bi.byte 0 ≠ 'R' →
      ((s.chk sel).bi.byte 0 = 'E' ∧ (s.chk sel).bi.byte 5 ≠ '\x00' ∧
          (s.chk sel).bi.byte 6 ≠ '\x00' →
        pgsql_chk_outcome sel done s =
          ⟨none, .report sel HCHK_STATUS_L7STS
            (some (String.mk (((s.chk sel).bi.data.drop 6).takeWhile
              (fun c => c != '\x00'))))⟩) ∧
      (¬ ((s.chk sel).bi.byte 0 = 'E' ∧ (s.chk sel).bi.byte 5 ≠ '\x00' ∧
          (s.chk sel).bi.byte 6 ≠ '\x00') →
        pgsql_chk_outcome sel done s =
          ⟨none, .report sel HCHK_STATUS_L7STS (some "PostgreSQL unknown error")⟩)) ∧
    (check_statuses HCHK_STATUS_L7OKD).result = CHK_RES_PASSED ∧
    (check_statuses HCHK_STATUS_L7STS).result = CHK_RES_FAILED ∧
    ((s.chk sel).status ≠ 0 →
      ((run_probe e sel (pgsql_chk_outcome sel done s) s).2.chk sel).status =
        (if (s.chk sel).bi.byte 0 = 'R' then HCHK_STATUS_L7OKD else HCHK_STATUS_L7STS)) := by
  have hw : (!done && decide ((s.chk sel).bi.i < 9)) = false := by
    rcases hdec with h | h
    · simp [h]
    · have : ¬ (s.chk sel).bi.i < 9 := by omega
      simp [this]
  have hR : (s.chk sel).bi.byte 0 = 'R' →
      pgsql_chk_outcome sel done s =
        ⟨none, .report sel HCHK_STATUS_L7OKD (some "PostgreSQL server is ok")⟩ := by
    intro h
    unfold pgsql_chk_outcome
    simp only [hw, Bool.false_eq_true, if_false, h, beq_self_eq_true, if_true]
  have hE : (s.chk sel).bi.byte 0 ≠ 'R' →
      pgsql_chk_outcome sel done s =
        ⟨none, .report sel HCHK_STATUS_L7STS
          (some (if (s.chk sel).bi.byte 0 = 'E' ∧ (s.chk sel).bi.byte 5 ≠ '\x00' ∧
              (s.chk sel).bi.byte 6 ≠ '\x00' then
            String.mk (((s.chk sel).bi.data.drop 6).takeWhile (fun c => c != '\x00'))
          else "PostgreSQL unknown error"))⟩ := by
    intro h
    have h' : ((s.chk sel).bi.byte 0 == 'R') = false := by simpa using h
    unfold pgsql_chk_outcome
    simp only [hw, Bool.false_eq_true, if_false, h', Bool.and_eq_true, beq_iff_eq,
      bne_iff_ne, ne_eq, cstr, and_assoc]
  refine ⟨hR, fun hne => ⟨fun h => ?_, fun h => ?_⟩, by decide, by decide, fun hcur => ?_⟩
  · rw [hE hne, if_pos h]
  · rw [hE hne, if_neg h]
  · by_cases h : (s.chk sel).bi.byte 0 = 'R'
    · rw [if_pos h]
      exact (run_probe_recorded e sel _ s HCHK_STATUS_L7OKD _ (by rw [hR h]) (by decide) hcur
        (by decide)).2.1
    · rw [if_neg h]
      exact (run_probe_recorded e sel _ s HCHK_STATUS_L7STS _ (by rw [hE h]) (by decide) hcur
        (by decide)).2.1

/-- Claim C20, witness: an error response whose message starts at offset
6. -/
theorem pgsql_verdict_witness :
    pgsql_chk_outcome .check true
      { check := { status := HCHK_STATUS_INI, type := .PGSQL_CHK,
                   bi := { data := "E0000SFATAL\x00".toList, i := 11 } } } =
      ⟨none, .report .check HCHK_STATUS_L7STS (some "FATAL")⟩ :=
  ((pgsql_verdict {} .check true
    { check := { status := HCHK_STATUS_INI, type := .PGSQL_CHK,
                 bi := { data := "E0000SFATAL\x00".toList, i := 11 } } }
    (Or.inl rfl)).2.1 (by decide)).1 ⟨by decide, by decide, by decide⟩

/-- Claim C21: Redis prober.  On every buffer on which the prober decides
(`done` set, or at least 7 bytes), the verdict is L7OKD exactly when the
content of the buffer up to its first NUL is the seven bytes `"+PONG\r\n"`;
every other content (also `"+PONG\r\n"` followed by further bytes) gives
L7STS with the received bytes as description.  A check whose status is
non-zero then has the reported status. -/
theorem redis_verdict (e : Env) (sel : CheckSel) (done : Bool) (s : ServerData)
    (hdec : done = true ∨ 7 ≤ (s.chk sel).bi.i) :
    (cstr (s.chk sel).bi.data = ['+', 'P', 'O', 'N', 'G', '\r', '\n'] →
      redis_chk_outcome sel done s =
        ⟨none, .report sel HCHK_STATUS_L7OKD (some "Redis server is ok")⟩) ∧
    (cstr (s.chk sel).bi.data ≠ ['+', 'P', 'O', 'N', 'G', '\r', '\n'] →
      redis_chk_outcome sel done s =
        ⟨none, .report sel HCHK_STATUS_L7STS (some (String.mk (cstr (s.chk sel).bi.data)))⟩) ∧
    ((∃ d, (redis_chk_outcome sel done s).verdict = .report sel HCHK_STATUS_L7OKD d) ↔
      cstr (s.chk sel).bi.data = ['+', 'P', 'O', 'N', 'G', '\r', '\n']) ∧
    (∀ more : List Char, more ≠ [] → more.head? ≠ some '\x00' →
      cstr (['+', 'P', 'O', 'N', 'G', '\r', '\n'] ++ more) ≠
        ['+', 'P', 'O', 'N', 'G', '\r', '\n']) ∧
    (check_statuses HCHK_STATUS_L7OKD).result = CHK_RES_PASSED ∧
    (check_statuses HCHK_STATUS_L7STS).result = CHK_RES_FAILED ∧
    ((s.chk sel).status ≠ 0 →
      ((run_probe e sel (redis_chk_outcome sel done s) s).2.chk sel).status =
        (if cstr (s.chk sel).bi.data = ['+', 'P', 'O', 'N', 'G', '\r', '\n'] then
          HCHK_STATUS_L7OKD else HCHK_STATUS_L7STS)) := by
  have hw : (!done && decide ((s.chk sel).bi.i < 7)) = false := by
    rcases hdec with h | h
    · simp [h]
    · have : ¬ (s.chk sel).bi.i < 7 := by omega
      simp [this]
  have hP : cstr (s.chk sel).bi.data = ['+', 'P', 'O', 'N', 'G', '\r', '\n'] →
      redis_chk_outcome sel done s =
        ⟨none, .report sel HCHK_STATUS_L7OKD (some "Redis server is ok")⟩ := by
    intro h
    unfold redis_chk_outcome
    simp only [hw, Bool.false_eq_true, if_false, h]
    rfl
  have hN : cstr (s.chk sel).bi.data ≠ ['+', 'P', 'O', 'N', 'G', '\r', '\n'] →
      redis_chk_outcome sel done s =
        ⟨none, .report sel HCHK_STATUS_L7STS
          (some (String.mk (cstr (s.chk sel).bi.data)))⟩ := by
    intro h
    have h' : (cstr (s.chk sel).bi.data == "+PONG\r\n".toList) = false := by
      rw [beq_eq_false_iff_ne]; exact h
    unfold redis_chk_outcome
    simp only [hw, Bool.false_eq_true, if_false, h']
  refine ⟨hP, hN, ⟨fun ⟨d, hd⟩ => ?_, fun h => ⟨_, by rw [hP h]⟩⟩, ?_, by decide, by decide,
    fun hcur => ?_⟩
  · by_contra hne
    rw [hN hne] at hd
    simp only [Verdict.report.injEq] at hd
    exact absurd hd.2.1 (by decide)
  · intro more hne hhd
    cases more with
    | nil => exact absurd rfl hne
    | cons c rest =>
      have hc : c ≠ '\x00' := fun h => hhd (by simp [h])
      have hb : (c != '\x00') = true := by simpa using hc
      simp [cstr, List.takeWhile, hb]
  · by_cases h : cstr (s.chk sel).bi.data = ['+', 'P', 'O', 'N', 'G', '\r', '\n']
    · rw [if_pos h]
      exact (run_probe_recorded e sel _ s HCHK_STATUS_L7OKD _ (by rw [hP h]) (by decide) hcur
        (by decide)).2.1
    · rw [if_neg h]
      exact (run_probe_recorded e sel _ s HCHK_STATUS_L7STS _ (by rw [hN h]) (by decide) hcur
        (by decide)).2.1

/-- Claim C21, witness: `"+PONG\r\n"` followed by one more byte is
rejected with the whole content as description. -/
theorem redis_verdict_witness :
    redis_chk_outcome .check false
      { check := { status := HCHK_STATUS_INI, type := .REDIS_CHK,
                   bi := { data := "+PONG\r\nx\x00".toList, i := 8 } } } =
      ⟨none, .report .check HCHK_STATUS_L7STS (some "+PONG\r\nx")⟩ :=
  (redis_verdict {} .check false
    { check := { status := HCHK_STATUS_INI, type := .REDIS_CHK,
                 bi := { data := "+PONG\r\nx\x00".toList, i := 8 } } }
    (Or.inr (by decide))).2.1 (by decide)

/-- Claim C22: MySQL prober, legacy mode (`check_len = 0`).  On every buffer
on which the prober decides (`done` set, or at least 5 bytes): a byte 4 equal
to 0xFF gives L7STS with the text at offset 7, leading spaces skipped, as
description; a byte 4 other than 0xFF gives L7OKD when the buffer holds at
least 52 bytes, and L7RSP when it holds fewer and `done` is set.  A check
whose status is non-zero then has the reported status. -/
theorem mysql_legacy_verdict (e : Env) (sel : CheckSel) (done : Bool) (s : ServerData)
    (hlen : s.proxy.check_len = 0) (hdec : done = true ∨ 5 ≤ (s.chk sel).bi.i) :
    ((s.chk sel).bi.byte 4 = Char.ofNat 0xff →
      mysql_chk_outcome e sel done s =
        ⟨none, .report sel HCHK_STATUS_L7STS (some (String.mk
          (cstr (((s.chk sel).bi.data.drop 7).dropWhile (fun x => x == ' ')))))⟩) ∧
    ((s.chk sel).bi.byte 4 ≠ Char.ofNat 0xff → 52 ≤ (s.chk sel).bi.i →
      mysql_chk_outcome e sel done s =
        ⟨none, .report sel HCHK_STATUS_L7OKD (some (String.mk
          (cstr (((s.chk sel).bi.data.drop 5).dropWhile (fun x => x == ' ')))))⟩) ∧
    ((s.chk sel).bi.byte 4 ≠ Char.ofNat 0xff → (s.chk sel).bi.i < 52 → done = true →
      mysql_chk_outcome e sel done s =
        ⟨none, .report sel HCHK_STATUS_L7RSP (some (String.mk (cstr (s.chk sel).bi.data)))⟩) ∧
    (check_statuses HCHK_STATUS_L7OKD).result = CHK_RES_PASSED ∧
    (check_statuses HCHK_STATUS_L7STS).result = CHK_RES_FAILED ∧
    (check_statuses HCHK_STATUS_L7RSP).result = CHK_RES_FAILED ∧
    ((s.chk sel).status ≠ 0 →
      (s.chk sel).bi.byte 4 = Char.ofNat 0xff ∨ 52 ≤ (s.chk sel).bi.i ∨ done = true →
      ((run_probe e sel (mysql_chk_outcome e sel done s) s).2.chk sel).status =
        (if (s.chk sel).bi.byte 4 = Char.ofNat 0xff then HCHK_STATUS_L7STS
         else if 52 ≤ (s.chk sel).bi.i then HCHK_STATUS_L7OKD else HCHK_STATUS_L7RSP)) := by
  have hw : (!done && decide ((s.chk sel).bi.i < 5)) = false := by
    rcases hdec with h | h
    · simp [h]
    · have : ¬ (s.chk sel).bi.i < 5 := by omega
      simp [this]
  have hm : mysql_chk_outcome e sel done s = mysql_legacy_outcome sel done s := by
    unfold mysql_chk_outcome
    simp only [hw, Bool.false_eq_true, if_false, hlen, if_true]
  have hF : (s.chk sel).bi.byte 4 = Char.ofNat 0xff →
      mysql_chk_outcome e sel done s =
        ⟨none, .report sel HCHK_STATUS_L7STS (some (String.mk
          (cstr (((s.chk sel).bi.data.drop 7).dropWhile (fun x => x == ' ')))))⟩ := by
    intro h
    rw [hm]
    unfold mysql_legacy_outcome
    simp only [h, bne_self_eq_false, Bool.false_eq_true, if_false]
    rfl
  have hO : (s.chk sel).bi.byte 4 ≠ Char.ofNat 0xff → 52 ≤ (s.chk sel).bi.i →
      mysql_chk_outcome e sel done s =
        ⟨none, .report sel HCHK_STATUS_L7OKD (some (String.mk
          (cstr (((s.chk sel).bi.data.drop 5).dropWhile (fun x => x == ' ')))))⟩ := by
    intro h hi
    have h' : ((s.chk sel).bi.byte 4 != Char.ofNat 0xff) = true := by simpa using h
    have hi' : (s.chk sel).bi.i > 51 := by omega
    rw [hm]
    unfold mysql_legacy_outcome
    simp only [h', if_true, hi']
    rfl
  have hR : (s.chk sel).bi.byte 4 ≠ Char.ofNat 0xff → (s.chk sel).bi.i < 52 → done = true →
      mysql_chk_outcome e sel done s =
        ⟨none, .report sel HCHK_STATUS_L7RSP
          (some (String.mk (cstr (s.chk sel).bi.data)))⟩ := by
    intro h hi hd
    have h' : ((s.chk sel).bi.byte 4 != Char.ofNat 0xff) = true := by simpa using h
    have hi' : ¬ (s.chk sel).bi.i > 51 := by omega
    rw [hm]
    unfold mysql_legacy_outcome
    simp only [h', if_true, hi', if_false, hd, Bool.not_true, Bool.false_eq_true]
  refine ⟨hF, hO, hR, by decide, by decide, by decide, fun hcur hcase => ?_⟩
  by_cases h : (s.chk sel).bi.byte 4 = Char.ofNat 0xff
  · rw [if_pos h]
    exact (run_probe_recorded e sel _ s HCHK_STATUS_L7STS _ (by rw [hF h]) (by decide) hcur
      (by decide)).2.1
  · rw [if_neg h]
    by_cases hi : 52 ≤ (s.chk sel).bi.i
    · rw [if_pos hi]
      exact (run_probe_recorded e sel _ s HCHK_STATUS_L7OKD _ (by rw [hO h hi]) (by decide) hcur
        (by decide)).2.1
    · rw [if_neg hi]
      have hd : done = true := by
        rcases hcase with h1 | h1 | h1
        · exact absurd h1 h
        · exact absurd h1 hi
        · exact h1
      exact (run_probe_recorded e sel _ s HCHK_STATUS_L7RSP _
        (by rw [hR h (by omega) hd]) (by decide) hcur (by decide)).2.1

/-- Claim C22, witness: an error packet whose message follows two spaces
at offset 7. -/
theorem mysql_legacy_verdict_witness :
    mysql_chk_outcome {} .check false
      { check := { status := HCHK_STATUS_INI, type := .MYSQL_CHK,
                   bi := { data := [Char.ofNat 9, Char.ofNat 0, Char.ofNat 0, Char.ofNat 0,
                                    Char.ofNat 0xff, Char.ofNat 0x15, Char.ofNat 0x04,
                                    ' ', ' ', 'n', 'o', '\x00'],
                           i := 11 } } } =
      ⟨none, .report .check HCHK_STATUS_L7STS (some "no")⟩ :=
  (mysql_legacy_verdict {} .check false
    { check := { status := HCHK_STATUS_INI, type := .MYSQL_CHK,
                 bi := { data := [Char.ofNat 9, Char.ofNat 0, Char.ofNat 0, Char.ofNat 0,
                                  Char.ofNat 0xff, Char.ofNat 0x15, Char.ofNat 0x04,
                                  ' ', ' ', 'n', 'o', '\x00'],
                         i := 11 } } }
    rfl (Or.inr (by decide))).1 (by decide)

/-- The three-byte little-endian value at an offset of a buffer. -/
theorem le24_def (bi : Buffer) (off : Nat) :
    le24 bi off = (bi.byte off).toNat + 256 * (bi.byte (off + 1)).toNat +
      65536 * (bi.byte (off + 2)).toNat := rfl

/-- Where plain `char` is unsigned, or the byte has its high bit clear,
`(unsigned int) c` is the byte itself. -/
theorem char_to_uint_byte (e : Env) (c : Char)
    (h : e.char_signed = false ∨ c.toNat < 128) : char_to_uint e c = c.toNat := by
  unfold char_to_uint
  rcases h with h | h
  · simp [h]
  · have : ¬ 128 ≤ c.toNat := by omega
    simp [this]

/-- Where plain `char` is signed, a byte with its high bit set converts to
its sign extension. -/
theorem char_to_uint_signed (e : Env) (c : Char)
    (h : e.char_signed = true) (hc : 128 ≤ c.toNat) (hb : c.toNat < 256) :
    char_to_uint e c = c.toNat + 4294967040 := by
  unfold char_to_uint
  simp only [h, hc, decide_True, Bool.and_self, if_true]
  norm_num
  omega

/-- The packet length computed by the MySQL prober is the three-byte
little-endian value as long as no length byte is sign-extended. -/
theorem mysql_packet_len_le24 (e : Env) (bi : Buffer) (off : Nat)
    (hs : e.char_signed = false ∨
      ((bi.byte off).toNat < 128 ∧ (bi.byte (off + 1)).toNat < 128 ∧
        (bi.byte (off + 2)).toNat < 128))
    (h0 : (bi.byte off).toNat < 256) (h1 : (bi.byte (off + 1)).toNat < 256)
    (h2 : (bi.byte (off + 2)).toNat < 256) :
    mysql_packet_len e bi off = le24 bi off := by
  have e0 : char_to_uint e (bi.byte off) = (bi.byte off).toNat :=
    char_to_uint_byte e _ (hs.imp id fun h => h.1)
  have e1 : char_to_uint e (bi.byte (off + 1)) = (bi.byte (off + 1)).toNat :=
    char_to_uint_byte e _ (hs.imp id fun h => h.2.1)
  have e2 : char_to_uint e (bi.byte (off + 2)) = (bi.byte (off + 2)).toNat :=
    char_to_uint_byte e _ (hs.imp id fun h => h.2.2)
  unfold mysql_packet_len
  rw [e0, e1, e2, le24_def]
  norm_num
  omega

/-- A three-byte little-endian value is below `2 ^ 24`. -/
theorem le24_lt (bi : Buffer) (off : Nat) (hb : ∀ k, (bi.byte k).toNat < 256) :
    le24 bi off < 16777216 := by
  have h0 := hb off
  have h1 := hb (off + 1)
  have h2 := hb (off + 2)
  rw [le24_def]
  omega

/-- The two-packet mode of the MySQL prober decodes both lengths as
three-byte little-endian values and decides as the protocol asks, as long as
no length byte is sign-extended (plain `char` unsigned, or the six length
bytes below 0x80). -/
theorem mysql_two_packet_unsigned (e : Env) (sel : CheckSel) (done : Bool) (s : ServerData)
    (hlen : s.proxy.check_len ≠ 0)
    (hb : ∀ k, ((s.chk sel).bi.byte k).toNat < 256)
    (h1 : e.char_signed = false ∨
      (((s.chk sel).bi.byte 0).toNat < 128 ∧ ((s.chk sel).bi.byte (0 + 1)).toNat < 128 ∧
        ((s.chk sel).bi.byte (0 + 2)).toNat < 128))
    (h2 : e.char_signed = false ∨
      (((s.chk sel).bi.byte (le24 (s.chk sel).bi 0 + 4)).toNat < 128 ∧
        ((s.chk sel).bi.byte (le24 (s.chk sel).bi 0 + 4 + 1)).toNat < 128 ∧
        ((s.chk sel).bi.byte (le24 (s.chk sel).bi 0 + 4 + 2)).toNat < 128)) :
    ((s.chk sel).bi.i =
        le24 (s.chk sel).bi 0 + 4 + le24 (s.chk sel).bi (le24 (s.chk sel).bi 0 + 4) + 4 →
      ((s.chk sel).bi.byte (le24 (s.chk sel).bi 0 + 8) = Char.ofNat 0xff →
        mysql_chk_outcome e sel done s =
          ⟨none, .report sel HCHK_STATUS_L7STS (some (String.mk
            (cstr ((s.chk sel).bi.data.drop (le24 (s.chk sel).bi 0 + 11)))))⟩) ∧
      ((s.chk sel).bi.byte (le24 (s.chk sel).bi 0 + 8) ≠ Char.ofNat 0xff →
        mysql_chk_outcome e sel done s =
          ⟨none, .report sel HCHK_STATUS_L7OKD (some (String.mk
            (cstr ((s.chk sel).bi.data.drop 5))))⟩)) ∧
    ((s.chk sel).bi.i = le24 (s.chk sel).bi 0 + 4 →
      (s.chk sel).bi.byte 4 = Char.ofNat 0xff → done = true ∨ 5 ≤ (s.chk sel).bi.i →
      mysql_chk_outcome e sel done s =
        ⟨none, .report sel HCHK_STATUS_L7STS (some (String.mk
          (cstr ((s.chk sel).bi.data.drop 7))))⟩) := by
  have hF : mysql_packet_len e (s.chk sel).bi 0 = le24 (s.chk sel).bi 0 :=
    mysql_packet_len_le24 e _ 0 h1 (hb _) (hb _) (hb _)
  have hS : mysql_packet_len e (s.chk sel).bi (le24 (s.chk sel).bi 0 + 4) =
      le24 (s.chk sel).bi (le24 (s.chk sel).bi 0 + 4) :=
    mysql_packet_len_le24 e _ _ h2 (hb _) (hb _) (hb _)
  have hFb := le24_lt (s.chk sel).bi 0 hb
  have hSb := le24_lt (s.chk sel).bi (le24 (s.chk sel).bi 0 + 4) hb
  have m1 : (le24 (s.chk sel).bi 0 + 4) % 2 ^ 32 = le24 (s.chk sel).bi 0 + 4 :=
    Nat.mod_eq_of_lt (by norm_num; omega)
  have m2 : (le24 (s.chk sel).bi 0 + 4 + le24 (s.chk sel).bi (le24 (s.chk sel).bi 0 + 4) + 4)
      % 2 ^ 32 =
      le24 (s.chk sel).bi 0 + 4 + le24 (s.chk sel).bi (le24 (s.chk sel).bi 0 + 4) + 4 :=
    Nat.mod_eq_of_lt (by norm_num; omega)
  have m3 : (le24 (s.chk sel).bi 0 + 11) % 2 ^ 32 = le24 (s.chk sel).bi 0 + 11 :=
    Nat.mod_eq_of_lt (by norm_num; omega)
  constructor
  · intro hi
    have hw : (!done && decide ((s.chk sel).bi.i < 5)) = false := by
      have : ¬ (s.chk sel).bi.i < 5 := by omega
      simp [this]
    have hne : ¬ (s.chk sel).bi.i = le24 (s.chk sel).bi 0 + 4 := by omega
    have hgt : (s.chk sel).bi.i > le24 (s.chk sel).bi 0 + 4 := by omega
    constructor
    · intro hff
      unfold mysql_chk_outcome mysql_two_packet_outcome
      simp only [hw, Bool.false_eq_true, if_false, if_neg hlen, hF, hS, m1, m2, m3, if_neg hne,
        if_pos hgt, if_pos hi, hff, bne_self_eq_false]
    · intro hff
      have hff' : ((s.chk sel).bi.byte (le24 (s.chk sel).bi 0 + 8) != Char.ofNat 0xff) = true := by
        simpa using hff
      unfold mysql_chk_outcome mysql_two_packet_outcome
      simp only [hw, Bool.false_eq_true, if_false, if_neg hlen, hF, hS, m1, m2, if_neg hne,
        if_pos hgt, if_pos hi, hff', if_true]
  · intro hi hff hdec
    have hw : (!done && decide ((s.chk sel).bi.i < 5)) = false := by
      rcases hdec with h | h
      · simp [h]
      · have : ¬ (s.chk sel).bi.i < 5 := by omega
        simp [this]
    unfold mysql_chk_outcome mysql_two_packet_outcome
    simp only [hw, Bool.false_eq_true, if_false, if_neg hlen, hF, m1, if_pos hi, hff,
      bne_self_eq_false]

/-- Claim C23: MySQL prober, two-packet mode (`check_len != 0`), evaluated
on a greeting whose handshake packet is 128 bytes long.  The three-byte
little-endian lengths are 128 and 7, the buffer holds exactly
`128 + 4 + 7 + 4` bytes and the byte at offset `128 + 8` is not 0xFF, so the
verdict should be L7OKD.  Where plain `char` is signed the source converts
the length byte 0x80 to `0xFFFFFF80`: the prober then takes the buffer for a
handshake packet without a valid length, waits for more data, and reports
L7RSP once `done` is set.  Where plain `char` is unsigned the same buffer
gives L7OKD. -/
theorem mysql_two_packet_sign_extension :
    le24 mysql_greeting_128 0 = 128 ∧
    le24 mysql_greeting_128 (128 + 4) = 7 ∧
    mysql_greeting_128.i = 128 + 4 + 7 + 4 ∧
    mysql_greeting_128.byte (128 + 8) ≠ Char.ofNat 0xff ∧
    mysql_packet_len { char_signed := true } mysql_greeting_128 0 = 4294967168 ∧
    (mysql_chk_outcome { char_signed := true } .check true
      { check := { status := HCHK_STATUS_INI, type := .MYSQL_CHK, bi := mysql_greeting_128 },
        proxy := { check_len := 23 } }).verdict =
      .report .check HCHK_STATUS_L7RSP (some (String.mk (cstr (mysql_greeting_128.data.drop 5)))) ∧
    (mysql_chk_outcome { char_signed := true } .check false
      { check := { status := HCHK_STATUS_INI, type := .MYSQL_CHK, bi := mysql_greeting_128 },
        proxy := { check_len := 23 } }).verdict = .wait_more_data ∧
    (mysql_chk_outcome { char_signed := false } .check false
      { check := { status := HCHK_STATUS_INI, type := .MYSQL_CHK, bi := mysql_greeting_128 },
        proxy := { check_len := 23 } }).verdict =
      .report .check HCHK_STATUS_L7OKD (some (String.mk (cstr (mysql_greeting_128.data.drop 5)))) := by
  refine ⟨by decide, by decide, by decide, by decide, by decide, ?_, ?_, ?_⟩
  · decide
  · decide
  · decide

/-- The LDAP prober once the buffer holds 14 bytes: the three tests in the
order of the source, then the result code. -/
theorem ldap_chk_outcome_of_full (e : Env) (sel : CheckSel) (done : Bool) (s : ServerData)
    (hi : 14 ≤ (s.chk sel).bi.i) :
    ldap_chk_outcome e sel done s =
      (if (s.chk sel).bi.byte 0 ≠ Char.ofNat 0x30 ∨
          ldap_extra_len ((s.chk sel).bi.byte 1) > 2 ∨
          [(s.chk sel).bi.byte (2 + ldap_extra_len ((s.chk sel).bi.byte 1)),
            (s.chk sel).bi.byte (2 + ldap_extra_len ((s.chk sel).bi.byte 1) + 1),
            (s.chk sel).bi.byte (2 + ldap_extra_len ((s.chk sel).bi.byte 1) + 2),
            (s.chk sel).bi.byte (2 + ldap_extra_len ((s.chk sel).bi.byte 1) + 3)] ≠
            [Char.ofNat 0x02, Char.ofNat 0x01, Char.ofNat 0x01, Char.ofNat 0x61] ∨
          ldap_extra_len ((s.chk sel).bi.byte 1) +
            ldap_extra_len ((s.chk sel).bi.byte
              (ldap_extra_len ((s.chk sel).bi.byte 1) + 6)) > 4 ∨
          [(s.chk sel).bi.byte (7 + (ldap_extra_len ((s.chk sel).bi.byte 1) +
              ldap_extra_len ((s.chk sel).bi.byte
                (ldap_extra_len ((s.chk sel).bi.byte 1) + 6)))),
            (s.chk sel).bi.byte (7 + (ldap_extra_len ((s.chk sel).bi.byte 1) +
              ldap_extra_len ((s.chk sel).bi.byte
                (ldap_extra_len ((s.chk sel).bi.byte 1) + 6))) + 1)] ≠
            [Char.ofNat 0x0a, Char.ofNat 0x01] then
        ⟨none, .report sel HCHK_STATUS_L7RSP (some "Not LDAPv3 protocol")⟩
      else if char_to_int e ((s.chk sel).bi.byte (ldap_extra_len ((s.chk sel).bi.byte 1) +
          ldap_extra_len ((s.chk sel).bi.byte
            (ldap_extra_len ((s.chk sel).bi.byte 1) + 6)) + 9)) ≠ 0 then
        ⟨some (char_to_int e ((s.chk sel).bi.byte (ldap_extra_len ((s.chk sel).bi.byte 1) +
          ldap_extra_len ((s.chk sel).bi.byte
            (ldap_extra_len ((s.chk sel).bi.byte 1) + 6)) + 9))),
          .report sel HCHK_STATUS_L7STS
            (some "See RFC: http://tools.ietf.org/html/rfc4511#section-4.1.9")⟩
      else
        ⟨some (char_to_int e ((s.chk sel).bi.byte (ldap_extra_len ((s.chk sel).bi.byte 1) +
          ldap_extra_len ((s.chk sel).bi.byte
            (ldap_extra_len ((s.chk sel).bi.byte 1) + 6)) + 9))),
          .report sel HCHK_STATUS_L7OKD (some "Success")⟩) := by
  have hlt : ¬ (s.chk sel).bi.i < 14 := by omega
  unfold ldap_chk_outcome
  simp only [hlt, decide_False, Bool.and_false, Bool.false_eq_true, if_false, Bool.false_or,
    Bool.or_eq_true, decide_eq_true_eq, bne_iff_ne, ne_eq]
  split_ifs <;> first | rfl | (exfalso; tauto)

/-- The value of a plain `char` is zero exactly for the byte zero. -/
theorem char_to_int_eq_zero (e : Env) (c : Char) (hb : c.toNat < 256) :
    char_to_int e c = 0 ↔ c.toNat = 0 := by
  unfold char_to_int
  by_cases h : 128 ≤ c.toNat
  · cases hs : e.char_signed
    · simp only [Bool.false_and, Bool.false_eq_true, if_false]
      omega
    · simp only [h, decide_True, Bool.and_self, if_true]
      omega
  · simp only [h, decide_False, Bool.and_false, Bool.false_eq_true, if_false]
    omega

/-- The value of a plain `char` is the byte when its high bit is clear. -/
theorem char_to_int_byte (e : Env) (c : Char) (h : c.toNat < 128) :
    char_to_int e c = c.toNat := by
  unfold char_to_int
  have : ¬ 128 ≤ c.toNat := by omega
  simp [this]

/-- Claim C24, counterexample: a well-formed bind response whose result byte
is 0x80, where plain `char` is signed: `check->code` receives the value of
the `char`, which is -128 and not the byte 0x80. -/
theorem ldap_code_is_signed_char :
    (ldap_chk_outcome {} .check true
      { check := { status := HCHK_STATUS_INI, type := .LDAP_CHK,
                   bi := { data := [0x30, 0x0c, 0x02, 0x01, 0x01, 0x61, 0x07, 0x0a, 0x01, 0x80,
                                    0x04, 0x00, 0x04, 0x00].map Char.ofNat, i := 14 } } }).code =
      some (-128) ∧
    ((-128 : Int) ≠ 0x80) := by
  refine ⟨by decide, by decide⟩

/-- Claim C24 (amended): LDAPv3 prober.  On every buffer of at least 14 bytes, with
`m1 = (b1 & 0x80) ? (b1 & 0x7F) : 0` and
`m2 = m1 + ((b[m1+6] & 0x80) ? (b[m1+6] & 0x7F) : 0)`, the verdict is L7RSP
`"Not LDAPv3 protocol"` when `b0 != 0x30`, or `m1 > 2`, or the bytes
`2+m1 .. 5+m1` are not `02 01 01 61`, or `m2 > 4`, or the bytes
`7+m2 .. 8+m2` are not `0A 01`; otherwise `check->code` is assigned the
plain `char` at `m2+9`, which is the byte itself when it is below 0x80 and,
from 0x80 on, the byte less 256 where plain `char` is signed and the byte
where it is not; the verdict is L7OKD when that byte is zero and L7STS when
it is not. -/
theorem ldap_verdict (e : Env) (sel : CheckSel) (done : Bool) (s : ServerData) (m1 m2 : Nat)
    (hi : 14 ≤ (s.chk sel).bi.i)
    (hm1 : m1 = if ((s.chk sel).bi.byte 1).toNat &&& 0x80 ≠ 0 then
      ((s.chk sel).bi.byte 1).toNat &&& 0x7f else 0)
    (hm2 : m2 = m1 + if ((s.chk sel).bi.byte (m1 + 6)).toNat &&& 0x80 ≠ 0 then
      ((s.chk sel).bi.byte (m1 + 6)).toNat &&& 0x7f else 0)
    (hb : ((s.chk sel).bi.byte (m2 + 9)).toNat < 256) :
    (((s.chk sel).bi.byte 0 ≠ Char.ofNat 0x30 ∨ m1 > 2 ∨
        [(s.chk sel).bi.byte (2 + m1), (s.chk sel).bi.byte (2 + m1 + 1),
          (s.chk sel).bi.byte (2 + m1 + 2), (s.chk sel).bi.byte (2 + m1 + 3)] ≠
          [Char.ofNat 0x02, Char.ofNat 0x01, Char.ofNat 0x01, Char.ofNat 0x61] ∨
        m2 > 4 ∨
        [(s.chk sel).bi.byte (7 + m2), (s.chk sel).bi.byte (7 + m2 + 1)] ≠
          [Char.ofNat 0x0a, Char.ofNat 0x01]) →
      ldap_chk_outcome e sel done s =
        ⟨none, .report sel HCHK_STATUS_L7RSP (some "Not LDAPv3 protocol")⟩) ∧
    (¬ ((s.chk sel).bi.byte 0 ≠ Char.ofNat 0x30 ∨ m1 > 2 ∨
        [(s.chk sel).bi.byte (2 + m1), (s.chk sel).bi.byte (2 + m1 + 1),
          (s.chk sel).bi.byte (2 + m1 + 2), (s.chk sel).bi.byte (2 + m1 + 3)] ≠
          [Char.ofNat 0x02, Char.ofNat 0x01, Char.ofNat 0x01, Char.ofNat 0x61] ∨
        m2 > 4 ∨
        [(s.chk sel).bi.byte (7 + m2), (s.chk sel).bi.byte (7 + m2 + 1)] ≠
          [Char.ofNat 0x0a, Char.ofNat 0x01]) →
      (ldap_chk_outcome e sel done s).code =
          some (char_to_int e ((s.chk sel).bi.byte (m2 + 9))) ∧
      (((s.chk sel).bi.byte (m2 + 9)).toNat < 128 →
        (ldap_chk_outcome e sel done s).code =
          some (((s.chk sel).bi.byte (m2 + 9)).toNat : Int)) ∧
      (128 ≤ ((s.chk sel).bi.byte (m2 + 9)).toNat →
        (ldap_chk_outcome e sel done s).code =
          some (if e.char_signed then (((s.chk sel).bi.byte (m2 + 9)).toNat : Int) - 256
            else (((s.chk sel).bi.byte (m2 + 9)).toNat : Int))) ∧
      (((s.chk sel).bi.byte (m2 + 9)).toNat = 0 →
        (ldap_chk_outcome e sel done s).verdict =
          .report sel HCHK_STATUS_L7OKD (some "Success")) ∧
      (((s.chk sel).bi.byte (m2 + 9)).toNat ≠ 0 →
        (ldap_chk_outcome e sel done s).verdict =
          .report sel HCHK_STATUS_L7STS
            (some "See RFC: http://tools.ietf.org/html/rfc4511#section-4.1.9")) ∧
      ((s.chk sel).status ≠ 0 →
        ((run_probe e sel (ldap_chk_outcome e sel done s) s).2.chk sel).code =
          char_to_int e ((s.chk sel).bi.byte (m2 + 9)) ∧
        ((run_probe e sel (ldap_chk_outcome e sel done s) s).2.chk sel).status =
          (if ((s.chk sel).bi.byte (m2 + 9)).toNat = 0 then HCHK_STATUS_L7OKD
           else HCHK_STATUS_L7STS))) ∧
    (check_statuses HCHK_STATUS_L7OKD).result = CHK_RES_PASSED ∧
    (check_statuses HCHK_STATUS_L7STS).result = CHK_RES_FAILED ∧
    (check_statuses HCHK_STATUS_L7RSP).result = CHK_RES_FAILED := by
  have e1 : ldap_extra_len ((s.chk sel).bi.byte 1) = m1 := by rw [hm1]; rfl
  have e2 : m1 + ldap_extra_len ((s.chk sel).bi.byte (m1 + 6)) = m2 := by rw [hm2]; rfl
  have hO := ldap_chk_outcome_of_full e sel done s hi
  rw [e1, e2] at hO
  have hz := char_to_int_eq_zero e _ hb
  refine ⟨fun hbad => ?_, fun hgood => ?_, by decide, by decide, by decide⟩
  · rw [hO, if_pos hbad]
  · rw [if_neg hgood] at hO
    have hcode : (ldap_chk_outcome e sel done s).code =
        some (char_to_int e ((s.chk sel).bi.byte (m2 + 9))) := by
      rw [hO]; split_ifs <;> rfl
    have hOK : ((s.chk sel).bi.byte (m2 + 9)).toNat = 0 →
        (ldap_chk_outcome e sel done s).verdict =
          .report sel HCHK_STATUS_L7OKD (some "Success") := by
      intro h
      rw [hO, if_neg (not_not.mpr (hz.mpr h))]
    have hSTS : ((s.chk sel).bi.byte (m2 + 9)).toNat ≠ 0 →
        (ldap_chk_outcome e sel done s).verdict =
          .report sel HCHK_STATUS_L7STS
            (some "See RFC: http://tools.ietf.org/html/rfc4511#section-4.1.9") := by
      intro h
      rw [hO, if_pos (fun h0 => h (hz.mp h0))]
    refine ⟨hcode, fun h => ?_, fun h => ?_, hOK, hSTS,
      fun hcur => ⟨run_probe_code e sel _ s _ hcode, ?_⟩⟩
    · rw [hcode, char_to_int_byte e _ h]
    · rw [hcode]
      unfold char_to_int
      cases e.char_signed <;> simp [h]
    · by_cases h : ((s.chk sel).bi.byte (m2 + 9)).toNat = 0
      · rw [if_pos h]
        exact (run_probe_recorded e sel _ s HCHK_STATUS_L7OKD _ (hOK h) (by decide) hcur
          (by decide)).2.1
      · rw [if_neg h]
        exact (run_probe_recorded e sel _ s HCHK_STATUS_L7STS _ (hSTS h) (by decide) hcur
          (by decide)).2.1

/-- Claim C24, witness: the bytes `30 0C 02 01 01 61 07 0A 01 00 04 00 04 00`
give L7OKD with code 0, and the same bytes with `31` at offset 9 give L7STS
with code 0x31. -/
theorem ldap_verdict_witness :
    ldap_chk_outcome {} .check false
      { check := { status := HCHK_STATUS_INI, type := .LDAP_CHK,
                   bi := { data := [0x30, 0x0c, 0x02, 0x01, 0x01, 0x61, 0x07, 0x0a, 0x01, 0x00,
                                    0x04, 0x00, 0x04, 0x00].map Char.ofNat, i := 14 } } } =
      ⟨some 0, .report .check HCHK_STATUS_L7OKD (some "Success")⟩ ∧
    (ldap_chk_outcome {} .check false
      { check := { status := HCHK_STATUS_INI, type := .LDAP_CHK,
                   bi := { data := [0x30, 0x0c, 0x02, 0x01, 0x01, 0x61, 0x07, 0x0a, 0x01, 0x31,
                                    0x04, 0x00, 0x04, 0x00].map Char.ofNat, i := 14 } } }).code =
      some 0x31 ∧
    (ldap_chk_outcome {} .check false
      { check := { status := HCHK_STATUS_INI, type := .LDAP_CHK,
                   bi := { data := [0x30, 0x0c, 0x02, 0x01, 0x01, 0x61, 0x07, 0x0a, 0x01, 0x31,
                                    0x04, 0x00, 0x04, 0x00].map Char.ofNat, i := 14 } } }).verdict =
      .report .check HCHK_STATUS_L7STS
        (some "See RFC: http://tools.ietf.org/html/rfc4511#section-4.1.9") :=
  ⟨by decide,
   ((ldap_verdict {} .check false
      { check := { status := HCHK_STATUS_INI, type := .LDAP_CHK,
                   bi := { data := [0x30, 0x0c, 0x02, 0x01, 0x01, 0x61, 0x07, 0x0a, 0x01, 0x31,
                                    0x04, 0x00, 0x04, 0x00].map Char.ofNat, i := 14 } } }
      0 0 (by decide) (by decide) (by decide) (by decide)).2.1 (by decide)).2.1 (by decide),
   ((ldap_verdict {} .check false
      { check := { status := HCHK_STATUS_INI, type := .LDAP_CHK,
                   bi := { data := [0x30, 0x0c, 0x02, 0x01, 0x01, 0x61, 0x07, 0x0a, 0x01, 0x31,
                                    0x04, 0x00, 0x04, 0x00].map Char.ofNat, i := 14 } } }
      0 0 (by decide) (by decide) (by decide) (by decide)).2.1 (by decide)).2.2.2.2.1
      (by decide)⟩

/-- Writing `SRV_DRAIN` touches no check. -/
theorem chk_set_drain (s : ServerData) (sel : CheckSel) (b : Bool) :
    ({ s with state := { s.state with DRAIN := b } } : ServerData).chk sel = s.chk sel := by
  cases sel <;> rfl

/-- Writing `s->uweight` touches no check. -/
theorem chk_set_uweight (s : ServerData) (sel : CheckSel) (w : Int) :
    ({ s with uweight := w } : ServerData).chk sel = s.chk sel := by
  cases sel <;> rfl

/-- The agent prober on the server, for a complete line: the check whose
status is non-zero ends with the reported status and its result. -/
theorem agent_chk_recorded (e : Env) (sel : CheckSel) (done : Bool) (s : ServerData)
    (line : List Char) (st : Nat) (d : Option String)
    (hline : agent_line (s.chk sel).bi.data = some line)
    (hv : (agent_chk_outcome e sel done s).verdict = .report sel st d)
    (h1 : st ≠ HCHK_STATUS_START) (h2 : (s.chk sel).status ≠ 0)
    (h3 : (check_statuses st).result ≠ CHK_RES_UNKNOWN) :
    (agent_chk e sel done s).1 = false ∧
    ((agent_chk e sel done s).2.chk sel).status = st ∧
    ((agent_chk e sel done s).2.chk sel).result = (check_statuses st).result := by
  unfold agent_chk
  simp only [hline, hv, chk_set_drain, true_and]
  cases agent_weight_request line with
  | none => exact recorded_status e sel st d s h1 h2 h3
  | some req =>
    exact recorded_status e sel st d _ h1 (by rw [chk_set_uweight]; exact h2) h3

/-- The SSL hello prober decides once `done` is set. -/
theorem ssl3_decides (sel : CheckSel) (s : ServerData) :
    (ssl3_chk_outcome sel true s).verdict.decided = true := by
  unfold ssl3_chk_outcome
  simp only [Bool.not_true, Bool.false_and, Bool.false_eq_true, if_false]
  split_ifs <;> rfl

/-- The SMTP prober decides once `done` is set. -/
theorem smtp_decides (sel : CheckSel) (s : ServerData) :
    (smtp_chk_outcome sel true s).verdict.decided = true := by
  unfold smtp_chk_outcome
  simp only [Bool.not_true, Bool.false_and, Bool.false_eq_true, if_false]
  split_ifs <;> rfl

/-- The PostgreSQL prober decides once `done` is set. -/
theorem pgsql_decides (sel : CheckSel) (s : ServerData) :
    (pgsql_chk_outcome sel true s).verdict.decided = true := by
  unfold pgsql_chk_outcome
  simp only [Bool.not_true, Bool.false_and, Bool.false_eq_true, if_false]
  split_ifs <;> rfl

/-- The Redis prober decides once `done` is set. -/
theorem redis_decides (sel : CheckSel) (s : ServerData) :
    (redis_chk_outcome sel true s).verdict.decided = true := by
  unfold redis_chk_outcome
  simp only [Bool.not_true, Bool.false_and, Bool.false_eq_true, if_false]
  split_ifs <;> rfl

/-- The MySQL prober in legacy mode decides once `done` is set. -/
theorem mysql_legacy_decides (e : Env) (sel : CheckSel) (s : ServerData)
    (hlen : s.proxy.check_len = 0) :
    (mysql_chk_outcome e sel true s).verdict.decided = true := by
  unfold mysql_chk_outcome mysql_legacy_outcome
  simp only [Bool.not_true, Bool.false_and, Bool.false_eq_true, if_false, hlen, if_true]
  split_ifs <;> rfl

/-- The LDAP prober decides once `done` is set. -/
theorem ldap_decides (e : Env) (sel : CheckSel) (s : ServerData) :
    (ldap_chk_outcome e sel true s).verdict.decided = true := by
  unfold ldap_chk_outcome
  simp only [Bool.not_true, Bool.false_and, Bool.false_eq_true, if_false]
  split_ifs <;> rfl

/-- The content verification of an HTTP check decides once `done` is set,
when an expect rule is configured. -/
theorem httpchk_expect_decides (e : Env) (s : ServerData)
    (hexp : s.proxy.EXP_TYPE ≠ .NONE) :
    (httpchk_expect_verdict e s true).decided = true := by
  have hs : (httpchk_expect_status e s).decided = true := by
    obtain ⟨st, d, h1, h2⟩ := httpchk_expect_status_cases e s
    rw [h1]
    rcases h2 with h | h <;> rw [h] <;> rfl
  have hb : (httpchk_expect_body e s true).decided = true := by
    rcases httpchk_expect_body_cases e s true with ⟨-, h⟩ | ⟨st, d, h1, h2⟩
    · cases h
    · rw [h1]
      rcases h2 with h | h <;> rw [h] <;> rfl
  unfold httpchk_expect_verdict
  cases hE : s.proxy.EXP_TYPE with
  | NONE => exact absurd hE hexp
  | STS => exact hs
  | RSTS => exact hs
  | STR => exact hb
  | RSTR => exact hb

/-- The HTTP prober decides once `done` is set. -/
theorem http_decides (e : Env) (sel : CheckSel) (s : ServerData) :
    (http_chk_outcome e sel true s).verdict.decided = true := by
  unfold http_chk_outcome
  simp only [Bool.not_true, Bool.false_and, Bool.false_eq_true, if_false]
  split_ifs with h1 h2 h3 h4
  · rfl
  · rfl
  · apply httpchk_expect_decides
    cases sel <;> simpa [ServerData.setChk] using h3
  · rfl
  · rfl

/-- The agent prober decides once `done` is set, on a complete line that
is not a weight or drain request made while the agent is disabled. -/
theorem agent_decides (e : Env) (sel : CheckSel) (s : ServerData) (line : List Char)
    (hline : agent_line (s.chk sel).bi.data = some line)
    (hen : s.agent.state.ENABLED = true ∨ agent_weight_request line = none) :
    (agent_chk_outcome e sel true s).verdict.decided = true := by
  unfold agent_chk_outcome
  simp only [hline]
  unfold agent_weight_request at hen
  split_ifs at hen ⊢
  all_goals first
    | rfl
    | (split <;> first | rfl | (split_ifs <;> rfl))
    | (simp at hen; simp_all)

/-- A verdict that settles the round is a report of a status whose result
is `FAILED`, `PASSED` or `CONDPASS`. -/
theorem decided_report (v : Verdict) (h : v.decided = true) :
    ∃ t st d, v = .report t st d ∧ st ≠ HCHK_STATUS_START ∧
      ((check_statuses st).result = CHK_RES_PASSED ∨
        (check_statuses st).result = CHK_RES_CONDPASS ∨
        (check_statuses st).result = CHK_RES_FAILED) := by
  cases v with
  | wait_more_data => cases h
  | no_status => cases h
  | report t st d =>
    simp only [Verdict.decided, Bool.and_eq_true, Bool.or_eq_true, bne_iff_ne, ne_eq,
      beq_iff_eq] at h
    exact ⟨t, st, d, rfl, h.1, by tauto⟩

/-- What a reporting prober leaves in the check it reports to, which for
the content verification of an HTTP check is the primary check. -/
theorem run_probe_recorded_any (e : Env) (sel : CheckSel) (o : ProbeOutcome) (s : ServerData)
    (t : CheckSel) (st : Nat) (d : Option String) (hv : o.verdict = .report t st d)
    (h1 : st ≠ HCHK_STATUS_START) (h2 : (s.chk t).status ≠ 0)
    (h3 : (check_statuses st).result ≠ CHK_RES_UNKNOWN) :
    (run_probe e sel o s).1 = false ∧
    ((run_probe e sel o s).2.chk t).status = st ∧
    ((run_probe e sel o s).2.chk t).result = (check_statuses st).result := by
  unfold run_probe
  simp only [hv, true_and]
  cases hc : o.code with
  | none => exact recorded_status e t st d s h1 h2 h3
  | some c =>
    exact recorded_status e t st d _ h1 (by rw [chk_set_code_status]; exact h2) h3

/-- The agent prober reports to the check it runs for. -/
theorem agent_report_target (e : Env) (sel : CheckSel) (done : Bool) (s : ServerData)
    (t : CheckSel) (st : Nat) (d : Option String)
    (h : (agent_chk_outcome e sel done s).verdict = .report t st d) : t = sel := by
  unfold agent_chk_outcome at h
  cases hl : agent_line (s.chk sel).bi.data with
  | none =>
    simp only [hl] at h
    split_ifs at h
    cases h
    rfl
  | some line =>
    cases hp : (e.server_parse_weight_change_request s.uweight line).1 <;>
    cases hq : (e.server_parse_weight_change_request s.uweight "0%".toList).1 <;>
    cases hk : agent_down_cmd line <;>
    simp only [hl, hp, hq, hk] at h <;>
    split_ifs at h <;> cases h <;> rfl

/-- The two-packet mode of the MySQL prober leaves the `switch` without a
status, also with `done` set, when the buffer holds the handshake packet and
nothing else. -/
theorem mysql_two_packet_no_status :
    mysql_chk_outcome {} .check true
      { check := { status := HCHK_STATUS_INI, type := .MYSQL_CHK,
                   bi := { data := [Char.ofNat 5, Char.ofNat 0, Char.ofNat 0, Char.ofNat 0,
                                    Char.ofNat 0x0a, '5', '.', '5', Char.ofNat 0, Char.ofNat 0],
                           i := 9 } },
        proxy := { check_len := 23 } } = ⟨none, .no_status⟩ := by
  decide

/-- The probers that decide once `done` is set: the HTTP, SSL hello, SMTP,
PostgreSQL, Redis and LDAP probers and the MySQL prober in legacy mode on
every buffer, the agent prober on every complete line that is not a weight or
drain request made while the agent is disabled.  They report a status to
which the table gives a result, and the check they report to, when its
current status is non-zero, leaves the `switch` with that result. -/
theorem probe_switch_decides (e : Env) (sel : CheckSel) (s : ServerData)
    (hcov : (s.chk sel).type = .HTTP_CHK ∨ (s.chk sel).type = .SSL3_CHK ∨
      (s.chk sel).type = .SMTP_CHK ∨ (s.chk sel).type = .PGSQL_CHK ∨
      (s.chk sel).type = .REDIS_CHK ∨ (s.chk sel).type = .LDAP_CHK ∨
      ((s.chk sel).type = .MYSQL_CHK ∧ s.proxy.check_len = 0) ∨
      ((s.chk sel).type = .LB_AGENT_CHK ∧ ∃ line, agent_line (s.chk sel).bi.data = some line ∧
        (s.agent.state.ENABLED = true ∨ agent_weight_request line = none))) :
    ∃ t st d, (probe_outcome e sel true s).verdict = .report t st d ∧
      ((check_statuses st).result = CHK_RES_PASSED ∨
        (check_statuses st).result = CHK_RES_CONDPASS ∨
        (check_statuses st).result = CHK_RES_FAILED) ∧
      ((s.chk t).status ≠ 0 →
        (probe_switch e sel true s).1 = false ∧
        ((probe_switch e sel true s).2.chk t).result = (check_statuses st).result) := by
  have hdec : (probe_outcome e sel true s).verdict.decided = true := by
    unfold probe_outcome
    rcases hcov with h | h | h | h | h | h | ⟨h, hl⟩ | ⟨h, line, hl, hen⟩ <;> rw [h]
    · exact http_decides e sel s
    · exact ssl3_decides sel s
    · exact smtp_decides sel s
    · exact pgsql_decides sel s
    · exact redis_decides sel s
    · exact ldap_decides e sel s
    · exact mysql_legacy_decides e sel s hl
    · exact agent_decides e sel s line hl hen
  obtain ⟨t, st, d, hv, h1, h3⟩ := decided_report _ hdec
  have h3' : (check_statuses st).result ≠ CHK_RES_UNKNOWN := by
    rcases h3 with h | h | h <;> rw [h] <;> decide
  refine ⟨t, st, d, hv, h3, fun hcur => ?_⟩
  by_cases ha : (s.chk sel).type = .LB_AGENT_CHK
  · have hO : probe_outcome e sel true s = agent_chk_outcome e sel true s := by
      unfold probe_outcome; rw [ha]
    rw [hO] at hv
    have ht := agent_report_target e sel true s t st d hv
    subst ht
    obtain ⟨line, hl⟩ : ∃ line, agent_line (s.chk t).bi.data = some line := by
      rcases hcov with h | h | h | h | h | h | ⟨h, -⟩ | ⟨-, line, hl, -⟩
      all_goals first
        | exact ⟨line, hl⟩
        | (rw [ha] at h; cases h)
    have hr := agent_chk_recorded e t true s line st d hl hv h1 hcur h3'
    unfold probe_switch
    rw [if_pos ha]
    exact ⟨hr.1, hr.2.2⟩
  · have hr := run_probe_recorded_any e sel _ s t st d hv h1 hcur h3'
    unfold probe_switch
    rw [if_neg ha]
    exact ⟨hr.1, hr.2.2⟩


/-- `set_server_check_status` on one check leaves the other check alone. -/
theorem set_server_check_status_other (e : Env) (sel t : CheckSel) (st : Nat)
    (d : Option String) (s : ServerData) (h : t ≠ sel) :
    (set_server_check_status e sel st d s).chk t = s.chk t := by
  unfold set_server_check_status
  simp only
  split_ifs <;> cases sel <;> cases t <;>
    first
      | exact absurd rfl h
      | rfl

/-- `chk_report_conn_err` leaves the result of a check alone when the check
is not the one it reports for, or has a result already. -/
theorem chk_report_conn_err_result (e : Env) (sel t : CheckSel) (errno_bck : Int)
    (expired : Bool) (conn : Connection) (s : ServerData)
    (h : t = sel → (s.chk sel).result ≠ CHK_RES_UNKNOWN) :
    ((chk_report_conn_err e sel errno_bck expired conn s).2.chk t).result =
      (s.chk t).result := by
  unfold chk_report_conn_err
  simp only
  by_cases hr : (s.chk sel).result ≠ CHK_RES_UNKNOWN
  · rw [if_pos hr]
  · have hne : t ≠ sel := fun ht => hr (h ht)
    rw [if_neg hr]
    split_ifs
    · rfl
    · split
      · rw [set_server_check_status_other e sel t _ _ s hne]
      · rfl
    · rfl
    · split
      · rw [set_server_check_status_other e sel t _ _ s hne]
      · rfl

/-- The end of the read handler leaves the result of a check alone when
the check is not the one of the handler, or has a result already. -/
theorem chk_r_out_wakeup_result (e : Env) (sel t : CheckSel) (conn : Connection)
    (s : ServerData) (h : t = sel → (s.chk sel).result ≠ CHK_RES_UNKNOWN) :
    ((chk_r_out_wakeup e sel conn s).2.chk t).result = (s.chk t).result := by
  have hr := chk_report_conn_err_result e sel t 0 false conn s h
  unfold chk_r_out_wakeup
  simp only
  split_ifs <;> cases sel <;> cases t <;>
    first
      | exact hr
      | rfl

/-- Claim C26, counterexample: an agent check in its first round (status
`INI`, result `UNKNOWN`) has received `up` without an end of line when the
server shuts the connection, so `done` is set.  The prober reports the
current status of the check again; the table gives no result for `INI`, and
the read handler wakes the task with the result still `UNKNOWN`. -/
theorem agent_incomplete_line_stays_unknown :
    (probe_outcome {} .agent true
      { agent := { status := HCHK_STATUS_INI, result := CHK_RES_UNKNOWN, type := .LB_AGENT_CHK,
                   state := { ENABLED := true, AGENT := true },
                   bi := { data := "up\x00\x00\x00\x00\x00\x00".toList, i := 2 } } }).verdict =
      .report .agent HCHK_STATUS_INI (some "Ignoring incomplete line from agent") ∧
    (check_statuses HCHK_STATUS_INI).result = CHK_RES_UNKNOWN ∧
    (event_srv_chk_r_received {} .agent 0 { flags := { CONNECTED := true, SOCK_RD_SH := true } }
      { agent := { status := HCHK_STATUS_INI, result := CHK_RES_UNKNOWN, type := .LB_AGENT_CHK,
                   state := { ENABLED := true, AGENT := true },
                   bi := { data := "up\x00\x00\x00\x00\x00\x00".toList, i := 2 } } }).1 =
      false ∧
    ((event_srv_chk_r_received {} .agent 0 { flags := { CONNECTED := true, SOCK_RD_SH := true } }
      { agent := { status := HCHK_STATUS_INI, result := CHK_RES_UNKNOWN, type := .LB_AGENT_CHK,
                   state := { ENABLED := true, AGENT := true },
                   bi := { data := "up\x00\x00\x00\x00\x00\x00".toList, i := 2 } } }).2.2.chk
        .agent).result = CHK_RES_UNKNOWN := by
  refine ⟨by decide, by decide, by decide, by decide⟩

/-- Claim C26, amended: the probers that decide once `done` is asserted.
When the read handler has `done` set (error with data, read shut, or buffer
full), then for the HTTP, SSL hello, SMTP, PostgreSQL, Redis and LDAP probers
and the MySQL prober in legacy mode on every buffer content, and for the
agent prober on every complete line that is not a weight or drain request
made while the agent is disabled, the prober reports a status to which the
table gives the result `PASSED`, `CONDPASS` or `FAILED`, and the check it
reports to, when its current status is non-zero, has that result when the
handler wakes the task. -/
theorem probers_decide_when_done (e : Env) (sel : CheckSel) (errno : Int) (conn : Connection)
    (s : ServerData)
    (hdata : ¬ (conn.flags.ERROR = true ∧ (s.chk sel).bi.i = 0))
    (hdone : conn.flags.ERROR = true ∨ conn.flags.SOCK_RD_SH = true ∨
      conn.flags.DATA_RD_SH = true ∨ ¬ (s.chk sel).bi.i < (s.chk sel).bi.size)
    (hcov : (s.chk sel).type = .HTTP_CHK ∨ (s.chk sel).type = .SSL3_CHK ∨
      (s.chk sel).type = .SMTP_CHK ∨ (s.chk sel).type = .PGSQL_CHK ∨
      (s.chk sel).type = .REDIS_CHK ∨ (s.chk sel).type = .LDAP_CHK ∨
      ((s.chk sel).type = .MYSQL_CHK ∧ s.proxy.check_len = 0) ∨
      ((s.chk sel).type = .LB_AGENT_CHK ∧
        ∃ line, agent_line (chk_r_terminate (s.chk sel).bi).2.data = some line ∧
          (s.agent.state.ENABLED = true ∨ agent_weight_request line = none))) :
    ∃ t st d,
      (probe_outcome e sel true
        (s.setChk sel { s.chk sel with bi := (chk_r_terminate (s.chk sel).bi).2 })).verdict =
        .report t st d ∧
      ((check_statuses st).result = CHK_RES_PASSED ∨
        (check_statuses st).result = CHK_RES_CONDPASS ∨
        (check_statuses st).result = CHK_RES_FAILED) ∧
      ((s.chk t).status ≠ 0 →
        (event_srv_chk_r_received e sel errno conn s).1 = false ∧
        ((event_srv_chk_r_received e sel errno conn s).2.2.chk t).result =
          (check_statuses st).result) := by
  have hty : ((s.setChk sel { s.chk sel with bi := (chk_r_terminate (s.chk sel).bi).2 }).chk
      sel).type = (s.chk sel).type := by rw [chk_setChk]
  have hbi : ((s.setChk sel { s.chk sel with bi := (chk_r_terminate (s.chk sel).bi).2 }).chk
      sel).bi = (chk_r_terminate (s.chk sel).bi).2 := by rw [chk_setChk]
  have hpx : (s.setChk sel { s.chk sel with bi := (chk_r_terminate (s.chk sel).bi).2 }).proxy =
      s.proxy := by cases sel <;> rfl
  have hen : (s.setChk sel
      { s.chk sel with bi := (chk_r_terminate (s.chk sel).bi).2 }).agent.state.ENABLED =
      s.agent.state.ENABLED := by cases sel <;> rfl
  have hstat : ∀ t, ((s.setChk sel
      { s.chk sel with bi := (chk_r_terminate (s.chk sel).bi).2 }).chk t).status =
      (s.chk t).status := by
    intro t; cases sel <;> cases t <;> rfl
  obtain ⟨t, st, d, hv, hres, hrec⟩ := probe_switch_decides e sel
    (s.setChk sel { s.chk sel with bi := (chk_r_terminate (s.chk sel).bi).2 })
    (by rw [hty, hbi, hpx, hen]; exact hcov)
  refine ⟨t, st, d, hv, hres, fun hcur => ?_⟩
  obtain ⟨hw, hr⟩ := hrec (by rw [hstat]; exact hcur)
  have h1 : (conn.flags.ERROR && (s.chk sel).bi.i == 0) = false := by
    cases hE : conn.flags.ERROR
    · rfl
    · have : (s.chk sel).bi.i ≠ 0 := fun h0 => hdata ⟨hE, h0⟩
      simpa using this
  have h2 : (conn.flags.ERROR || conn.flags.SOCK_RD_SH || conn.flags.DATA_RD_SH ||
      (chk_r_terminate (s.chk sel).bi).1) = true := by
    rcases hdone with h | h | h | h
    · simp [h]
    · simp [h]
    · simp [h]
    · simp [chk_r_terminate, h]
  have hne : (check_statuses st).result ≠ CHK_RES_UNKNOWN := by
    rcases hres with h | h | h <;> rw [h] <;> decide
  unfold event_srv_chk_r_received
  simp only [h1, Bool.false_eq_true, if_false, h2, hw]
  refine ⟨trivial, ?_⟩
  rw [chk_r_out_wakeup_result e sel t conn _ (fun ht => by subst ht; rw [hr]; exact hne)]
  exact hr

/-- Claim C26, witness: a Redis check whose server answers with an error
and shuts the connection ends the round with the result `FAILED`. -/
theorem probers_decide_when_done_witness :
    ((event_srv_chk_r_received {} .check 0 { flags := { CONNECTED := true, SOCK_RD_SH := true } }
      { check := { status := HCHK_STATUS_INI, type := .REDIS_CHK,
                   bi := { data := "-ERR\r\n\x00\x00".toList, i := 6 } } }).2.2.chk
        .check).result = CHK_RES_FAILED := by
  obtain ⟨t, st, d, hv, -, hrec⟩ := probers_decide_when_done {} .check 0
    { flags := { CONNECTED := true, SOCK_RD_SH := true } }
    { check := { status := HCHK_STATUS_INI, type := .REDIS_CHK,
                 bi := { data := "-ERR\r\n\x00\x00".toList, i := 6 } } }
    (by decide) (Or.inr (Or.inl rfl)) (Or.inr (Or.inr (Or.inr (Or.inr (Or.inl rfl)))))
  have hv' := hv.symm.trans
    (show _ = Verdict.report .check HCHK_STATUS_L7STS (some "-ERR\r\n") from by decide)
  cases hv'
  exact (hrec (by decide)).2

/-- Every analysed status has a description in `analyze_statuses`. -/
theorem analyze_statuses_desc (status : Nat) (hst : status < HANA_STATUS_SIZE) :
    (analyze_statuses status).desc ≠ none := by
  have h : status < 10 := hst
  interval_cases status <;> decide

/-- The body of `__health_adjust` for a valid observe layer `k + 1` and an
analysed status: the outcome `lr[k]` of the table selects the branch. -/
theorem health_adjust_eq (e : Env) (status : Nat) (srv : Server) (k : Nat)
    (hobs : srv.core.observe = k + 1) (hk : k + 1 < HANA_OBS_SIZE)
    (hst : status < HANA_STATUS_SIZE) :
    __health_adjust e status srv =
      (if (analyze_statuses status).lr[k]? = some 1 then some (hana_failed e status srv)
       else if (analyze_statuses status).lr[k]? = some 2 then
         some ⟨{ srv.core with consecutive_errors := 0 }, srv.trackers⟩
       else some srv) := by
  have h1 : ¬ srv.core.observe ≥ HANA_OBS_SIZE := by rw [hobs]; omega
  have h2 : ¬ (status ≥ HANA_STATUS_SIZE ∨ (analyze_statuses status).desc = none) := by
    intro h
    rcases h with h | h
    · omega
    · exact analyze_statuses_desc status hst h
  unfold __health_adjust
  simp only [if_neg h1, if_neg h2]
  rw [hobs]
  simp only
  generalize (analyze_statuses status).lr[k]? = o
  rcases o with _ | _ | _ | _ | n <;> simp


/-- `HanaKept` is reflexive. -/
theorem hanaKept_refl (s : ServerData) : HanaKept s s := ⟨rfl, rfl, rfl⟩

/-- `HanaKept` is transitive. -/
theorem hanaKept_trans {a b c : ServerData} (h1 : HanaKept a b) (h2 : HanaKept b c) :
    HanaKept a c :=
  ⟨h2.1.trans h1.1, h2.2.1.trans h1.2.1, h2.2.2.trans h1.2.2⟩

/-- Writing the health of a check keeps `HanaKept`. -/
theorem hanaKept_setHealth (s : ServerData) (sel : CheckSel) (h : Int) :
    HanaKept s (s.setHealth sel h) := by
  cases sel <;> exact ⟨rfl, rfl, rfl⟩

/-- `set_server_check_status` keeps `HanaKept`. -/
theorem hanaKept_set_server_check_status (e : Env) (sel : CheckSel) (st : Nat)
    (desc : Option String) (s : ServerData) :
    HanaKept s (set_server_check_status e sel st desc s) := by
  have hrec : ∀ c : Check, (record_status e st desc c).fastinter = c.fastinter ∧
      (record_status e st desc c).task_expire = c.task_expire := by
    intro c
    unfold record_status
    simp only
    split_ifs <;> exact ⟨rfl, rfl⟩
  have hset : ∀ c : Check, c.fastinter = (s.chk sel).fastinter →
      c.task_expire = (s.chk sel).task_expire → HanaKept s (s.setChk sel c) := by
    intro c h1 h2
    cases sel
    · exact ⟨rfl, h1, h2⟩
    · exact ⟨rfl, rfl, rfl⟩
  obtain ⟨r1, r2⟩ := hrec (s.chk sel)
  unfold set_server_check_status
  simp only
  split_ifs
  · exact hset _ rfl rfl
  · exact hanaKept_refl s
  · exact hset _ r1 r2
  · exact hanaKept_trans (hset _ r1 r2) ⟨rfl, rfl, rfl⟩
  · exact hset _ r1 r2
  · exact hset _ r1 r2

/-- `set_server_down` keeps `HanaKept` on the server it is called for. -/
theorem hanaKept_set_server_down (e : Env) (sel : CheckSel) (srv : Server) :
    HanaKept srv.core (set_server_down e sel srv).core := by
  rw [set_server_down_core]
  unfold maintain_health mark_down
  split_ifs <;> cases sel <;> exact ⟨rfl, rfl, rfl⟩

/-- `check_failed` keeps `HanaKept` on the server it is called for. -/
theorem hanaKept_check_failed (e : Env) (sel : CheckSel) (srv : Server) :
    HanaKept srv.core (check_failed e sel srv).core := by
  unfold check_failed
  simp only
  split_ifs
  · exact hanaKept_refl _
  · cases sel <;> exact ⟨rfl, rfl, rfl⟩
  · exact hanaKept_set_server_down e sel srv

/-- Every `onerror` reaction keeps `HanaKept`. -/
theorem hanaKept_hana_react (e : Env) (status : Nat) (srv : Server) :
    HanaKept srv.core (hana_react e status srv).core := by
  unfold hana_react
  simp only
  split_ifs
  · exact hanaKept_refl _
  · exact hanaKept_trans
      (hanaKept_trans (hanaKept_setHealth srv.core .check _)
        (hanaKept_set_server_check_status e .check _ _ _))
      (hanaKept_check_failed e .check ⟨_, srv.trackers⟩)
  · exact hanaKept_trans (hanaKept_set_server_check_status e .check _ _ _)
      (hanaKept_check_failed e .check ⟨_, srv.trackers⟩)
  · exact hanaKept_trans (hanaKept_set_server_check_status e .check _ _ _)
      (hanaKept_check_failed e .check ⟨_, srv.trackers⟩)
  · exact hanaKept_trans
      (hanaKept_trans (hanaKept_setHealth srv.core .check _)
        (hanaKept_set_server_check_status e .check _ _ _))
      (hanaKept_set_server_down e .check ⟨_, srv.trackers⟩)
  · exact hanaKept_refl _

/-- The end of `__health_adjust`: the error count is reset, the event is
counted, nothing else of the server record but the expiry of the check task
changes. -/
theorem hana_finish_core (e : Env) (srv : Server) :
    (hana_finish e srv).core.consecutive_errors = 0 ∧
    (hana_finish e srv).core.counters.failed_hana = srv.core.counters.failed_hana + 1 ∧
    (hana_finish e srv).core.state = srv.core.state ∧
    (hana_finish e srv).core.check.health = srv.core.check.health ∧
    (hana_finish e srv).core.check.status = srv.core.check.status ∧
    (hana_finish e srv).core.check.duration = srv.core.check.duration := by
  unfold hana_finish
  simp only
  split_ifs <;> exact ⟨rfl, rfl, rfl, rfl, rfl, rfl⟩

/-- `set_server_check_status` leaves the state bits of the server, its
`track` link and the health, `rise`, `fall` and state bits of every check
alone. -/
theorem set_server_check_status_frame (e : Env) (t sel : CheckSel) (st : Nat)
    (d : Option String) (s : ServerData) :
    (set_server_check_status e t st d s).state = s.state ∧
    (set_server_check_status e t st d s).track = s.track ∧
    ((set_server_check_status e t st d s).chk sel).health = (s.chk sel).health ∧
    ((set_server_check_status e t st d s).chk sel).rise = (s.chk sel).rise ∧
    ((set_server_check_status e t st d s).chk sel).fall = (s.chk sel).fall ∧
    ((set_server_check_status e t st d s).chk sel).state = (s.chk sel).state := by
  have hrec : ∀ c : Check, (record_status e st d c).health = c.health ∧
      (record_status e st d c).rise = c.rise ∧ (record_status e st d c).fall = c.fall ∧
      (record_status e st d c).state = c.state := by
    intro c
    unfold record_status
    simp only
    split_ifs <;> exact ⟨rfl, rfl, rfl, rfl⟩
  unfold set_server_check_status
  simp only
  split_ifs <;> cases t <;> cases sel <;>
    simp [ServerData.setChk, ServerData.chk, hrec]

/-- The status `HANA` recorded in a check sets its duration to -1. -/
theorem record_status_hana (e : Env) (desc : Option String) (c : Check) :
    (record_status e HCHK_STATUS_HANA desc c).status = HCHK_STATUS_HANA ∧
    (record_status e HCHK_STATUS_HANA desc c).duration = -1 := by
  refine ⟨record_status_status e _ desc c, ?_⟩
  unfold record_status
  simp only [if_true]

/-- The reaction `MARKDWN` on a running server: the server goes down with
health zero, and a primary check whose status is non-zero gets the status
`HANA` with duration -1. -/
theorem hana_react_markdwn (e : Env) (status : Nat) (srv : Server)
    (hon : srv.core.onerror = HANA_ONERR_MARKDWN) (hrun : srv.core.state.RUNNING = true) :
    (hana_react e status srv).core.state.RUNNING = false ∧
    (hana_react e status srv).core.check.health = 0 ∧
    (srv.core.check.status ≠ 0 →
      (hana_react e status srv).core.check.status = HCHK_STATUS_HANA ∧
      (hana_react e status srv).core.check.duration = -1) := by
  have hE : hana_react e status srv =
      set_server_down e .check
        ⟨set_server_check_status e .check HCHK_STATUS_HANA
          (some (hana_message srv.core.consecutive_errors status))
          (srv.core.setHealth .check srv.core.check.rise), srv.trackers⟩ := by
    unfold hana_react
    simp [hon]
  have hf := set_server_check_status_frame e .check .check HCHK_STATUS_HANA
    (some (hana_message srv.core.consecutive_errors status))
    (srv.core.setHealth .check srv.core.check.rise)
  generalize hs2 : set_server_check_status e .check HCHK_STATUS_HANA
    (some (hana_message srv.core.consecutive_errors status))
    (srv.core.setHealth .check srv.core.check.rise) = s2 at hE hf
  have h1 : s2.state.RUNNING = true := by rw [hf.1]; exact hrun
  have h2 : s2.check.health = s2.check.rise := by
    have a := hf.2.2.1
    have b := hf.2.2.2.1
    simp only [ServerData.chk, ServerData.setHealth, ServerData.setChk] at a b
    rw [a, b]
  have hm : (maintain_health .check s2).state = s2.state ∧
      (maintain_health .check s2).check.health = s2.check.rise ∧
      (maintain_health .check s2).check.rise = s2.check.rise ∧
      (maintain_health .check s2).check.status = s2.check.status ∧
      (maintain_health .check s2).check.duration = s2.check.duration := by
    unfold maintain_health
    split_ifs
    · exact ⟨rfl, rfl, rfl, rfl, rfl⟩
    · exact ⟨rfl, h2, rfl, rfl, rfl⟩
  have hd : down_transition .check (maintain_health .check s2) = true := by
    unfold down_transition
    simp [ServerData.chk, hm.1, h1, hm.2.1, hm.2.2.1]
  rw [hE, set_server_down_core]
  simp only [hd, if_true]
  refine ⟨rfl, rfl, fun hcur => ?_⟩
  have hc : s2.check = record_status e HCHK_STATUS_HANA
      (some (hana_message srv.core.consecutive_errors status))
      ((srv.core.setHealth .check srv.core.check.rise).check) := by
    rw [← hs2]
    exact set_server_check_status_chk e .check HCHK_STATUS_HANA _ _ (by decide) hcur
  have hh := record_status_hana e (some (hana_message srv.core.consecutive_errors status))
    ((srv.core.setHealth .check srv.core.check.rise).check)
  rw [← hc] at hh
  constructor
  · show (maintain_health .check s2).check.status = _
    rw [hm.2.2.2.1]; exact hh.1
  · show (maintain_health .check s2).check.duration = _
    rw [hm.2.2.2.2]; exact hh.2

/-- The outcomes of the table are 0 (ignore), 1 (fail) and 2 (ok). -/
theorem analyze_statuses_lr (status k : Nat) (hst : status < HANA_STATUS_SIZE)
    (hk : k + 1 < HANA_OBS_SIZE) :
    (analyze_statuses status).lr[k]? = some 0 ∨ (analyze_statuses status).lr[k]? = some 1 ∨
      (analyze_statuses status).lr[k]? = some 2 := by
  have h : status < 10 := hst
  have hk' : k < 2 := by
    have : k + 1 < 3 := hk
    omega
  interval_cases status <;> interval_cases k <;> decide

/-- Claim C27, counterexample: a running server observed at layer 7 with
`onerror = MARKDWN` and a limit of one error, whose primary check has the
status `UNKNOWN` (zero).  One failed response sets the server down with
health zero, but `set_server_check_status` returns at once on a check
without status: the status is not `HANA` and the duration is not -1. -/
theorem markdwn_keeps_unknown_status :
    (__health_adjust {} HANA_STATUS_HTTP_STS
      ⟨{ state := { RUNNING := true }, observe := HANA_OBS_LAYER7,
         onerror := HANA_ONERR_MARKDWN, consecutive_errors := 0,
         consecutive_errors_limit := 1,
         check := { status := HCHK_STATUS_UNKNOWN, rise := 2, fall := 3, health := 4,
                    duration := 7 } }, []⟩).map
      (fun r => (r.core.state.RUNNING, r.core.check.health, r.core.check.status,
        r.core.check.duration)) =
      some (false, 0, HCHK_STATUS_UNKNOWN, 7) := by
  decide

/-- Claim C27, amended: observe-mode counting.  For every server with a
valid observe layer and every analysed status, `__health_adjust` does
nothing when the outcome of the table is ignore, sets `consecutive_errors`
to 0 when it is ok, and adds 1 to `consecutive_errors` when it is fail; when
the new value reaches `consecutive_errors_limit`, then for every `onerror`
mode `consecutive_errors` is 0 and `failed_hana` has grown by exactly 1 on
return; with `onerror = MARKDWN` on a running server the server ends with
RUNNING cleared and health 0, and its primary check, when its status was
non-zero, with the status `HANA` and the duration -1. -/
theorem observe_counting (e : Env) (status : Nat) (srv : Server) (k : Nat)
    (hobs : srv.core.observe = k + 1) (hk : k + 1 < HANA_OBS_SIZE)
    (hst : status < HANA_STATUS_SIZE) :
    ((analyze_statuses status).lr[k]? = some 0 ∨ (analyze_statuses status).lr[k]? = some 1 ∨
      (analyze_statuses status).lr[k]? = some 2) ∧
    ((analyze_statuses status).lr[k]? = some 0 → __health_adjust e status srv = some srv) ∧
    ((analyze_statuses status).lr[k]? = some 2 →
      __health_adjust e status srv =
        some ⟨{ srv.core with consecutive_errors := 0 }, srv.trackers⟩) ∧
    ((analyze_statuses status).lr[k]? = some 1 →
      srv.core.consecutive_errors + 1 < srv.core.consecutive_errors_limit →
      __health_adjust e status srv =
        some ⟨{ srv.core with consecutive_errors := srv.core.consecutive_errors + 1 },
          srv.trackers⟩) ∧
    ((analyze_statuses status).lr[k]? = some 1 →
      ¬ srv.core.consecutive_errors + 1 < srv.core.consecutive_errors_limit →
      ∃ srv', __health_adjust e status srv = some srv' ∧
        srv'.core.consecutive_errors = 0 ∧
        srv'.core.counters.failed_hana = srv.core.counters.failed_hana + 1 ∧
        (srv.core.onerror = HANA_ONERR_MARKDWN → srv.core.state.RUNNING = true →
          srv'.core.state.RUNNING = false ∧ srv'.core.check.health = 0 ∧
          (srv.core.check.status ≠ 0 →
            srv'.core.check.status = HCHK_STATUS_HANA ∧ srv'.core.check.duration = -1))) := by
  have hE := health_adjust_eq e status srv k hobs hk hst
  refine ⟨analyze_statuses_lr status k hst hk, fun h => ?_, fun h => ?_, fun h hlt => ?_,
    fun h hge => ?_⟩
  · rw [hE, h]; rfl
  · rw [hE, h]; rfl
  · rw [hE, h, if_pos rfl]
    unfold hana_failed
    simp only [if_pos hlt]
  · have hF : hana_failed e status srv =
        hana_finish e (hana_react e status
          ⟨{ srv.core with consecutive_errors := srv.core.consecutive_errors + 1 },
            srv.trackers⟩) := by
      unfold hana_failed
      simp only [if_neg hge]
    refine ⟨_, by rw [hE, h, if_pos rfl], ?_⟩
    rw [hF]
    have hfin := hana_finish_core e (hana_react e status
      ⟨{ srv.core with consecutive_errors := srv.core.consecutive_errors + 1 }, srv.trackers⟩)
    have hk := hanaKept_hana_react e status
      ⟨{ srv.core with consecutive_errors := srv.core.consecutive_errors + 1 }, srv.trackers⟩
    refine ⟨hfin.1, ?_, fun hon hrun => ?_⟩
    · rw [hfin.2.1, hk.1]
    · have hm := hana_react_markdwn e status
        ⟨{ srv.core with consecutive_errors := srv.core.consecutive_errors + 1 }, srv.trackers⟩
        hon hrun
      rw [hfin.2.2.1, hfin.2.2.2.1, hfin.2.2.2.2.1, hfin.2.2.2.2.2]
      exact hm

/-- Claim C27, witness: observed at layer 7 with `onerror = MARKDWN` and a
limit of three errors, the third failed response in a row sets the server
down. -/
theorem observe_counting_witness :
    (__health_adjust {} HANA_STATUS_HTTP_STS
      ⟨{ state := { RUNNING := true }, observe := HANA_OBS_LAYER7,
         onerror := HANA_ONERR_MARKDWN, consecutive_errors := 2,
         consecutive_errors_limit := 3,
         check := { status := HCHK_STATUS_L7OKD, rise := 2, fall := 3, health := 4 } },
        []⟩).map
      (fun r => (r.core.consecutive_errors, r.core.counters.failed_hana,
        r.core.state.RUNNING, r.core.check.health, r.core.check.status,
        r.core.check.duration)) =
      some (0, 1, false, 0, HCHK_STATUS_HANA, -1) := by
  obtain ⟨srv', h, h1, h2, h3⟩ := (observe_counting {} HANA_STATUS_HTTP_STS
    ⟨{ state := { RUNNING := true }, observe := HANA_OBS_LAYER7,
       onerror := HANA_ONERR_MARKDWN, consecutive_errors := 2,
       consecutive_errors_limit := 3,
       check := { status := HCHK_STATUS_L7OKD, rise := 2, fall := 3, health := 4 } }, []⟩
    1 rfl (by decide) (by decide)).2.2.2.2 (by decide) (by decide)
  obtain ⟨a, b, c⟩ := h3 rfl rfl
  obtain ⟨c1, c2⟩ := c (by decide)
  rw [h]
  simp only [Option.map, h1, h2, a, b, c1, c2]

/-- The reaction `SUDDTH`: cap the health at `rise + 1`, record the status
`HANA`, then `check_failed` on the primary check. -/
theorem hana_react_suddth (e : Env) (status : Nat) (srv : Server)
    (hon : srv.core.onerror = HANA_ONERR_SUDDTH) :
    hana_react e status srv =
      check_failed e .check
        ⟨set_server_check_status e .check HCHK_STATUS_HANA
          (some (hana_message srv.core.consecutive_errors status))
          (if srv.core.check.health > srv.core.check.rise then
            srv.core.setHealth .check (srv.core.check.rise + 1) else srv.core),
          srv.trackers⟩ := by
  unfold hana_react
  simp [hon]

/-- Claim C28: the reaction `SUDDTH`.  When `consecutive_errors` reaches the
limit with `onerror = SUDDTH`, `__health_adjust` caps the health of the
primary check at `rise + 1` and then simulates one failed check.  So a
running server with `health > rise` still runs afterwards, with
`health = rise`; one with `health = rise` is set down.  The primary check is
the check of the server that does not carry `CHK_ST_AGENT`. -/
theorem suddth_reaction (e : Env) (status : Nat) (srv : Server) (k : Nat)
    (hobs : srv.core.observe = k + 1) (hk : k + 1 < HANA_OBS_SIZE)
    (hst : status < HANA_STATUS_SIZE)
    (hfail : (analyze_statuses status).lr[k]? = some 1)
    (hlim : ¬ srv.core.consecutive_errors + 1 < srv.core.consecutive_errors_limit)
    (hon : srv.core.onerror = HANA_ONERR_SUDDTH)
    (hrun : srv.core.state.RUNNING = true)
    (hprimary : srv.core.check.state.AGENT = false) :
    ∃ srv', __health_adjust e status srv = some srv' ∧
      srv' = hana_finish e (check_failed e .check
        ⟨set_server_check_status e .check HCHK_STATUS_HANA
          (some (hana_message (srv.core.consecutive_errors + 1) status))
          (if srv.core.check.health > srv.core.check.rise then
            ({ srv.core with consecutive_errors := srv.core.consecutive_errors + 1 } :
              ServerData).setHealth .check (srv.core.check.rise + 1)
           else { srv.core with consecutive_errors := srv.core.consecutive_errors + 1 }),
          srv.trackers⟩) ∧
      (srv.core.check.health > srv.core.check.rise →
        srv'.core.state.RUNNING = true ∧ srv'.core.check.health = srv.core.check.rise) ∧
      (srv.core.check.health = srv.core.check.rise →
        srv'.core.state.RUNNING = false ∧ srv'.core.check.health = 0) := by
  have hE := health_adjust_eq e status srv k hobs hk hst
  rw [hfail, if_pos rfl] at hE
  have hF : hana_failed e status srv =
      hana_finish e (hana_react e status
        ⟨{ srv.core with consecutive_errors := srv.core.consecutive_errors + 1 },
          srv.trackers⟩) := by
    unfold hana_failed
    simp only [if_neg hlim]
  have hR := hana_react_suddth e status
    ⟨{ srv.core with consecutive_errors := srv.core.consecutive_errors + 1 }, srv.trackers⟩ hon
  simp only at hR
  rw [hR] at hF
  refine ⟨_, hE, hF, fun hgt => ?_, fun heq => ?_⟩
  · rw [hF]
    have hfin := hana_finish_core e (check_failed e .check
      ⟨set_server_check_status e .check HCHK_STATUS_HANA
        (some (hana_message (srv.core.consecutive_errors + 1) status))
        (if srv.core.check.health > srv.core.check.rise then
          ({ srv.core with consecutive_errors := srv.core.consecutive_errors + 1 } :
            ServerData).setHealth .check (srv.core.check.rise + 1)
         else { srv.core with consecutive_errors := srv.core.consecutive_errors + 1 }),
        srv.trackers⟩)
    rw [hfin.2.2.1, hfin.2.2.2.1]
    rw [if_pos hgt] at hfin ⊢
    have hf := set_server_check_status_frame e .check .check HCHK_STATUS_HANA
      (some (hana_message (srv.core.consecutive_errors + 1) status))
      (({ srv.core with consecutive_errors := srv.core.consecutive_errors + 1 } :
        ServerData).setHealth .check (srv.core.check.rise + 1))
    have hc := check_failed_above e .check
      ⟨set_server_check_status e .check HCHK_STATUS_HANA
        (some (hana_message (srv.core.consecutive_errors + 1) status))
        (({ srv.core with consecutive_errors := srv.core.consecutive_errors + 1 } :
          ServerData).setHealth .check (srv.core.check.rise + 1)), srv.trackers⟩
      (by rw [hf.2.2.2.2.2]; exact hprimary)
      (by rw [hf.2.2.1, hf.2.2.2.1]; simp [ServerData.chk, ServerData.setHealth,
        ServerData.setChk])
    constructor
    · rw [hc.1, hf.1]; exact hrun
    · have h2 := congrArg Check.health hc.2.1
      simp only [ServerData.chk] at h2 hf
      rw [h2, hf.2.2.1]
      simp [ServerData.setHealth, ServerData.setChk, ServerData.chk]
  · rw [hF]
    have hfin := hana_finish_core e (check_failed e .check
      ⟨set_server_check_status e .check HCHK_STATUS_HANA
        (some (hana_message (srv.core.consecutive_errors + 1) status))
        (if srv.core.check.health > srv.core.check.rise then
          ({ srv.core with consecutive_errors := srv.core.consecutive_errors + 1 } :
            ServerData).setHealth .check (srv.core.check.rise + 1)
         else { srv.core with consecutive_errors := srv.core.consecutive_errors + 1 }),
        srv.trackers⟩)
    rw [hfin.2.2.1, hfin.2.2.2.1]
    have hng : ¬ srv.core.check.health > srv.core.check.rise := by omega
    rw [if_neg hng] at hfin ⊢
    have hf := set_server_check_status_frame e .check .check HCHK_STATUS_HANA
      (some (hana_message (srv.core.consecutive_errors + 1) status))
      ({ srv.core with consecutive_errors := srv.core.consecutive_errors + 1 } : ServerData)
    have hc := check_failed_at_rise e .check
      ⟨set_server_check_status e .check HCHK_STATUS_HANA
        (some (hana_message (srv.core.consecutive_errors + 1) status))
        ({ srv.core with consecutive_errors := srv.core.consecutive_errors + 1 } : ServerData),
        srv.trackers⟩
      (by rw [hf.2.2.2.2.2]; exact hprimary)
      (by rw [hf.1]; exact hrun)
      (by rw [hf.2.2.1, hf.2.2.2.1]; exact heq)
    exact ⟨hc.1, hc.2.2.1⟩

/-- Claim C28, witness: a running server at full health (`rise = 2`,
`fall = 3`, `health = 4`) whose error limit is reached keeps running with
`health = 2`. -/
theorem suddth_reaction_witness :
    (__health_adjust {} HANA_STATUS_HTTP_STS
      ⟨{ state := { RUNNING := true }, observe := HANA_OBS_LAYER7,
         onerror := HANA_ONERR_SUDDTH, consecutive_errors := 0,
         consecutive_errors_limit := 1,
         check := { status := HCHK_STATUS_L7OKD, rise := 2, fall := 3, health := 4 } },
        []⟩).map (fun r => (r.core.state.RUNNING, r.core.check.health)) =
      some (true, 2) := by
  obtain ⟨srv', h, -, h1, -⟩ := suddth_reaction {} HANA_STATUS_HTTP_STS
    ⟨{ state := { RUNNING := true }, observe := HANA_OBS_LAYER7,
       onerror := HANA_ONERR_SUDDTH, consecutive_errors := 0,
       consecutive_errors_limit := 1,
       check := { status := HCHK_STATUS_L7OKD, rise := 2, fall := 3, health := 4 } }, []⟩
    1 rfl (by decide) (by decide) (by decide) (by decide) rfl rfl rfl
  obtain ⟨a, b⟩ := h1 (by decide)
  rw [h]
  simp only [Option.map, a, b]

/-- The expiry of the check task at the end of `__health_adjust`. -/
theorem hana_finish_expire (e : Env) (srv : Server) :
    (hana_finish e srv).core.check.task_expire =
      (if srv.core.check.fastinter ≠ 0 ∧
          srv.core.check.task_expire >
            e.tick_add e.now_ms (e.MS_TO_TICKS srv.core.check.fastinter) then
        e.tick_add e.now_ms (e.MS_TO_TICKS srv.core.check.fastinter)
      else srv.core.check.task_expire) := by
  unfold hana_finish
  simp only
  split_ifs with h1 h2 h3 h3 h3
  · rfl
  · exact absurd ⟨h1, h2⟩ h3
  · exact absurd h3.2 h2
  · rfl
  · exact absurd h3.1 h1
  · rfl

/-- Claim C29, counterexample: with `fastinter = 100`, the clock at 1000 and
the check task due at 5000, `now + fastinter` is earlier than the expiry,
yet a call that records an ok outcome and a call that records a failure
below the limit both return with the expiry still at 5000. -/
theorem fastinter_not_tightened_below_limit :
    (1000 : Int) + 100 < 5000 ∧
    (__health_adjust { now_ms := 1000 } HANA_STATUS_HTTP_OK
      ⟨{ observe := HANA_OBS_LAYER7, consecutive_errors := 2, consecutive_errors_limit := 3,
         check := { status := HCHK_STATUS_L7OKD, fastinter := 100, task_expire := 5000 } },
        []⟩).map (fun r => (r.core.consecutive_errors, r.core.check.task_expire)) =
      some (0, 5000) ∧
    (__health_adjust { now_ms := 1000 } HANA_STATUS_HTTP_STS
      ⟨{ observe := HANA_OBS_LAYER7, consecutive_errors := 0, consecutive_errors_limit := 3,
         check := { status := HCHK_STATUS_L7OKD, fastinter := 100, task_expire := 5000 } },
        []⟩).map (fun r => (r.core.consecutive_errors, r.core.check.task_expire)) =
      some (1, 5000) := by
  refine ⟨by decide, by decide, by decide⟩

/-- Claim C29, amended: fastinter tightening once the limit is reached.  For
every call of `__health_adjust` in which a failure brings
`consecutive_errors` to the limit, whatever the `onerror` mode, if
`check.fastinter` is non-zero and `now + fastinter` is earlier than the
expiry of the check task, the expiry is `now + fastinter` on return, and
otherwise it is unchanged.  A call that records an ok outcome, or a failure
below the limit, returns before the tightening and leaves the expiry
unchanged. -/
theorem fastinter_tightening (e : Env) (status : Nat) (srv : Server) (k : Nat)
    (hobs : srv.core.observe = k + 1) (hk : k + 1 < HANA_OBS_SIZE)
    (hst : status < HANA_STATUS_SIZE) :
    ((analyze_statuses status).lr[k]? = some 1 →
      ¬ srv.core.consecutive_errors + 1 < srv.core.consecutive_errors_limit →
      ∃ srv', __health_adjust e status srv = some srv' ∧
        (srv.core.check.fastinter ≠ 0 →
          e.tick_add e.now_ms (e.MS_TO_TICKS srv.core.check.fastinter) <
            srv.core.check.task_expire →
          srv'.core.check.task_expire =
            e.tick_add e.now_ms (e.MS_TO_TICKS srv.core.check.fastinter)) ∧
        (¬ (srv.core.check.fastinter ≠ 0 ∧
            e.tick_add e.now_ms (e.MS_TO_TICKS srv.core.check.fastinter) <
              srv.core.check.task_expire) →
          srv'.core.check.task_expire = srv.core.check.task_expire)) ∧
    ((analyze_statuses status).lr[k]? = some 2 ∨
      ((analyze_statuses status).lr[k]? = some 1 ∧
        srv.core.consecutive_errors + 1 < srv.core.consecutive_errors_limit) →
      ∃ srv', __health_adjust e status srv = some srv' ∧
        srv'.core.check.task_expire = srv.core.check.task_expire) := by
  have hE := health_adjust_eq e status srv k hobs hk hst
  constructor
  · intro h hge
    have hF : hana_failed e status srv =
        hana_finish e (hana_react e status
          ⟨{ srv.core with consecutive_errors := srv.core.consecutive_errors + 1 },
            srv.trackers⟩) := by
      unfold hana_failed
      simp only [if_neg hge]
    have hk := hanaKept_hana_react e status
      ⟨{ srv.core with consecutive_errors := srv.core.consecutive_errors + 1 }, srv.trackers⟩
    have hx := hana_finish_expire e (hana_react e status
      ⟨{ srv.core with consecutive_errors := srv.core.consecutive_errors + 1 }, srv.trackers⟩)
    rw [hk.2.1, hk.2.2] at hx
    simp only at hx
    refine ⟨_, by rw [hE, h, if_pos rfl], fun h1 h2 => ?_, fun h1 => ?_⟩
    · rw [hF, hx, if_pos ⟨h1, h2⟩]
    · rw [hF, hx, if_neg h1]
  · intro h
    rcases h with h | ⟨h, hlt⟩
    · exact ⟨⟨{ srv.core with consecutive_errors := 0 }, srv.trackers⟩,
        by rw [hE, h]; rfl, rfl⟩
    · refine ⟨hana_failed e status srv, by rw [hE, h, if_pos rfl], ?_⟩
      unfold hana_failed
      simp only [if_pos hlt]

/-- Claim C29, witness: the third failure in a row, with a limit of three,
brings the check task forward from 5000 to `now + fastinter = 1100`. -/
theorem fastinter_tightening_witness :
    (__health_adjust { now_ms := 1000 } HANA_STATUS_HTTP_STS
      ⟨{ observe := HANA_OBS_LAYER7, onerror := HANA_ONERR_FASTINTER,
         consecutive_errors := 2, consecutive_errors_limit := 3,
         check := { status := HCHK_STATUS_L7OKD, fastinter := 100, task_expire := 5000 } },
        []⟩).map (fun r => r.core.check.task_expire) = some 1100 := by
  obtain ⟨srv', h, h1, -⟩ := (fastinter_tightening { now_ms := 1000 } HANA_STATUS_HTTP_STS
    ⟨{ observe := HANA_OBS_LAYER7, onerror := HANA_ONERR_FASTINTER,
       consecutive_errors := 2, consecutive_errors_limit := 3,
       check := { status := HCHK_STATUS_L7OKD, fastinter := 100, task_expire := 5000 } },
      []⟩ 1 rfl (by decide) (by decide)).1 (by decide) (by decide)
  have h2 := h1 (by decide) (by decide)
  rw [h]
  simp only [Option.map, h2]
  decide

/-- The formats with two numbers, written out. -/
theorem snprintf_d_two (a b : Int) :
    snprintf_d "DOWN %d/%d".toList [a, b] =
      "DOWN ".toList ++ (toString a).toList ++ '/' :: (toString b).toList ∧
    snprintf_d "UP %d/%d".toList [a, b] =
      "UP ".toList ++ (toString a).toList ++ '/' :: (toString b).toList ∧
    snprintf_d "NOLB %d/%d".toList [a, b] =
      "NOLB ".toList ++ (toString a).toList ++ '/' :: (toString b).toList := by
  refine ⟨?_, ?_, ?_⟩ <;> simp [snprintf_d]

/-- The formats without a number come out as they are. -/
theorem snprintf_d_plain (args : List Int) :
    snprintf_d "DOWN".toList args = "DOWN".toList ∧
    snprintf_d "UP".toList args = "UP".toList ∧
    snprintf_d "NOLB".toList args = "NOLB".toList ∧
    snprintf_d "no check".toList args = "no check".toList := by
  refine ⟨?_, ?_, ?_, ?_⟩ <;> simp [snprintf_d]

/-- Claim C30: the state word of the `X-Haproxy-Server-State` header.
`httpchk_build_status_header` selects `"no check"` when the check is not
ENABLED; otherwise, for a running server, `"UP"` (not GOINGDOWN) or `"NOLB"`
(GOINGDOWN) when `health = rise + fall - 1`, and `"UP h/r"` or `"NOLB h/r"`
(with `h = health - rise + 1` and `r = fall`) for any other health; otherwise,
for a server that does not run, `"DOWN h/r"` (with `h = health`, `r = rise`)
when the health is not zero and `"DOWN"` when it is.  The chosen index always
lies in 0..6. -/
theorem state_word_selection (s : ServerData) :
    sv_state s ≤ 6 ∧ sv_state s < srv_hlt_st.length ∧
    (s.check.state.ENABLED = false →
      sv_state s = 6 ∧ status_header_state s = "no check") ∧
    (s.check.state.ENABLED = true → s.state.RUNNING = true →
      s.check.health = s.check.rise + s.check.fall - 1 →
      (s.state.GOINGDOWN = false → sv_state s = 3 ∧ status_header_state s = "UP") ∧
      (s.state.GOINGDOWN = true → sv_state s = 5 ∧ status_header_state s = "NOLB")) ∧
    (s.check.state.ENABLED = true → s.state.RUNNING = true →
      s.check.health ≠ s.check.rise + s.check.fall - 1 →
      (s.state.GOINGDOWN = false → sv_state s = 2 ∧
        status_header_state s =
          String.mk ("UP ".toList ++ (toString (s.check.health - s.check.rise + 1)).toList ++
            '/' :: (toString s.check.fall).toList)) ∧
      (s.state.GOINGDOWN = true → sv_state s = 4 ∧
        status_header_state s =
          String.mk ("NOLB ".toList ++ (toString (s.check.health - s.check.rise + 1)).toList ++
            '/' :: (toString s.check.fall).toList))) ∧
    (s.check.state.ENABLED = true → s.state.RUNNING = false →
      (s.check.health ≠ 0 → sv_state s = 1 ∧
        status_header_state s =
          String.mk ("DOWN ".toList ++ (toString s.check.health).toList ++
            '/' :: (toString s.check.rise).toList)) ∧
      (s.check.health = 0 → sv_state s = 0 ∧ status_header_state s = "DOWN")) := by
  have hle : sv_state s ≤ 6 := by
    unfold sv_state
    split_ifs <;> simp
  have hst : ∀ n fmt, sv_state s = n → srv_hlt_st.getD n "" = fmt →
      status_header_state s = String.mk (snprintf_d fmt.toList
        [if s.state.RUNNING then s.check.health - s.check.rise + 1 else s.check.health,
         if s.state.RUNNING then s.check.fall else s.check.rise]) := by
    intro n fmt h1 h2
    unfold status_header_state
    rw [h1, h2]
  refine ⟨hle, Nat.lt_succ_of_le hle, fun hen => ?_, fun hen hrun hh => ⟨fun hg => ?_, fun hg => ?_⟩,
    fun hen hrun hh => ⟨fun hg => ?_, fun hg => ?_⟩, fun hen hrun => ⟨fun hh => ?_, fun hh => ?_⟩⟩
  · have h : sv_state s = 6 := by simp [sv_state, hen]
    refine ⟨h, ?_⟩
    rw [hst 6 "no check" h rfl, (snprintf_d_plain _).2.2.2]
    rfl
  · have h : sv_state s = 3 := by simp [sv_state, hen, hrun, hh, hg]
    refine ⟨h, ?_⟩
    rw [hst 3 "UP" h rfl, (snprintf_d_plain _).2.1]
    rfl
  · have h : sv_state s = 5 := by simp [sv_state, hen, hrun, hh, hg]
    refine ⟨h, ?_⟩
    rw [hst 5 "NOLB" h rfl, (snprintf_d_plain _).2.2.1]
    rfl
  · have h : sv_state s = 2 := by simp [sv_state, hen, hrun, hh, hg]
    refine ⟨h, ?_⟩
    rw [hst 2 "UP %d/%d" h rfl, (snprintf_d_two _ _).2.1]
    simp [hrun]
  · have h : sv_state s = 4 := by simp [sv_state, hen, hrun, hh, hg]
    refine ⟨h, ?_⟩
    rw [hst 4 "NOLB %d/%d" h rfl, (snprintf_d_two _ _).2.2]
    simp [hrun]
  · have h : sv_state s = 1 := by simp [sv_state, hen, hrun, hh]
    refine ⟨h, ?_⟩
    rw [hst 1 "DOWN %d/%d" h rfl, (snprintf_d_two _ _).1]
    simp [hrun]
  · have h : sv_state s = 0 := by simp [sv_state, hen, hrun, hh]
    refine ⟨h, ?_⟩
    rw [hst 0 "DOWN" h rfl, (snprintf_d_plain _).1]
    rfl

/-- Claim C30, witness: a running server in slow decline (`rise = 2`,
`fall = 3`, `health = 3`) that is going down for a 404 shows `NOLB 2/3`. -/
theorem state_word_selection_witness :
    sv_state { state := { RUNNING := true, GOINGDOWN := true },
               check := { state := { ENABLED := true }, rise := 2, fall := 3, health := 3 } } = 4 ∧
    status_header_state
      { state := { RUNNING := true, GOINGDOWN := true },
        check := { state := { ENABLED := true }, rise := 2, fall := 3, health := 3 } } =
      "NOLB 2/3" :=
  ((state_word_selection
    { state := { RUNNING := true, GOINGDOWN := true },
      check := { state := { ENABLED := true }, rise := 2, fall := 3, health := 3 } }).2.2.2.2.1
    rfl rfl (by decide)).2 rfl

/-- The loop of `tcpcheck_get_step_id`, started at position `j` before the
rule after `cur`: it passes the rules up to `cur` and stops, or runs to the
end of the list when `cur` is the last rule. -/
theorem tcpcheck_step_loop_eq (cur : Nat) :
    ∀ (rules : List tcpcheck_rule) (j i : Nat), j ≤ cur + 1 →
      tcpcheck_step_loop cur rules j i = i + min (cur + 1 - j) rules.length
  | [], j, i, _ => by simp [tcpcheck_step_loop]
  | r :: rest, j, i, hj => by
    unfold tcpcheck_step_loop
    by_cases h : j = cur + 1
    · rw [if_pos h]
      subst h
      simp
    · rw [if_neg h, tcpcheck_step_loop_eq cur rest (j + 1) (i + 1) (by omega)]
      simp only [List.length_cons]
      omega

/-- Claim C35: script step id.  `tcpcheck_get_step_id` returns 1 when
`last_started_step` is NULL, and otherwise 1 plus the zero-based position of
`last_started_step` in the rule list, also when that rule is the last of the
list; the result then lies between 1 and the length of the list. -/
theorem step_id_of_last_started (s : ServerData) :
    (s.check.last_started_step = none → tcpcheck_get_step_id s = 1) ∧
    (∀ p, s.check.last_started_step = some p → p < s.proxy.tcpcheck_rules.length →
      tcpcheck_get_step_id s = 1 + p ∧
      1 ≤ tcpcheck_get_step_id s ∧
      tcpcheck_get_step_id s ≤ s.proxy.tcpcheck_rules.length) ∧
    (∀ p, s.check.last_started_step = some p → p + 1 = s.proxy.tcpcheck_rules.length →
      tcpcheck_get_step_id s = s.proxy.tcpcheck_rules.length) := by
  have h : ∀ p, s.check.last_started_step = some p → p < s.proxy.tcpcheck_rules.length →
      tcpcheck_get_step_id s = 1 + p := by
    intro p hp hlt
    unfold tcpcheck_get_step_id
    rw [hp]
    simp only
    rw [tcpcheck_step_loop_eq p _ 0 0 (by omega)]
    omega
  refine ⟨fun hn => ?_, fun p hp hlt => ?_, fun p hp hl => ?_⟩
  · unfold tcpcheck_get_step_id
    rw [hn]
  · rw [h p hp hlt]
    omega
  · rw [h p hp (by omega)]
    omega

/-- Claim C35, witness: with three rules and the last one started, the
step id is 3. -/
theorem step_id_of_last_started_witness :
    tcpcheck_get_step_id
      { check := { last_started_step := some 2 },
        proxy := { tcpcheck_rules :=
          [{ action := .CONNECT }, { action := .SEND, string := some "PING\r\n" },
           { action := .EXPECT, string := some "+PONG" }] } } = 3 :=
  ((step_id_of_last_started
      { check := { last_started_step := some 2 },
        proxy := { tcpcheck_rules :=
          [{ action := .CONNECT }, { action := .SEND, string := some "PING\r\n" },
           { action := .EXPECT, string := some "+PONG" }] } }).2.1 2 rfl (by decide)).1

/-- The test of `set_server_up` on a server that tracks no other and whose
two checks are enabled: one check at `health = rise` and the other at
`health >= rise`. -/
theorem up_transition_both_enabled (s : ServerData) (htrack : s.track = false)
    (hc : s.check.state.ENABLED = true) (ha : s.agent.state.ENABLED = true) :
    up_transition s = true ↔
      (s.check.health = s.check.rise ∧ s.agent.rise ≤ s.agent.health) ∨
      (s.agent.health = s.agent.rise ∧ s.check.rise ≤ s.check.health) := by
  simp [up_transition, htrack, hc, ha]

/-- The RUNNING bit after `set_server_up`: set when it was set, or when the
test of the function holds. -/
theorem set_server_up_running (e : Env) (sel : CheckSel) (srv : Server) :
    (set_server_up e sel srv).core.state.RUNNING =
      (srv.core.state.RUNNING || up_transition (maintain_health sel srv.core)) := by
  have hm : (maintain_health sel srv.core).state = srv.core.state := by
    unfold maintain_health
    split_ifs <;> cases sel <;> rfl
  rw [set_server_up_core]
  cases hu : up_transition (maintain_health sel srv.core)
  · simp only [Bool.false_eq_true, if_false, Bool.or_false]
    unfold health_ok_now
    split_ifs <;> cases sel <;> simp [ServerData.setHealth, ServerData.setChk, hm]
  · simp only [if_true, Bool.or_true]
    unfold health_ok_now mark_up
    split_ifs <;> cases sel <;> simp [ServerData.setHealth, ServerData.setChk]

/-- A passing round of the primary check keeps a server down while its
agent check is below `rise`. -/
theorem agentHoldsDown_round (e : Env) (srv : Server) (h : AgentHoldsDown srv.core) :
    AgentHoldsDown (process_chk_result e .check srv).core := by
  obtain ⟨s, ts⟩ := srv
  obtain ⟨h1, h2, h3, h4, h5, h6⟩ := h
  simp only at h1 h2 h3 h4 h5 h6
  have hadj : disable404_adjust .check ⟨s, ts⟩ = ⟨s, ts⟩ := by
    simp [disable404_adjust, h4]
  have hnup : ∀ x : Int, up_transition (maintain_health .check (s.setHealth .check x)) =
      false := by
    intro x
    have hlt : ¬ s.agent.rise ≤ s.agent.health := by omega
    have hne : ¬ s.agent.health = s.agent.rise := by omega
    unfold maintain_health
    split_ifs <;>
      simp [up_transition, ServerData.setHealth, ServerData.setChk, ServerData.chk, h1, h2, h3,
        hlt, hne]
  unfold process_chk_result
  simp only [ServerData.chk, if_neg h6, hadj]
  split_ifs with hc
  · simp only [clear_inprogress, set_server_up_core, hnup, Bool.false_eq_true, if_false]
    unfold health_ok_now maintain_health
    split_ifs <;>
      simp [AgentHoldsDown, ServerData.setHealth, ServerData.setChk, ServerData.chk, h1, h2, h3,
        h4, h5, h6]
  · simp [AgentHoldsDown, clear_inprogress, ServerData.setChk, ServerData.chk, h1, h2, h3, h4,
      h5, h6]

/-- Claim C38, counterexample: a server in maintenance that does not run
and tracks no other, both checks enabled, the primary check at health 0 with
`rise = 2` and the agent check at health 3 with `rise = 2`.  Neither health
equals its `rise`, yet `set_server_up` on the primary check sets RUNNING: it
first sets the health of its check to `rise` on a server in maintenance. -/
theorem set_up_from_maintenance :
    (set_server_up {} .check
      ⟨{ state := { MAINTAIN := true },
         check := { state := { ENABLED := true }, rise := 2, fall := 3, health := 0 },
         agent := { state := { ENABLED := true, AGENT := true }, rise := 2, fall := 3,
                    health := 3 } },
        []⟩).core.state.RUNNING = true ∧
    ¬ (((0 : Int) = 2 ∧ (2 : Int) ≤ 3) ∨ ((3 : Int) = 2 ∧ (2 : Int) ≤ 0)) := by
  refine ⟨by decide, by decide⟩

/-- Claim C38 (amended): Set-UP gating with an agent.  On a server that tracks no
other and whose primary check and agent check are both enabled,
`set_server_up` sets RUNNING only when one of the two checks has its health
equal to its `rise` and the other has its health at or above its `rise`
(the health values are those the test reads: on a server in maintenance the
function first sets the health of its check to `rise`).  In particular,
while `agent.health < agent.rise`, a server that is down is not set RUNNING
however many rounds of the primary check pass. -/
theorem set_up_gating (e : Env) (sel : CheckSel) (srv : Server)
    (htrack : srv.core.track = false)
    (hc : srv.core.check.state.ENABLED = true) (ha : srv.core.agent.state.ENABLED = true) :
    (srv.core.state.RUNNING = false → (set_server_up e sel srv).core.state.RUNNING = true →
      ((maintain_health sel srv.core).check.health = (maintain_health sel srv.core).check.rise ∧
        (maintain_health sel srv.core).agent.rise ≤ (maintain_health sel srv.core).agent.health) ∨
      ((maintain_health sel srv.core).agent.health = (maintain_health sel srv.core).agent.rise ∧
        (maintain_health sel srv.core).check.rise ≤
          (maintain_health sel srv.core).check.health)) ∧
    (srv.core.state.MAINTAIN = false → maintain_health sel srv.core = srv.core) ∧
    (srv.core.state.RUNNING = false → srv.core.state.MAINTAIN = false →
      (set_server_up e sel srv).core.state.RUNNING = true →
      (srv.core.check.health = srv.core.check.rise ∧
        srv.core.agent.rise ≤ srv.core.agent.health) ∨
      (srv.core.agent.health = srv.core.agent.rise ∧
        srv.core.check.rise ≤ srv.core.check.health)) ∧
    (srv.core.state.RUNNING = false → srv.core.agent.health < srv.core.agent.rise →
      (set_server_up e .check srv).core.state.RUNNING = false) ∧
    (srv.core.state.RUNNING = false → srv.core.agent.health < srv.core.agent.rise →
      srv.core.check.result ≠ CHK_RES_FAILED →
      ∀ k : Nat,
        (Nat.iterate (process_chk_result e .check) k srv).core.state.RUNNING = false) := by
  have hmf : ∀ t, (maintain_health t srv.core).track = srv.core.track ∧
      (maintain_health t srv.core).check.state = srv.core.check.state ∧
      (maintain_health t srv.core).agent.state = srv.core.agent.state := by
    intro t
    unfold maintain_health
    split_ifs <;> cases t <;> exact ⟨rfl, rfl, rfl⟩
  have hgate : ∀ t, srv.core.state.RUNNING = false →
      (set_server_up e t srv).core.state.RUNNING = true →
      ((maintain_health t srv.core).check.health = (maintain_health t srv.core).check.rise ∧
        (maintain_health t srv.core).agent.rise ≤ (maintain_health t srv.core).agent.health) ∨
      ((maintain_health t srv.core).agent.health = (maintain_health t srv.core).agent.rise ∧
        (maintain_health t srv.core).check.rise ≤ (maintain_health t srv.core).check.health) := by
    intro t hrun hup
    rw [set_server_up_running, hrun, Bool.false_or] at hup
    exact (up_transition_both_enabled _ (by rw [(hmf t).1]; exact htrack)
      (by rw [(hmf t).2.1]; exact hc) (by rw [(hmf t).2.2]; exact ha)).mp hup
  have hnm : srv.core.state.MAINTAIN = false → maintain_health sel srv.core = srv.core := by
    intro hm
    simp [maintain_health, hm]
  refine ⟨hgate sel, hnm, fun hrun hm hup => ?_, fun hrun hlt => ?_, fun hrun hlt hres k => ?_⟩
  · have := hgate sel hrun hup
    rw [hnm hm] at this
    exact this
  · cases hr : (set_server_up e .check srv).core.state.RUNNING
    · rfl
    · exfalso
      have hg := hgate .check hrun hr
      have hag : (maintain_health .check srv.core).agent = srv.core.agent := by
        unfold maintain_health
        split_ifs <;> rfl
      rw [hag] at hg
      omega
  · have hinv : ∀ k, AgentHoldsDown (Nat.iterate (process_chk_result e .check) k srv).core := by
      intro k
      induction k with
      | zero => exact ⟨htrack, hc, ha, hrun, hlt, hres⟩
      | succ n ih =>
        rw [Function.iterate_succ_apply']
        exact agentHoldsDown_round e _ ih
    exact (hinv k).2.2.2.1

/-- Claim C38, witness: with the agent check below `rise`, five passing
rounds of the primary check leave the server down. -/
theorem set_up_gating_witness :
    (Nat.iterate (process_chk_result {} .check) 5
      ⟨{ check := { state := { ENABLED := true }, result := CHK_RES_PASSED, rise := 2,
                    fall := 3, health := 0 },
         agent := { state := { ENABLED := true, AGENT := true }, rise := 2, fall := 3,
                    health := 1 } }, []⟩).core.state.RUNNING = false :=
  (set_up_gating {} .check
    ⟨{ check := { state := { ENABLED := true }, result := CHK_RES_PASSED, rise := 2,
                  fall := 3, health := 0 },
       agent := { state := { ENABLED := true, AGENT := true }, rise := 2, fall := 3,
                  health := 1 } }, []⟩ rfl rfl rfl).2.2.2.2 rfl (by decide) (by decide) 5

/-- With an error flag or an expiry the classifier of `chk_report_conn_err`
always selects a status, one of six, each of which the table maps to
`FAILED`. -/
theorem conn_err_status_some (flags : ConnFlags) (expired : Bool) (type : CheckType)
    (h : flags.ERROR = true ∨ expired = true) :
    ∃ st, conn_err_status flags expired type = some st ∧
      (st = HCHK_STATUS_L4CON ∨ st = HCHK_STATUS_L4TOUT ∨ st = HCHK_STATUS_L6RSP ∨
        st = HCHK_STATUS_L6TOUT ∨ st = HCHK_STATUS_SOCKERR ∨ st = HCHK_STATUS_L7TOUT) ∧
      (check_statuses st).result = CHK_RES_FAILED ∧ st ≠ HCHK_STATUS_START := by
  unfold conn_err_status
  rcases h with h | h
  · rw [h]
    split_ifs <;> first
      | exact ⟨_, rfl, by decide, by decide, by decide⟩
      | simp_all
  · rw [h]
    split_ifs <;> first
      | exact ⟨_, rfl, by decide, by decide, by decide⟩
      | simp_all

/-- Claim C39, counterexample: a check without result whose status is
`HCHK_STATUS_UNKNOWN` (zero), on a connection in error that was still
connecting.  `chk_report_conn_err` selects `L4CON`, but
`set_server_check_status` returns at once on a check without status: on
return the result is still `UNKNOWN` and the status still zero. -/
theorem conn_err_on_unknown_status :
    ((chk_report_conn_err {} .check 0 false
      { flags := { ERROR := true, WAIT_L4_CONN := true } }
      { check := { status := HCHK_STATUS_UNKNOWN, result := CHK_RES_UNKNOWN } }).2.check.result,
     (chk_report_conn_err {} .check 0 false
      { flags := { ERROR := true, WAIT_L4_CONN := true } }
      { check := { status := HCHK_STATUS_UNKNOWN, result := CHK_RES_UNKNOWN } }).2.check.status) =
      (CHK_RES_UNKNOWN, HCHK_STATUS_UNKNOWN) := by
  decide

/-- Claim C39, amended: every error or expiry produces a status on a check
that has one.  For every check with result `UNKNOWN` and a non-zero status
and every connection, if the connection has the ERROR flag or `expired` is
set when `chk_report_conn_err` is called, then on return the result of the
check is `FAILED` and its status is one of L4CON, L4TOUT, L6RSP, L6TOUT,
SOCKERR and L7TOUT.  A check whose status is zero is left as it is. -/
theorem conn_err_produces_status (e : Env) (sel : CheckSel) (errno_bck : Int)
    (expired : Bool) (conn : Connection) (s : ServerData)
    (hres : (s.chk sel).result = CHK_RES_UNKNOWN)
    (herr : conn.flags.ERROR = true ∨ expired = true) :
    ((s.chk sel).status ≠ 0 →
      ((chk_report_conn_err e sel errno_bck expired conn s).2.chk sel).result = CHK_RES_FAILED ∧
      (((chk_report_conn_err e sel errno_bck expired conn s).2.chk sel).status =
          HCHK_STATUS_L4CON ∨
        ((chk_report_conn_err e sel errno_bck expired conn s).2.chk sel).status =
          HCHK_STATUS_L4TOUT ∨
        ((chk_report_conn_err e sel errno_bck expired conn s).2.chk sel).status =
          HCHK_STATUS_L6RSP ∨
        ((chk_report_conn_err e sel errno_bck expired conn s).2.chk sel).status =
          HCHK_STATUS_L6TOUT ∨
        ((chk_report_conn_err e sel errno_bck expired conn s).2.chk sel).status =
          HCHK_STATUS_SOCKERR ∨
        ((chk_report_conn_err e sel errno_bck expired conn s).2.chk sel).status =
          HCHK_STATUS_L7TOUT)) ∧
    ((s.chk sel).status = 0 →
      (chk_report_conn_err e sel errno_bck expired conn s).2 = s) := by
  obtain ⟨errno, conn1, hc, hE⟩ := chk_report_conn_err_unknown e sel errno_bck expired conn s hres
  have herr1 : conn1.flags.ERROR = true ∨ expired = true := by
    rcases herr with h | h
    · left
      rcases hc with hc | hc
      · rw [hc]; exact h
      · rw [hc]; exact (retrieve_errno_flags e errno_bck conn).2.2.2 h
    · exact Or.inr h
  obtain ⟨st, hst, hsix, hfail, hstart⟩ := conn_err_status_some conn1.flags expired
    (s.chk sel).type herr1
  rw [hE, hst]
  simp only
  constructor
  · intro hcur
    have hr := recorded_status e sel st
      (some (conn_err_msg e errno conn1 (conn_err_context e sel s))) s hstart hcur
      (by rw [hfail]; decide)
    rw [hr.1, hr.2, hfail]
    exact ⟨rfl, hsix⟩
  · intro h0
    unfold set_server_check_status
    simp only [if_neg hstart, h0, if_true]

/-- Claim C39, witness: an expiry while the connection is established and
data was awaited gives `L7TOUT` and `FAILED`. -/
theorem conn_err_produces_status_witness :
    ((chk_report_conn_err {} .check 0 true { flags := { CONNECTED := true } }
      { check := { status := HCHK_STATUS_INI, result := CHK_RES_UNKNOWN,
                   type := .HTTP_CHK } }).2.chk .check).result = CHK_RES_FAILED :=
  ((conn_err_produces_status {} .check 0 true { flags := { CONNECTED := true } }
    { check := { status := HCHK_STATUS_INI, result := CHK_RES_UNKNOWN, type := .HTTP_CHK } }
    rfl (Or.inr rfl)).1 (by decide)).1

/-- Claim C40: LDAP prober index safety.  On every ingress buffer holding at
least 14 bytes, every offset the LDAP prober reads (0, 1, `2+m1 .. 5+m1`,
`m1+6`, `7+m2 .. 8+m2` and `m2+9`, each only when the read is reached) is
below 14, so below the number of bytes received; and the offsets listed are
all the prober depends on: two buffers of the same length that agree on them
get the same outcome. -/
theorem ldap_reads_in_bounds (e : Env) (sel : CheckSel) (done : Bool) (s : ServerData)
    (hi : 14 ≤ (s.chk sel).bi.i) :
    (∀ k ∈ ldap_chk_reads (s.chk sel).bi done, k < 14 ∧ k < (s.chk sel).bi.i) ∧
    (∀ s' : ServerData, (s'.chk sel).bi.i = (s.chk sel).bi.i →
      (∀ k ∈ ldap_chk_reads (s.chk sel).bi done,
        (s'.chk sel).bi.byte k = (s.chk sel).bi.byte k) →
      ldap_chk_outcome e sel done s' = ldap_chk_outcome e sel done s) := by
  have hlt : ¬ (s.chk sel).bi.i < 14 := by omega
  constructor
  · intro k hk
    unfold ldap_chk_reads at hk
    simp only [hlt, decide_False, Bool.and_false, Bool.false_eq_true, if_false] at hk
    split_ifs at hk <;> simp only [List.mem_cons, List.mem_singleton, List.not_mem_nil,
      or_false] at hk <;> omega
  · intro s' hi' hb
    have hO := ldap_chk_outcome_of_full e sel done s hi
    have hO' := ldap_chk_outcome_of_full e sel done s' (by rw [hi']; exact hi)
    have hR : ∀ l, ldap_chk_reads (s.chk sel).bi done = l →
        ∀ k ∈ l, (s'.chk sel).bi.byte k = (s.chk sel).bi.byte k := by
      intro l hl k hk
      exact hb k (by rw [hl]; exact hk)
    by_cases h0 : (s.chk sel).bi.byte 0 = Char.ofNat 0x30
    swap
    · have hr : ldap_chk_reads (s.chk sel).bi done = [0] := by
        unfold ldap_chk_reads
        simp [hlt, h0]
      have e0 := hR _ hr 0 (by simp)
      rw [hO, hO', if_pos (Or.inl h0), if_pos (Or.inl (by rw [e0]; exact h0))]
    by_cases h1 : ldap_extra_len ((s.chk sel).bi.byte 1) > 2
    · have hr : ldap_chk_reads (s.chk sel).bi done = [0, 1] := by
        unfold ldap_chk_reads
        simp [hlt, h0, h1]
      have e1 := hR _ hr 1 (by simp)
      rw [hO, hO', if_pos (Or.inr (Or.inl h1)),
        if_pos (Or.inr (Or.inl (by rw [e1]; exact h1)))]
    by_cases h2 : [(s.chk sel).bi.byte (2 + ldap_extra_len ((s.chk sel).bi.byte 1)),
        (s.chk sel).bi.byte (2 + ldap_extra_len ((s.chk sel).bi.byte 1) + 1),
        (s.chk sel).bi.byte (2 + ldap_extra_len ((s.chk sel).bi.byte 1) + 2),
        (s.chk sel).bi.byte (2 + ldap_extra_len ((s.chk sel).bi.byte 1) + 3)] =
        [Char.ofNat 0x02, Char.ofNat 0x01, Char.ofNat 0x01, Char.ofNat 0x61]
    swap
    · have hr : ldap_chk_reads (s.chk sel).bi done =
          [0, 1, 2 + ldap_extra_len ((s.chk sel).bi.byte 1),
            2 + ldap_extra_len ((s.chk sel).bi.byte 1) + 1,
            2 + ldap_extra_len ((s.chk sel).bi.byte 1) + 2,
            2 + ldap_extra_len ((s.chk sel).bi.byte 1) + 3] := by
        unfold ldap_chk_reads
        simp only [hlt, decide_False, Bool.and_false, Bool.false_eq_true, if_false, h0,
          bne_self_eq_false, if_neg h1]
        rw [if_pos (by simpa using h2)]
      have e1 := hR _ hr 1 (by simp)
      have ea := hR _ hr _ (List.mem_cons_of_mem _ (List.mem_cons_of_mem _
        (List.mem_cons_self _ _)))
      have eb := hR _ hr _ (List.mem_cons_of_mem _ (List.mem_cons_of_mem _
        (List.mem_cons_of_mem _ (List.mem_cons_self _ _))))
      have ec := hR _ hr _ (List.mem_cons_of_mem _ (List.mem_cons_of_mem _
        (List.mem_cons_of_mem _ (List.mem_cons_of_mem _ (List.mem_cons_self _ _)))))
      have ed := hR _ hr _ (List.mem_cons_of_mem _ (List.mem_cons_of_mem _
        (List.mem_cons_of_mem _ (List.mem_cons_of_mem _ (List.mem_cons_of_mem _
          (List.mem_cons_self _ _))))))
      rw [hO, hO', if_pos (Or.inr (Or.inr (Or.inl h2))),
        if_pos (Or.inr (Or.inr (Or.inl (by rw [e1, ea, eb, ec, ed]; exact h2))))]
    by_cases h3 : ldap_extra_len ((s.chk sel).bi.byte 1) +
        ldap_extra_len ((s.chk sel).bi.byte (ldap_extra_len ((s.chk sel).bi.byte 1) + 6)) > 4
    · have hr : ldap_chk_reads (s.chk sel).bi done =
          [0, 1, 2 + ldap_extra_len ((s.chk sel).bi.byte 1),
            2 + ldap_extra_len ((s.chk sel).bi.byte 1) + 1,
            2 + ldap_extra_len ((s.chk sel).bi.byte 1) + 2,
            2 + ldap_extra_len ((s.chk sel).bi.byte 1) + 3,
            ldap_extra_len ((s.chk sel).bi.byte 1) + 6] := by
        unfold ldap_chk_reads
        simp only [hlt, decide_False, Bool.and_false, Bool.false_eq_true, if_false, h0,
          bne_self_eq_false, if_neg h1, h2, if_pos h3]
      have e1 := hR _ hr 1 (by simp)
      have e6 := hR _ hr (ldap_extra_len ((s.chk sel).bi.byte 1) + 6) (by simp)
      rw [e1, e6] at hO'
      rw [hO, hO', if_pos (Or.inr (Or.inr (Or.inr (Or.inl h3)))),
        if_pos (Or.inr (Or.inr (Or.inr (Or.inl h3))))]
    by_cases h4 : [(s.chk sel).bi.byte (7 + (ldap_extra_len ((s.chk sel).bi.byte 1) +
          ldap_extra_len ((s.chk sel).bi.byte (ldap_extra_len ((s.chk sel).bi.byte 1) + 6)))),
        (s.chk sel).bi.byte (7 + (ldap_extra_len ((s.chk sel).bi.byte 1) +
          ldap_extra_len ((s.chk sel).bi.byte (ldap_extra_len ((s.chk sel).bi.byte 1) + 6))) +
            1)] = [Char.ofNat 0x0a, Char.ofNat 0x01]
    swap
    · have hr : ldap_chk_reads (s.chk sel).bi done =
          [0, 1, 2 + ldap_extra_len ((s.chk sel).bi.byte 1),
            2 + ldap_extra_len ((s.chk sel).bi.byte 1) + 1,
            2 + ldap_extra_len ((s.chk sel).bi.byte 1) + 2,
            2 + ldap_extra_len ((s.chk sel).bi.byte 1) + 3,
            ldap_extra_len ((s.chk sel).bi.byte 1) + 6,
            7 + (ldap_extra_len ((s.chk sel).bi.byte 1) +
              ldap_extra_len ((s.chk sel).bi.byte
                (ldap_extra_len ((s.chk sel).bi.byte 1) + 6))),
            7 + (ldap_extra_len ((s.chk sel).bi.byte 1) +
              ldap_extra_len ((s.chk sel).bi.byte
                (ldap_extra_len ((s.chk sel).bi.byte 1) + 6))) + 1] := by
        unfold ldap_chk_reads
        simp only [hlt, decide_False, Bool.and_false, Bool.false_eq_true, if_false, h0,
          bne_self_eq_false, if_neg h1, h2, if_neg h3]
        rw [if_pos (by simpa using h4)]
      have e1 := hR _ hr 1 (by simp)
      have e6 := hR _ hr (ldap_extra_len ((s.chk sel).bi.byte 1) + 6) (by simp)
      have e7 := hR _ hr (7 + (ldap_extra_len ((s.chk sel).bi.byte 1) +
        ldap_extra_len ((s.chk sel).bi.byte (ldap_extra_len ((s.chk sel).bi.byte 1) + 6))))
        (by simp)
      have e8 := hR _ hr (7 + (ldap_extra_len ((s.chk sel).bi.byte 1) +
        ldap_extra_len ((s.chk sel).bi.byte (ldap_extra_len ((s.chk sel).bi.byte 1) + 6))) + 1)
        (by simp)
      rw [e1, e6, e7, e8] at hO'
      rw [hO, hO', if_pos (Or.inr (Or.inr (Or.inr (Or.inr h4)))),
        if_pos (Or.inr (Or.inr (Or.inr (Or.inr h4))))]
    · have hr : ldap_chk_reads (s.chk sel).bi done =
          [0, 1, 2 + ldap_extra_len ((s.chk sel).bi.byte 1),
            2 + ldap_extra_len ((s.chk sel).bi.byte 1) + 1,
            2 + ldap_extra_len ((s.chk sel).bi.byte 1) + 2,
            2 + ldap_extra_len ((s.chk sel).bi.byte 1) + 3,
            ldap_extra_len ((s.chk sel).bi.byte 1) + 6,
            7 + (ldap_extra_len ((s.chk sel).bi.byte 1) +
              ldap_extra_len ((s.chk sel).bi.byte
                (ldap_extra_len ((s.chk sel).bi.byte 1) + 6))),
            7 + (ldap_extra_len ((s.chk sel).bi.byte 1) +
              ldap_extra_len ((s.chk sel).bi.byte
                (ldap_extra_len ((s.chk sel).bi.byte 1) + 6))) + 1,
            ldap_extra_len ((s.chk sel).bi.byte 1) +
              ldap_extra_len ((s.chk sel).bi.byte
                (ldap_extra_len ((s.chk sel).bi.byte 1) + 6)) + 9] := by
        unfold ldap_chk_reads
        simp only [hlt, decide_False, Bool.and_false, Bool.false_eq_true, if_false, h0,
          bne_self_eq_false, if_neg h1, h2, if_neg h3, h4]
      have e0 := hR _ hr 0 (by simp)
      have e1 := hR _ hr 1 (by simp)
      have ea := hR _ hr (2 + ldap_extra_len ((s.chk sel).bi.byte 1)) (by simp)
      have eb := hR _ hr (2 + ldap_extra_len ((s.chk sel).bi.byte 1) + 1) (by simp)
      have ec := hR _ hr (2 + ldap_extra_len ((s.chk sel).bi.byte 1) + 2) (by simp)
      have ed := hR _ hr (2 + ldap_extra_len ((s.chk sel).bi.byte 1) + 3) (by simp)
      have e6 := hR _ hr (ldap_extra_len ((s.chk sel).bi.byte 1) + 6) (by simp)
      have e7 := hR _ hr (7 + (ldap_extra_len ((s.chk sel).bi.byte 1) +
        ldap_extra_len ((s.chk sel).bi.byte (ldap_extra_len ((s.chk sel).bi.byte 1) + 6))))
        (by simp)
      have e8 := hR _ hr (7 + (ldap_extra_len ((s.chk sel).bi.byte 1) +
        ldap_extra_len ((s.chk sel).bi.byte (ldap_extra_len ((s.chk sel).bi.byte 1) + 6))) + 1)
        (by simp)
      have e9 := hR _ hr (ldap_extra_len ((s.chk sel).bi.byte 1) +
        ldap_extra_len ((s.chk sel).bi.byte (ldap_extra_len ((s.chk sel).bi.byte 1) + 6)) + 9)
        (by simp)
      rw [e0, e1, ea, eb, ec, ed, e6, e7, e8, e9] at hO'
      rw [hO, hO']

/-- Claim C40, witness: on the bind response
`30 0C 02 01 01 61 07 0A 01 00 04 00 04 00` the prober reads the offsets 0 to
9, the last of which holds the result code. -/
theorem ldap_reads_in_bounds_witness :
    ldap_chk_reads
      { data := [0x30, 0x0c, 0x02, 0x01, 0x01, 0x61, 0x07, 0x0a, 0x01, 0x00, 0x04, 0x00, 0x04,
                 0x00].map Char.ofNat, i := 14 } false = [0, 1, 2, 3, 4, 5, 6, 7, 8, 9] ∧
    (9 < 14 ∧ 9 < 14) :=
  ⟨by decide,
   (ldap_reads_in_bounds {} .check false
    { check := { status := HCHK_STATUS_INI, type := .LDAP_CHK,
                 bi := { data := [0x30, 0x0c, 0x02, 0x01, 0x01, 0x61, 0x07, 0x0a, 0x01, 0x00,
                                  0x04, 0x00, 0x04, 0x00].map Char.ofNat, i := 14 } } }
    (by decide)).1 9 (by decide)⟩

/-- The decimal digit characters: digits, and their value is the number. -/
theorem digitChar_digit (k : Nat) (hk : k < 10) :
    (Nat.digitChar k).isDigit = true ∧ (Nat.digitChar k).toNat - 48 = k := by
  interval_cases k <;> decide

/-- The characters `Nat.toDigitsCore` puts in front of `ds` are digits. -/
theorem toDigitsCore_digits : ∀ (fuel n : Nat) (ds : List Char) (c : Char),
    c ∈ Nat.toDigitsCore 10 fuel n ds → c.isDigit = true ∨ c ∈ ds
  | 0, n, ds, c, h => by
    simp only [Nat.toDigitsCore] at h
    exact Or.inr h
  | fuel + 1, n, ds, c, h => by
    simp only [Nat.toDigitsCore] at h
    have hd := (digitChar_digit (n % 10) (Nat.mod_lt _ (by decide))).1
    split_ifs at h
    · rcases List.mem_cons.mp h with h | h
      · left; rw [h]; exact hd
      · exact Or.inr h
    · rcases toDigitsCore_digits fuel (n / 10) _ c h with h | h
      · exact Or.inl h
      · rcases List.mem_cons.mp h with h | h
        · left; rw [h]; exact hd
        · exact Or.inr h

/-- Reading the digits that `Nat.toDigitsCore` puts in front of `ds` gives
the number back. -/
theorem str2uic_toDigitsCore : ∀ (fuel n : Nat) (ds : List Char), n < fuel →
    List.foldl (fun acc c => acc * 10 + (c.toNat - 48)) 0 (Nat.toDigitsCore 10 fuel n ds) =
      List.foldl (fun acc c => acc * 10 + (c.toNat - 48)) n ds
  | 0, n, ds, h => by omega
  | fuel + 1, n, ds, h => by
    simp only [Nat.toDigitsCore]
    have hd := (digitChar_digit (n % 10) (Nat.mod_lt _ (by decide))).2
    split_ifs with h0
    · simp only [List.foldl_cons, Nat.zero_mul, Nat.zero_add, hd]
      have : n % 10 = n := by omega
      rw [this]
    · rw [str2uic_toDigitsCore fuel (n / 10) _ (by omega)]
      simp only [List.foldl_cons, hd]
      have : n / 10 * 10 + n % 10 = n := by omega
      rw [this]

/-- The decimal form of a natural number: digits only, and the number can
be read back from it. -/
theorem nat_repr_digits (n : Nat) :
    (∀ c ∈ (toString n).toList, c.isDigit = true) ∧
    List.foldl (fun acc c => acc * 10 + (c.toNat - 48)) 0 (toString n).toList = n := by
  have h : (toString n).toList = Nat.toDigitsCore 10 (n + 1) n [] := rfl
  rw [h]
  constructor
  · intro c hc
    rcases toDigitsCore_digits _ _ _ c hc with h | h
    · exact h
    · cases h
  · rw [str2uic_toDigitsCore (n + 1) n [] (by omega)]
    rfl

/-- The decimal form of an integer, as `%d` prints it: the digits of a
natural number, after a minus sign for a negative one. -/
theorem int_repr_cases (a : Int) :
    (∃ n : Nat, a = n ∧ (toString a).toList = (toString n).toList) ∨
    (∃ n : Nat, a = Int.negSucc n ∧ (toString a).toList = '-' :: (toString (n + 1)).toList) := by
  cases a with
  | ofNat n => exact Or.inl ⟨n, rfl, rfl⟩
  | negSucc n => exact Or.inr ⟨n, rfl, rfl⟩

/-- The decimal form of an integer holds no slash. -/
theorem int_repr_no_slash (a : Int) : '/' ∉ (toString a).toList := by
  intro h
  rcases int_repr_cases a with ⟨n, -, hn⟩ | ⟨n, -, hn⟩
  · rw [hn] at h
    exact absurd ((nat_repr_digits n).1 _ h) (by decide)
  · rw [hn] at h
    rcases List.mem_cons.mp h with h | h
    · exact absurd h (by decide)
    · exact absurd ((nat_repr_digits (n + 1)).1 _ h) (by decide)

/-- Two integers with the same decimal form are equal. -/
theorem int_repr_inj (a c : Int) (h : (toString a).toList = (toString c).toList) : a = c := by
  have hnat : ∀ n m : Nat, (toString n).toList = (toString m).toList → n = m := by
    intro n m hnm
    rw [← (nat_repr_digits n).2, ← (nat_repr_digits m).2, hnm]
  have hmix : ∀ n m : Nat, (toString n).toList ≠ '-' :: (toString (m + 1)).toList := by
    intro n m hnm
    have hd := (nat_repr_digits n).1 '-' (by rw [hnm]; exact List.mem_cons_self _ _)
    exact absurd hd (by decide)
  rcases int_repr_cases a with ⟨n, ha, hn⟩ | ⟨n, ha, hn⟩ <;>
    rcases int_repr_cases c with ⟨m, hc, hm⟩ | ⟨m, hc, hm⟩
  · rw [hn, hm] at h
    rw [ha, hc, hnat n m h]
  · rw [hn, hm] at h
    exact absurd h (hmix n m)
  · rw [hn, hm] at h
    exact absurd h.symm (hmix m n)
  · rw [hn, hm] at h
    have := hnat (n + 1) (m + 1) (List.cons.inj h).2
    rw [ha, hc]
    congr 1
    omega

/-- Two texts cut at their first slash are equal part by part. -/
theorem split_at_slash : ∀ (l1 l2 l3 l4 : List Char), '/' ∉ l1 → '/' ∉ l3 →
    l1 ++ '/' :: l2 = l3 ++ '/' :: l4 → l1 = l3 ∧ l2 = l4
  | [], l2, [], l4, _, _, h => ⟨rfl, (List.cons.inj h).2⟩
  | [], l2, c :: l3, l4, _, h3, h => by
    have := (List.cons.inj h).1
    exact absurd (this ▸ List.mem_cons_self _ _) h3
  | c :: l1, l2, [], l4, h1, _, h => by
    have := (List.cons.inj h).1
    exact absurd (this ▸ List.mem_cons_self _ _) h1
  | c :: l1, l2, d :: l3, l4, h1, h3, h => by
    have hh := List.cons.inj h
    have := split_at_slash l1 l2 l3 l4 (fun x => h1 (List.mem_cons_of_mem _ x))
      (fun x => h3 (List.mem_cons_of_mem _ x)) hh.2
    exact ⟨by rw [hh.1, this.1], this.2⟩

/-- Two pairs of integers printed as `a/b` with the same text are equal. -/
theorem slash_pair_inj (a b c d : Int)
    (h : (toString a).toList ++ '/' :: (toString b).toList =
      (toString c).toList ++ '/' :: (toString d).toList) : a = c ∧ b = d := by
  have := split_at_slash _ _ _ _ (int_repr_no_slash a) (int_repr_no_slash c) h
  exact ⟨int_repr_inj a c this.1, int_repr_inj b d this.2⟩

/-- The formats of the state word, filled in. -/
theorem state_format_eq (a b : Int) :
    snprintf_d (srv_hlt_st.getD 0 "").toList [a, b] = "DOWN".toList ∧
    snprintf_d (srv_hlt_st.getD 1 "").toList [a, b] =
      "DOWN ".toList ++ ((toString a).toList ++ '/' :: (toString b).toList) ∧
    snprintf_d (srv_hlt_st.getD 2 "").toList [a, b] =
      "UP ".toList ++ ((toString a).toList ++ '/' :: (toString b).toList) ∧
    snprintf_d (srv_hlt_st.getD 3 "").toList [a, b] = "UP".toList ∧
    snprintf_d (srv_hlt_st.getD 4 "").toList [a, b] =
      "NOLB ".toList ++ ((toString a).toList ++ '/' :: (toString b).toList) ∧
    snprintf_d (srv_hlt_st.getD 5 "").toList [a, b] = "NOLB".toList ∧
    snprintf_d (srv_hlt_st.getD 6 "").toList [a, b] = "no check".toList := by
  refine ⟨?_, ?_, ?_, ?_, ?_, ?_, ?_⟩ <;> simp [srv_hlt_st, snprintf_d]

/-- The state field tells the index of its format and, for the formats
with numbers, the two numbers. -/
theorem state_format_inj (n m : Nat) (hn : n ≤ 6) (hm : m ≤ 6) (a b c d : Int)
    (h : snprintf_d (srv_hlt_st.getD n "").toList [a, b] =
      snprintf_d (srv_hlt_st.getD m "").toList [c, d]) :
    n = m ∧ ((n = 1 ∨ n = 2 ∨ n = 4) → a = c ∧ b = d) := by
  have f1 := state_format_eq a b
  have f2 := state_format_eq c d
  obtain ⟨a0, a1, a2, a3, a4, a5, a6⟩ := f1
  obtain ⟨c0, c1, c2, c3, c4, c5, c6⟩ := f2
  interval_cases n <;> interval_cases m <;>
    simp only [a0, a1, a2, a3, a4, a5, a6, c0, c1, c2, c3, c4, c5, c6] at h <;>
    first
      | exact ⟨rfl, fun hx => by omega⟩
      | exact ⟨rfl, fun _ => slash_pair_inj a b c d (List.append_cancel_left h)⟩
      | (exfalso; revert h; simp)

/-- Claim C31, counterexample: two running servers within the health
bounds, one with `rise = 2`, `health = 3` and one with `rise = 5`,
`health = 6`, both with `fall = 3`.  Both state fields read `UP 2/3`: the
field carries `health - rise + 1` and `fall`, from which neither the health
nor `rise` can be told. -/
theorem state_field_hides_rise :
    status_header_state
      { state := { RUNNING := true },
        check := { state := { ENABLED := true }, rise := 2, fall := 3, health := 3 } } =
      "UP 2/3" ∧
    status_header_state
      { state := { RUNNING := true },
        check := { state := { ENABLED := true }, rise := 5, fall := 3, health := 6 } } =
      "UP 2/3" ∧
    ({ state := { ENABLED := true }, rise := 2, fall := 3, health := 3 } : Check).healthOK ∧
    ({ state := { ENABLED := true }, rise := 5, fall := 3, health := 6 } : Check).healthOK ∧
    ((3 : Int), (2 : Int), (3 : Int)) ≠ (6, 5, 3) := by
  refine ⟨by decide, by decide, by decide, by decide, by decide⟩

/-- Claim C31, amended: what the state field determines.  The state field
written by `httpchk_build_status_header` determines the state word and, for
the words with numbers, the two numbers printed, which are
`health - rise + 1` and `fall` for a running server and `health` and `rise`
for one that does not run: two servers whose state word or printed numbers
differ never produce the same state field. -/
theorem state_field_round_trip (s1 s2 : ServerData)
    (h : status_header_state s1 = status_header_state s2) :
    sv_state s1 = sv_state s2 ∧
    srv_hlt_st.getD (sv_state s1) "" = srv_hlt_st.getD (sv_state s2) "" ∧
    ((sv_state s1 = 1 ∨ sv_state s1 = 2 ∨ sv_state s1 = 4) →
      (if s1.state.RUNNING then s1.check.health - s1.check.rise + 1 else s1.check.health) =
        (if s2.state.RUNNING then s2.check.health - s2.check.rise + 1 else s2.check.health) ∧
      (if s1.state.RUNNING then s1.check.fall else s1.check.rise) =
        (if s2.state.RUNNING then s2.check.fall else s2.check.rise)) := by
  have hle : ∀ s : ServerData, sv_state s ≤ 6 := by
    intro s
    unfold sv_state
    split_ifs <;> simp
  unfold status_header_state at h
  have h' := congrArg String.data h
  simp only at h'
  have hi := state_format_inj _ _ (hle s1) (hle s2) _ _ _ _ h'
  exact ⟨hi.1, by rw [hi.1], hi.2⟩

/-- Claim C31, witness: the two servers that both show `UP 2/3` have the
same state word and the same printed numbers. -/
theorem state_field_round_trip_witness :
    sv_state
      { state := { RUNNING := true },
        check := { state := { ENABLED := true }, rise := 2, fall := 3, health := 3 } } =
    sv_state
      { state := { RUNNING := true },
        check := { state := { ENABLED := true }, rise := 5, fall := 3, health := 6 } } :=
  (state_field_round_trip
    { state := { RUNNING := true },
      check := { state := { ENABLED := true }, rise := 2, fall := 3, health := 3 } }
    { state := { RUNNING := true },
      check := { state := { ENABLED := true }, rise := 5, fall := 3, health := 6 } }
    (by decide)).1

/-- The reschedule loop with the tick helpers of `common/ticks.h`: started
no more than `n` ticks behind, it ends, on a timer that is not expired, after
`k` steps of `inter`; one tick more is added when a step lands on zero, which
can happen once and only from a negative timer. -/
theorem reschedule_loop_spec (e : Env) (inter : Int) (hinter : 0 < inter)
    (hms : ∀ x, e.MS_TO_TICKS x = x)
    (hadd : ∀ a b, e.tick_add a b = if a + b = 0 then 1 else a + b)
    (hexp : ∀ t now, e.tick_is_expired t now = (t != 0 && decide (t - now ≤ 0))) :
    ∀ (n : Nat) (expire : Int), e.now_ms - expire < n →
      ∃ (fuel : Nat) (r : Int) (k z : Nat),
        (∀ f, fuel ≤ f → reschedule_loop e inter f expire = some r) ∧
        e.tick_is_expired r e.now_ms = false ∧
        r = expire + k * inter + z ∧ z ≤ 1 ∧ (0 ≤ expire → z = 0) ∧
        (z = 1 → ∃ j : Nat, 0 < j ∧ expire + j * inter = 0) := by
  have hstop : ∀ expire : Int, e.tick_is_expired expire e.now_ms = false →
      ∃ (fuel : Nat) (r : Int) (k z : Nat),
        (∀ f, fuel ≤ f → reschedule_loop e inter f expire = some r) ∧
        e.tick_is_expired r e.now_ms = false ∧
        r = expire + k * inter + z ∧ z ≤ 1 ∧ (0 ≤ expire → z = 0) ∧
        (z = 1 → ∃ j : Nat, 0 < j ∧ expire + j * inter = 0) := by
    intro expire hne
    refine ⟨1, expire, 0, 0, fun f hf => ?_, hne, by simp, by omega, fun _ => rfl,
      fun h => by omega⟩
    obtain ⟨f', rfl⟩ : ∃ f', f = f' + 1 := ⟨f - 1, by omega⟩
    simp [reschedule_loop, hne]
  intro n
  induction n with
  | zero =>
    intro expire hn
    apply hstop
    rw [hexp]
    have : ¬ expire - e.now_ms ≤ 0 := by omega
    simp [this]
  | succ n ih =>
    intro expire hn
    cases hx : e.tick_is_expired expire e.now_ms
    · exact hstop expire hx
    · have hx' := hx
      rw [hexp] at hx'
      simp only [Bool.and_eq_true, bne_iff_ne, ne_eq, decide_eq_true_eq] at hx'
      obtain ⟨hne0, hle⟩ := hx'
      by_cases h0 : expire + inter = 0
      · have hnext : e.tick_add expire (e.MS_TO_TICKS inter) = 1 := by
          rw [hms, hadd, if_pos h0]
        obtain ⟨fuel, r, k, z, hf, hr, hrk, hz1, hz0, hzj⟩ := ih 1 (by omega)
        have hz : z = 0 := hz0 (by omega)
        subst hz
        refine ⟨fuel + 1, r, k + 1, 1, fun f hf' => ?_, hr, ?_, by omega, fun h => by omega,
          fun _ => ⟨1, by omega, by simpa using h0⟩⟩
        · obtain ⟨f', rfl⟩ : ∃ f', f = f' + 1 := ⟨f - 1, by omega⟩
          simp only [reschedule_loop, hx, if_true, hnext]
          exact hf f' (by omega)
        · rw [hrk]
          push_cast
          have : expire = -inter := by omega
          rw [this]
          ring
      · have hnext : e.tick_add expire (e.MS_TO_TICKS inter) = expire + inter := by
          rw [hms, hadd, if_neg h0]
        obtain ⟨fuel, r, k, z, hf, hr, hrk, hz1, hz0, hzj⟩ := ih (expire + inter) (by omega)
        refine ⟨fuel + 1, r, k + 1, z, fun f hf' => ?_, hr, ?_, hz1, fun h => hz0 (by omega),
          fun h => ?_⟩
        · obtain ⟨f', rfl⟩ : ∃ f', f = f' + 1 := ⟨f - 1, by omega⟩
          simp only [reschedule_loop, hx, if_true, hnext]
          exact hf f' (by omega)
        · rw [hrk]
          push_cast
          ring
        · obtain ⟨j, hj, hj0⟩ := hzj h
          refine ⟨j + 1, by omega, ?_⟩
          rw [← hj0]
          push_cast
          ring

/-- Claim C34, counterexample: with `inter = 100`, the clock at 50 and the
task due at -100, the first step of the loop lands on 0, which `tick_add`
replaces by 1; the loop ends at 101, and `101 - (-100) = 201` is not a
multiple of 100. -/
theorem reschedule_crosses_eternity :
    reschedule_loop { now_ms := 50 } 100 10 (-100) = some 101 ∧
    ((101 : Int) - (-100)) % 100 ≠ 0 := by
  refine ⟨by decide, by decide⟩

/-- Claim C34, amended: catch-up rescheduling.  For every check with
`inter > 0` the reschedule loop of `process_chk` terminates; the expiry it
leaves is not expired with respect to `now_ms` and differs from the one
before the loop by a non-negative multiple of `inter`, plus one tick when a
step lands on 0, the value of `TICK_ETERNITY`, which `tick_add` replaces by
1.  That happens at most once, and only from a negative expiry.  The tick
helpers are those of `common/ticks.h`, on integers without wrap-around. -/
theorem catch_up_rescheduling (e : Env) (inter expire : Int) (hinter : 0 < inter)
    (hms : ∀ x, e.MS_TO_TICKS x = x)
    (hadd : ∀ a b, e.tick_add a b = if a + b = 0 then 1 else a + b)
    (hexp : ∀ t now, e.tick_is_expired t now = (t != 0 && decide (t - now ≤ 0))) :
    ∃ (fuel : Nat) (r : Int) (k z : Nat),
      (∀ f, fuel ≤ f → reschedule_loop e inter f expire = some r) ∧
      e.tick_is_expired r e.now_ms = false ∧
      r = expire + k * inter + z ∧ z ≤ 1 ∧ (0 ≤ expire → z = 0) ∧
      (z = 1 → ∃ j : Nat, 0 < j ∧ expire + j * inter = 0) :=
  reschedule_loop_spec e inter hinter hms hadd hexp ((e.now_ms - expire).toNat + 1) expire
    (by omega)

/-- Claim C34, witness: a task due at 100 with `inter = 300`, the clock at
1000. -/
theorem catch_up_rescheduling_witness :
    ∃ (fuel : Nat) (r : Int) (k z : Nat),
      (∀ f, fuel ≤ f → reschedule_loop { now_ms := 1000 } 300 f 100 = some r) ∧
      ({ now_ms := 1000 } : Env).tick_is_expired r 1000 = false ∧
      r = 100 + k * 300 + z ∧ z ≤ 1 ∧ ((0 : Int) ≤ 100 → z = 0) ∧
      (z = 1 → ∃ j : Nat, 0 < j ∧ (100 : Int) + j * 300 = 0) :=
  catch_up_rescheduling { now_ms := 1000 } 300 100 (by decide) (fun _ => rfl) (fun _ _ => rfl)
    (fun _ _ => rfl)

/-! ### Boot fanout -/

theorem int_wrap_of_fits (x : Int) (h1 : -(2 ^ 31) ≤ x) (h2 : x < 2 ^ 31) : int_wrap x = x := by
  unfold int_wrap
  omega

theorem mininter_fold_ge (e : Env) (hthres : 0 < e.SRV_CHK_INTER_THRES) :
    ∀ (l : List Int) (m : Int), e.SRV_CHK_INTER_THRES ≤ m →
      l.foldl (mininter_step e) m =
        (l.filter (fun x => decide (e.SRV_CHK_INTER_THRES ≤ x))).foldl min m := by
  intro l
  induction l with
  | nil => intro m _; rfl
  | cons x xs ih =>
    intro m hm
    by_cases hx : e.SRV_CHK_INTER_THRES ≤ x
    · have hstep : mininter_step e m x = min m x := by
        unfold mininter_step
        by_cases hgt : m > x
        · rw [if_pos ⟨hx, Or.inr hgt⟩, min_eq_right (le_of_lt hgt)]
        · rw [if_neg (by rintro ⟨_, h | h⟩ <;> omega), min_eq_left (by omega)]
      simp only [List.foldl_cons, List.filter_cons, hx, decide_True, if_true, hstep]
      exact ih _ (le_min hm hx)
    · have hstep : mininter_step e m x = m := by
        unfold mininter_step
        rw [if_neg (fun h => hx h.1)]
      simp only [List.foldl_cons, List.filter_cons, hx, decide_False, hstep]
      exact ih _ hm

theorem mininter_fold_zero (e : Env) (hthres : 0 < e.SRV_CHK_INTER_THRES) :
    ∀ l : List Int, l.foldl (mininter_step e) 0 = min_interval e.SRV_CHK_INTER_THRES l := by
  intro l
  induction l with
  | nil => rfl
  | cons x xs ih =>
    by_cases hx : e.SRV_CHK_INTER_THRES ≤ x
    · have hstep : mininter_step e 0 x = x := by
        unfold mininter_step
        rw [if_pos ⟨hx, Or.inl rfl⟩]
      simp only [List.foldl_cons, hstep, min_interval, List.filter_cons, hx, decide_True,
        if_true]
      exact mininter_fold_ge e hthres xs x hx
    · have hstep : mininter_step e 0 x = 0 := by
        unfold mininter_step
        rw [if_neg (fun h => hx h.1)]
      simp only [List.foldl_cons, hstep, ih, min_interval, List.filter_cons, hx, decide_False]
      rfl

theorem start_checks_count_eq (e : Env) (g : Check → SrvState → Int) :
    ∀ (srvs : List ServerData) (n m : Int), 0 ≤ n →
      n + ((check_intervals g srvs).length : Int) < 2 ^ 31 →
      start_checks_count e g srvs (n, m) =
        (n + ((check_intervals g srvs).length : Int),
          (check_intervals g srvs).foldl (mininter_step e) m) := by
  intro srvs
  induction srvs with
  | nil => intro n m _ _; simp [start_checks_count, check_intervals]
  | cons s rest ih =>
    intro n m h0 hn
    unfold start_checks_count
    unfold check_intervals at hn ⊢
    cases hc : s.check.state.CONFIGURED <;> cases ha : s.agent.state.CONFIGURED <;>
      simp only [hc, ha, Bool.false_eq_true, if_false, if_true, List.nil_append,
        List.singleton_append, List.length_cons, List.foldl_cons, Nat.cast_add,
        Nat.cast_one] at hn ⊢
    · exact ih n m h0 hn
    · rw [int_wrap_of_fits (n + 1) (by omega) (by omega), ih _ _ (by omega) (by omega)]
      congr 1
      ring
    · rw [int_wrap_of_fits (n + 1) (by omega) (by omega), ih _ _ (by omega) (by omega)]
      congr 1
      ring
    · rw [int_wrap_of_fits (n + 1) (by omega) (by omega),
        int_wrap_of_fits (n + 1 + 1) (by omega) (by omega), ih _ _ (by omega) (by omega)]
      congr 1
      ring

theorem start_check_task_check (e : Env) (g : Check → SrvState → Int)
    (mn nb pos : Int) (s : ServerData) :
    (start_check_task e g .check mn nb pos s).check.task_expire =
        e.tick_add e.now_ms (e.MS_TO_TICKS (start_check_delay e (g s.check s.state) mn nb pos)) ∧
      (start_check_task e g .check mn nb pos s).check.state = s.check.state ∧
      (start_check_task e g .check mn nb pos s).agent = s.agent ∧
      (start_check_task e g .check mn nb pos s).state = s.state := ⟨rfl, rfl, rfl, rfl⟩

theorem start_check_task_agent (e : Env) (g : Check → SrvState → Int)
    (mn nb pos : Int) (s : ServerData) :
    (start_check_task e g .agent mn nb pos s).agent.task_expire =
        e.tick_add e.now_ms (e.MS_TO_TICKS (start_check_delay e (g s.agent s.state) mn nb pos)) ∧
      (start_check_task e g .agent mn nb pos s).agent.state = s.agent.state ∧
      (start_check_task e g .agent mn nb pos s).check = s.check ∧
      (start_check_task e g .agent mn nb pos s).state = s.state := ⟨rfl, rfl, rfl, rfl⟩

theorem start_checks_tasks_expiry (e : Env) (g : Check → SrvState → Int) (mn nb : Int) :
    ∀ (srvs : List ServerData) (pos : Int) (i : Nat) (inter : Int), 0 ≤ pos →
      pos + ((check_intervals g srvs).length : Int) < 2 ^ 31 →
      (check_intervals g srvs)[i]? = some inter →
      (first_expiries (start_checks_tasks e g mn nb srvs pos))[i]? =
        some (e.tick_add e.now_ms
          (e.MS_TO_TICKS (start_check_delay e inter mn nb (pos + (i : Int))))) := by
  intro srvs
  induction srvs with
  | nil => intro pos i inter _ _ h; simp [check_intervals] at h
  | cons s rest ih =>
    intro pos i inter h0 hn h
    obtain ⟨hc1, hc2, hc3, hc4⟩ := start_check_task_check e g mn nb pos s
    unfold start_checks_tasks first_expiries
    unfold check_intervals at h hn
    cases hc : s.check.state.CONFIGURED
    · simp only [hc, Bool.false_eq_true, if_false, List.nil_append] at h hn ⊢
      obtain ⟨ha1, ha2, ha3, ha4⟩ := start_check_task_agent e g mn nb pos s
      cases ha : s.agent.state.CONFIGURED
      · simp only [ha, Bool.false_eq_true, if_false, List.nil_append, hc] at h hn ⊢
        exact ih pos i inter h0 hn h
      · simp only [ha, if_true, ha2, ha3, hc, Bool.false_eq_true, if_false,
          List.nil_append, List.singleton_append, List.length_cons, Nat.cast_add,
          Nat.cast_one] at h hn ⊢
        rw [int_wrap_of_fits (pos + 1) (by omega) (by omega)]
        cases i with
        | zero =>
          simp only [List.getElem?_cons_zero, Option.some.injEq] at h ⊢
          rw [ha1, h]; simp
        | succ j =>
          simp only [List.getElem?_cons_succ] at h ⊢
          have := ih (pos + 1) j inter (by omega) (by omega) h
          rw [this]; push_cast; congr 4; ring
    · obtain ⟨ha1, ha2, ha3, ha4⟩ :=
        start_check_task_agent e g mn nb (pos + 1) (start_check_task e g .check mn nb pos s)
      rw [hc3, hc4] at ha1
      rw [hc3] at ha2
      cases ha : s.agent.state.CONFIGURED
      · simp only [ha, hc, hc3, hc2, Bool.false_eq_true, if_false, if_true,
          List.nil_append, List.singleton_append, List.length_cons, Nat.cast_add,
          Nat.cast_one] at h hn ⊢
        rw [int_wrap_of_fits (pos + 1) (by omega) (by omega)]
        cases i with
        | zero =>
          simp only [List.getElem?_cons_zero, Option.some.injEq] at h ⊢
          rw [hc1, h]; simp
        | succ j =>
          simp only [List.getElem?_cons_succ] at h ⊢
          have := ih (pos + 1) j inter (by omega) (by omega) h
          rw [this]; push_cast; congr 4; ring
      · simp only [ha, hc, if_true, List.singleton_append, List.length_cons,
          Nat.cast_add, Nat.cast_one] at h hn
        simp only [hc, if_true]
        rw [int_wrap_of_fits (pos + 1) (by omega) (by omega)]
        simp only [hc3, ha, if_true]
        rw [int_wrap_of_fits (pos + 1 + 1) (by omega) (by omega)]
        simp only [hc2, hc, ha2, ha3, ha, if_true, List.singleton_append]
        cases i with
        | zero =>
          simp only [List.getElem?_cons_zero, Option.some.injEq] at h ⊢
          rw [hc1, h]; simp
        | succ j =>
          cases j with
          | zero =>
            simp only [List.getElem?_cons_succ, List.getElem?_cons_zero,
              Option.some.injEq] at h ⊢
            rw [ha1, h]; simp
          | succ k =>
            simp only [List.getElem?_cons_succ] at h ⊢
            have := ih (pos + 1 + 1) k inter (by omega) (by omega) h
            rw [this]; push_cast; congr 4; ring

/-- Claim C32, counterexample: two configured checks with the intervals 1000
and 5000 ms, the clock at 10000.  The smallest interval is 1000, so the second
check (position 1 of 2) would be armed at 10500; `start_check_task` raises the
spread to the interval of the check itself and arms it at 12500. -/
theorem fanout_uses_own_interval :
    min_interval 1000 (check_intervals (fun c _ => c.inter)
        [server_with_inter 1000, server_with_inter 5000]) = 1000 ∧
      first_expiries (start_checks { now_ms := 10000 } (fun c _ => c.inter)
        [server_with_inter 1000, server_with_inter 5000]) = [10000, 12500] ∧
      (12500 : Int) ≠ 10000 + Int.tdiv (1000 * 1) 2 := by
  refine ⟨by decide, by decide, by decide⟩

/-- The product `mininter * srvpos` of `start_check_task` is an `int`: with
an interval of one hour and the position 700 of 1000 it exceeds 32 bits, and
the delay is that of the wrapped product. -/
theorem fanout_product_wraps :
    (3600000 : Int) * 700 ≥ 2 ^ 31 ∧
      start_check_delay {} 3600000 3600000 1000 700 = -1774967 := by
  refine ⟨by decide, by decide⟩

/-- Claim C32 (amended): with a positive threshold, `N` configured checks and
agents in enumeration order (`N` below 2^31) and `mn` the smallest interval
among those that reach the threshold, `start_checks` arms the first expiry
of the check at 0-based position `i`, of interval `inter`, at the tick sum
of `now` and `m * i / N` (truncated division), where `m` is the larger of
`mn` and `inter`, cut at `max_spread_checks` when that is set, and the
product is that of two `int`s: it is `m * i` as long as this fits in 32
bits.  Without `max_spread_checks`, a check whose interval does not exceed
`mn` is armed at `now + mn * i / N` as long as `mn * i` fits in 32 bits. -/
theorem boot_fanout (e : Env) (g : Check → SrvState → Int) (srvs : List ServerData)
    (hthres : 0 < e.SRV_CHK_INTER_THRES)
    (hN : ((check_intervals g srvs).length : Int) < 2 ^ 31) (i : Nat) (inter : Int)
    (hi : (check_intervals g srvs)[i]? = some inter) :
    (first_expiries (start_checks e g srvs))[i]? =
        some (e.tick_add e.now_ms (e.MS_TO_TICKS (Int.tdiv
          (int_wrap ((if e.max_spread_checks ≠ 0 ∧
                max (min_interval e.SRV_CHK_INTER_THRES (check_intervals g srvs)) inter >
                  e.max_spread_checks
              then e.max_spread_checks
              else max (min_interval e.SRV_CHK_INTER_THRES (check_intervals g srvs)) inter) *
            (i : Int)))
          ((check_intervals g srvs).length : Int)))) ∧
      (-(2 ^ 31) ≤ (if e.max_spread_checks ≠ 0 ∧
                max (min_interval e.SRV_CHK_INTER_THRES (check_intervals g srvs)) inter >
                  e.max_spread_checks
              then e.max_spread_checks
              else max (min_interval e.SRV_CHK_INTER_THRES (check_intervals g srvs)) inter) *
            (i : Int) →
        (if e.max_spread_checks ≠ 0 ∧
                max (min_interval e.SRV_CHK_INTER_THRES (check_intervals g srvs)) inter >
                  e.max_spread_checks
              then e.max_spread_checks
              else max (min_interval e.SRV_CHK_INTER_THRES (check_intervals g srvs)) inter) *
            (i : Int) < 2 ^ 31 →
        (first_expiries (start_checks e g srvs))[i]? =
          some (e.tick_add e.now_ms (e.MS_TO_TICKS (Int.tdiv
            ((if e.max_spread_checks ≠ 0 ∧
                  max (min_interval e.SRV_CHK_INTER_THRES (check_intervals g srvs)) inter >
                    e.max_spread_checks
                then e.max_spread_checks
                else max (min_interval e.SRV_CHK_INTER_THRES (check_intervals g srvs)) inter) *
              (i : Int))
            ((check_intervals g srvs).length : Int))))) ∧
      (e.max_spread_checks = 0 →
        inter ≤ min_interval e.SRV_CHK_INTER_THRES (check_intervals g srvs) →
        -(2 ^ 31) ≤ min_interval e.SRV_CHK_INTER_THRES (check_intervals g srvs) * (i : Int) →
        min_interval e.SRV_CHK_INTER_THRES (check_intervals g srvs) * (i : Int) < 2 ^ 31 →
        (first_expiries (start_checks e g srvs))[i]? =
          some (e.tick_add e.now_ms (e.MS_TO_TICKS (Int.tdiv
            (min_interval e.SRV_CHK_INTER_THRES (check_intervals g srvs) * (i : Int))
            ((check_intervals g srvs).length : Int))))) := by
  have hcount := start_checks_count_eq e g srvs 0 0 le_rfl (by rw [zero_add]; exact hN)
  rw [mininter_fold_zero e hthres, zero_add] at hcount
  have hlen : ((check_intervals g srvs).length : Int) ≠ 0 := by
    have : i < (check_intervals g srvs).length := by
      rcases Nat.lt_or_ge i (check_intervals g srvs).length with h | h
      · exact h
      · rw [List.getElem?_eq_none h] at hi; cases hi
    omega
  have hmain : (first_expiries (start_checks e g srvs))[i]? =
      some (e.tick_add e.now_ms (e.MS_TO_TICKS (start_check_delay e inter
        (min_interval e.SRV_CHK_INTER_THRES (check_intervals g srvs))
        ((check_intervals g srvs).length : Int) (i : Int)))) := by
    unfold start_checks
    simp only [hcount]
    rw [if_neg hlen]
    have := start_checks_tasks_expiry e g
      (min_interval e.SRV_CHK_INTER_THRES (check_intervals g srvs))
      ((check_intervals g srvs).length : Int) srvs 0 i inter le_rfl
      (by rw [zero_add]; exact hN) hi
    rw [zero_add] at this
    exact this
  have hmax : ∀ a b : Int, (if a < b then b else a) = max a b := by
    intro a b
    by_cases h : a < b
    · rw [if_pos h, max_eq_right (le_of_lt h)]
    · rw [if_neg h, max_eq_left (by omega)]
  have hgen : (first_expiries (start_checks e g srvs))[i]? =
        some (e.tick_add e.now_ms (e.MS_TO_TICKS (Int.tdiv
          (int_wrap ((if e.max_spread_checks ≠ 0 ∧
                max (min_interval e.SRV_CHK_INTER_THRES (check_intervals g srvs)) inter >
                  e.max_spread_checks
              then e.max_spread_checks
              else max (min_interval e.SRV_CHK_INTER_THRES (check_intervals g srvs)) inter) *
            (i : Int)))
          ((check_intervals g srvs).length : Int)))) := by
    rw [hmain]
    unfold start_check_delay
    simp only [hmax]
  refine ⟨hgen, ?_, ?_⟩
  · intro h1 h2
    rw [hgen, int_wrap_of_fits _ h1 h2]
  · intro h0 hle h1 h2
    rw [hgen]
    simp only [h0, ne_eq, not_true_eq_false, false_and, if_false, max_eq_left hle]
    rw [int_wrap_of_fits _ h1 h2]

/-- Claim C32, witness: ten configured checks of interval 1000 ms, the clock
at 5000; the check at position 3 is first due at 5300. -/
theorem boot_fanout_witness :
    (first_expiries (start_checks { now_ms := 5000 } (fun c _ => c.inter)
      (List.replicate 10 (server_with_inter 1000))))[3]? = some 5300 :=
  (boot_fanout { now_ms := 5000 } (fun c _ => c.inter)
    (List.replicate 10 (server_with_inter 1000)) (by decide) (by decide) 3 1000
    (by decide)).2.2 rfl (by decide) (by decide) (by decide)

/-- The fanout example in full: ten checks of interval 1000 ms are first due
100 ms apart, from the current date on. -/
theorem boot_fanout_ten :
    first_expiries (start_checks { now_ms := 5000 } (fun c _ => c.inter)
      (List.replicate 10 (server_with_inter 1000))) =
      [5000, 5100, 5200, 5300, 5400, 5500, 5600, 5700, 5800, 5900] := by
  decide

/-! ### The scripted check -/

theorem chk_r_terminate_empty (bi : Buffer) (h : bi.i = 0) :
    (chk_r_terminate bi).2.byte 0 = '\x00' := by
  unfold chk_r_terminate
  split_ifs with hlt
  · simp only [Buffer.byte, h]
    cases hd : bi.data with
    | nil => simp [Buffer.size, hd, h] at hlt
    | cons a l => simp
  · simp only [Buffer.byte, h]
    cases hd : bi.data with
    | nil => simp
    | cons a l => simp [Buffer.size, hd, h] at hlt

theorem tcpcheck_expect_step_eval (e : Env) (x : Transport) (sel : CheckSel) (k : Nat)
    (cur : tcpcheck_rule) (rest : List tcpcheck_rule) (st : TcpcheckRun)
    (r : Int × Connection × Buffer × Int) (t : Bool × Buffer)
    (hr : r = x.rcv_buf st.conn (st.s.chk sel).bi) (ht : t = chk_r_terminate r.2.2.1)
    (hres : (st.s.chk sel).result ≠ CHK_RES_FAILED)
    (hshut : r.1 ≤ 0 →
      (r.2.1.flags.ERROR || r.2.1.flags.SOCK_RD_SH || r.2.1.flags.DATA_RD_SH) = true)
    (hdone : st.done = true ∨ r.1 ≤ 0 ∨ t.1 = true)
    (hne : t.2.byte 0 ≠ '\x00') :
    tcpcheck_expect_step e x sel k cur rest st =
      tcpcheck_expect e sel t.2 (cur :: rest) k
        { conn := r.2.1, errno := r.2.2.2, done := true, ret := st.ret,
          s := st.s.setChk sel
            { st.s.chk sel with
              bi := t.2, last_started_step := (st.s.chk sel).current_step } } := by
  have hi : r.2.2.1.i ≠ 0 := by
    intro h0
    exact hne (ht ▸ chk_r_terminate_empty _ h0)
  have hd : (st.done || decide (r.1 ≤ 0) || t.1) = true := by
    rcases hdone with h | h | h
    · simp [h]
    · simp [h]
    · simp [h]
  unfold tcpcheck_expect_step
  simp only [if_neg hres, ← hr, ← ht, chk_setChk]
  rw [if_neg (by
    rintro ⟨h1, h2⟩
    rw [hshut h1] at h2
    cases h2)]
  rw [if_neg (by
    rintro ⟨_, _, h3⟩
    exact hi h3)]
  rw [if_neg hne, hd]
  simp only [Bool.not_true, Bool.false_and, Bool.false_eq_true, if_false]
  cases sel <;> rfl

theorem tcpcheck_expect_string (e : Env) (sel : CheckSel) (bi : Buffer) (k : Nat)
    (cur : tcpcheck_rule) (rest : List tcpcheck_rule) (st : TcpcheckRun) (str : String)
    (hstr : cur.string = some str) (hdone : st.done = true) :
    tcpcheck_expect e sel bi (cur :: rest) k st =
      if e.my_memmem (bi.data.take bi.i) str.toList != cur.inverse then
        if next_action st.s rest == some .EXPECT then
          tcpcheck_expect e sel bi rest (k + 1)
            { st with
              ret := e.my_memmem (bi.data.take bi.i) str.toList
              s := st.s.setChk sel { st.s.chk sel with current_step := some (k + 1) } }
        else
          some (.again,
            { st with
              ret := e.my_memmem (bi.data.take bi.i) str.toList
              s := st.s.setChk sel { st.s.chk sel with current_step := some (k + 1) } })
      else
        some (.end_tcpcheck,
          { st with
            ret := e.my_memmem (bi.data.take bi.i) str.toList
            s := set_server_check_status e sel HCHK_STATUS_L7RSP
              (some ((if e.my_memmem (bi.data.take bi.i) str.toList
                  then "TCPCHK matched unwanted content "
                  else "TCPCHK did not match content ") ++ ("'" ++ str ++ "'") ++ " at step " ++
                toString (tcpcheck_get_step_id st.s))) st.s }) := by
  rw [tcpcheck_expect]
  simp only [hstr, hdone, Bool.not_true, Bool.and_false, Bool.false_eq_true, if_false]

theorem record_status_desc (e : Env) (st : Nat) (t : String) (c : Check) :
    (record_status e st (some t) c).desc =
      if t != "" then t.take (e.HCHK_DESC_LEN - 1) else "" := by
  unfold record_status
  simp only
  split_ifs <;> rfl

theorem expect_desc_nonempty (found : Bool) (a b : String) :
    (((if found then "TCPCHK matched unwanted content "
        else "TCPCHK did not match content ") ++ a ++ b : String) != "") = true := by
  have h : ∀ p q r : String, p.data ≠ [] → (p ++ q ++ r != "") = true := by
    intro p q r hp
    simp only [bne_iff_ne, ne_eq]
    intro h
    have h' := congrArg String.data h
    simp only [String.data_append, List.append_eq_nil] at h'
    exact hp h'.1.1
  cases found
  · exact h _ _ _ (by decide)
  · exact h _ _ _ (by decide)

theorem chk_report_conn_err_decided (e : Env) (sel : CheckSel) (errno_bck : Int)
    (expired : Bool) (conn : Connection) (s : ServerData)
    (hres : (s.chk sel).result ≠ CHK_RES_UNKNOWN) :
    chk_report_conn_err e sel errno_bck expired conn s = (conn, s) := by
  unfold chk_report_conn_err
  simp only [if_pos hres]

theorem tcpcheck_flush_idle (e : Env) (x : Transport) (sel : CheckSel)
    (cur : Option tcpcheck_rule) (st : TcpcheckRun) (hbo : (st.s.chk sel).bo.out = []) :
    tcpcheck_flush e x sel cur st = (.again, st) := by
  unfold tcpcheck_flush
  simp [OutBuffer.o, hbo]

theorem tcpcheck_iter_finished (e : Env) (x : Transport) (sel : CheckSel) (fuel k : Nat)
    (st : TcpcheckRun) (hk : (st.s.chk sel).current_step = some k)
    (hd : st.s.proxy.tcpcheck_rules.drop k = []) (hbo : (st.s.chk sel).bo.out = []) :
    tcpcheck_iter e x sel fuel st = some (.finished, st) := by
  unfold tcpcheck_iter
  simp only [hk, hd, tcpcheck_flush_idle e x sel _ st hbo]
  simp [OutBuffer.o, hbo]

theorem tcpcheck_iter_expect (e : Env) (x : Transport) (sel : CheckSel) (fuel k : Nat)
    (st : TcpcheckRun) (cur : tcpcheck_rule) (rest : List tcpcheck_rule)
    (hk : (st.s.chk sel).current_step = some k)
    (hd : st.s.proxy.tcpcheck_rules.drop k = cur :: rest) (ha : cur.action = .EXPECT)
    (hbo : (st.s.chk sel).bo.out = []) :
    tcpcheck_iter e x sel fuel st = tcpcheck_expect_step e x sel k cur rest st := by
  unfold tcpcheck_iter
  simp only [hk, hd, tcpcheck_flush_idle e x sel _ st hbo, ha]
  simp

theorem out_end_tcpcheck_decided (e : Env) (sel : CheckSel) (st : TcpcheckRun)
    (hres : (st.s.chk sel).result ≠ CHK_RES_UNKNOWN) :
    (out_end_tcpcheck e sel st).s =
      st.s.setChk sel { st.s.chk sel with current_step := none } := by
  unfold out_end_tcpcheck
  simp only
  split_ifs <;> simp only [chk_report_conn_err_decided e sel 0 false st.conn st.s hres]

/-- The EXPECT step once the read is over and the content is not empty: the
evaluation starts as soon as `done` is set or the content is at least as
long as the string of the rule. -/
theorem tcpcheck_expect_step_ready (e : Env) (x : Transport) (sel : CheckSel) (k : Nat)
    (cur : tcpcheck_rule) (rest : List tcpcheck_rule) (st : TcpcheckRun)
    (r : Int × Connection × Buffer × Int) (t : Bool × Buffer)
    (hr : r = x.rcv_buf st.conn (st.s.chk sel).bi) (ht : t = chk_r_terminate r.2.2.1)
    (hres : (st.s.chk sel).result ≠ CHK_RES_FAILED)
    (hshut : r.1 ≤ 0 →
      (r.2.1.flags.ERROR || r.2.1.flags.SOCK_RD_SH || r.2.1.flags.DATA_RD_SH) = true)
    (hready : (st.done || decide (r.1 ≤ 0) || t.1) = true ∨ cur.string_len ≤ t.2.i)
    (hne : t.2.byte 0 ≠ '\x00') :
    tcpcheck_expect_step e x sel k cur rest st =
      tcpcheck_expect e sel t.2 (cur :: rest) k
        { conn := r.2.1, errno := r.2.2.2, done := st.done || decide (r.1 ≤ 0) || t.1,
          ret := st.ret,
          s := st.s.setChk sel
            { st.s.chk sel with
              bi := t.2, last_started_step := (st.s.chk sel).current_step } } := by
  have hi : r.2.2.1.i ≠ 0 := by
    intro h0
    exact hne (ht ▸ chk_r_terminate_empty _ h0)
  unfold tcpcheck_expect_step
  simp only [if_neg hres, ← hr, ← ht, chk_setChk]
  rw [if_neg (by
    rintro ⟨h1, h2⟩
    rw [hshut h1] at h2
    cases h2)]
  rw [if_neg (by
    rintro ⟨_, _, h3⟩
    exact hi h3)]
  rw [if_neg hne]
  have hgo : (!(st.done || decide (r.1 ≤ 0) || t.1) && cur.string.isSome &&
      decide (t.2.i < cur.string_len)) = false := by
    rcases hready with h | h
    · rw [h]; rfl
    · have : decide (t.2.i < cur.string_len) = false := by simp; omega
      rw [this, Bool.and_false]
  rw [hgo]
  simp only [Bool.false_eq_true, if_false]
  cases sel <;> rfl

theorem take_set_same {α : Type} (l : List α) (n : Nat) (a : α) :
    (l.set n a).take n = l.take n := by
  induction l generalizing n with
  | nil => simp
  | cons b l ih =>
    cases n with
    | zero => simp
    | succ m => simp [ih]

theorem getD_zero_of_take {α : Type} (l : List α) (n : Nat) (a d : α) (rest : List α)
    (h : l.take (n + 1) = a :: rest) : l.getD 0 d = a := by
  cases l with
  | nil => simp at h
  | cons b l' =>
    simp only [List.take_succ_cons, List.cons.injEq] at h
    simp [h.1]

theorem out_end_tcpcheck_step (e : Env) (sel : CheckSel) (st : TcpcheckRun) :
    ((out_end_tcpcheck e sel st).s.chk sel).current_step = none := by
  unfold out_end_tcpcheck
  simp only [chk_setChk]

/-- The last run of `tcpcheck_main` on the rules `ping_rules` when the reply
`+PONG` CR LF is read: the connection is established, the script is at its
EXPECT rule, everything has been sent, and the read returns the seven bytes
into a larger buffer.  The script runs to its end and sets L7OKD with the
description `(tcp-check)`. -/
theorem script_pong_end (e : Env) (x : Transport) (fuel : Nat) (errno : Int)
    (conn : Connection) (s : ServerData)
    (hrules : s.proxy.tcpcheck_rules = ping_rules)
    (hhead : s.proxy.head_action ≠ some .EXPECT)
    (hstep : s.check.current_step = some 2)
    (hres : s.check.result = CHK_RES_UNKNOWN)
    (hbo : s.check.bo.out = [])
    (hconn : conn.flags.CONNECTED = true) (hhs : conn.flags.HANDSHAKE = false)
    (hgot : 0 < (x.rcv_buf conn s.check.bi).1)
    (hi : (x.rcv_buf conn s.check.bi).2.2.1.i = 7)
    (hsize : 7 < (x.rcv_buf conn s.check.bi).2.2.1.size)
    (hdata : (x.rcv_buf conn s.check.bi).2.2.1.data.take 7 = "+PONG\r\n".toList)
    (hmem : e.my_memmem "+PONG\r\n".toList "+PONG".toList = true)
    (hfuel : 2 ≤ fuel) :
    ∃ r, tcpcheck_main e x .check fuel errno conn s = some r ∧
      r.2.check.current_step = none ∧
      (s.check.status ≠ 0 →
        r.2.check.status = HCHK_STATUS_L7OKD ∧ r.2.check.result = CHK_RES_PASSED ∧
        r.2.check.desc = "(tcp-check)".take (e.HCHK_DESC_LEN - 1)) := by
  generalize hrcv : x.rcv_buf conn s.check.bi = rcv at hgot hi hsize hdata
  obtain ⟨n, conn1, bi1, en1⟩ := rcv
  simp only at hgot hi hsize hdata
  have ht : chk_r_terminate bi1 = (false, { data := bi1.data.set 7 '\x00', i := 7 }) := by
    unfold chk_r_terminate
    rw [if_pos (by rw [hi]; exact hsize), hi]
  have htake : (bi1.data.set 7 '\x00').take 7 = "+PONG\r\n".toList := by
    rw [take_set_same, hdata]
  have hb0 : (bi1.data.set 7 '\x00').getD 0 '\x00' = '+' :=
    getD_zero_of_take _ 6 '+' '\x00' _ htake
  have hn : ¬ n ≤ 0 := by omega
  -- the first pass: the EXPECT step
  have h1 : tcpcheck_iter e x .check fuel { conn := conn, s := s, errno := errno } =
      some (.again,
        { conn := conn1, errno := en1, done := false, ret := true,
          s := { s with
            check := { s.check with
              bi := { data := bi1.data.set 7 '\x00', i := 7 }
              last_started_step := some 2
              current_step := some 3 } } }) := by
    rw [tcpcheck_iter_expect e x .check fuel 2 { conn := conn, s := s, errno := errno }
      { action := .EXPECT, string := some "+PONG" } []
      hstep (by rw [hrules]; rfl) rfl hbo]
    rw [tcpcheck_expect_step_ready e x .check 2 { action := .EXPECT, string := some "+PONG" } []
      { conn := conn, s := s, errno := errno } (n, conn1, bi1, en1)
      (false, { data := bi1.data.set 7 '\x00', i := 7 }) hrcv.symm ht.symm
      (by
        show s.check.result ≠ CHK_RES_FAILED
        rw [hres]; decide)
      (fun h => absurd h hn)
      (Or.inr (show (5 : Nat) ≤ 7 from by decide))
      (by
        show (bi1.data.set 7 '\x00').getD 0 '\x00' ≠ '\x00'
        rw [hb0]; decide)]
    rw [tcpcheck_expect]
    simp only [htake, hmem, hn, decide_False, Bool.or_self, Bool.not_true, Bool.false_and,
      Bool.false_eq_true, if_false, next_action, hstep]
    have hh : (s.proxy.head_action == some TcpcheckAction.EXPECT) = false := by
      simpa using hhead
    simp [ServerData.setChk, ServerData.chk, hh, hstep]
  have h2 := tcpcheck_iter_finished e x .check fuel 3
    { conn := conn1, errno := en1, done := false, ret := true,
      s := { s with
        check := { s.check with
          bi := { data := bi1.data.set 7 '\x00', i := 7 }
          last_started_step := some 2
          current_step := some 3 } } } rfl (by
        show s.proxy.tcpcheck_rules.drop 3 = []
        rw [hrules]; rfl) hbo
  obtain ⟨f, rfl⟩ : ∃ f, fuel = f + 2 := ⟨fuel - 2, by omega⟩
  have hloop : tcpcheck_loop e x .check (f + 2) (f + 2) { conn := conn, s := s, errno := errno } =
      some (.finished,
        { conn := conn1, errno := en1, done := false, ret := true,
          s := { s with
            check := { s.check with
              bi := { data := bi1.data.set 7 '\x00', i := 7 }
              last_started_step := some 2
              current_step := some 3 } } }) := by
    rw [tcpcheck_loop, h1]
    simp only
    rw [tcpcheck_loop, h2]
  have hmain : tcpcheck_main e x .check (f + 2) errno conn s =
      some ((out_end_tcpcheck e .check
          { conn := conn1, errno := en1, done := false, ret := true,
            s := set_server_check_status e .check HCHK_STATUS_L7OKD (some "(tcp-check)")
              { s with
                check := { s.check with
                  bi := { data := bi1.data.set 7 '\x00', i := 7 }
                  last_started_step := some 2
                  current_step := some 3 } } }).conn,
        (out_end_tcpcheck e .check
          { conn := conn1, errno := en1, done := false, ret := true,
            s := set_server_check_status e .check HCHK_STATUS_L7OKD (some "(tcp-check)")
              { s with
                check := { s.check with
                  bi := { data := bi1.data.set 7 '\x00', i := 7 }
                  last_started_step := some 2
                  current_step := some 3 } } }).s) := by
    unfold tcpcheck_main
    have hs : (s.chk .check).current_step = some 2 := hstep
    have hr : (s.chk .check).result = CHK_RES_UNKNOWN := hres
    simp only [hs, hr, hconn, hhs, Option.isSome_some, Bool.not_true, Bool.and_false,
      Bool.false_eq_true, if_false, ne_eq, not_true_eq_false, reduceCtorEq, hloop]
  refine ⟨_, hmain, out_end_tcpcheck_step e .check _, fun hst => ?_⟩
  have hst' : (({ s with
      check := { s.check with
        bi := { data := bi1.data.set 7 '\x00', i := 7 }
        last_started_step := some 2
        current_step := some 3 } } : ServerData).chk .check).status ≠ 0 := hst
  have hchk := set_server_check_status_chk e .check HCHK_STATUS_L7OKD (some "(tcp-check)") _
    (by decide) hst'
  have hresult : ((set_server_check_status e .check HCHK_STATUS_L7OKD (some "(tcp-check)")
      ({ s with
        check := { s.check with
          bi := { data := bi1.data.set 7 '\x00', i := 7 }
          last_started_step := some 2
          current_step := some 3 } } : ServerData)).chk .check).result = CHK_RES_PASSED := by
    rw [hchk, record_status_result _ _ _ _ (by decide)]
    rfl
  simp only
  rw [out_end_tcpcheck_decided e .check _ (by
    show ((set_server_check_status e .check HCHK_STATUS_L7OKD (some "(tcp-check)") _).chk
      .check).result ≠ CHK_RES_UNKNOWN
    rw [hresult]; decide)]
  show ((ServerData.setChk _ .check _).chk .check).status = _ ∧
    ((ServerData.setChk _ .check _).chk .check).result = _ ∧
    ((ServerData.setChk _ .check _).chk .check).desc = _
  rw [chk_setChk]
  simp only
  refine ⟨?_, hresult, ?_⟩
  · rw [hchk]
    exact record_status_status _ _ _ _
  · rw [hchk, record_status_desc, if_pos (by decide)]

/-- The last run of `tcpcheck_main` on the rules `ping_rules` when the reply
was `-ERR` CR LF and the peer is done: the connection is established, the
script is at its EXPECT rule, everything has been sent, the ingress buffer
holds the six bytes and the read returns nothing more, the read side being
shut.  The script ends with L7RSP and names the string and step 3. -/
theorem script_err_end (e : Env) (x : Transport) (fuel : Nat) (errno : Int)
    (conn : Connection) (s : ServerData)
    (hrules : s.proxy.tcpcheck_rules = ping_rules)
    (hstep : s.check.current_step = some 2)
    (hres : s.check.result = CHK_RES_UNKNOWN)
    (hbo : s.check.bo.out = [])
    (hconn : conn.flags.CONNECTED = true) (hhs : conn.flags.HANDSHAKE = false)
    (hgot : (x.rcv_buf conn s.check.bi).1 ≤ 0)
    (hshut : ((x.rcv_buf conn s.check.bi).2.1.flags.ERROR ||
      (x.rcv_buf conn s.check.bi).2.1.flags.SOCK_RD_SH ||
      (x.rcv_buf conn s.check.bi).2.1.flags.DATA_RD_SH) = true)
    (hi : (x.rcv_buf conn s.check.bi).2.2.1.i = 6)
    (hsize : 6 < (x.rcv_buf conn s.check.bi).2.2.1.size)
    (hdata : (x.rcv_buf conn s.check.bi).2.2.1.data.take 6 = "-ERR\r\n".toList)
    (hmem : e.my_memmem "-ERR\r\n".toList "+PONG".toList = false)
    (hfuel : 1 ≤ fuel) :
    ∃ r, tcpcheck_main e x .check fuel errno conn s = some r ∧
      r.2.check.current_step = none ∧
      (s.check.status ≠ 0 →
        r.2.check.status = HCHK_STATUS_L7RSP ∧ r.2.check.result = CHK_RES_FAILED ∧
        r.2.check.desc =
          "TCPCHK did not match content '+PONG' at step 3".take (e.HCHK_DESC_LEN - 1)) := by
  generalize hrcv : x.rcv_buf conn s.check.bi = rcv at hgot hshut hi hsize hdata
  obtain ⟨n, conn1, bi1, en1⟩ := rcv
  simp only at hgot hshut hi hsize hdata
  have ht : chk_r_terminate bi1 = (false, { data := bi1.data.set 6 '\x00', i := 6 }) := by
    unfold chk_r_terminate
    rw [if_pos (by rw [hi]; exact hsize), hi]
  have htake : (bi1.data.set 6 '\x00').take 6 = "-ERR\r\n".toList := by
    rw [take_set_same, hdata]
  have hb0 : (bi1.data.set 6 '\x00').getD 0 '\x00' = '-' :=
    getD_zero_of_take _ 5 '-' '\x00' _ htake
  have hid : tcpcheck_get_step_id
      ({ s with
        check := { s.check with
          bi := { data := bi1.data.set 6 '\x00', i := 6 }
          last_started_step := some 2 } } : ServerData) = 3 := by
    unfold tcpcheck_get_step_id
    simp only [hrules]
    rfl
  have h1 : tcpcheck_iter e x .check fuel { conn := conn, s := s, errno := errno } =
      some (.end_tcpcheck,
        { conn := conn1, errno := en1, done := true, ret := false,
          s := set_server_check_status e .check HCHK_STATUS_L7RSP
            (some "TCPCHK did not match content '+PONG' at step 3")
            { s with
              check := { s.check with
                bi := { data := bi1.data.set 6 '\x00', i := 6 }
                last_started_step := some 2 } } }) := by
    rw [tcpcheck_iter_expect e x .check fuel 2 { conn := conn, s := s, errno := errno }
      { action := .EXPECT, string := some "+PONG" } []
      hstep (by rw [hrules]; rfl) rfl hbo]
    rw [tcpcheck_expect_step_ready e x .check 2 { action := .EXPECT, string := some "+PONG" } []
      { conn := conn, s := s, errno := errno } (n, conn1, bi1, en1)
      (false, { data := bi1.data.set 6 '\x00', i := 6 }) hrcv.symm ht.symm
      (by
        show s.check.result ≠ CHK_RES_FAILED
        rw [hres]; decide)
      (fun _ => hshut)
      (Or.inl (by
        show (false || decide (n ≤ 0) || false) = true
        simp [hgot]))
      (by
        show (bi1.data.set 6 '\x00').getD 0 '\x00' ≠ '\x00'
        rw [hb0]; decide)]
    rw [tcpcheck_expect]
    have hs : (s.setChk .check
        { s.chk .check with
          bi := { data := bi1.data.set 6 '\x00', i := 6 }
          last_started_step := (s.chk .check).current_step }) =
        ({ s with
          check := { s.check with
            bi := { data := bi1.data.set 6 '\x00', i := 6 }
            last_started_step := some 2 } } : ServerData) := by
      simp [ServerData.setChk, ServerData.chk, hstep]
    simp only [htake, hmem, hgot, decide_True, Bool.or_true, Bool.true_or, Bool.not_true,
      Bool.and_false, Bool.false_eq_true, if_false, hs, hid, bne_self_eq_false]
    rfl
  obtain ⟨f, rfl⟩ : ∃ f, fuel = f + 1 := ⟨fuel - 1, by omega⟩
  have hloop : tcpcheck_loop e x .check (f + 1) (f + 1) { conn := conn, s := s, errno := errno } =
      some (.end_tcpcheck,
        { conn := conn1, errno := en1, done := true, ret := false,
          s := set_server_check_status e .check HCHK_STATUS_L7RSP
            (some "TCPCHK did not match content '+PONG' at step 3")
            { s with
              check := { s.check with
                bi := { data := bi1.data.set 6 '\x00', i := 6 }
                last_started_step := some 2 } } }) := by
    rw [tcpcheck_loop, h1]
  have hmain : tcpcheck_main e x .check (f + 1) errno conn s =
      some ((out_end_tcpcheck e .check
          { conn := conn1, errno := en1, done := true, ret := false,
            s := set_server_check_status e .check HCHK_STATUS_L7RSP
              (some "TCPCHK did not match content '+PONG' at step 3")
              { s with
                check := { s.check with
                  bi := { data := bi1.data.set 6 '\x00', i := 6 }
                  last_started_step := some 2 } } }).conn,
        (out_end_tcpcheck e .check
          { conn := conn1, errno := en1, done := true, ret := false,
            s := set_server_check_status e .check HCHK_STATUS_L7RSP
              (some "TCPCHK did not match content '+PONG' at step 3")
              { s with
                check := { s.check with
                  bi := { data := bi1.data.set 6 '\x00', i := 6 }
                  last_started_step := some 2 } } }).s) := by
    unfold tcpcheck_main
    have hs : (s.chk .check).current_step = some 2 := hstep
    have hr : (s.chk .check).result = CHK_RES_UNKNOWN := hres
    simp only [hs, hr, hconn, hhs, Option.isSome_some, Bool.not_true, Bool.and_false,
      Bool.false_eq_true, if_false, ne_eq, not_true_eq_false, reduceCtorEq, hloop]
  refine ⟨_, hmain, out_end_tcpcheck_step e .check _, fun hst => ?_⟩
  have hst' : (({ s with
      check := { s.check with
        bi := { data := bi1.data.set 6 '\x00', i := 6 }
        last_started_step := some 2 } } : ServerData).chk .check).status ≠ 0 := hst
  have hchk := set_server_check_status_chk e .check HCHK_STATUS_L7RSP
    (some "TCPCHK did not match content '+PONG' at step 3") _ (by decide) hst'
  have hresult : ((set_server_check_status e .check HCHK_STATUS_L7RSP
      (some "TCPCHK did not match content '+PONG' at step 3")
      ({ s with
        check := { s.check with
          bi := { data := bi1.data.set 6 '\x00', i := 6 }
          last_started_step := some 2 } } : ServerData)).chk .check).result =
      CHK_RES_FAILED := by
    rw [hchk, record_status_result _ _ _ _ (by decide)]
    rfl
  simp only
  rw [out_end_tcpcheck_decided e .check _ (by
    show ((set_server_check_status e .check HCHK_STATUS_L7RSP _ _).chk
      .check).result ≠ CHK_RES_UNKNOWN
    rw [hresult]; decide)]
  show ((ServerData.setChk _ .check _).chk .check).status = _ ∧
    ((ServerData.setChk _ .check _).chk .check).result = _ ∧
    ((ServerData.setChk _ .check _).chk .check).desc = _
  rw [chk_setChk]
  simp only
  refine ⟨?_, hresult, ?_⟩
  · rw [hchk]
    exact record_status_status _ _ _ _
  · rw [hchk, record_status_desc, if_pos (by decide)]

/-- The session of `ping_rules` with a peer that answers `+PONG`: the
script runs to its end and the check passes with L7OKD and the description
`(tcp-check)`. -/
theorem script_ping_pong :
    (script_session { now_ms := 1000 } (reply_transport "+PONG\r\n".toList) 5 ping_server).map
      (fun r => (r.2.check.status, r.2.check.desc, r.2.check.result, r.2.check.current_step)) =
      some (HCHK_STATUS_L7OKD, "(tcp-check)", CHK_RES_PASSED, none) := by
  set_option maxRecDepth 100000 in decide

/-- The session of `ping_rules` with a peer that answers `-ERR` and closes:
the check fails with L7RSP at step 3. -/
theorem script_ping_err :
    (script_session { now_ms := 1000 } (reply_transport "-ERR\r\n".toList) 5 ping_server).map
      (fun r => (r.2.check.status, r.2.check.desc, r.2.check.result, r.2.check.current_step)) =
      some (HCHK_STATUS_L7RSP, "TCPCHK did not match content '+PONG' at step 3",
        CHK_RES_FAILED, none) := by
  set_option maxRecDepth 100000 in decide

/-- Claim C36: an EXPECT step on a rule with the string `str`, when the read
returned data or found the read side shut, `done` is set (from an earlier
pass, by the shut read side or by a full buffer) and the content is not
empty.  With `found` telling that `my_memmem` finds the string in the
content: when `found` differs from the flag `inverse` the engine moves to
the next rule (and evaluates it at once when it is an EXPECT); otherwise it
leaves for `out_end_tcpcheck` after setting L7RSP with a description that
names the string and the step id, which a check whose status is set
records.  With the handling of the end of the list, `tcpcheck_main` on the
rules CONNECT, SEND `PING`, EXPECT `+PONG`, once the connection is
established and everything is sent, ends with L7OKD `(tcp-check)` when the
reply `+PONG` CR LF is read, and with L7RSP naming `+PONG` and step 3 when
the reply was `-ERR` CR LF and the read side is shut; both whole sessions,
from the connect on, are evaluated on `ping_server`. -/
theorem expect_verdict (e : Env) (x : Transport) (sel : CheckSel) (k : Nat)
    (cur : tcpcheck_rule) (rest : List tcpcheck_rule) (st : TcpcheckRun) (str : String)
    (r : Int × Connection × Buffer × Int) (t : Bool × Buffer) (found : Bool)
    (base : ServerData) (read : TcpcheckRun)
    (hstr : cur.string = some str)
    (hr : r = x.rcv_buf st.conn (st.s.chk sel).bi) (ht : t = chk_r_terminate r.2.2.1)
    (hres : (st.s.chk sel).result ≠ CHK_RES_FAILED)
    (hshut : r.1 ≤ 0 →
      (r.2.1.flags.ERROR || r.2.1.flags.SOCK_RD_SH || r.2.1.flags.DATA_RD_SH) = true)
    (hdone : st.done = true ∨ r.1 ≤ 0 ∨ t.1 = true)
    (hne : t.2.byte 0 ≠ '\x00')
    (hfound : found = e.my_memmem (t.2.data.take t.2.i) str.toList)
    (hbase : base = st.s.setChk sel
      { st.s.chk sel with bi := t.2, last_started_step := (st.s.chk sel).current_step })
    (hread : read =
      { conn := r.2.1, errno := r.2.2.2, done := true, ret := found,
        s := base.setChk sel { base.chk sel with current_step := some (k + 1) } }) :
    (found ≠ cur.inverse → next_action st.s rest ≠ some .EXPECT →
      tcpcheck_expect_step e x sel k cur rest st = some (.again, read)) ∧
    (found ≠ cur.inverse → next_action st.s rest = some .EXPECT →
      tcpcheck_expect_step e x sel k cur rest st =
        tcpcheck_expect e sel t.2 rest (k + 1) read) ∧
    (found = cur.inverse →
      tcpcheck_expect_step e x sel k cur rest st =
        some (.end_tcpcheck,
          { read with
            s := set_server_check_status e sel HCHK_STATUS_L7RSP
              (some ((if found then "TCPCHK matched unwanted content "
                  else "TCPCHK did not match content ") ++ ("'" ++ str ++ "'") ++ " at step " ++
                toString (tcpcheck_get_step_id base))) base })) ∧
    (found = cur.inverse → (st.s.chk sel).status ≠ 0 →
      ∃ st', tcpcheck_expect_step e x sel k cur rest st = some (.end_tcpcheck, st') ∧
        (st'.s.chk sel).status = HCHK_STATUS_L7RSP ∧
        (st'.s.chk sel).result = CHK_RES_FAILED ∧
        (st'.s.chk sel).desc =
          (((if found then "TCPCHK matched unwanted content "
              else "TCPCHK did not match content ") ++ ("'" ++ str ++ "'") ++ " at step " ++
            toString (tcpcheck_get_step_id base)).take (e.HCHK_DESC_LEN - 1))) ∧
    (∀ (fuel : Nat) (errno : Int) (conn : Connection) (s : ServerData),
      s.proxy.tcpcheck_rules = ping_rules → s.proxy.head_action ≠ some .EXPECT →
      s.check.current_step = some 2 → s.check.result = CHK_RES_UNKNOWN →
      s.check.bo.out = [] → conn.flags.CONNECTED = true → conn.flags.HANDSHAKE = false →
      0 < (x.rcv_buf conn s.check.bi).1 → (x.rcv_buf conn s.check.bi).2.2.1.i = 7 →
      7 < (x.rcv_buf conn s.check.bi).2.2.1.size →
      (x.rcv_buf conn s.check.bi).2.2.1.data.take 7 = "+PONG\r\n".toList →
      e.my_memmem "+PONG\r\n".toList "+PONG".toList = true → 2 ≤ fuel →
      ∃ r, tcpcheck_main e x .check fuel errno conn s = some r ∧
        r.2.check.current_step = none ∧
        (s.check.status ≠ 0 →
          r.2.check.status = HCHK_STATUS_L7OKD ∧ r.2.check.result = CHK_RES_PASSED ∧
          r.2.check.desc = "(tcp-check)".take (e.HCHK_DESC_LEN - 1))) ∧
    (∀ (fuel : Nat) (errno : Int) (conn : Connection) (s : ServerData),
      s.proxy.tcpcheck_rules = ping_rules →
      s.check.current_step = some 2 → s.check.result = CHK_RES_UNKNOWN →
      s.check.bo.out = [] → conn.flags.CONNECTED = true → conn.flags.HANDSHAKE = false →
      (x.rcv_buf conn s.check.bi).1 ≤ 0 →
      ((x.rcv_buf conn s.check.bi).2.1.flags.ERROR ||
        (x.rcv_buf conn s.check.bi).2.1.flags.SOCK_RD_SH ||
        (x.rcv_buf conn s.check.bi).2.1.flags.DATA_RD_SH) = true →
      (x.rcv_buf conn s.check.bi).2.2.1.i = 6 →
      6 < (x.rcv_buf conn s.check.bi).2.2.1.size →
      (x.rcv_buf conn s.check.bi).2.2.1.data.take 6 = "-ERR\r\n".toList →
      e.my_memmem "-ERR\r\n".toList "+PONG".toList = false → 1 ≤ fuel →
      ∃ r, tcpcheck_main e x .check fuel errno conn s = some r ∧
        r.2.check.current_step = none ∧
        (s.check.status ≠ 0 →
          r.2.check.status = HCHK_STATUS_L7RSP ∧ r.2.check.result = CHK_RES_FAILED ∧
          r.2.check.desc =
            "TCPCHK did not match content '+PONG' at step 3".take (e.HCHK_DESC_LEN - 1))) ∧
    (script_session { now_ms := 1000 } (reply_transport "+PONG\r\n".toList) 5 ping_server).map
        (fun r => (r.2.check.status, r.2.check.desc, r.2.check.result,
          r.2.check.current_step)) =
      some (HCHK_STATUS_L7OKD, "(tcp-check)", CHK_RES_PASSED, none) ∧
    (script_session { now_ms := 1000 } (reply_transport "-ERR\r\n".toList) 5 ping_server).map
        (fun r => (r.2.check.status, r.2.check.desc, r.2.check.result,
          r.2.check.current_step)) =
      some (HCHK_STATUS_L7RSP, "TCPCHK did not match content '+PONG' at step 3",
        CHK_RES_FAILED, none) := by
  have hstep := tcpcheck_expect_step_eval e x sel k cur rest st r t hr ht hres hshut hdone hne
  rw [tcpcheck_expect_string e sel t.2 k cur rest _ str hstr rfl] at hstep
  simp only [← hfound, ← hbase] at hstep
  have hnext : next_action base rest = next_action st.s rest := by
    subst hbase
    cases sel <;> rfl
  rw [hnext] at hstep
  have hfail : found = cur.inverse →
      tcpcheck_expect_step e x sel k cur rest st =
        some (.end_tcpcheck,
          { read with
            s := set_server_check_status e sel HCHK_STATUS_L7RSP
              (some ((if found then "TCPCHK matched unwanted content "
                  else "TCPCHK did not match content ") ++ ("'" ++ str ++ "'") ++ " at step " ++
                toString (tcpcheck_get_step_id base))) base }) := by
    intro h
    rw [hstep, if_neg (by simp [h]), hread]
  refine ⟨?_, ?_, hfail, ?_,
    fun fuel errno conn s h1 h2 h3 h4 h5 h6 h7 h8 h9 h10 h11 h12 h13 =>
      script_pong_end e x fuel errno conn s h1 h2 h3 h4 h5 h6 h7 h8 h9 h10 h11 h12 h13,
    fun fuel errno conn s h1 h3 h4 h5 h6 h7 h8 h9 h10 h11 h12 h13 h14 =>
      script_err_end e x fuel errno conn s h1 h3 h4 h5 h6 h7 h8 h9 h10 h11 h12 h13 h14,
    script_ping_pong, script_ping_err⟩
  · intro h hn
    rw [hstep, if_pos (by simpa using h), if_neg (by simpa using hn), hread]
  · intro h hn
    rw [hstep, if_pos (by simpa using h), if_pos (by simpa using hn), hread]
  · intro h hst
    refine ⟨_, hfail h, ?_⟩
    have hst' : (base.chk sel).status ≠ 0 := by
      subst hbase
      rw [chk_setChk]
      exact hst
    have hchk := set_server_check_status_chk e sel HCHK_STATUS_L7RSP
      (some ((if found then "TCPCHK matched unwanted content "
          else "TCPCHK did not match content ") ++ ("'" ++ str ++ "'") ++ " at step " ++
        toString (tcpcheck_get_step_id base))) base (by decide) hst'
    simp only [hchk]
    refine ⟨record_status_status _ _ _ _, ?_, ?_⟩
    · rw [record_status_result _ _ _ _ (by decide)]
      rfl
    · rw [record_status_desc]
      have := expect_desc_nonempty found ("'" ++ str ++ "'")
        (" at step " ++ toString (tcpcheck_get_step_id base))
      rw [if_pos]
      simpa [String.append_assoc] using this

/-- Claim C36, witness: the EXPECT rule for `+PONG` of `ping_rules`, after
`-ERR` has been received and the peer has closed: the step ends the script
with L7RSP and names the string and step 3. -/
theorem expect_verdict_witness :
    (tcpcheck_expect_step {} (reply_transport "-ERR\r\n".toList) .check 2
        { action := .EXPECT, string := some "+PONG" } []
        (ping_expecting "-ERR\r\n".toList)).map
      (fun r => (r.1, r.2.s.check.status, r.2.s.check.result, r.2.s.check.desc)) =
      some (.end_tcpcheck, HCHK_STATUS_L7RSP, CHK_RES_FAILED,
        "TCPCHK did not match content '+PONG' at step 3") := by
  obtain ⟨st', h1, h2, h3, h4⟩ :=
    (expect_verdict {} (reply_transport "-ERR\r\n".toList) .check 2
      { action := .EXPECT, string := some "+PONG" } [] (ping_expecting "-ERR\r\n".toList)
      "+PONG" _ _ false _ _ rfl rfl rfl (by decide) (by decide) (by decide) (by decide)
      (by decide) rfl rfl).2.2.2.1 rfl (by decide)
  rw [h1]
  simp only [Option.map]
  have h2' : st'.s.check.status = HCHK_STATUS_L7RSP := h2
  have h3' : st'.s.check.result = CHK_RES_FAILED := h3
  have h4' : st'.s.check.desc = "TCPCHK did not match content '+PONG' at step 3" :=
    h4.trans (by set_option maxRecDepth 100000 in decide)
  rw [h2', h3', h4']

theorem tcpcheck_send_open (e : Env) (sel : CheckSel) (k : Nat) (cur : tcpcheck_rule)
    (st : TcpcheckRun)
    (hsock : st.conn.flags.SOCK_WR_SH = false) (hdata : st.conn.flags.DATA_WR_SH = false) :
    tcpcheck_send e sel k cur st =
      if cur.string_len ≥ (st.s.chk sel).bo.size then
        (.end_tcpcheck,
          { st with
            s := set_server_check_status e sel HCHK_STATUS_L7RSP
              (some ("tcp-check send : string too large (" ++ toString cur.string_len ++
                ") for buffer size (" ++ toString (st.s.chk sel).bo.size ++ ") at step " ++
                toString (tcpcheck_get_step_id (st.s.setChk sel
                  { st.s.chk sel with
                    last_started_step := (st.s.chk sel).current_step
                    bi := if (st.s.chk sel).bi.byte 0 ≠ '\x00' then
                        { data := (st.s.chk sel).bi.data.set 0 '\x00', i := 0 }
                      else (st.s.chk sel).bi }))))
              (st.s.setChk sel
                { st.s.chk sel with
                  last_started_step := (st.s.chk sel).current_step
                  bi := if (st.s.chk sel).bi.byte 0 ≠ '\x00' then
                      { data := (st.s.chk sel).bi.data.set 0 '\x00', i := 0 }
                    else (st.s.chk sel).bi }) })
      else if cur.string_len ≥ (st.s.chk sel).bo.total_space then
        (.again,
          { st with
            s := st.s.setChk sel
              { st.s.chk sel with
                last_started_step := (st.s.chk sel).current_step
                bi := if (st.s.chk sel).bi.byte 0 ≠ '\x00' then
                    { data := (st.s.chk sel).bi.data.set 0 '\x00', i := 0 }
                  else (st.s.chk sel).bi } })
      else
        (.again,
          { st with
            s := st.s.setChk sel
              { st.s.chk sel with
                last_started_step := (st.s.chk sel).current_step
                bi := if (st.s.chk sel).bi.byte 0 ≠ '\x00' then
                    { data := (st.s.chk sel).bi.data.set 0 '\x00', i := 0 }
                  else (st.s.chk sel).bi
                bo := e.bo_putblk (st.s.chk sel).bo ((cur.string.getD "").toList)
                current_step := some (k + 1) } }) := by
  unfold tcpcheck_send
  simp only [hsock, hdata, Bool.or_self, Bool.false_eq_true, if_false]
  cases sel <;> rfl

theorem append_ne_empty (p q : String) (hp : p.data ≠ []) : (p ++ q != "") = true := by
  simp only [bne_iff_ne, ne_eq]
  intro h
  have h' := congrArg String.data h
  simp only [String.data_append, List.append_eq_nil] at h'
  exact hp h'.1

theorem append_data_ne (p q : String) (hp : p.data ≠ []) : (p ++ q).data ≠ [] := by
  simp only [String.data_append, ne_eq, List.append_eq_nil, not_and]
  intro h
  exact absurd h hp

/-- Claim C37, counterexample: a SEND rule whose string is exactly as long
as the egress buffer (6 bytes): the string is not larger than the capacity,
yet the engine ends the script with L7RSP "string too large". -/
theorem send_of_buffer_size_rejected :
    ¬ (({ action := .SEND, string := some "PING\r\n" } : tcpcheck_rule).string_len >
        ((ping_sending 6 []).s.chk .check).bo.size) ∧
      (tcpcheck_send {} .check 1 { action := .SEND, string := some "PING\r\n" }
          (ping_sending 6 [])).1 = .end_tcpcheck ∧
      ((tcpcheck_send {} .check 1 { action := .SEND, string := some "PING\r\n" }
          (ping_sending 6 [])).2.s.check.status,
        (tcpcheck_send {} .check 1 { action := .SEND, string := some "PING\r\n" }
          (ping_sending 6 [])).2.s.check.desc) =
        (HCHK_STATUS_L7RSP,
          "tcp-check send : string too large (6) for buffer size (6) at step 2") := by
  refine ⟨by decide, by decide, ?_⟩
  set_option maxRecDepth 100000 in decide

/-- Claim C37 (amended): a SEND step run while the write side of the
connection is open ends the script if and only if the string of the rule is
at least as long as the egress buffer (`string_len >= bo.size`), and then
with L7RSP "string too large", which a check whose status is set records; a
shorter string is appended to the pending output in full, and the step moves
to the next rule, when the buffer has more space left than the string is
long, which is so when no output is pending; when the space is short the
step stays current and the buffer is left as it is. -/
theorem send_size_limit (e : Env) (sel : CheckSel) (k : Nat) (cur : tcpcheck_rule)
    (st : TcpcheckRun) (str : String)
    (hstr : cur.string = some str)
    (hsock : st.conn.flags.SOCK_WR_SH = false) (hdata : st.conn.flags.DATA_WR_SH = false)
    (hput : ∀ (b : OutBuffer) (blk : List Char), blk.length ≤ b.size - b.out.length →
      e.bo_putblk b blk = { b with out := b.out ++ blk }) :
    ((tcpcheck_send e sel k cur st).1 = .end_tcpcheck ↔
        str.length ≥ (st.s.chk sel).bo.size) ∧
      (str.length ≥ (st.s.chk sel).bo.size → (st.s.chk sel).status ≠ 0 →
        ((tcpcheck_send e sel k cur st).2.s.chk sel).status = HCHK_STATUS_L7RSP ∧
        ((tcpcheck_send e sel k cur st).2.s.chk sel).result = CHK_RES_FAILED ∧
        ((tcpcheck_send e sel k cur st).2.s.chk sel).desc =
          ("tcp-check send : string too large (" ++ toString str.length ++
            ") for buffer size (" ++ toString (st.s.chk sel).bo.size ++ ") at step " ++
            toString (tcpcheck_get_step_id (st.s.setChk sel
              { st.s.chk sel with last_started_step := (st.s.chk sel).current_step }))).take
            (e.HCHK_DESC_LEN - 1)) ∧
      (str.length < (st.s.chk sel).bo.size → str.length < (st.s.chk sel).bo.total_space →
        (tcpcheck_send e sel k cur st).1 = .again ∧
        ((tcpcheck_send e sel k cur st).2.s.chk sel).bo =
          { (st.s.chk sel).bo with out := (st.s.chk sel).bo.out ++ str.toList } ∧
        ((tcpcheck_send e sel k cur st).2.s.chk sel).current_step = some (k + 1)) ∧
      (str.length < (st.s.chk sel).bo.size → (st.s.chk sel).bo.out = [] →
        str.length < (st.s.chk sel).bo.total_space) ∧
      (str.length < (st.s.chk sel).bo.size → (st.s.chk sel).bo.total_space ≤ str.length →
        (tcpcheck_send e sel k cur st).1 = .again ∧
        ((tcpcheck_send e sel k cur st).2.s.chk sel).bo = (st.s.chk sel).bo ∧
        ((tcpcheck_send e sel k cur st).2.s.chk sel).current_step =
          (st.s.chk sel).current_step) := by
  have hlen : cur.string_len = str.length := by
    unfold tcpcheck_rule.string_len
    rw [hstr]
  have hopen := tcpcheck_send_open e sel k cur st hsock hdata
  rw [hlen] at hopen
  refine ⟨?_, ?_, ?_, ?_, ?_⟩
  · rw [hopen]
    constructor
    · intro h
      by_contra hlt
      rw [if_neg hlt] at h
      split_ifs at h
    · intro h
      rw [if_pos h]
  · intro h hst
    rw [hopen, if_pos h]
    simp only
    have hst' : ((st.s.setChk sel
        { st.s.chk sel with
          last_started_step := (st.s.chk sel).current_step
          bi := if (st.s.chk sel).bi.byte 0 ≠ '\x00' then
              { data := (st.s.chk sel).bi.data.set 0 '\x00', i := 0 }
            else (st.s.chk sel).bi }).chk sel).status ≠ 0 := by
      rw [chk_setChk]
      exact hst
    rw [set_server_check_status_chk e sel HCHK_STATUS_L7RSP _ _ (by decide) hst']
    refine ⟨record_status_status _ _ _ _, ?_, ?_⟩
    · rw [record_status_result _ _ _ _ (by decide)]
      rfl
    · rw [record_status_desc, if_pos]
      · congr 3
        cases sel <;> rfl
      · simp only [String.append_assoc]
        exact append_ne_empty _ _ (by decide)
  · intro h1 h2
    rw [hopen, if_neg (by omega), if_neg (by omega)]
    simp only [chk_setChk, hstr, Option.getD_some]
    refine ⟨trivial, ?_, trivial⟩
    have h2' : str.data.length < (st.s.chk sel).bo.size - (st.s.chk sel).bo.out.length := h2
    exact hput _ _ (show str.data.length ≤ _ from le_of_lt h2')
  · intro h1 h2
    unfold OutBuffer.total_space
    rw [h2]
    simpa using h1
  · intro h1 h2
    rw [hopen, if_neg (by omega), if_pos (by omega)]
    simp only [chk_setChk]
    exact ⟨trivial, trivial, trivial⟩

/-- Claim C37, witness: the SEND rule of `ping_rules` with an empty egress
buffer of 32 bytes: the six bytes are appended and the step moves on. -/
theorem send_size_limit_witness :
    (tcpcheck_send {} .check 1 { action := .SEND, string := some "PING\r\n" }
        (ping_sending 32 [])).1 = .again ∧
      ((tcpcheck_send {} .check 1 { action := .SEND, string := some "PING\r\n" }
        (ping_sending 32 [])).2.s.chk .check).bo =
        { ((ping_sending 32 []).s.chk .check).bo with
          out := ((ping_sending 32 []).s.chk .check).bo.out ++ "PING\r\n".toList } ∧
      ((tcpcheck_send {} .check 1 { action := .SEND, string := some "PING\r\n" }
        (ping_sending 32 [])).2.s.chk .check).current_step = some (1 + 1) :=
  (send_size_limit {} .check 1 { action := .SEND, string := some "PING\r\n" }
    (ping_sending 32 []) "PING\r\n" rfl rfl rfl
    (fun _ _ h => if_neg (Nat.not_lt.mpr h))).2.2.1 (by decide) (by decide)

/-- A pass of the loop at the SEND step of `ping_rules` when two bytes are
still pending in an egress buffer of 8 bytes: the space is short, the pass
first flushes the buffer, then appends the string and moves to the next
rule. -/
theorem send_after_flush :
    (tcpcheck_iter {} (reply_transport []) .check 1 (ping_sending 8 ['a', 'b'])).map
      (fun r => (r.1, r.2.s.check.bo.out, r.2.s.check.current_step)) =
      some (.again, "PING\r\n".toList, some 2) := by
  set_option maxRecDepth 100000 in decide

/-! ### Launching a check -/

theorem chk_report_conn_err_cases (e : Env) (sel : CheckSel) (errno_bck : Int)
    (expired : Bool) (conn : Connection) (s : ServerData) :
    (chk_report_conn_err e sel errno_bck expired conn s).2 = s ∨
      ∃ st d, (chk_report_conn_err e sel errno_bck expired conn s).2 =
        set_server_check_status e sel st d s := by
  unfold chk_report_conn_err
  simp only
  split_ifs <;>
    first
      | exact Or.inl rfl
      | (split <;> first | exact Or.inr ⟨_, _, rfl⟩ | exact Or.inl rfl)

theorem set_server_check_status_proxy (e : Env) (sel : CheckSel) (st : Nat)
    (d : Option String) (s : ServerData) :
    (set_server_check_status e sel st d s).proxy = s.proxy := by
  unfold set_server_check_status
  simp only
  split_ifs <;> cases sel <;> rfl

theorem chk_report_conn_err_state (e : Env) (sel : CheckSel) (errno_bck : Int)
    (expired : Bool) (conn : Connection) (s : ServerData) :
    ((chk_report_conn_err e sel errno_bck expired conn s).2.chk sel).state =
      (s.chk sel).state := by
  rcases chk_report_conn_err_cases e sel errno_bck expired conn s with h | ⟨st, d, h⟩
  · rw [h]
  · rw [h]
    exact (set_server_check_status_frame e sel sel st d s).2.2.2.2.2

theorem chk_report_conn_err_proxy (e : Env) (sel : CheckSel) (errno_bck : Int)
    (expired : Bool) (conn : Connection) (s : ServerData) :
    (chk_report_conn_err e sel errno_bck expired conn s).2.proxy = s.proxy := by
  rcases chk_report_conn_err_cases e sel errno_bck expired conn s with h | ⟨st, d, h⟩
  · rw [h]
  · rw [h]
    exact set_server_check_status_proxy e sel st d s

theorem set_server_check_status_state (e : Env) (sel : CheckSel) (st : Nat)
    (d : Option String) (s : ServerData) :
    ((set_server_check_status e sel st d s).chk sel).state = (s.chk sel).state :=
  (set_server_check_status_frame e sel sel st d s).2.2.2.2.2

theorem tcpcheck_flush_state (e : Env) (x : Transport) (sel : CheckSel)
    (cur : Option tcpcheck_rule) (st : TcpcheckRun) :
    ((tcpcheck_flush e x sel cur st).2.s.chk sel).state = (st.s.chk sel).state := by
  unfold tcpcheck_flush
  simp only
  split_ifs <;>
    simp only [chk_report_conn_err_state, set_server_check_status_state, chk_setChk]

theorem tcpcheck_send_state (e : Env) (sel : CheckSel) (k : Nat) (cur : tcpcheck_rule)
    (st : TcpcheckRun) :
    ((tcpcheck_send e sel k cur st).2.s.chk sel).state = (st.s.chk sel).state := by
  unfold tcpcheck_send
  simp only
  split_ifs <;>
    simp only [chk_report_conn_err_state, set_server_check_status_state, chk_setChk]

theorem tcpcheck_connect_state (e : Env) (x : Transport) (sel : CheckSel) (fuel k : Nat)
    (st : TcpcheckRun) (r : LoopExit × TcpcheckRun)
    (h : tcpcheck_connect e x sel fuel k st = some r) :
    (r.2.s.chk sel).state = (st.s.chk sel).state := by
  unfold tcpcheck_connect at h
  simp only at h
  split at h
  · split_ifs at h
    all_goals
      first
        | (simp only [Option.map_eq_some'] at h
           obtain ⟨exp, _, rfl⟩ := h
           simp only [chk_setChk])
        | (cases h
           simp only [chk_setChk])
  all_goals
    cases h
    simp only [set_server_check_status_state, chk_setChk]

theorem tcpcheck_expect_state (e : Env) (sel : CheckSel) (bi : Buffer) :
    ∀ (rules : List tcpcheck_rule) (k : Nat) (st : TcpcheckRun) (r : LoopExit × TcpcheckRun),
      tcpcheck_expect e sel bi rules k st = some r →
      (r.2.s.chk sel).state = (st.s.chk sel).state := by
  intro rules
  induction rules with
  | nil => intro k st r h; simp [tcpcheck_expect] at h
  | cons cur rest ih =>
    intro k st r h
    rw [tcpcheck_expect] at h
    simp only at h
    split_ifs at h
    all_goals
      first
        | (rw [ih _ _ _ h]
           simp only [chk_setChk])
        | (cases h
           simp only [set_server_check_status_state, chk_setChk])

theorem tcpcheck_expect_step_state (e : Env) (x : Transport) (sel : CheckSel) (k : Nat)
    (cur : tcpcheck_rule) (rest : List tcpcheck_rule) (st : TcpcheckRun)
    (r : LoopExit × TcpcheckRun) (h : tcpcheck_expect_step e x sel k cur rest st = some r) :
    (r.2.s.chk sel).state = (st.s.chk sel).state := by
  unfold tcpcheck_expect_step at h
  simp only at h
  split_ifs at h
  all_goals
    first
      | (cases h
         simp only [chk_report_conn_err_state, set_server_check_status_state, chk_setChk])
      | (rw [tcpcheck_expect_state e sel _ _ _ _ _ h]
         simp only [chk_setChk])

theorem tcpcheck_iter_state (e : Env) (x : Transport) (sel : CheckSel) (fuel : Nat)
    (st : TcpcheckRun) (r : LoopExit × TcpcheckRun)
    (h : tcpcheck_iter e x sel fuel st = some r) :
    (r.2.s.chk sel).state = (st.s.chk sel).state := by
  unfold tcpcheck_iter at h
  cases hk : (st.s.chk sel).current_step with
  | none => simp [hk] at h
  | some k =>
    simp only [hk] at h
    have hf := tcpcheck_flush_state e x sel (st.s.proxy.tcpcheck_rules.drop k).head? st
    by_cases h1 : (tcpcheck_flush e x sel (st.s.proxy.tcpcheck_rules.drop k).head? st).1 ≠ .again
    · rw [if_pos h1] at h
      cases h
      exact hf
    · rw [if_neg h1] at h
      cases hd : st.s.proxy.tcpcheck_rules.drop k with
      | nil =>
        simp only [hd] at h hf
        by_cases h2 : ((tcpcheck_flush e x sel [].head? st).2.s.chk sel).bo.o ≠ 0
        · rw [if_pos h2] at h
          cases h
          exact hf
        · rw [if_neg h2] at h
          cases h
          exact hf
      | cons cur rest =>
        simp only [hd] at h hf
        cases ha : cur.action <;> simp only [ha] at h
        · cases h
          rw [tcpcheck_send_state]
          exact hf
        · rw [tcpcheck_expect_step_state e x sel k cur rest _ r h]
          exact hf
        · rw [tcpcheck_connect_state e x sel fuel k _ r h]
          exact hf

theorem tcpcheck_loop_state (e : Env) (x : Transport) (sel : CheckSel) (wfuel : Nat) :
    ∀ (fuel : Nat) (st : TcpcheckRun) (r : LoopExit × TcpcheckRun),
      tcpcheck_loop e x sel wfuel fuel st = some r →
      (r.2.s.chk sel).state = (st.s.chk sel).state := by
  intro fuel
  induction fuel with
  | zero => intro st r h; simp [tcpcheck_loop] at h
  | succ n ih =>
    intro st r h
    rw [tcpcheck_loop] at h
    cases hi : tcpcheck_iter e x sel wfuel st with
    | none => simp [hi] at h
    | some p =>
      obtain ⟨ex, st1⟩ := p
      have hs := tcpcheck_iter_state e x sel wfuel st _ hi
      simp only [hi] at h
      cases ex
      · simp only at h
        rw [ih st1 r h]
        exact hs
      all_goals
        simp only [Option.some.injEq] at h
        subst h
        exact hs

theorem out_end_tcpcheck_state (e : Env) (sel : CheckSel) (st : TcpcheckRun) :
    ((out_end_tcpcheck e sel st).s.chk sel).state = (st.s.chk sel).state := by
  unfold out_end_tcpcheck
  simp only
  split_ifs <;> simp only [chk_setChk, chk_report_conn_err_state]

theorem tcpcheck_main_state (e : Env) (x : Transport) (sel : CheckSel) (fuel : Nat)
    (errno : Int) (conn : Connection) (s : ServerData) (r : Connection × ServerData)
    (h : tcpcheck_main e x sel fuel errno conn s = some r) :
    (r.2.chk sel).state = (s.chk sel).state := by
  unfold tcpcheck_main at h
  simp only at h
  by_cases h1 : ((s.chk sel).current_step.isSome && !conn.flags.CONNECTED) = true
  · rw [if_pos h1] at h
    simp only [Option.map_eq_some'] at h
    obtain ⟨exp, _, rfl⟩ := h
    simp only [chk_setChk]
  · rw [if_neg h1] at h
    by_cases h2 : (s.chk sel).result ≠ CHK_RES_UNKNOWN
    · rw [if_pos h2] at h
      cases h
      exact out_end_tcpcheck_state e sel _
    · rw [if_neg h2] at h
      generalize hs1 : (if (s.chk sel).current_step = none then
          s.setChk sel
            { s.chk sel with
              bo := { (s.chk sel).bo with out := [] }
              bi := { (s.chk sel).bi with i := 0 }
              current_step := some 0
              task_expire :=
                if s.proxy.timeout_check ≠ 0 then
                  e.tick_add_ifset e.now_ms s.proxy.timeout_check
                else e.tick_add e.now_ms (e.MS_TO_TICKS (s.chk sel).inter) }
        else s) = s1 at h
      have hst : (s1.chk sel).state = (s.chk sel).state := by
        rw [← hs1]
        by_cases h3 : (s.chk sel).current_step = none
        · rw [if_pos h3, chk_setChk]
        · rw [if_neg h3]
      by_cases h4 : conn.flags.HANDSHAKE = true
      · rw [if_pos h4] at h
        cases h
        exact hst
      · rw [if_neg h4] at h
        cases hl : tcpcheck_loop e x sel fuel fuel { conn := conn, s := s1, errno := errno } with
        | none => simp [hl] at h
        | some p =>
          obtain ⟨ex, st⟩ := p
          have hls := tcpcheck_loop_state e x sel fuel fuel _ _ hl
          simp only at hls
          simp only [hl] at h
          cases ex <;> simp only [Option.some.injEq] at h <;> subst h <;>
            simp only [out_end_tcpcheck_state, set_server_check_status_state, hls, hst]

theorem check_failed_check (e : Env) (sel : CheckSel) (srv : Server) :
    ((check_failed e sel srv).core.chk sel).state = (srv.core.chk sel).state ∧
      ((check_failed e sel srv).core.chk sel).inter = (srv.core.chk sel).inter ∧
      (check_failed e sel srv).core.proxy = srv.core.proxy := by
  unfold check_failed
  simp only
  split_ifs
  · exact ⟨rfl, rfl, rfl⟩
  · cases sel <;> exact ⟨rfl, rfl, rfl⟩
  · rw [set_server_down_core]
    unfold maintain_health mark_down
    split_ifs <;> cases sel <;> exact ⟨rfl, rfl, rfl⟩

theorem set_server_check_status_inter (e : Env) (sel : CheckSel) (st : Nat)
    (d : Option String) (s : ServerData) :
    ((set_server_check_status e sel st d s).chk sel).inter = (s.chk sel).inter ∧
      ((set_server_check_status e sel st d s).chk sel).type = (s.chk sel).type := by
  have hrec : ∀ c : Check, (record_status e st d c).inter = c.inter ∧
      (record_status e st d c).type = c.type := by
    intro c
    unfold record_status
    simp only
    split_ifs <;> exact ⟨rfl, rfl⟩
  unfold set_server_check_status
  simp only
  split_ifs <;> cases sel <;>
    simp [ServerData.setChk, ServerData.chk, hrec]

theorem chk_report_conn_err_inter (e : Env) (sel : CheckSel) (errno_bck : Int)
    (expired : Bool) (conn : Connection) (s : ServerData) :
    ((chk_report_conn_err e sel errno_bck expired conn s).2.chk sel).inter =
      (s.chk sel).inter := by
  rcases chk_report_conn_err_cases e sel errno_bck expired conn s with h | ⟨st, d, h⟩
  · rw [h]
  · rw [h]
    exact (set_server_check_status_inter e sel st d s).1

/-- The loop that awaits a connection ends, with the tick helpers of
`common/ticks.h`, when `inter` is positive and `timeout.connect` is positive
whenever `timeout.check` is set. -/
theorem connect_wait_loop_ends (e : Env) (inter tcon tchk : Int) (hinter : 0 < inter)
    (htcon : tchk ≠ 0 → 0 < tcon)
    (hms : ∀ x, e.MS_TO_TICKS x = x)
    (hadd : ∀ a b, e.tick_add a b = if a + b = 0 then 1 else a + b)
    (hfirst : ∀ t1 t2, e.tick_first t1 t2 =
      if t1 = 0 then t2 else if t2 = 0 then t1 else if t1 - t2 ≤ 0 then t1 else t2)
    (hexp : ∀ t now, e.tick_is_expired t now = (t != 0 && decide (t - now ≤ 0))) :
    ∀ (n : Nat) (expire : Int), e.now_ms - expire < n →
      ∃ (fuel : Nat) (r : Int),
        ∀ f, fuel ≤ f → connect_wait_loop e inter tcon tchk f expire = some r := by
  intro n
  induction n with
  | zero =>
    intro expire hn
    refine ⟨1, expire, fun f hf => ?_⟩
    obtain ⟨f', rfl⟩ : ∃ f', f = f' + 1 := ⟨f - 1, by omega⟩
    have hx : e.tick_is_expired expire e.now_ms = false := by
      rw [hexp]
      have : ¬ expire - e.now_ms ≤ 0 := by omega
      simp [this]
    simp [connect_wait_loop, hx]
  | succ n ih =>
    intro expire hn
    cases hx : e.tick_is_expired expire e.now_ms
    · refine ⟨1, expire, fun f hf => ?_⟩
      obtain ⟨f', rfl⟩ : ∃ f', f = f' + 1 := ⟨f - 1, by omega⟩
      simp [connect_wait_loop, hx]
    · have hgt : ∀ d : Int, 0 < d → expire < e.tick_add expire d ∧ e.tick_add expire d ≠ 0 := by
        intro d hd
        rw [hadd]
        split_ifs with h0
        · exact ⟨by omega, by omega⟩
        · exact ⟨by omega, h0⟩
      have hnext := hgt (e.MS_TO_TICKS inter) (by rw [hms]; exact hinter)
      have hstep : expire <
          (if tchk ≠ 0 then
            e.tick_first (e.tick_add expire (e.MS_TO_TICKS inter)) (e.tick_add expire tcon)
          else e.tick_add expire (e.MS_TO_TICKS inter)) := by
        by_cases ht : tchk ≠ 0
        · rw [if_pos ht, hfirst, if_neg hnext.2, if_neg (hgt tcon (htcon ht)).2]
          split_ifs
          · exact hnext.1
          · exact (hgt tcon (htcon ht)).1
        · rw [if_neg ht]
          exact hnext.1
      obtain ⟨fuel, r, hf⟩ := ih
        (if tchk ≠ 0 then
          e.tick_first (e.tick_add expire (e.MS_TO_TICKS inter)) (e.tick_add expire tcon)
        else e.tick_add expire (e.MS_TO_TICKS inter)) (by omega)
      refine ⟨fuel + 1, r, fun f hf' => ?_⟩
      obtain ⟨f', rfl⟩ : ∃ f', f = f' + 1 := ⟨f - 1, by omega⟩
      simp only [connect_wait_loop, hx, if_true]
      exact hf f' (by omega)

theorem process_chk_prepare_facts (e : Env) (sel : CheckSel) (req : List Char)
    (s : ServerData) :
    ((process_chk_prepare e sel req s).chk sel).state.INPROGRESS = true ∧
      ((process_chk_prepare e sel req s).chk sel).type = (s.chk sel).type ∧
      ((process_chk_prepare e sel req s).chk sel).inter = (s.chk sel).inter ∧
      (process_chk_prepare e sel req s).proxy = s.proxy := by
  unfold process_chk_prepare
  simp only [chk_setChk]
  have h1 := set_server_check_status_inter e sel HCHK_STATUS_START none s
  have h2 := set_server_check_status_proxy e sel HCHK_STATUS_START none s
  split_ifs <;> refine ⟨rfl, h1.2, h1.1, ?_⟩ <;> rw [← h2] <;> cases sel <;> rfl

theorem launch_paths (e : Env) (x : Transport) (sel : CheckSel) (fuel : Nat) (errno : Int)
    (req : List Char) (conn : Connection) (srv : Server) (r : Connection × Server)
    (hnot : (srv.core.chk sel).state.INPROGRESS = false)
    (h : process_chk_launch e x sel fuel errno req conn srv = some r) :
    ((r.2.core.chk sel).state.INPROGRESS = true ↔
      e.tick_is_expired (srv.core.chk sel).task_expire e.now_ms = true ∧
      (srv.core.chk sel).state.ENABLED = true ∧ (srv.core.chk sel).state.PAUSED = false ∧
      srv.core.proxy.stopped = false ∧
      (((srv.core.chk sel).type = .TCPCHK_CHK ∧
          next_action srv.core srv.core.proxy.tcpcheck_rules = some .CONNECT) ∨
        (x.connect none {}).map (fun c => c.1) = some .NONE)) := by
  obtain ⟨hp1, hp2, hp3, hp4⟩ := process_chk_prepare_facts e sel req srv.core
  have hnext : next_action (process_chk_prepare e sel req srv.core)
      (process_chk_prepare e sel req srv.core).proxy.tcpcheck_rules =
      next_action srv.core srv.core.proxy.tcpcheck_rules := by
    rw [hp4]
    unfold next_action
    rw [hp4]
  unfold process_chk_launch at h
  simp only at h
  by_cases hx : e.tick_is_expired (srv.core.chk sel).task_expire e.now_ms = true
  swap
  · simp only [hx, Bool.not_false, if_true, Bool.false_eq_true, not_false_eq_true,
      Option.some.injEq] at h
    subst h
    simp [hnot, hx]
  simp only [hx, Bool.not_true, Bool.false_eq_true, if_false] at h
  by_cases hrun : (!((srv.core.chk sel).state.ENABLED && !(srv.core.chk sel).state.PAUSED) ||
      srv.core.proxy.stopped) = true
  · rw [if_pos hrun] at h
    simp only [Option.map_eq_some'] at h
    obtain ⟨exp, _, rfl⟩ := h
    simp only [chk_setChk, hnot, Bool.false_eq_true, false_iff, not_and]
    intro _ h1 h2 h3
    simp [h1, h2, h3] at hrun
  rw [if_neg hrun] at h
  have hrun' : (srv.core.chk sel).state.ENABLED = true ∧
      (srv.core.chk sel).state.PAUSED = false ∧ srv.core.proxy.stopped = false := by
    simp only [Bool.or_eq_true, Bool.not_eq_true', Bool.and_eq_false_imp, not_or,
      Bool.not_eq_false, Bool.not_eq_true] at hrun
    revert hrun
    cases (srv.core.chk sel).state.ENABLED <;> cases (srv.core.chk sel).state.PAUSED <;>
      cases srv.core.proxy.stopped <;> simp
  rw [hp2, hnext] at h
  by_cases hscript : (srv.core.chk sel).type = .TCPCHK_CHK ∧
      next_action srv.core srv.core.proxy.tcpcheck_rules = some .CONNECT
  · rw [if_pos hscript] at h
    simp only [Option.map_eq_some'] at h
    obtain ⟨r', hr', rfl⟩ := h
    simp only
    rw [tcpcheck_main_state e x sel fuel errno _ _ r' hr', hp1]
    simp [hx, hrun', hscript]
  rw [if_neg hscript] at h
  have herr : ∀ (s' : ServerData) (exp : Int),
      ((((check_failed e sel (clear_inprogress sel ⟨s', srv.trackers⟩)).core.setChk sel
        { (check_failed e sel (clear_inprogress sel ⟨s', srv.trackers⟩)).core.chk sel with
          task_expire := exp }).chk sel).state.INPROGRESS = false) := by
    intro s' exp
    rw [chk_setChk]
    simp only
    rw [(check_failed_check e sel _).1]
    unfold clear_inprogress
    simp only [chk_setChk]
  cases hc : x.connect none {} with
  | none =>
    simp only [hc, reduceCtorEq, if_false, Option.bind_eq_some, Option.map_eq_some'] at h
    obtain ⟨exp1, _, exp, _, rfl⟩ := h
    simp only [herr]
    simp [hscript]
  | some c =>
    simp only [hc] at h
    by_cases hnone : c.1 = .NONE
    · rw [if_pos hnone] at h
      simp only [Option.map_eq_some'] at h
      obtain ⟨exp, _, rfl⟩ := h
      simp only [chk_setChk, hp1, Option.map_some', hnone, true_iff]
      exact ⟨hx, hrun'.1, hrun'.2.1, hrun'.2.2, Or.inr trivial⟩
    · rw [if_neg hnone] at h
      simp only [Option.bind_eq_some, Option.map_eq_some'] at h
      obtain ⟨exp1, _, exp, _, rfl⟩ := h
      simp only [herr]
      simp [hscript, hnone]

theorem reschedule_loop_ends (e : Env) (inter : Int) (hinter : 0 < inter)
    (hms : ∀ x, e.MS_TO_TICKS x = x)
    (hadd : ∀ a b, e.tick_add a b = if a + b = 0 then 1 else a + b)
    (hexp : ∀ t now, e.tick_is_expired t now = (t != 0 && decide (t - now ≤ 0)))
    (expire : Int) :
    ∃ (fuel : Nat) (r : Int), ∀ f, fuel ≤ f → reschedule_loop e inter f expire = some r := by
  obtain ⟨fuel, r, _, _, hf, _⟩ := reschedule_loop_spec e inter hinter hms hadd hexp
    ((e.now_ms - expire).toNat + 1) expire (by omega)
  exact ⟨fuel, r, hf⟩

theorem launch_returns (e : Env) (x : Transport) (sel : CheckSel) (errno : Int)
    (req : List Char) (conn : Connection) (srv : Server)
    (hinter : 0 < (srv.core.chk sel).inter)
    (htcon : srv.core.proxy.timeout_check ≠ 0 → 0 < srv.core.proxy.timeout_connect)
    (hms : ∀ x, e.MS_TO_TICKS x = x)
    (hadd : ∀ a b, e.tick_add a b = if a + b = 0 then 1 else a + b)
    (hfirst : ∀ t1 t2, e.tick_first t1 t2 =
      if t1 = 0 then t2 else if t2 = 0 then t1 else if t1 - t2 ≤ 0 then t1 else t2)
    (hexp : ∀ t now, e.tick_is_expired t now = (t != 0 && decide (t - now ≤ 0)))
    (hscript : ¬ ((srv.core.chk sel).type = .TCPCHK_CHK ∧
      next_action srv.core srv.core.proxy.tcpcheck_rules = some .CONNECT)) :
    ∃ fuel : Nat, ∀ f, fuel ≤ f →
      ∃ r, process_chk_launch e x sel f errno req conn srv = some r := by
  obtain ⟨hp1, hp2, hp3, hp4⟩ := process_chk_prepare_facts e sel req srv.core
  have hnext : next_action (process_chk_prepare e sel req srv.core)
      (process_chk_prepare e sel req srv.core).proxy.tcpcheck_rules =
      next_action srv.core srv.core.proxy.tcpcheck_rules := by
    rw [hp4]
    unfold next_action
    rw [hp4]
  have hres := fun expire => reschedule_loop_ends e _ hinter hms hadd hexp expire
  have herr : ∀ (en : Int) (c : Connection),
      ∃ fuel : Nat, ∀ f, fuel ≤ f → ∃ r,
        (connect_wait_loop e
          ((check_failed e sel (clear_inprogress sel
            ⟨(chk_report_conn_err e sel en false c
              (process_chk_prepare e sel req srv.core)).2, srv.trackers⟩)).core.chk sel).inter
          (check_failed e sel (clear_inprogress sel
            ⟨(chk_report_conn_err e sel en false c
              (process_chk_prepare e sel req srv.core)).2, srv.trackers⟩)).core.proxy.timeout_connect
          (check_failed e sel (clear_inprogress sel
            ⟨(chk_report_conn_err e sel en false c
              (process_chk_prepare e sel req srv.core)).2, srv.trackers⟩)).core.proxy.timeout_check
          f
          ((check_failed e sel (clear_inprogress sel
            ⟨(chk_report_conn_err e sel en false c
              (process_chk_prepare e sel req srv.core)).2, srv.trackers⟩)).core.chk sel).task_expire).bind
          (fun exp1 =>
            (reschedule_loop e
              ((check_failed e sel (clear_inprogress sel
                ⟨(chk_report_conn_err e sel en false c
                  (process_chk_prepare e sel req srv.core)).2, srv.trackers⟩)).core.chk sel).inter
              f exp1).map
              (fun exp =>
                ((chk_report_conn_err e sel en false c
                    (process_chk_prepare e sel req srv.core)).1,
                  (⟨(check_failed e sel (clear_inprogress sel
                      ⟨(chk_report_conn_err e sel en false c
                        (process_chk_prepare e sel req srv.core)).2, srv.trackers⟩)).core.setChk sel
                      { (check_failed e sel (clear_inprogress sel
                          ⟨(chk_report_conn_err e sel en false c
                            (process_chk_prepare e sel req srv.core)).2, srv.trackers⟩)).core.chk sel with
                        task_expire := exp },
                    (check_failed e sel (clear_inprogress sel
                      ⟨(chk_report_conn_err e sel en false c
                        (process_chk_prepare e sel req srv.core)).2,
                        srv.trackers⟩)).trackers⟩ : Server)))) = some r := by
    intro en c
    obtain ⟨hc1, hc2, hc3⟩ := check_failed_check e sel (clear_inprogress sel
      ⟨(chk_report_conn_err e sel en false c (process_chk_prepare e sel req srv.core)).2,
        srv.trackers⟩)
    have hi : ((clear_inprogress sel
        ⟨(chk_report_conn_err e sel en false c (process_chk_prepare e sel req srv.core)).2,
          srv.trackers⟩).core.chk sel).inter = (srv.core.chk sel).inter := by
      unfold clear_inprogress
      simp only [chk_setChk]
      rw [chk_report_conn_err_inter, hp3]
    have hp : (clear_inprogress sel
        ⟨(chk_report_conn_err e sel en false c (process_chk_prepare e sel req srv.core)).2,
          srv.trackers⟩).core.proxy = srv.core.proxy := by
      have hset : ∀ (s' : ServerData) (c' : Check), (s'.setChk sel c').proxy = s'.proxy := by
        intro s' c'
        cases sel <;> rfl
      unfold clear_inprogress
      simp only
      rw [hset, chk_report_conn_err_proxy, hp4]
    rw [hc2, hc3, hi, hp]
    obtain ⟨f1, r1, hf1⟩ := connect_wait_loop_ends e (srv.core.chk sel).inter
      srv.core.proxy.timeout_connect srv.core.proxy.timeout_check hinter htcon hms hadd hfirst
      hexp
      ((e.now_ms - ((check_failed e sel (clear_inprogress sel
        ⟨(chk_report_conn_err e sel en false c (process_chk_prepare e sel req srv.core)).2,
          srv.trackers⟩)).core.chk sel).task_expire).toNat + 1)
      ((check_failed e sel (clear_inprogress sel
        ⟨(chk_report_conn_err e sel en false c (process_chk_prepare e sel req srv.core)).2,
          srv.trackers⟩)).core.chk sel).task_expire (by omega)
    obtain ⟨f2, r2, hf2⟩ := hres r1
    refine ⟨max f1 f2, fun f hf => ?_⟩
    rw [hf1 f (le_trans (le_max_left _ _) hf), Option.some_bind,
      hf2 f (le_trans (le_max_right _ _) hf)]
    exact ⟨_, rfl⟩
  unfold process_chk_launch
  simp only
  by_cases hx : e.tick_is_expired (srv.core.chk sel).task_expire e.now_ms = true
  swap
  · exact ⟨0, fun f _ => ⟨(conn, srv), by simp [hx]⟩⟩
  simp only [hx, Bool.not_true, Bool.false_eq_true, if_false]
  by_cases hrun : (!((srv.core.chk sel).state.ENABLED && !(srv.core.chk sel).state.PAUSED) ||
      srv.core.proxy.stopped) = true
  · obtain ⟨f0, r0, hf0⟩ := hres (srv.core.chk sel).task_expire
    refine ⟨f0, fun f hf => ?_⟩
    rw [if_pos hrun, hf0 f hf]
    exact ⟨_, rfl⟩
  simp only [if_neg hrun, hp2, hnext, if_neg hscript, hp3]
  cases hc : x.connect none {} with
  | none =>
    simp only [reduceCtorEq, if_false, or_self]
    exact herr 0 _
  | some c =>
    simp only
    by_cases hnone : c.1 = .NONE
    · simp only [if_pos hnone]
      obtain ⟨f0, r0, hf0⟩ := hres
        (if (process_chk_prepare e sel req srv.core).proxy.timeout_check ≠ 0 ∧
            (process_chk_prepare e sel req srv.core).proxy.timeout_connect ≠ 0 then
          e.tick_first (e.tick_add e.now_ms (e.MS_TO_TICKS (srv.core.chk sel).inter))
            (e.tick_add e.now_ms (process_chk_prepare e sel req srv.core).proxy.timeout_connect)
        else e.tick_add e.now_ms (e.MS_TO_TICKS (srv.core.chk sel).inter))
      refine ⟨f0, fun f hf => ?_⟩
      rw [hf0 f hf]
      exact ⟨_, rfl⟩
    · simp only [if_neg hnone]
      exact herr _ _

/-- Claim C33, counterexample: a scripted check whose first rule is a
CONNECT, due and enabled, with a peer that refuses the connection.
`process_chk` hands the launch to `tcpcheck_main`, where the connect call
returns `SN_ERR_SRVCL` and the status becomes L4CON, and returns with
`CHK_ST_INPROGRESS` set. -/
theorem script_connect_error_stays_in_progress :
    (script_server.core.chk .check).state.INPROGRESS = false ∧
      (refusing_transport.connect (some 0) {}).map (fun c => c.1) = some .SRVCL ∧
      (process_chk_launch { now_ms := 1000 } refusing_transport .check 5 0 [] {}
          script_server).map
        (fun r => (r.2.core.check.state.INPROGRESS, r.2.core.check.status,
          r.2.core.check.result)) =
        some (true, HCHK_STATUS_L4CON, CHK_RES_FAILED) := by
  refine ⟨by decide, by decide, ?_⟩
  set_option maxRecDepth 100000 in decide

/-- Claim C33 (amended): for a check that is not in progress when
`process_chk` is entered, `CHK_ST_INPROGRESS` is set on return exactly when
the task was expired, the check enabled and not paused, the proxy not
stopped, and either the launch was handed to the script engine (a scripted
check whose first rule is a CONNECT, whatever the connect gives there) or
the connect call of `process_chk` returned `SN_ERR_NONE`; so it is clear on
the not-expired path, on the paused, disabled or stopped path and on every
error path of that connect call.  Outside the script engine the function
returns, given the tick helpers of `common/ticks.h`, a positive `inter` and
a positive `timeout.connect` whenever `timeout.check` is set. -/
theorem launch_in_progress (e : Env) (x : Transport) (sel : CheckSel) (errno : Int)
    (req : List Char) (conn : Connection) (srv : Server)
    (hnot : (srv.core.chk sel).state.INPROGRESS = false) :
    (∀ (fuel : Nat) (r : Connection × Server),
      process_chk_launch e x sel fuel errno req conn srv = some r →
      ((r.2.core.chk sel).state.INPROGRESS = true ↔
        e.tick_is_expired (srv.core.chk sel).task_expire e.now_ms = true ∧
        (srv.core.chk sel).state.ENABLED = true ∧ (srv.core.chk sel).state.PAUSED = false ∧
        srv.core.proxy.stopped = false ∧
        (((srv.core.chk sel).type = .TCPCHK_CHK ∧
            next_action srv.core srv.core.proxy.tcpcheck_rules = some .CONNECT) ∨
          (x.connect none {}).map (fun c => c.1) = some .NONE))) ∧
    (0 < (srv.core.chk sel).inter →
      (srv.core.proxy.timeout_check ≠ 0 → 0 < srv.core.proxy.timeout_connect) →
      (∀ x, e.MS_TO_TICKS x = x) →
      (∀ a b, e.tick_add a b = if a + b = 0 then 1 else a + b) →
      (∀ t1 t2, e.tick_first t1 t2 =
        if t1 = 0 then t2 else if t2 = 0 then t1 else if t1 - t2 ≤ 0 then t1 else t2) →
      (∀ t now, e.tick_is_expired t now = (t != 0 && decide (t - now ≤ 0))) →
      ¬ ((srv.core.chk sel).type = .TCPCHK_CHK ∧
        next_action srv.core srv.core.proxy.tcpcheck_rules = some .CONNECT) →
      ∃ fuel : Nat, ∀ f, fuel ≤ f →
        ∃ r, process_chk_launch e x sel f errno req conn srv = some r) :=
  ⟨fun fuel r h => launch_paths e x sel fuel errno req conn srv r hnot h,
    fun hinter htcon hms hadd hfirst hexp hscript =>
      launch_returns e x sel errno req conn srv hinter htcon hms hadd hfirst hexp hscript⟩

/-- Claim C33, witness: a plain connection check that is due, with a peer
that refuses the connection: `process_chk` returns and
`CHK_ST_INPROGRESS` is clear. -/
theorem launch_in_progress_witness :
    ∃ (fuel : Nat) (r : Connection × Server),
      process_chk_launch { now_ms := 1000 } refusing_transport .check fuel 0 [] {}
        due_server = some r ∧
      (r.2.core.chk .check).state.INPROGRESS = false := by
  have h := launch_in_progress { now_ms := 1000 } refusing_transport .check 0 [] {}
    due_server rfl
  obtain ⟨fuel, hf⟩ := h.2 (by decide) (by decide) (fun _ => rfl) (fun _ _ => rfl)
    (fun _ _ => rfl) (fun _ _ => rfl) (by decide)
  obtain ⟨r, hr⟩ := hf fuel le_rfl
  refine ⟨fuel, r, hr, ?_⟩
  have hiff := h.1 fuel r hr
  cases hin : (r.2.core.chk .check).state.INPROGRESS
  · rfl
  · exfalso
    have h5 := (hiff.mp hin).2.2.2.2
    revert h5
    decide

end Haproxy
